import Mathlib

/-!
# SimTKOpenMMGromacsUtilities: bond graph and mass-based classification

A shallow embedding of the covalent bond graph extraction
(`getCovalentBondIndices`, `getSettleCovalentBondIndices`) and of the
mass-based element / OBC scale factor classification (`getAtomicNumbers`,
`getObcScaleFactors`) of
`platforms/reference/src/SimTKUtilities/SimTKOpenMMGromacsUtilities.cpp`.

Conventions of the embedding:

* C `int` values are `Int`. The only arithmetic on them is `maxAtoms + 1`,
  `atomI + 1`, `atomI + 2` and `errors++`. `bondStep` and `settleStep`
  evaluate them as exact integer additions; `settleStepInt` keeps the 32 bits
  of `int` in `atomI + 1` and `atomI + 2`, the two steps agreeing for
  `atomI <= 2147483645`.
* The interaction lists `il[...]` are sequences of records, one record per
  iteration of the loop that scans the flat `iatoms` array with its stride.
* `std::set<int>` is `Finset Int`; `std::vector<T>` is `List T`.
* `RealOpenMM` values (masses, scale factors) are numbers in `ℚ`.
  `elementOfMass` and `scaleFactorOfMass` read the decimal literals of the
  source as exact decimals; `elementOfRealOpenMM` and
  `scaleFactorOfRealOpenMM` keep the conversion `(RealOpenMM) x` of every
  literal and mass, as a parameter, the type being declared outside the file.
* Log output (`SimTKOpenMMLog::printMessage`) has no effect on any value and
  is left out.
-/

namespace SimTKOpenMMGromacsUtilities

/-! ## Data model -/

/-- The `IntSet` of the source: a `std::set<int>`. -/
abbrev IntSet := Finset Int

/-- The `IntSetVector` of the source: a `std::vector<IntSet>`. -/
abbrev IntSetVector := List IntSet

/-- One entry of `il[F_BONDS].iatoms` or `il[F_SHAKE].iatoms`: the three
consecutive values `atoms[ii]`, `atoms[ii+1]`, `atoms[ii+2]` read by one
iteration of the stride-3 loop. -/
structure BondRecord where
  type : Int := 0
  atomI : Int
  atomJ : Int
deriving DecidableEq, Repr

/-- One entry of `il[F_SETTLE].iatoms`: the two consecutive values
`atoms[ii]`, `atoms[ii+1]` read by one iteration of the stride-2 loop. -/
structure SettleRecord where
  type : Int := 0
  atomI : Int
deriving DecidableEq, Repr

/-- The part of `top->idef` the bond graph builder reads: the interaction
lists tagged `F_BONDS`, `F_SHAKE` and `F_SETTLE`, each as the sequence of its
records (`nr` is the number of integers in the list, i.e. the number of
records times the stride). -/
structure t_idef where
  F_BONDS : List BondRecord := []
  F_SHAKE : List BondRecord := []
  F_SETTLE : List SettleRecord := []
deriving DecidableEq, Repr

/-- One entry of `top->atoms.atom`: the mass `m` of the atom and the index
`resnr` of its residue. -/
structure t_atom where
  m : ℚ
  resnr : Int := 0
deriving DecidableEq, Repr

/-- The part of `top->atoms` that is read: the array `atom`, whose length is
`nr`, the array `atomname` of atom names, the array `resname` of residue
names, whose length is `nres`, and the array `atomtype` of atom-type names.
The name pointers are non-null C strings. -/
structure t_atoms where
  atom : List t_atom := []
  atomname : List String := []
  resname : List String := []
  atomtype : List String := []
deriving DecidableEq, Repr

/-- Number of atoms, `top->atoms.nr`. -/
def t_atoms.nr (a : t_atoms) : Nat := a.atom.length

/-- Number of residues, `top->atoms.nres`. -/
def t_atoms.nres (a : t_atoms) : Nat := a.resname.length

/-- The `t_topology` of the host simulation, reduced to what is read. -/
structure t_topology where
  idef : t_idef := {}
  atoms : t_atoms := {}
deriving DecidableEq, Repr

/-! ## Vector primitives -/

/-- The `std::vector::resize( n )` of the source: truncates to `n` entries or
pads up to `n` entries with the value-initialised element `c` (the empty set
for a vector of sets, zero for a vector of numbers). The size argument of the
source is an `int` expression; the builders pass it through `Int.toNat`, the
sizes of interest being non-negative. -/
def resize {α : Type} (v : List α) (n : Nat) (c : α) : List α :=
  v.take n ++ List.replicate (n - v.length) c

/-- The statement `covalentBonds[i].insert( x )`, for an index `i` of the
vector. -/
def insertAt (v : IntSetVector) (i : Int) (x : Int) : IntSetVector :=
  v.set i.toNat (insert x (v.getD i.toNat ∅))

/-- The set `covalentBonds[i]`; an index outside the vector has no set, hence
no member. -/
def adj (v : IntSetVector) (i : Int) : IntSet :=
  if 0 ≤ i then v.getD i.toNat ∅ else ∅

/-! ## Bond graph builder -/

/-- Body of the inner loop of `getCovalentBondIndices` for one record, on the
pair (adjacency, error count). -/
def bondStep (maxAtoms : Int) (st : IntSetVector × Int) (r : BondRecord) :
    IntSetVector × Int :=
  let covalentBonds := st.1
  let errors := st.2
  let atomI := r.atomI
  let atomJ := r.atomJ
  let (errors, atomI) :=
    if atomI ≥ maxAtoms ∨ atomI < 0 then (errors + 1, (-1 : Int)) else (errors, atomI)
  let (errors, atomJ) :=
    if atomJ ≥ maxAtoms ∨ atomJ < 0 then (errors + 1, (-1 : Int)) else (errors, atomJ)
  if atomI ≥ 0 ∧ atomJ ≥ 0 then
    (insertAt (insertAt covalentBonds atomI atomJ) atomJ atomI, errors)
  else
    (covalentBonds, errors)

/-- Body of the loop of `getSettleCovalentBondIndices` for one record, the
sum `atomI + 2` taken exactly. The `int` sum of the source is this sum for
`atomI <= 2147483645`; `settleStepInt` keeps the width of `int` and agrees
with this step on those records (`settleStepInt_eq`). -/
def settleStep (maxAtoms : Int) (st : IntSetVector × Int) (r : SettleRecord) :
    IntSetVector × Int :=
  let covalentBonds := st.1
  let errors := st.2
  let atomI := r.atomI
  let (errors, atomI) :=
    if (atomI + 2) ≥ maxAtoms ∨ atomI < 0 then (errors + 1, (-1 : Int)) else (errors, atomI)
  if atomI ≥ 0 then
    let covalentBonds := insertAt covalentBonds atomI (atomI + 1)
    let covalentBonds := insertAt covalentBonds (atomI + 1) atomI
    let covalentBonds := insertAt covalentBonds atomI (atomI + 2)
    let covalentBonds := insertAt covalentBonds (atomI + 2) atomI
    (covalentBonds, errors)
  else
    (covalentBonds, errors)

/-- The function `getSettleCovalentBondIndices( maxAtoms, covalentBonds, top )`:
returns the error count and the adjacency left in `covalentBonds`. -/
def getSettleCovalentBondIndices (maxAtoms : Int) (covalentBonds : IntSetVector)
    (top : t_topology) : Int × IntSetVector :=
  let covalentBonds := resize covalentBonds (maxAtoms + 1).toNat ∅
  let st := top.idef.F_SETTLE.foldl (settleStep maxAtoms) (covalentBonds, 0)
  (st.2, st.1)

/-- The value an `int` holds for the exact result `x` of an addition: the
32-bit two's-complement representative. A sum past `2147483647` is undefined
in the language; the wrapped value is what the compiled addition leaves. -/
def wrapInt (x : Int) : Int :=
  (x + 2147483648) % 4294967296 - 2147483648

/-- The statement `covalentBonds[i].insert( x )` with the subscript checked:
`none` stands for the undefined access outside the vector. -/
def insertInside (v : IntSetVector) (i x : Int) : Option IntSetVector :=
  if 0 ≤ i ∧ i < v.length then some (insertAt v i x) else none

/-- Body of the loop of `getSettleCovalentBondIndices` for one record, with
the sums `atomI + 1` and `atomI + 2` in `int` arithmetic and the four
subscripts checked against the vector. -/
def settleStepInt (maxAtoms : Int) (st : IntSetVector × Int) (r : SettleRecord) :
    Option (IntSetVector × Int) :=
  let covalentBonds := st.1
  let errors := st.2
  let atomI := r.atomI
  let (errors, atomI) :=
    if wrapInt (atomI + 2) ≥ maxAtoms ∨ atomI < 0 then (errors + 1, (-1 : Int))
    else (errors, atomI)
  if atomI ≥ 0 then do
    let covalentBonds ← insertInside covalentBonds atomI (wrapInt (atomI + 1))
    let covalentBonds ← insertInside covalentBonds (wrapInt (atomI + 1)) atomI
    let covalentBonds ← insertInside covalentBonds atomI (wrapInt (atomI + 2))
    let covalentBonds ← insertInside covalentBonds (wrapInt (atomI + 2)) atomI
    some (covalentBonds, errors)
  else
    some (covalentBonds, errors)

/-- The function `getSettleCovalentBondIndices( maxAtoms, covalentBonds, top )`
over `settleStepInt`: the error count and the adjacency, or `none` when a
record makes the loop write outside `covalentBonds`. -/
def getSettleCovalentBondIndicesInt (maxAtoms : Int) (covalentBonds : IntSetVector)
    (top : t_topology) : Option (Int × IntSetVector) := do
  let covalentBonds := resize covalentBonds (maxAtoms + 1).toNat ∅
  let st ← top.idef.F_SETTLE.foldlM (settleStepInt maxAtoms) (covalentBonds, 0)
  some (st.2, st.1)

/-- The function `getCovalentBondIndices( maxAtoms, covalentBonds, top )`:
returns the error count and the adjacency left in `covalentBonds`. The outer
loop runs `jj = 0` (`F_BONDS`) and then `jj = 1` (`F_SHAKE`). The embedding
follows the source for `maxAtoms >= -1`, where `maxAtoms + 1` is a size. -/
def getCovalentBondIndices (maxAtoms : Int) (covalentBonds : IntSetVector)
    (top : t_topology) : Int × IntSetVector :=
  let covalentBonds := resize covalentBonds (maxAtoms + 1).toNat ∅
  let st := [top.idef.F_BONDS, top.idef.F_SHAKE].foldl
    (fun st atoms => atoms.foldl (bondStep maxAtoms) st) (covalentBonds, 0)
  let settle := getSettleCovalentBondIndices maxAtoms st.1 top
  (st.2 + settle.1, settle.2)

/-! ## Mass-based element classifier -/

/-- The `if / else if` chain of `getAtomicNumbers` on one mass: the value
left in `element`. The mass and the decimal literals are taken exactly, as
numbers; `elementOfRealOpenMM` keeps the conversions to `RealOpenMM`, and this
chain is its instance for a conversion that changes no value. -/
def elementOfMass (mass : ℚ) : Int :=
  if mass < 1.2 ∧ mass ≥ 1.0 then 1
  else if mass > 11.8 ∧ mass < 12.2 then 6
  else if mass > 14.0 ∧ mass < 15.0 then 7
  else if mass > 15.5 ∧ mass < 16.5 then 8
  else if mass > 31.5 ∧ mass < 32.5 then 16
  else if mass > 29.5 ∧ mass < 30.5 then 15
  else 0

/-- The `if / else if` chain of `getObcScaleFactors` on one mass: the value
left in `scaleFactor`, initialised to `0.8`. The mass and the decimal
literals are taken exactly, as numbers; `scaleFactorOfRealOpenMM` keeps the
conversions to `RealOpenMM`, and this chain is its instance for a conversion
that changes no value. -/
def scaleFactorOfMass (mass : ℚ) : ℚ :=
  if mass < 1.2 ∧ mass ≥ 1.0 then 0.85
  else if mass > 11.8 ∧ mass < 12.2 then 0.72
  else if mass > 14.0 ∧ mass < 15.0 then 0.79
  else if mass > 15.5 ∧ mass < 16.5 then 0.85
  else if mass > 31.5 ∧ mass < 32.5 then 0.96
  else if mass > 29.5 ∧ mass < 30.5 then 0.86
  else 0.8

/-- The function `getAtomicNumbers( top, atomicNumber )`: returns the status
and the contents left in `atomicNumber`. `DefaultReturn` is the constant
`SimTKOpenMMCommon::DefaultReturn`, whose value is declared outside this
file. -/
def getAtomicNumbers (DefaultReturn : Int) (top : t_topology) (atomicNumber : List Int) :
    Int × List Int :=
  let atomicNumber := resize atomicNumber top.atoms.nr 0
  let atomicNumber := (List.range top.atoms.nr).foldl
    (fun atomicNumber atomI =>
      atomicNumber.set atomI (elementOfMass (top.atoms.atom.getD atomI { m := 0 }).m))
    atomicNumber
  (DefaultReturn, atomicNumber)

/-- The function `getObcScaleFactors( top, scaleFactors )` on a
`RealOpenMMVector`: returns the status and the contents left in
`scaleFactors`. -/
def getObcScaleFactors (DefaultReturn : Int) (top : t_topology) (scaleFactors : List ℚ) :
    Int × List ℚ :=
  let scaleFactors := resize scaleFactors top.atoms.nr 0
  let scaleFactors := (List.range top.atoms.nr).foldl
    (fun scaleFactors atomI =>
      scaleFactors.set atomI (scaleFactorOfMass (top.atoms.atom.getD atomI { m := 0 }).m))
    scaleFactors
  (DefaultReturn, scaleFactors)

/-! ### The classifier with the conversions to `RealOpenMM` -/

/-- The `if / else if` chain of `getAtomicNumbers` with the conversions of the
source kept. The type `RealOpenMM` is declared outside this file (single or
double precision); it enters as the function `RealOpenMM`, the value of
`(RealOpenMM) x` for a literal or a stored number `x`. `mass` is the local
`mass` of the source, a value of that type. -/
def elementOfRealOpenMM (RealOpenMM : ℚ → ℚ) (mass : ℚ) : Int :=
  if mass < RealOpenMM 1.2 ∧ mass ≥ RealOpenMM 1.0 then 1
  else if mass > RealOpenMM 11.8 ∧ mass < RealOpenMM 12.2 then 6
  else if mass > RealOpenMM 14.0 ∧ mass < RealOpenMM 15.0 then 7
  else if mass > RealOpenMM 15.5 ∧ mass < RealOpenMM 16.5 then 8
  else if mass > RealOpenMM 31.5 ∧ mass < RealOpenMM 32.5 then 16
  else if mass > RealOpenMM 29.5 ∧ mass < RealOpenMM 30.5 then 15
  else 0

/-- The `if / else if` chain of `getObcScaleFactors` with the conversions of
the source kept: the value left in `scaleFactor`, initialised to
`(RealOpenMM) 0.8`. -/
def scaleFactorOfRealOpenMM (RealOpenMM : ℚ → ℚ) (mass : ℚ) : ℚ :=
  if mass < RealOpenMM 1.2 ∧ mass ≥ RealOpenMM 1.0 then RealOpenMM 0.85
  else if mass > RealOpenMM 11.8 ∧ mass < RealOpenMM 12.2 then RealOpenMM 0.72
  else if mass > RealOpenMM 14.0 ∧ mass < RealOpenMM 15.0 then RealOpenMM 0.79
  else if mass > RealOpenMM 15.5 ∧ mass < RealOpenMM 16.5 then RealOpenMM 0.85
  else if mass > RealOpenMM 31.5 ∧ mass < RealOpenMM 32.5 then RealOpenMM 0.96
  else if mass > RealOpenMM 29.5 ∧ mass < RealOpenMM 30.5 then RealOpenMM 0.86
  else RealOpenMM 0.8

/-- The function `getAtomicNumbers( top, atomicNumber )` with the conversions
of the source kept: `mass = (RealOpenMM) top->atoms.atom[atomI].m`. -/
def getAtomicNumbersRealOpenMM (RealOpenMM : ℚ → ℚ) (DefaultReturn : Int) (top : t_topology)
    (atomicNumber : List Int) : Int × List Int :=
  let atomicNumber := resize atomicNumber top.atoms.nr 0
  let atomicNumber := (List.range top.atoms.nr).foldl
    (fun atomicNumber atomI =>
      atomicNumber.set atomI
        (elementOfRealOpenMM RealOpenMM (RealOpenMM (top.atoms.atom.getD atomI { m := 0 }).m)))
    atomicNumber
  (DefaultReturn, atomicNumber)

/-- The function `getObcScaleFactors( top, scaleFactors )` on a
`RealOpenMMVector`, with the conversions of the source kept. -/
def getObcScaleFactorsRealOpenMM (RealOpenMM : ℚ → ℚ) (DefaultReturn : Int)
    (top : t_topology) (scaleFactors : List ℚ) : Int × List ℚ :=
  let scaleFactors := resize scaleFactors top.atoms.nr 0
  let scaleFactors := (List.range top.atoms.nr).foldl
    (fun scaleFactors atomI =>
      scaleFactors.set atomI
        (scaleFactorOfRealOpenMM RealOpenMM
          (RealOpenMM (top.atoms.atom.getD atomI { m := 0 }).m)))
    scaleFactors
  (DefaultReturn, scaleFactors)

/-- Rounding to the nearest number with `precision` significant bits, ties
to the even significand: the rounding of IEEE 754 binary formats in the
default mode, for numbers in the normal range of the format (the range of
the exponent is not limited here). -/
def roundToBits (precision : Nat) (x : ℚ) : ℚ :=
  if x = 0 then 0
  else
    let unit : ℚ := 2 ^ (Int.log 2 |x| - ((precision : Int) - 1))
    let scaled : ℚ := x / unit
    let below : Int := ⌊scaled⌋
    let rest : ℚ := scaled - below
    let significand : Int :=
      if rest < 1 / 2 then below
      else if rest > 1 / 2 then below + 1
      else if below % 2 = 0 then below
      else below + 1
    significand * unit

/-- The conversion `(float) x` where `float` is IEEE single precision, 24
significant bits. A literal of the source is a `double` before it is
converted; for the literals of the mass ranges, of the scale factors and of
the Grycuk interface the two roundings give the number next to the decimal. -/
def singlePrecision (x : ℚ) : ℚ := roundToBits 24 x

/-- The conversion `(double) x` where `double` is IEEE double precision, 53
significant bits. -/
def doublePrecision (x : ℚ) : ℚ := roundToBits 53 x

/-! ## Vocabulary of the properties -/

/-- The conversion to `RealOpenMM` keeps the twelve bounds of the chains of
`getAtomicNumbers` and `getObcScaleFactors` in their order. Single and double
precision do. -/
def keepsBoundOrder (RealOpenMM : ℚ → ℚ) : Prop :=
  RealOpenMM 1.0 < RealOpenMM 1.2 ∧ RealOpenMM 1.2 < RealOpenMM 11.8 ∧
  RealOpenMM 11.8 < RealOpenMM 12.2 ∧ RealOpenMM 12.2 < RealOpenMM 14.0 ∧
  RealOpenMM 14.0 < RealOpenMM 15.0 ∧ RealOpenMM 15.0 < RealOpenMM 15.5 ∧
  RealOpenMM 15.5 < RealOpenMM 16.5 ∧ RealOpenMM 16.5 < RealOpenMM 29.5 ∧
  RealOpenMM 29.5 < RealOpenMM 30.5 ∧ RealOpenMM 30.5 < RealOpenMM 31.5 ∧
  RealOpenMM 31.5 < RealOpenMM 32.5

/-- An atom index accepted by the validation: it lies in `[0, maxAtoms)`. -/
def inRange (maxAtoms a : Int) : Prop := 0 ≤ a ∧ a < maxAtoms

instance (maxAtoms a : Int) : Decidable (inRange maxAtoms a) := by
  unfold inRange; infer_instance

/-- Number of atom indices of a bond record that fail the validation. -/
def badIndices (maxAtoms : Int) (r : BondRecord) : Int :=
  (if inRange maxAtoms r.atomI then 0 else 1) + (if inRange maxAtoms r.atomJ then 0 else 1)

/-- An edge `i -- j` contributed by a bond record of `rs` whose two atom
indices both pass the validation. -/
def bondEdge (maxAtoms : Int) (rs : List BondRecord) (i j : Int) : Prop :=
  ∃ r ∈ rs, (inRange maxAtoms r.atomI ∧ inRange maxAtoms r.atomJ) ∧
    ((r.atomI = i ∧ r.atomJ = j) ∨ (r.atomI = j ∧ r.atomJ = i))

/-- A SETTLE record accepted by the validation. -/
def settleOk (maxAtoms : Int) (r : SettleRecord) : Prop :=
  0 ≤ r.atomI ∧ r.atomI + 2 < maxAtoms

instance (maxAtoms : Int) (r : SettleRecord) : Decidable (settleOk maxAtoms r) := by
  unfold settleOk; infer_instance

/-- Number of errors counted for one SETTLE record. -/
def settleErrors (maxAtoms : Int) (r : SettleRecord) : Int :=
  if settleOk maxAtoms r then 0 else 1

/-- An edge `i -- j` contributed by an accepted SETTLE record of `rs` with
central atom `c`: `c -- c+1` or `c -- c+2`. -/
def settleEdge (maxAtoms : Int) (rs : List SettleRecord) (i j : Int) : Prop :=
  ∃ r ∈ rs, settleOk maxAtoms r ∧
    (((i = r.atomI ∧ j = r.atomI + 1) ∨ (i = r.atomI + 1 ∧ j = r.atomI)) ∨
     ((i = r.atomI ∧ j = r.atomI + 2) ∨ (i = r.atomI + 2 ∧ j = r.atomI)))

/-- Number of records that the bond graph builder excludes from the graph:
bond records (`F_BONDS`, `F_SHAKE`) with an atom index outside
`[0, maxAtoms)` and SETTLE records that fail their validation. -/
def rejectedRecords (maxAtoms : Int) (top : t_topology) : Nat :=
  (top.idef.F_BONDS ++ top.idef.F_SHAKE).countP
      (fun r => decide (¬ (inRange maxAtoms r.atomI ∧ inRange maxAtoms r.atomJ))) +
    top.idef.F_SETTLE.countP (fun r => decide (¬ settleOk maxAtoms r))

/-- Number of bond records (`F_BONDS`, `F_SHAKE`) whose two atom indices are
both outside `[0, maxAtoms)`. -/
def doublyRejectedRecords (maxAtoms : Int) (top : t_topology) : Nat :=
  (top.idef.F_BONDS ++ top.idef.F_SHAKE).countP
    (fun r => decide (¬ inRange maxAtoms r.atomI ∧ ¬ inRange maxAtoms r.atomJ))

/-! ## Dictionaries -/

/-- The `StringMap` of the source, a `std::map<std::string, std::string>`,
as the partial function computed by `find`. -/
abbrev StringMap := String → Option String

/-- The `StringIntMap` of the source, a `std::map<std::string, int>`, as the
partial function computed by `find`. -/
abbrev StringIntMap := String → Option Int

/-- A newly constructed, empty map. -/
def mapEmpty {β : Type} : String → Option β := fun _ => none

/-- The assignment `(*map)[key] = value`. -/
def mapAssign {β : Type} (map : String → Option β) (key : String) (value : β) :
    String → Option β :=
  fun k => if k = key then some value else map k

/-- The static table `nameMap` of `getTinkerGromacsResidueNameMap`, without
its terminating row of null pointers: Gromacs residue name, Tinker residue
name, and the optional third column. -/
def nameMap : List (String × String × Option String) := [
  ("ALA", "Alanine", none),
  ("ARG", "Arginine", none),
  ("ASN", "Asparagine", none),
  ("ASP", "Aspartic_Acid", none),
  ("CYS", "Cysteine_(-SH)", none),
  ("CYX", "Cystine_(-SS-)", none),
  ("CYS2", "Cystine_(-SS-)", none),
  ("GLU", "Glutamic_Acid", none),
  ("GLN", "Glutamine", none),
  ("GLY", "Glycine", none),
  ("HIP", "Histidine_(+)", none),
  ("HID", "Histidine_(HD)", none),
  ("HIE", "Histidine_(HE)", none),
  ("ILE", "Isoleucine", none),
  ("LEU", "Leucine", none),
  ("NLE", "Lysine", some "LYS"),
  ("LYS", "Lysine", none),
  ("LYN", "Lysine", some "LYS"),
  ("LYSH", "Lysine", some "LYS"),
  ("LYP", "Lysine", some "LYS"),
  ("MET", "Methionine", none),
  ("AIB", "MethylAlanine_(AIB)", none),
  ("PHE", "Phenylalanine", none),
  ("PRO", "Proline", none),
  ("SER", "Serine", none),
  ("THR", "Threonine", none),
  ("TRP", "Tryptophan", none),
  ("TYR", "Tyrosine", none),
  ("VAL", "Valine", none),
  ("SOL", "AMOEBA_Water", none)]

/-- Body of the `while` loop of `getTinkerGromacsResidueNameMap` for one
table row: the base entry, then the synthesized N-terminal and C-terminal
entries. -/
def residueNameMapStep (residueNameMap : StringMap) (row : String × String × Option String) :
    StringMap :=
  let residueNameMap := mapAssign residueNameMap row.1 row.2.1
  let auxiliaryName1 :=
    match row.2.2 with
    | some third => "N-Terminal_" ++ third
    | none => "N-Terminal_" ++ row.1
  let auxiliaryName0 := "N" ++ row.1
  let residueNameMap := mapAssign residueNameMap auxiliaryName0 auxiliaryName1
  let auxiliaryName1 := "C-Terminal_" ++ row.1
  let auxiliaryName0 := "C" ++ row.1
  mapAssign residueNameMap auxiliaryName0 auxiliaryName1

/-- The function-local and process-wide statics of the name resolver: the two
singleton dictionaries, `none` standing for the initial null pointer. -/
structure Statics where
  residueNameMap : Option StringMap := none
  residueAtomNameBiotypeMap : Option StringIntMap := none

/-- The function `getTinkerGromacsResidueNameMap()`: returns the singleton,
building it from `nameMap` when the static pointer is still null. -/
def getTinkerGromacsResidueNameMap (statics : Statics) : StringMap × Statics :=
  match statics.residueNameMap with
  | some residueNameMap => (residueNameMap, statics)
  | none =>
    let residueNameMap := nameMap.foldl residueNameMapStep mapEmpty
    (residueNameMap, { statics with residueNameMap := some residueNameMap })

/-- The function
`getTinkerBiotypeResidueNameGivenGromacsResidueName( gromacsResidueName )`.
`NotSet` is the constant `SimTKOpenMMCommon::NotSet`, whose value is declared
outside this file. -/
def getTinkerBiotypeResidueNameGivenGromacsResidueName (NotSet : String)
    (gromacsResidueName : String) (statics : Statics) : String × Statics :=
  let (residueNameMap, statics) := getTinkerGromacsResidueNameMap statics
  match residueNameMap gromacsResidueName with
  | some tinkerName => (tinkerName, statics)
  | none => (NotSet, statics)

/-- The dictionary that `getTinkerGromacsResidueNameMap` builds on its first
call. -/
def residueNameMapBuilt : StringMap := (getTinkerGromacsResidueNameMap {}).1

/-! ## The biotype dictionary -/

/-- The static table `amoebaNameMap` of `getTinkerResidueAtomNameBiotypeMap`,
without its terminating row of null pointers: key `residue_atom` and biotype
as a decimal string. -/
def amoebaNameMap : List (String × String) := [
  ("AMOEBA_Water_H", "203"), ("AMOEBA_Water_O", "202"), ("Acetyl_N-Terminus_C", "182"),
  ("Acetyl_N-Terminus_CH3", "180"), ("Acetyl_N-Terminus_H", "181"),
  ("Acetyl_N-Terminus_O", "183"), ("Alanine_C", "9"), ("Alanine_CA", "8"), ("Alanine_CB", "13"),
  ("Alanine_HA", "12"), ("Alanine_HB", "14"), ("Alanine_HN", "10"), ("Alanine_N", "7"),
  ("Alanine_O", "11"), ("Amide_C-Terminus_HN", "185"), ("Amide_C-Terminus_N", "184"),
  ("Arginine_C", "9"), ("Arginine_CA", "8"), ("Arginine_CB", "169"), ("Arginine_CD", "173"),
  ("Arginine_CG", "171"), ("Arginine_CZ", "177"), ("Arginine_HA", "12"), ("Arginine_HB", "170"),
  ("Arginine_HD", "174"), ("Arginine_HE", "176"), ("Arginine_HG", "172"), ("Arginine_HH", "179"),
  ("Arginine_HN", "10"), ("Arginine_N", "7"), ("Arginine_NE", "175"), ("Arginine_NH", "178"),
  ("Arginine_O", "11"), ("Asparagine_C", "9"), ("Asparagine_CA", "8"), ("Asparagine_CB", "138"),
  ("Asparagine_CG", "140"), ("Asparagine_HA", "12"), ("Asparagine_HB", "139"),
  ("Asparagine_HD2", "143"), ("Asparagine_HN", "10"), ("Asparagine_N", "7"),
  ("Asparagine_ND2", "142"), ("Asparagine_O", "11"), ("Asparagine_OD1", "141"),
  ("Aspartic_Acid_C", "9"), ("Aspartic_Acid_CA", "8"), ("Aspartic_Acid_CB", "128"),
  ("Aspartic_Acid_CG", "130"), ("Aspartic_Acid_HA", "12"), ("Aspartic_Acid_HB", "129"),
  ("Aspartic_Acid_HN", "10"), ("Aspartic_Acid_N", "7"), ("Aspartic_Acid_O", "11"),
  ("Aspartic_Acid_OD", "131"), ("C-Terminal_AIB_C", "999"), ("C-Terminal_AIB_CA", "999"),
  ("C-Terminal_AIB_HN", "999"), ("C-Terminal_AIB_N", "999"), ("C-Terminal_AIB_OXT", "999"),
  ("C-Terminal_ALA_C", "192"), ("C-Terminal_ALA_CA", "8"), ("C-Terminal_ALA_HA", "12"),
  ("C-Terminal_ALA_HN", "10"), ("C-Terminal_ALA_N", "7"), ("C-Terminal_ALA_OXT", "193"),
  ("C-Terminal_ARG_C", "192"), ("C-Terminal_ARG_CA", "8"), ("C-Terminal_ARG_HA", "12"),
  ("C-Terminal_ARG_HN", "10"), ("C-Terminal_ARG_N", "7"), ("C-Terminal_ARG_OXT", "193"),
  ("C-Terminal_ASN_C", "192"), ("C-Terminal_ASN_CA", "8"), ("C-Terminal_ASN_HA", "12"),
  ("C-Terminal_ASN_HN", "10"), ("C-Terminal_ASN_N", "7"), ("C-Terminal_ASN_OXT", "193"),
  ("C-Terminal_ASP_C", "192"), ("C-Terminal_ASP_CA", "8"), ("C-Terminal_ASP_HA", "12"),
  ("C-Terminal_ASP_HN", "10"), ("C-Terminal_ASP_N", "7"), ("C-Terminal_ASP_OXT", "193"),
  ("C-Terminal_CYS_(-SH)_C", "192"), ("C-Terminal_CYS_(-SH)_CA", "44"),
  ("C-Terminal_CYS_(-SH)_HA", "12"), ("C-Terminal_CYS_(-SH)_HN", "10"),
  ("C-Terminal_CYS_(-SH)_N", "7"), ("C-Terminal_CYS_(-SH)_OXT", "193"),
  ("C-Terminal_CYS_(-SS)_C", "192"), ("C-Terminal_CYS_(-SS)_CA", "44"),
  ("C-Terminal_CYS_(-SS)_HA", "12"), ("C-Terminal_CYS_(-SS)_HN", "10"),
  ("C-Terminal_CYS_(-SS)_N", "7"), ("C-Terminal_CYS_(-SS)_OXT", "193"),
  ("C-Terminal_GLN_C", "192"), ("C-Terminal_GLN_CA", "8"), ("C-Terminal_GLN_HA", "12"),
  ("C-Terminal_GLN_HN", "10"), ("C-Terminal_GLN_N", "7"), ("C-Terminal_GLN_OXT", "193"),
  ("C-Terminal_GLU_C", "192"), ("C-Terminal_GLU_CA", "8"), ("C-Terminal_GLU_HA", "12"),
  ("C-Terminal_GLU_HN", "10"), ("C-Terminal_GLU_N", "7"), ("C-Terminal_GLU_OXT", "193"),
  ("C-Terminal_GLY_C", "192"), ("C-Terminal_GLY_CA", "2"), ("C-Terminal_GLY_HA", "6"),
  ("C-Terminal_GLY_HN", "4"), ("C-Terminal_GLY_N", "1"), ("C-Terminal_GLY_OXT", "193"),
  ("C-Terminal_HIS_(+)_C", "192"), ("C-Terminal_HIS_(+)_CA", "8"),
  ("C-Terminal_HIS_(+)_HA", "12"), ("C-Terminal_HIS_(+)_HN", "10"), ("C-Terminal_HIS_(+)_N", "7"),
  ("C-Terminal_HIS_(+)_OXT", "193"), ("C-Terminal_HIS_(HD)_C", "192"),
  ("C-Terminal_HIS_(HD)_CA", "8"), ("C-Terminal_HIS_(HD)_HA", "12"),
  ("C-Terminal_HIS_(HD)_HN", "10"), ("C-Terminal_HIS_(HD)_N", "7"),
  ("C-Terminal_HIS_(HD)_OXT", "193"), ("C-Terminal_HIS_(HE)_C", "192"),
  ("C-Terminal_HIS_(HE)_CA", "8"), ("C-Terminal_HIS_(HE)_HA", "12"),
  ("C-Terminal_HIS_(HE)_HN", "10"), ("C-Terminal_HIS_(HE)_N", "7"),
  ("C-Terminal_HIS_(HE)_OXT", "193"), ("C-Terminal_ILE_C", "192"), ("C-Terminal_ILE_CA", "8"),
  ("C-Terminal_ILE_HA", "12"), ("C-Terminal_ILE_HN", "10"), ("C-Terminal_ILE_N", "7"),
  ("C-Terminal_ILE_OXT", "193"), ("C-Terminal_LEU_C", "192"), ("C-Terminal_LEU_CA", "8"),
  ("C-Terminal_LEU_HA", "12"), ("C-Terminal_LEU_HN", "10"), ("C-Terminal_LEU_N", "7"),
  ("C-Terminal_LEU_OXT", "193"), ("C-Terminal_LYS_C", "192"), ("C-Terminal_LYS_CA", "8"),
  ("C-Terminal_LYS_HA", "12"), ("C-Terminal_LYS_HN", "10"), ("C-Terminal_LYS_N", "7"),
  ("C-Terminal_LYS_OXT", "193"), ("C-Terminal_MET_C", "192"), ("C-Terminal_MET_CA", "8"),
  ("C-Terminal_MET_HA", "12"), ("C-Terminal_MET_HN", "10"), ("C-Terminal_MET_N", "7"),
  ("C-Terminal_MET_OXT", "193"), ("C-Terminal_ORN_C", "999"), ("C-Terminal_ORN_CA", "999"),
  ("C-Terminal_ORN_HA", "999"), ("C-Terminal_ORN_HN", "999"), ("C-Terminal_ORN_N", "999"),
  ("C-Terminal_ORN_OXT", "999"), ("C-Terminal_PHE_C", "192"), ("C-Terminal_PHE_CA", "8"),
  ("C-Terminal_PHE_HA", "12"), ("C-Terminal_PHE_HN", "10"), ("C-Terminal_PHE_N", "7"),
  ("C-Terminal_PHE_OXT", "193"), ("C-Terminal_PRO_C", "192"), ("C-Terminal_PRO_CA", "51"),
  ("C-Terminal_PRO_HA", "54"), ("C-Terminal_PRO_N", "50"), ("C-Terminal_PRO_OXT", "193"),
  ("C-Terminal_SER_C", "192"), ("C-Terminal_SER_CA", "33"), ("C-Terminal_SER_HA", "12"),
  ("C-Terminal_SER_HN", "10"), ("C-Terminal_SER_N", "7"), ("C-Terminal_SER_OXT", "193"),
  ("C-Terminal_THR_C", "192"), ("C-Terminal_THR_CA", "33"), ("C-Terminal_THR_HA", "12"),
  ("C-Terminal_THR_HN", "10"), ("C-Terminal_THR_N", "7"), ("C-Terminal_THR_OXT", "193"),
  ("C-Terminal_TRP_C", "192"), ("C-Terminal_TRP_CA", "8"), ("C-Terminal_TRP_HA", "12"),
  ("C-Terminal_TRP_HN", "10"), ("C-Terminal_TRP_N", "7"), ("C-Terminal_TRP_OXT", "193"),
  ("C-Terminal_TYR_C", "192"), ("C-Terminal_TYR_CA", "8"), ("C-Terminal_TYR_HA", "12"),
  ("C-Terminal_TYR_HN", "10"), ("C-Terminal_TYR_N", "7"), ("C-Terminal_TYR_OXT", "193"),
  ("C-Terminal_VAL_C", "192"), ("C-Terminal_VAL_CA", "8"), ("C-Terminal_VAL_HA", "12"),
  ("C-Terminal_VAL_HN", "10"), ("C-Terminal_VAL_N", "7"), ("C-Terminal_VAL_OXT", "193"),
  ("Cysteine_(-SH)_C", "9"), ("Cysteine_(-SH)_CA", "44"), ("Cysteine_(-SH)_CB", "45"),
  ("Cysteine_(-SH)_HA", "12"), ("Cysteine_(-SH)_HB", "46"), ("Cysteine_(-SH)_HG", "48"),
  ("Cysteine_(-SH)_HN", "10"), ("Cysteine_(-SH)_N", "7"), ("Cysteine_(-SH)_O", "11"),
  ("Cysteine_(-SH)_SG", "47"), ("Cystine_(-SS-)_C", "9"), ("Cystine_(-SS-)_CA", "44"),
  ("Cystine_(-SS-)_CB", "45"), ("Cystine_(-SS-)_HA", "12"), ("Cystine_(-SS-)_HB", "46"),
  ("Cystine_(-SS-)_HN", "10"), ("Cystine_(-SS-)_N", "7"), ("Cystine_(-SS-)_O", "11"),
  ("Cystine_(-SS-)_SG", "49"), ("Formyl_N-Terminus_C", "999"), ("Formyl_N-Terminus_H", "999"),
  ("Formyl_N-Terminus_O", "999"), ("Glutamic_Acid_C", "9"), ("Glutamic_Acid_CA", "8"),
  ("Glutamic_Acid_CB", "144"), ("Glutamic_Acid_CD", "148"), ("Glutamic_Acid_CG", "146"),
  ("Glutamic_Acid_HA", "12"), ("Glutamic_Acid_HB", "145"), ("Glutamic_Acid_HG", "147"),
  ("Glutamic_Acid_HN", "10"), ("Glutamic_Acid_N", "7"), ("Glutamic_Acid_O", "11"),
  ("Glutamic_Acid_OE", "149"), ("Glutamine_C", "9"), ("Glutamine_CA", "8"),
  ("Glutamine_CB", "150"), ("Glutamine_CD", "140"), ("Glutamine_CG", "138"),
  ("Glutamine_HA", "12"), ("Glutamine_HB", "151"), ("Glutamine_HE2", "143"),
  ("Glutamine_HG", "139"), ("Glutamine_HN", "10"), ("Glutamine_N", "7"), ("Glutamine_NE2", "142"),
  ("Glutamine_O", "11"), ("Glutamine_OE1", "141"), ("Glycine_C", "3"), ("Glycine_CA", "2"),
  ("Glycine_HA", "6"), ("Glycine_HN", "4"), ("Glycine_N", "1"), ("Glycine_O", "5"),
  ("Histidine_(+)_C", "9"), ("Histidine_(+)_CA", "8"), ("Histidine_(+)_CB", "97"),
  ("Histidine_(+)_CD2", "102"), ("Histidine_(+)_CE1", "104"), ("Histidine_(+)_CG", "99"),
  ("Histidine_(+)_HA", "12"), ("Histidine_(+)_HB", "98"), ("Histidine_(+)_HD1", "101"),
  ("Histidine_(+)_HD2", "103"), ("Histidine_(+)_HE1", "105"), ("Histidine_(+)_HE2", "107"),
  ("Histidine_(+)_HN", "10"), ("Histidine_(+)_N", "7"), ("Histidine_(+)_ND1", "100"),
  ("Histidine_(+)_NE2", "106"), ("Histidine_(+)_O", "11"), ("Histidine_(HD)_C", "9"),
  ("Histidine_(HD)_CA", "8"), ("Histidine_(HD)_CB", "108"), ("Histidine_(HD)_CD2", "113"),
  ("Histidine_(HD)_CE1", "115"), ("Histidine_(HD)_CG", "110"), ("Histidine_(HD)_HA", "12"),
  ("Histidine_(HD)_HB", "109"), ("Histidine_(HD)_HD1", "112"), ("Histidine_(HD)_HD2", "114"),
  ("Histidine_(HD)_HE1", "116"), ("Histidine_(HD)_HN", "10"), ("Histidine_(HD)_N", "7"),
  ("Histidine_(HD)_ND1", "111"), ("Histidine_(HD)_NE2", "117"), ("Histidine_(HD)_O", "11"),
  ("Histidine_(HE)_C", "9"), ("Histidine_(HE)_CA", "8"), ("Histidine_(HE)_CB", "118"),
  ("Histidine_(HE)_CD2", "122"), ("Histidine_(HE)_CE1", "124"), ("Histidine_(HE)_CG", "120"),
  ("Histidine_(HE)_HA", "12"), ("Histidine_(HE)_HB", "119"), ("Histidine_(HE)_HD2", "123"),
  ("Histidine_(HE)_HE1", "125"), ("Histidine_(HE)_HE2", "127"), ("Histidine_(HE)_HN", "10"),
  ("Histidine_(HE)_N", "7"), ("Histidine_(HE)_ND1", "121"), ("Histidine_(HE)_NE2", "126"),
  ("Histidine_(HE)_O", "11"), ("Isoleucine_C", "9"), ("Isoleucine_CA", "8"),
  ("Isoleucine_CB", "25"), ("Isoleucine_CD", "31"), ("Isoleucine_CG1", "29"),
  ("Isoleucine_CG2", "27"), ("Isoleucine_HA", "12"), ("Isoleucine_HB", "26"),
  ("Isoleucine_HD", "32"), ("Isoleucine_HG1", "30"), ("Isoleucine_HG2", "28"),
  ("Isoleucine_HN", "10"), ("Isoleucine_N", "7"), ("Isoleucine_O", "11"), ("Leucine_C", "9"),
  ("Leucine_CA", "8"), ("Leucine_CB", "19"), ("Leucine_CD1", "23"), ("Leucine_CD2", "23"),
  ("Leucine_CG", "21"), ("Leucine_HA", "12"), ("Leucine_HB", "20"), ("Leucine_HD1", "24"),
  ("Leucine_HD2", "24"), ("Leucine_HG", "22"), ("Leucine_HN", "10"), ("Leucine_N", "7"),
  ("Leucine_O", "11"), ("Lysine_C", "9"), ("Lysine_CA", "8"), ("Lysine_CB", "159"),
  ("Lysine_CD", "163"), ("Lysine_CE", "165"), ("Lysine_CG", "161"), ("Lysine_HA", "12"),
  ("Lysine_HB", "160"), ("Lysine_HD", "164"), ("Lysine_HE", "166"), ("Lysine_HG", "162"),
  ("Lysine_HN", "10"), ("Lysine_HZ", "168"), ("Lysine_N", "7"), ("Lysine_NZ", "167"),
  ("Lysine_O", "11"), ("Methionine_C", "9"), ("Methionine_CA", "8"), ("Methionine_CB", "152"),
  ("Methionine_CE", "157"), ("Methionine_CG", "154"), ("Methionine_HA", "12"),
  ("Methionine_HB", "153"), ("Methionine_HE", "158"), ("Methionine_HG", "155"),
  ("Methionine_HN", "10"), ("Methionine_N", "7"), ("Methionine_O", "11"),
  ("Methionine_SD", "156"), ("MethylAlanine_(AIB)_C", "999"), ("MethylAlanine_(AIB)_CA", "999"),
  ("MethylAlanine_(AIB)_CB", "999"), ("MethylAlanine_(AIB)_HB", "999"),
  ("MethylAlanine_(AIB)_HN", "999"), ("MethylAlanine_(AIB)_N", "999"),
  ("MethylAlanine_(AIB)_O", "999"), ("N-MeAmide_C-Terminus_CH3", "188"),
  ("N-MeAmide_C-Terminus_H", "189"), ("N-MeAmide_C-Terminus_HN", "187"),
  ("N-MeAmide_C-Terminus_N", "186"), ("N-Terminal_AIB_C", "999"), ("N-Terminal_AIB_CA", "999"),
  ("N-Terminal_AIB_HN", "999"), ("N-Terminal_AIB_N", "999"), ("N-Terminal_AIB_O", "999"),
  ("N-Terminal_ALA_C", "9"), ("N-Terminal_ALA_CA", "8"), ("N-Terminal_ALA_HA", "12"),
  ("N-Terminal_ALA_HN", "191"), ("N-Terminal_ALA_N", "190"), ("N-Terminal_ALA_O", "11"),
  ("N-Terminal_ARG_C", "9"), ("N-Terminal_ARG_CA", "8"), ("N-Terminal_ARG_HA", "12"),
  ("N-Terminal_ARG_HN", "191"), ("N-Terminal_ARG_N", "190"), ("N-Terminal_ARG_O", "11"),
  ("N-Terminal_ASN_C", "9"), ("N-Terminal_ASN_CA", "8"), ("N-Terminal_ASN_HA", "12"),
  ("N-Terminal_ASN_HN", "191"), ("N-Terminal_ASN_N", "190"), ("N-Terminal_ASN_O", "11"),
  ("N-Terminal_ASP_C", "9"), ("N-Terminal_ASP_CA", "8"), ("N-Terminal_ASP_HA", "12"),
  ("N-Terminal_ASP_HN", "191"), ("N-Terminal_ASP_N", "190"), ("N-Terminal_ASP_O", "11"),
  ("N-Terminal_CYS_(-SH)_C", "9"), ("N-Terminal_CYS_(-SH)_CA", "44"),
  ("N-Terminal_CYS_(-SH)_HA", "12"), ("N-Terminal_CYS_(-SH)_HN", "191"),
  ("N-Terminal_CYS_(-SH)_N", "190"), ("N-Terminal_CYS_(-SH)_O", "11"),
  ("N-Terminal_CYS_(-SS)_C", "9"), ("N-Terminal_CYS_(-SS)_CA", "44"),
  ("N-Terminal_CYS_(-SS)_HA", "12"), ("N-Terminal_CYS_(-SS)_HN", "191"),
  ("N-Terminal_CYS_(-SS)_N", "190"), ("N-Terminal_CYS_(-SS)_O", "11"), ("N-Terminal_GLN_C", "9"),
  ("N-Terminal_GLN_CA", "8"), ("N-Terminal_GLN_HA", "12"), ("N-Terminal_GLN_HN", "191"),
  ("N-Terminal_GLN_N", "190"), ("N-Terminal_GLN_O", "11"), ("N-Terminal_GLU_C", "9"),
  ("N-Terminal_GLU_CA", "8"), ("N-Terminal_GLU_HA", "12"), ("N-Terminal_GLU_HN", "191"),
  ("N-Terminal_GLU_N", "190"), ("N-Terminal_GLU_O", "11"), ("N-Terminal_GLY_C", "3"),
  ("N-Terminal_GLY_CA", "2"), ("N-Terminal_GLY_HA", "6"), ("N-Terminal_GLY_HN", "191"),
  ("N-Terminal_GLY_N", "190"), ("N-Terminal_GLY_O", "5"), ("N-Terminal_HIS_(+)_C", "9"),
  ("N-Terminal_HIS_(+)_CA", "8"), ("N-Terminal_HIS_(+)_HA", "12"),
  ("N-Terminal_HIS_(+)_HN", "191"), ("N-Terminal_HIS_(+)_N", "190"),
  ("N-Terminal_HIS_(+)_O", "11"), ("N-Terminal_HIS_(HD)_C", "9"), ("N-Terminal_HIS_(HD)_CA", "8"),
  ("N-Terminal_HIS_(HD)_HA", "12"), ("N-Terminal_HIS_(HD)_HN", "191"),
  ("N-Terminal_HIS_(HD)_N", "190"), ("N-Terminal_HIS_(HD)_O", "11"),
  ("N-Terminal_HIS_(HE)_C", "9"), ("N-Terminal_HIS_(HE)_CA", "8"),
  ("N-Terminal_HIS_(HE)_HA", "12"), ("N-Terminal_HIS_(HE)_HN", "191"),
  ("N-Terminal_HIS_(HE)_N", "190"), ("N-Terminal_HIS_(HE)_O", "11"), ("N-Terminal_ILE_C", "9"),
  ("N-Terminal_ILE_CA", "8"), ("N-Terminal_ILE_HA", "12"), ("N-Terminal_ILE_HN", "191"),
  ("N-Terminal_ILE_N", "190"), ("N-Terminal_ILE_O", "11"), ("N-Terminal_LEU_C", "9"),
  ("N-Terminal_LEU_CA", "8"), ("N-Terminal_LEU_HA", "12"), ("N-Terminal_LEU_HN", "191"),
  ("N-Terminal_LEU_N", "190"), ("N-Terminal_LEU_O", "11"), ("N-Terminal_LYS_C", "9"),
  ("N-Terminal_LYS_CA", "8"), ("N-Terminal_LYS_HA", "12"), ("N-Terminal_LYS_HN", "191"),
  ("N-Terminal_LYS_N", "190"), ("N-Terminal_LYS_O", "11"), ("N-Terminal_MET_C", "9"),
  ("N-Terminal_MET_CA", "8"), ("N-Terminal_MET_HA", "12"), ("N-Terminal_MET_HN", "191"),
  ("N-Terminal_MET_N", "190"), ("N-Terminal_MET_O", "11"), ("N-Terminal_ORN_C", "999"),
  ("N-Terminal_ORN_CA", "999"), ("N-Terminal_ORN_HA", "999"), ("N-Terminal_ORN_HN", "999"),
  ("N-Terminal_ORN_N", "999"), ("N-Terminal_ORN_O", "999"), ("N-Terminal_PHE_C", "9"),
  ("N-Terminal_PHE_CA", "8"), ("N-Terminal_PHE_HA", "12"), ("N-Terminal_PHE_HN", "191"),
  ("N-Terminal_PHE_N", "190"), ("N-Terminal_PHE_O", "11"), ("N-Terminal_PRO_C", "197"),
  ("N-Terminal_PRO_CA", "196"), ("N-Terminal_PRO_CD", "200"), ("N-Terminal_PRO_HA", "199"),
  ("N-Terminal_PRO_HD", "201"), ("N-Terminal_PRO_HN", "195"), ("N-Terminal_PRO_N", "194"),
  ("N-Terminal_PRO_O", "198"), ("N-Terminal_SER_C", "9"), ("N-Terminal_SER_CA", "33"),
  ("N-Terminal_SER_HA", "12"), ("N-Terminal_SER_HN", "191"), ("N-Terminal_SER_N", "190"),
  ("N-Terminal_SER_O", "11"), ("N-Terminal_THR_C", "9"), ("N-Terminal_THR_CA", "33"),
  ("N-Terminal_THR_HA", "12"), ("N-Terminal_THR_HN", "191"), ("N-Terminal_THR_N", "190"),
  ("N-Terminal_THR_O", "11"), ("N-Terminal_TRP_C", "9"), ("N-Terminal_TRP_CA", "8"),
  ("N-Terminal_TRP_HA", "12"), ("N-Terminal_TRP_HN", "191"), ("N-Terminal_TRP_N", "190"),
  ("N-Terminal_TRP_O", "11"), ("N-Terminal_TYR_C", "9"), ("N-Terminal_TYR_CA", "8"),
  ("N-Terminal_TYR_HA", "12"), ("N-Terminal_TYR_HN", "191"), ("N-Terminal_TYR_N", "190"),
  ("N-Terminal_TYR_O", "11"), ("N-Terminal_VAL_C", "9"), ("N-Terminal_VAL_CA", "8"),
  ("N-Terminal_VAL_HA", "12"), ("N-Terminal_VAL_HN", "191"), ("N-Terminal_VAL_N", "190"),
  ("N-Terminal_VAL_O", "11"), ("Ornithine_C", "999"), ("Ornithine_CA", "999"),
  ("Ornithine_CB", "999"), ("Ornithine_CD", "999"), ("Ornithine_CG", "999"),
  ("Ornithine_HA", "999"), ("Ornithine_HB", "999"), ("Ornithine_HD", "999"),
  ("Ornithine_HE", "999"), ("Ornithine_HG", "999"), ("Ornithine_HN", "999"),
  ("Ornithine_N", "999"), ("Ornithine_NE", "999"), ("Ornithine_O", "999"),
  ("Phenylalanine_C", "9"), ("Phenylalanine_CA", "8"), ("Phenylalanine_CB", "61"),
  ("Phenylalanine_CD", "64"), ("Phenylalanine_CE", "66"), ("Phenylalanine_CG", "63"),
  ("Phenylalanine_CZ", "68"), ("Phenylalanine_HA", "12"), ("Phenylalanine_HB", "62"),
  ("Phenylalanine_HD", "65"), ("Phenylalanine_HE", "67"), ("Phenylalanine_HN", "10"),
  ("Phenylalanine_HZ", "69"), ("Phenylalanine_N", "7"), ("Phenylalanine_O", "11"),
  ("Proline_C", "52"), ("Proline_CA", "51"), ("Proline_CB", "55"), ("Proline_CD", "59"),
  ("Proline_CG", "57"), ("Proline_HA", "54"), ("Proline_HB", "56"), ("Proline_HD", "60"),
  ("Proline_HG", "58"), ("Proline_N", "50"), ("Proline_O", "53"), ("Pyroglutamic_Acid_C", "999"),
  ("Pyroglutamic_Acid_CA", "999"), ("Pyroglutamic_Acid_CB", "999"),
  ("Pyroglutamic_Acid_CD", "999"), ("Pyroglutamic_Acid_CG", "999"),
  ("Pyroglutamic_Acid_HA", "999"), ("Pyroglutamic_Acid_HB", "999"),
  ("Pyroglutamic_Acid_HG", "999"), ("Pyroglutamic_Acid_HN", "999"),
  ("Pyroglutamic_Acid_N", "999"), ("Pyroglutamic_Acid_O", "999"), ("Pyroglutamic_Acid_OE", "999"),
  ("Serine_C", "9"), ("Serine_CA", "33"), ("Serine_CB", "34"), ("Serine_HA", "12"),
  ("Serine_HB", "35"), ("Serine_HG", "37"), ("Serine_HN", "10"), ("Serine_N", "7"),
  ("Serine_O", "11"), ("Serine_OG", "36"), ("Threonine_C", "9"), ("Threonine_CA", "33"),
  ("Threonine_CB", "38"), ("Threonine_CG2", "40"), ("Threonine_HA", "12"), ("Threonine_HB", "39"),
  ("Threonine_HG1", "43"), ("Threonine_HG2", "41"), ("Threonine_HN", "10"), ("Threonine_N", "7"),
  ("Threonine_O", "11"), ("Threonine_OG1", "42"), ("Tryptophan_C", "9"), ("Tryptophan_CA", "8"),
  ("Tryptophan_CB", "80"), ("Tryptophan_CD1", "83"), ("Tryptophan_CD2", "85"),
  ("Tryptophan_CE2", "88"), ("Tryptophan_CE3", "89"), ("Tryptophan_CG", "82"),
  ("Tryptophan_CH2", "95"), ("Tryptophan_CZ2", "91"), ("Tryptophan_CZ3", "93"),
  ("Tryptophan_HA", "12"), ("Tryptophan_HB", "81"), ("Tryptophan_HD1", "84"),
  ("Tryptophan_HE1", "87"), ("Tryptophan_HE3", "90"), ("Tryptophan_HH2", "96"),
  ("Tryptophan_HN", "10"), ("Tryptophan_HZ2", "92"), ("Tryptophan_HZ3", "94"),
  ("Tryptophan_N", "7"), ("Tryptophan_NE1", "86"), ("Tryptophan_O", "11"), ("Tyrosine_C", "9"),
  ("Tyrosine_CA", "8"), ("Tyrosine_CB", "70"), ("Tyrosine_CD", "73"), ("Tyrosine_CE", "75"),
  ("Tyrosine_CG", "72"), ("Tyrosine_CZ", "77"), ("Tyrosine_HA", "12"), ("Tyrosine_HB", "71"),
  ("Tyrosine_HD", "74"), ("Tyrosine_HE", "76"), ("Tyrosine_HH", "79"), ("Tyrosine_HN", "10"),
  ("Tyrosine_N", "7"), ("Tyrosine_O", "11"), ("Tyrosine_OH", "78"), ("Valine_C", "9"),
  ("Valine_CA", "8"), ("Valine_CB", "15"), ("Valine_CG1", "17"), ("Valine_CG2", "17"),
  ("Valine_HA", "12"), ("Valine_HB", "16"), ("Valine_HG1", "18"), ("Valine_HG2", "18"),
  ("Valine_HN", "10"), ("Valine_N", "7"), ("Valine_O", "11")]

/-- The static table `amberNameMap` of `getTinkerResidueAtomNameBiotypeMap`,
without its terminating row of null pointers: key `residue_atom` and biotype
as a decimal string. -/
def amberNameMap : List (String × String) := [
  ("Glycine_N", "1"), ("Glycine_CA", "2"), ("Glycine_C", "3"), ("Glycine_HN", "4"),
  ("Glycine_O", "5"), ("Glycine_HA", "6"), ("Alanine_N", "7"), ("Alanine_CA", "8"),
  ("Alanine_C", "9"), ("Alanine_HN", "10"), ("Alanine_O", "11"), ("Alanine_HA", "12"),
  ("Alanine_CB", "13"), ("Alanine_HB", "14"), ("Valine_N", "15"), ("Valine_CA", "16"),
  ("Valine_C", "17"), ("Valine_HN", "18"), ("Valine_O", "19"), ("Valine_HA", "20"),
  ("Valine_CB", "21"), ("Valine_HB", "22"), ("Valine_CG1", "23"), ("Valine_HG1", "24"),
  ("Valine_CG2", "25"), ("Valine_HG2", "26"), ("Leucine_N", "27"), ("Leucine_CA", "28"),
  ("Leucine_C", "29"), ("Leucine_HN", "30"), ("Leucine_O", "31"), ("Leucine_HA", "32"),
  ("Leucine_CB", "33"), ("Leucine_HB", "34"), ("Leucine_CG", "35"), ("Leucine_HG", "36"),
  ("Leucine_CD1", "37"), ("Leucine_HD1", "38"), ("Leucine_CD2", "39"), ("Leucine_HD2", "40"),
  ("Isoleucine_N", "41"), ("Isoleucine_CA", "42"), ("Isoleucine_C", "43"),
  ("Isoleucine_HN", "44"), ("Isoleucine_O", "45"), ("Isoleucine_HA", "46"),
  ("Isoleucine_CB", "47"), ("Isoleucine_HB", "48"), ("Isoleucine_CG1", "49"),
  ("Isoleucine_HG1", "50"), ("Isoleucine_CG2", "51"), ("Isoleucine_HG2", "52"),
  ("Isoleucine_CD", "53"), ("Isoleucine_HD", "54"), ("Serine_N", "55"), ("Serine_CA", "56"),
  ("Serine_C", "57"), ("Serine_HN", "58"), ("Serine_O", "59"), ("Serine_HA", "60"),
  ("Serine_CB", "61"), ("Serine_HB", "62"), ("Serine_OG", "63"), ("Serine_HG", "64"),
  ("Threonine_N", "65"), ("Threonine_CA", "66"), ("Threonine_C", "67"), ("Threonine_HN", "68"),
  ("Threonine_O", "69"), ("Threonine_HA", "70"), ("Threonine_CB", "71"), ("Threonine_HB", "72"),
  ("Threonine_OG1", "73"), ("Threonine_HG1", "74"), ("Threonine_CG2", "75"),
  ("Threonine_HG2", "76"), ("Cysteine_(-SH)_N", "77"), ("Cysteine_(-SH)_CA", "78"),
  ("Cysteine_(-SH)_C", "79"), ("Cysteine_(-SH)_HN", "80"), ("Cysteine_(-SH)_O", "81"),
  ("Cysteine_(-SH)_HA", "82"), ("Cysteine_(-SH)_CB", "83"), ("Cysteine_(-SH)_HB", "84"),
  ("Cysteine_(-SH)_SG", "85"), ("Cysteine_(-SH)_HG", "86"), ("Cystine_(-SS-)_N", "87"),
  ("Cystine_(-SS-)_CA", "88"), ("Cystine_(-SS-)_C", "89"), ("Cystine_(-SS-)_HN", "90"),
  ("Cystine_(-SS-)_O", "91"), ("Cystine_(-SS-)_HA", "92"), ("Cystine_(-SS-)_CB", "93"),
  ("Cystine_(-SS-)_HB", "94"), ("Cystine_(-SS-)_SG", "95"), ("Proline_N", "96"),
  ("Proline_CA", "97"), ("Proline_C", "98"), ("Proline_O", "99"), ("Proline_HA", "100"),
  ("Proline_CB", "101"), ("Proline_HB", "102"), ("Proline_CG", "103"), ("Proline_HG", "104"),
  ("Proline_CD", "105"), ("Proline_HD", "106"), ("Phenylalanine_N", "107"),
  ("Phenylalanine_CA", "108"), ("Phenylalanine_C", "109"), ("Phenylalanine_HN", "110"),
  ("Phenylalanine_O", "111"), ("Phenylalanine_HA", "112"), ("Phenylalanine_CB", "113"),
  ("Phenylalanine_HB", "114"), ("Phenylalanine_CG", "115"), ("Phenylalanine_CD", "116"),
  ("Phenylalanine_HD", "117"), ("Phenylalanine_CE", "118"), ("Phenylalanine_HE", "119"),
  ("Phenylalanine_CZ", "120"), ("Phenylalanine_HZ", "121"), ("Tyrosine_N", "122"),
  ("Tyrosine_CA", "123"), ("Tyrosine_C", "124"), ("Tyrosine_HN", "125"), ("Tyrosine_O", "126"),
  ("Tyrosine_HA", "127"), ("Tyrosine_CB", "128"), ("Tyrosine_HB", "129"), ("Tyrosine_CG", "130"),
  ("Tyrosine_CD", "131"), ("Tyrosine_HD", "132"), ("Tyrosine_CE", "133"), ("Tyrosine_HE", "134"),
  ("Tyrosine_CZ", "135"), ("Tyrosine_OH", "136"), ("Tyrosine_HH", "137"), ("Tryptophan_N", "138"),
  ("Tryptophan_CA", "139"), ("Tryptophan_C", "140"), ("Tryptophan_HN", "141"),
  ("Tryptophan_O", "142"), ("Tryptophan_HA", "143"), ("Tryptophan_CB", "144"),
  ("Tryptophan_HB", "145"), ("Tryptophan_CG", "146"), ("Tryptophan_CD1", "147"),
  ("Tryptophan_HD1", "148"), ("Tryptophan_CD2", "149"), ("Tryptophan_NE1", "150"),
  ("Tryptophan_HE1", "151"), ("Tryptophan_CE2", "152"), ("Tryptophan_CE3", "153"),
  ("Tryptophan_HE3", "154"), ("Tryptophan_CZ2", "155"), ("Tryptophan_HZ2", "156"),
  ("Tryptophan_CZ3", "157"), ("Tryptophan_HZ3", "158"), ("Tryptophan_CH2", "159"),
  ("Tryptophan_HH2", "160"), ("Histidine_(+)_N", "161"), ("Histidine_(+)_CA", "162"),
  ("Histidine_(+)_C", "163"), ("Histidine_(+)_HN", "164"), ("Histidine_(+)_O", "165"),
  ("Histidine_(+)_HA", "166"), ("Histidine_(+)_CB", "167"), ("Histidine_(+)_HB", "168"),
  ("Histidine_(+)_CG", "169"), ("Histidine_(+)_ND1", "170"), ("Histidine_(+)_HD1", "171"),
  ("Histidine_(+)_CD2", "172"), ("Histidine_(+)_HD2", "173"), ("Histidine_(+)_CE1", "174"),
  ("Histidine_(+)_HE1", "175"), ("Histidine_(+)_NE2", "176"), ("Histidine_(+)_HE2", "177"),
  ("Histidine_(HD)_N", "178"), ("Histidine_(HD)_CA", "179"), ("Histidine_(HD)_C", "180"),
  ("Histidine_(HD)_HN", "181"), ("Histidine_(HD)_O", "182"), ("Histidine_(HD)_HA", "183"),
  ("Histidine_(HD)_CB", "184"), ("Histidine_(HD)_HB", "185"), ("Histidine_(HD)_CG", "186"),
  ("Histidine_(HD)_ND1", "187"), ("Histidine_(HD)_HD1", "188"), ("Histidine_(HD)_CD2", "189"),
  ("Histidine_(HD)_HD2", "190"), ("Histidine_(HD)_CE1", "191"), ("Histidine_(HD)_HE1", "192"),
  ("Histidine_(HD)_NE2", "193"), ("Histidine_(HE)_N", "194"), ("Histidine_(HE)_CA", "195"),
  ("Histidine_(HE)_C", "196"), ("Histidine_(HE)_HN", "197"), ("Histidine_(HE)_O", "198"),
  ("Histidine_(HE)_HA", "199"), ("Histidine_(HE)_CB", "200"), ("Histidine_(HE)_HB", "201"),
  ("Histidine_(HE)_CG", "202"), ("Histidine_(HE)_ND1", "203"), ("Histidine_(HE)_CD2", "204"),
  ("Histidine_(HE)_HD2", "205"), ("Histidine_(HE)_CE1", "206"), ("Histidine_(HE)_HE1", "207"),
  ("Histidine_(HE)_NE2", "208"), ("Histidine_(HE)_HE2", "209"), ("Aspartic_Acid_N", "210"),
  ("Aspartic_Acid_CA", "211"), ("Aspartic_Acid_C", "212"), ("Aspartic_Acid_HN", "213"),
  ("Aspartic_Acid_O", "214"), ("Aspartic_Acid_HA", "215"), ("Aspartic_Acid_CB", "216"),
  ("Aspartic_Acid_HB", "217"), ("Aspartic_Acid_CG", "218"), ("Aspartic_Acid_OD", "219"),
  ("Asparagine_N", "220"), ("Asparagine_CA", "221"), ("Asparagine_C", "222"),
  ("Asparagine_HN", "223"), ("Asparagine_O", "224"), ("Asparagine_HA", "225"),
  ("Asparagine_CB", "226"), ("Asparagine_HB", "227"), ("Asparagine_CG", "228"),
  ("Asparagine_OD1", "229"), ("Asparagine_ND2", "230"), ("Asparagine_HD2", "231"),
  ("Glutamic_Acid_N", "232"), ("Glutamic_Acid_CA", "233"), ("Glutamic_Acid_C", "234"),
  ("Glutamic_Acid_HN", "235"), ("Glutamic_Acid_O", "236"), ("Glutamic_Acid_HA", "237"),
  ("Glutamic_Acid_CB", "238"), ("Glutamic_Acid_HB", "239"), ("Glutamic_Acid_CG", "240"),
  ("Glutamic_Acid_HG", "241"), ("Glutamic_Acid_CD", "242"), ("Glutamic_Acid_OE", "243"),
  ("Glutamine_N", "244"), ("Glutamine_CA", "245"), ("Glutamine_C", "246"),
  ("Glutamine_HN", "247"), ("Glutamine_O", "248"), ("Glutamine_HA", "249"),
  ("Glutamine_CB", "250"), ("Glutamine_HB", "251"), ("Glutamine_CG", "252"),
  ("Glutamine_HG", "253"), ("Glutamine_CD", "254"), ("Glutamine_OE1", "255"),
  ("Glutamine_NE2", "256"), ("Glutamine_HE2", "257"), ("Methionine_N", "258"),
  ("Methionine_CA", "259"), ("Methionine_C", "260"), ("Methionine_HN", "261"),
  ("Methionine_O", "262"), ("Methionine_HA", "263"), ("Methionine_CB", "264"),
  ("Methionine_HB", "265"), ("Methionine_CG", "266"), ("Methionine_HG", "267"),
  ("Methionine_SD", "268"), ("Methionine_CE", "269"), ("Methionine_HE", "270"),
  ("Lysine_N", "271"), ("Lysine_CA", "272"), ("Lysine_C", "273"), ("Lysine_HN", "274"),
  ("Lysine_O", "275"), ("Lysine_HA", "276"), ("Lysine_CB", "277"), ("Lysine_HB", "278"),
  ("Lysine_CG", "279"), ("Lysine_HG", "280"), ("Lysine_CD", "281"), ("Lysine_HD", "282"),
  ("Lysine_CE", "283"), ("Lysine_HE", "284"), ("Lysine_NZ", "285"), ("Lysine_HZ", "286"),
  ("Arginine_N", "287"), ("Arginine_CA", "288"), ("Arginine_C", "289"), ("Arginine_HN", "290"),
  ("Arginine_O", "291"), ("Arginine_HA", "292"), ("Arginine_CB", "293"), ("Arginine_HB", "294"),
  ("Arginine_CG", "295"), ("Arginine_HG", "296"), ("Arginine_CD", "297"), ("Arginine_HD", "298"),
  ("Arginine_NE", "299"), ("Arginine_HE", "300"), ("Arginine_CZ", "301"), ("Arginine_NH", "302"),
  ("Arginine_HH", "303"), ("Ornithine_N", "304"), ("Ornithine_CA", "305"), ("Ornithine_C", "306"),
  ("Ornithine_HN", "307"), ("Ornithine_O", "308"), ("Ornithine_HA", "309"),
  ("Ornithine_CB", "310"), ("Ornithine_HB", "311"), ("Ornithine_CG", "312"),
  ("Ornithine_HG", "313"), ("Ornithine_CD", "314"), ("Ornithine_HD", "315"),
  ("Ornithine_NE", "316"), ("Ornithine_HE", "317"), ("MethylAlanine_N", "318"),
  ("MethylAlanine_CA", "319"), ("MethylAlanine_C", "320"), ("MethylAlanine_HN", "321"),
  ("MethylAlanine_O", "322"), ("MethylAlanine_CB", "323"), ("MethylAlanine_HB", "324"),
  ("Pyroglutamate_N", "325"), ("Pyroglutamate_CA", "326"), ("Pyroglutamate_C", "327"),
  ("Pyroglutamate_HN", "328"), ("Pyroglutamate_O", "329"), ("Pyroglutamate_HA", "330"),
  ("Pyroglutamate_CB", "331"), ("Pyroglutamate_HB", "332"), ("Pyroglutamate_CG", "333"),
  ("Pyroglutamate_HG", "334"), ("Pyroglutamate_CD", "335"), ("Pyroglutamate_OE", "336"),
  ("Formyl_C", "337"), ("Formyl_H", "338"), ("Formyl_O", "339"), ("Acetyl_CA", "340"),
  ("Acetyl_HA", "341"), ("Acetyl_C", "342"), ("Acetyl_O", "343"), ("C-Terminal_Amide_N", "344"),
  ("C-Terminal_Amide_HN", "345"), ("N-MeAmide_N", "346"), ("N-MeAmide_HN", "347"),
  ("N-MeAmide_C", "348"), ("N-MeAmide_HC", "349"), ("N-Terminal_GLY_N", "350"),
  ("N-Terminal_GLY_CA", "351"), ("N-Terminal_GLY_C", "352"), ("N-Terminal_GLY_HN", "353"),
  ("N-Terminal_GLY_O", "354"), ("N-Terminal_GLY_HA", "355"), ("N-Terminal_ALA_N", "356"),
  ("N-Terminal_ALA_CA", "357"), ("N-Terminal_ALA_C", "358"), ("N-Terminal_ALA_HN", "359"),
  ("N-Terminal_ALA_O", "360"), ("N-Terminal_ALA_HA", "361"), ("N-Terminal_VAL_N", "362"),
  ("N-Terminal_VAL_CA", "363"), ("N-Terminal_VAL_C", "364"), ("N-Terminal_VAL_HN", "365"),
  ("N-Terminal_VAL_O", "366"), ("N-Terminal_VAL_HA", "367"), ("N-Terminal_LEU_N", "368"),
  ("N-Terminal_LEU_CA", "369"), ("N-Terminal_LEU_C", "370"), ("N-Terminal_LEU_HN", "371"),
  ("N-Terminal_LEU_O", "372"), ("N-Terminal_LEU_HA", "373"), ("N-Terminal_ILE_N", "374"),
  ("N-Terminal_ILE_CA", "375"), ("N-Terminal_ILE_C", "376"), ("N-Terminal_ILE_HN", "377"),
  ("N-Terminal_ILE_O", "378"), ("N-Terminal_ILE_HA", "379"), ("N-Terminal_SER_N", "380"),
  ("N-Terminal_SER_CA", "381"), ("N-Terminal_SER_C", "382"), ("N-Terminal_SER_HN", "383"),
  ("N-Terminal_SER_O", "384"), ("N-Terminal_SER_HA", "385"), ("N-Terminal_THR_N", "386"),
  ("N-Terminal_THR_CA", "387"), ("N-Terminal_THR_C", "388"), ("N-Terminal_THR_HN", "389"),
  ("N-Terminal_THR_O", "390"), ("N-Terminal_THR_HA", "391"), ("N-Terminal_CYS_(-SH)_N", "392"),
  ("N-Terminal_CYS_(-SH)_CA", "393"), ("N-Terminal_CYS_(-SH)_C", "394"),
  ("N-Terminal_CYS_(-SH)_HN", "395"), ("N-Terminal_CYS_(-SH)_O", "396"),
  ("N-Terminal_CYS_(-SH)_HA", "397"), ("N-Terminal_CYS_(-SS-)_N", "398"),
  ("N-Terminal_CYS_(-SS-)_CA", "399"), ("N-Terminal_CYS_(-SS-)_C", "400"),
  ("N-Terminal_CYS_(-SS-)_HN", "401"), ("N-Terminal_CYS_(-SS-)_O", "402"),
  ("N-Terminal_CYS_(-SS-)_HA", "403"), ("N-Terminal_PRO_N", "404"), ("N-Terminal_PRO_CA", "405"),
  ("N-Terminal_PRO_C", "406"), ("N-Terminal_PRO_HN", "407"), ("N-Terminal_PRO_O", "408"),
  ("N-Terminal_PRO_HA", "409"), ("N-Terminal_PRO_CD", "410"), ("N-Terminal_PRO_HD", "411"),
  ("N-Terminal_PHE_N", "412"), ("N-Terminal_PHE_CA", "413"), ("N-Terminal_PHE_C", "414"),
  ("N-Terminal_PHE_HN", "415"), ("N-Terminal_PHE_O", "416"), ("N-Terminal_PHE_HA", "417"),
  ("N-Terminal_TYR_N", "418"), ("N-Terminal_TYR_CA", "419"), ("N-Terminal_TYR_C", "420"),
  ("N-Terminal_TYR_HN", "421"), ("N-Terminal_TYR_O", "422"), ("N-Terminal_TYR_HA", "423"),
  ("N-Terminal_TRP_N", "424"), ("N-Terminal_TRP_CA", "425"), ("N-Terminal_TRP_C", "426"),
  ("N-Terminal_TRP_HN", "427"), ("N-Terminal_TRP_O", "428"), ("N-Terminal_TRP_HA", "429"),
  ("N-Terminal_HIS_(+)_N", "430"), ("N-Terminal_HIS_(+)_CA", "431"),
  ("N-Terminal_HIS_(+)_C", "432"), ("N-Terminal_HIS_(+)_HN", "433"),
  ("N-Terminal_HIS_(+)_O", "434"), ("N-Terminal_HIS_(+)_HA", "435"),
  ("N-Terminal_HIS_(HD)_N", "436"), ("N-Terminal_HIS_(HD)_CA", "437"),
  ("N-Terminal_HIS_(HD)_C", "438"), ("N-Terminal_HIS_(HD)_HN", "439"),
  ("N-Terminal_HIS_(HD)_O", "440"), ("N-Terminal_HIS_(HD)_HA", "441"),
  ("N-Terminal_HIS_(HE)_N", "442"), ("N-Terminal_HIS_(HE)_CA", "443"),
  ("N-Terminal_HIS_(HE)_C", "444"), ("N-Terminal_HIS_(HE)_HN", "445"),
  ("N-Terminal_HIS_(HE)_O", "446"), ("N-Terminal_HIS_(HE)_HA", "447"),
  ("N-Terminal_ASP_N", "448"), ("N-Terminal_ASP_CA", "449"), ("N-Terminal_ASP_C", "450"),
  ("N-Terminal_ASP_HN", "451"), ("N-Terminal_ASP_O", "452"), ("N-Terminal_ASP_HA", "453"),
  ("N-Terminal_ASN_N", "454"), ("N-Terminal_ASN_CA", "455"), ("N-Terminal_ASN_C", "456"),
  ("N-Terminal_ASN_HN", "457"), ("N-Terminal_ASN_O", "458"), ("N-Terminal_ASN_HA", "459"),
  ("N-Terminal_GLU_N", "460"), ("N-Terminal_GLU_CA", "461"), ("N-Terminal_GLU_C", "462"),
  ("N-Terminal_GLU_HN", "463"), ("N-Terminal_GLU_O", "464"), ("N-Terminal_GLU_HA", "465"),
  ("N-Terminal_GLN_N", "466"), ("N-Terminal_GLN_CA", "467"), ("N-Terminal_GLN_C", "468"),
  ("N-Terminal_GLN_HN", "469"), ("N-Terminal_GLN_O", "470"), ("N-Terminal_GLN_HA", "471"),
  ("N-Terminal_MET_N", "472"), ("N-Terminal_MET_CA", "473"), ("N-Terminal_MET_C", "474"),
  ("N-Terminal_MET_HN", "475"), ("N-Terminal_MET_O", "476"), ("N-Terminal_MET_HA", "477"),
  ("N-Terminal_LYS_N", "478"), ("N-Terminal_LYS_CA", "479"), ("N-Terminal_LYS_C", "480"),
  ("N-Terminal_LYS_HN", "481"), ("N-Terminal_LYS_O", "482"), ("N-Terminal_LYS_HA", "483"),
  ("N-Terminal_ARG_N", "484"), ("N-Terminal_ARG_CA", "485"), ("N-Terminal_ARG_C", "486"),
  ("N-Terminal_ARG_HN", "487"), ("N-Terminal_ARG_O", "488"), ("N-Terminal_ARG_HA", "489"),
  ("N-Terminal_ORN_N", "490"), ("N-Terminal_ORN_CA", "491"), ("N-Terminal_ORN_C", "492"),
  ("N-Terminal_ORN_HN", "493"), ("N-Terminal_ORN_O", "494"), ("N-Terminal_ORN_HA", "495"),
  ("N-Terminal_AIB_N", "496"), ("N-Terminal_AIB_CA", "497"), ("N-Terminal_AIB_C", "498"),
  ("N-Terminal_AIB_HN", "499"), ("N-Terminal_AIB_O", "500"), ("C-Terminal_GLY_N", "501"),
  ("C-Terminal_GLY_CA", "502"), ("C-Terminal_GLY_C", "503"), ("C-Terminal_GLY_HN", "504"),
  ("C-Terminal_GLY_OXT", "505"), ("C-Terminal_GLY_HA", "506"), ("C-Terminal_ALA_N", "507"),
  ("C-Terminal_ALA_CA", "508"), ("C-Terminal_ALA_C", "509"), ("C-Terminal_ALA_HN", "510"),
  ("C-Terminal_ALA_OXT", "511"), ("C-Terminal_ALA_HA", "512"), ("C-Terminal_VAL_N", "513"),
  ("C-Terminal_VAL_CA", "514"), ("C-Terminal_VAL_C", "515"), ("C-Terminal_VAL_HN", "516"),
  ("C-Terminal_VAL_OXT", "517"), ("C-Terminal_VAL_HA", "518"), ("C-Terminal_LEU_N", "519"),
  ("C-Terminal_LEU_CA", "520"), ("C-Terminal_LEU_C", "521"), ("C-Terminal_LEU_HN", "522"),
  ("C-Terminal_LEU_OXT", "523"), ("C-Terminal_LEU_HA", "524"), ("C-Terminal_ILE_N", "525"),
  ("C-Terminal_ILE_CA", "526"), ("C-Terminal_ILE_C", "527"), ("C-Terminal_ILE_HN", "528"),
  ("C-Terminal_ILE_OXT", "529"), ("C-Terminal_ILE_HA", "530"), ("C-Terminal_SER_N", "531"),
  ("C-Terminal_SER_CA", "532"), ("C-Terminal_SER_C", "533"), ("C-Terminal_SER_HN", "534"),
  ("C-Terminal_SER_OXT", "535"), ("C-Terminal_SER_HA", "536"), ("C-Terminal_THR_N", "537"),
  ("C-Terminal_THR_CA", "538"), ("C-Terminal_THR_C", "539"), ("C-Terminal_THR_HN", "540"),
  ("C-Terminal_THR_OXT", "541"), ("C-Terminal_THR_HA", "542"), ("C-Terminal_CYS_(-SH)_N", "543"),
  ("C-Terminal_CYS_(-SH)_CA", "544"), ("C-Terminal_CYS_(-SH)_C", "545"),
  ("C-Terminal_CYS_(-SH)_HN", "546"), ("C-Terminal_CYS_(-SH)_OXT", "547"),
  ("C-Terminal_CYS_(-SH)_HA", "548"), ("C-Terminal_CYS_(-SS-)_N", "549"),
  ("C-Terminal_CYS_(-SS-)_CA", "550"), ("C-Terminal_CYS_(-SS-)_C", "551"),
  ("C-Terminal_CYS_(-SS-)_HN", "552"), ("C-Terminal_CYS_(-SS-)_OXT", "553"),
  ("C-Terminal_CYS_(-SS-)_HA", "554"), ("C-Terminal_PRO_N", "555"), ("C-Terminal_PRO_CA", "556"),
  ("C-Terminal_PRO_C", "557"), ("C-Terminal_PRO_OXT", "558"), ("C-Terminal_PRO_HA", "559"),
  ("C-Terminal_PHE_N", "560"), ("C-Terminal_PHE_CA", "561"), ("C-Terminal_PHE_C", "562"),
  ("C-Terminal_PHE_HN", "563"), ("C-Terminal_PHE_OXT", "564"), ("C-Terminal_PHE_HA", "565"),
  ("C-Terminal_TYR_N", "566"), ("C-Terminal_TYR_CA", "567"), ("C-Terminal_TYR_C", "568"),
  ("C-Terminal_TYR_HN", "569"), ("C-Terminal_TYR_OXT", "570"), ("C-Terminal_TYR_HA", "571"),
  ("C-Terminal_TRP_N", "572"), ("C-Terminal_TRP_CA", "573"), ("C-Terminal_TRP_C", "574"),
  ("C-Terminal_TRP_HN", "575"), ("C-Terminal_TRP_OXT", "576"), ("C-Terminal_TRP_HA", "577"),
  ("C-Terminal_HIS_(+)_N", "578"), ("C-Terminal_HIS_(+)_CA", "579"),
  ("C-Terminal_HIS_(+)_C", "580"), ("C-Terminal_HIS_(+)_HN", "581"),
  ("C-Terminal_HIS_(+)_OXT", "582"), ("C-Terminal_HIS_(+)_HA", "583"),
  ("C-Terminal_HIS_(HD)_N", "584"), ("C-Terminal_HIS_(HD)_CA", "585"),
  ("C-Terminal_HIS_(HD)_C", "586"), ("C-Terminal_HIS_(HD)_HN", "587"),
  ("C-Terminal_HIS_(HD)_OXT", "588"), ("C-Terminal_HIS_(HD)_HA", "589"),
  ("C-Terminal_HIS_(HE)_N", "590"), ("C-Terminal_HIS_(HE)_CA", "591"),
  ("C-Terminal_HIS_(HE)_C", "592"), ("C-Terminal_HIS_(HE)_HN", "593"),
  ("C-Terminal_HIS_(HE)_OXT", "594"), ("C-Terminal_HIS_(HE)_HA", "595"),
  ("C-Terminal_ASP_N", "596"), ("C-Terminal_ASP_CA", "597"), ("C-Terminal_ASP_C", "598"),
  ("C-Terminal_ASP_HN", "599"), ("C-Terminal_ASP_OXT", "600"), ("C-Terminal_ASP_HA", "601"),
  ("C-Terminal_ASN_N", "602"), ("C-Terminal_ASN_CA", "603"), ("C-Terminal_ASN_C", "604"),
  ("C-Terminal_ASN_HN", "605"), ("C-Terminal_ASN_OXT", "606"), ("C-Terminal_ASN_HA", "607"),
  ("C-Terminal_GLU_N", "608"), ("C-Terminal_GLU_CA", "609"), ("C-Terminal_GLU_C", "610"),
  ("C-Terminal_GLU_HN", "611"), ("C-Terminal_GLU_OXT", "612"), ("C-Terminal_GLU_HA", "613"),
  ("C-Terminal_GLN_N", "614"), ("C-Terminal_GLN_CA", "615"), ("C-Terminal_GLN_C", "616"),
  ("C-Terminal_GLN_HN", "617"), ("C-Terminal_GLN_OXT", "618"), ("C-Terminal_GLN_HA", "619"),
  ("C-Terminal_MET_N", "620"), ("C-Terminal_MET_CA", "621"), ("C-Terminal_MET_C", "622"),
  ("C-Terminal_MET_HN", "623"), ("C-Terminal_MET_OXT", "624"), ("C-Terminal_MET_HA", "625"),
  ("C-Terminal_LYS_N", "626"), ("C-Terminal_LYS_CA", "627"), ("C-Terminal_LYS_C", "628"),
  ("C-Terminal_LYS_HN", "629"), ("C-Terminal_LYS_OXT", "630"), ("C-Terminal_LYS_HA", "631"),
  ("C-Terminal_ARG_N", "632"), ("C-Terminal_ARG_CA", "633"), ("C-Terminal_ARG_C", "634"),
  ("C-Terminal_ARG_HN", "635"), ("C-Terminal_ARG_OXT", "636"), ("C-Terminal_ARG_HA", "637"),
  ("C-Terminal_ORN_N", "638"), ("C-Terminal_ORN_CA", "639"), ("C-Terminal_ORN_C", "640"),
  ("C-Terminal_ORN_HN", "641"), ("C-Terminal_ORN_OXT", "642"), ("C-Terminal_ORN_HA", "643"),
  ("C-Terminal_AIB_N", "644"), ("C-Terminal_AIB_CA", "645"), ("C-Terminal_AIB_C", "646"),
  ("C-Terminal_AIB_HN", "647"), ("C-Terminal_AIB_OXT", "648"), ("R-Adenosine_O5'", "1001"),
  ("R-Adenosine_C5'", "1002"), ("R-Adenosine_H5'1", "1003"), ("R-Adenosine_H5'2", "1004"),
  ("R-Adenosine_C4'", "1005"), ("R-Adenosine_H4'", "1006"), ("R-Adenosine_O4'", "1007"),
  ("R-Adenosine_C1'", "1008"), ("R-Adenosine_H1'", "1009"), ("R-Adenosine_C3'", "1010"),
  ("R-Adenosine_H3'", "1011"), ("R-Adenosine_C2'", "1012"), ("R-Adenosine_H2'1", "1013"),
  ("R-Adenosine_O2'", "1014"), ("R-Adenosine_HO'2", "1015"), ("R-Adenosine_O3'", "1016"),
  ("R-Adenosine_N9", "1017"), ("R-Adenosine_C4", "1018"), ("R-Adenosine_C5", "1019"),
  ("R-Adenosine_N7", "1020"), ("R-Adenosine_C8", "1021"), ("R-Adenosine_N3", "1022"),
  ("R-Adenosine_C2", "1023"), ("R-Adenosine_N1", "1024"), ("R-Adenosine_C6", "1025"),
  ("R-Adenosine_H2", "1026"), ("R-Adenosine_N6", "1027"), ("R-Adenosine_H61", "1028"),
  ("R-Adenosine_H62", "1029"), ("R-Adenosine_H8", "1030"), ("R-Guanosine_O5'", "1031"),
  ("R-Guanosine_C5'", "1032"), ("R-Guanosine_H5'1", "1033"), ("R-Guanosine_H5'2", "1034"),
  ("R-Guanosine_C4'", "1035"), ("R-Guanosine_H4'", "1036"), ("R-Guanosine_O4'", "1037"),
  ("R-Guanosine_C1'", "1038"), ("R-Guanosine_H1'", "1039"), ("R-Guanosine_C3'", "1040"),
  ("R-Guanosine_H3'", "1041"), ("R-Guanosine_C2'", "1042"), ("R-Guanosine_H2'1", "1043"),
  ("R-Guanosine_O2'", "1044"), ("R-Guanosine_HO'2", "1045"), ("R-Guanosine_O3'", "1046"),
  ("R-Guanosine_N9", "1047"), ("R-Guanosine_C4", "1048"), ("R-Guanosine_C5", "1049"),
  ("R-Guanosine_N7", "1050"), ("R-Guanosine_C8", "1051"), ("R-Guanosine_N3", "1052"),
  ("R-Guanosine_C2", "1053"), ("R-Guanosine_N1", "1054"), ("R-Guanosine_C6", "1055"),
  ("R-Guanosine_H1", "1056"), ("R-Guanosine_N2", "1057"), ("R-Guanosine_H21", "1058"),
  ("R-Guanosine_H22", "1059"), ("R-Guanosine_O6", "1060"), ("R-Guanosine_H8", "1061"),
  ("R-Cytosine_O5'", "1062"), ("R-Cytosine_C5'", "1063"), ("R-Cytosine_H5'1", "1064"),
  ("R-Cytosine_H5'2", "1065"), ("R-Cytosine_C4'", "1066"), ("R-Cytosine_H4'", "1067"),
  ("R-Cytosine_O4'", "1068"), ("R-Cytosine_C1'", "1069"), ("R-Cytosine_H1'", "1070"),
  ("R-Cytosine_C3'", "1071"), ("R-Cytosine_H3'", "1072"), ("R-Cytosine_C2'", "1073"),
  ("R-Cytosine_H2'1", "1074"), ("R-Cytosine_O2'", "1075"), ("R-Cytosine_HO'2", "1076"),
  ("R-Cytosine_O3'", "1077"), ("R-Cytosine_N1", "1078"), ("R-Cytosine_C2", "1079"),
  ("R-Cytosine_N3", "1080"), ("R-Cytosine_C4", "1081"), ("R-Cytosine_C5", "1082"),
  ("R-Cytosine_C6", "1083"), ("R-Cytosine_O2", "1084"), ("R-Cytosine_N4", "1085"),
  ("R-Cytosine_H41", "1086"), ("R-Cytosine_H42", "1087"), ("R-Cytosine_H5", "1088"),
  ("R-Cytosine_H6", "1089"), ("R-Uracil_O5'", "1090"), ("R-Uracil_C5'", "1091"),
  ("R-Uracil_H5'1", "1092"), ("R-Uracil_H5'2", "1093"), ("R-Uracil_C4'", "1094"),
  ("R-Uracil_H4'", "1095"), ("R-Uracil_O4'", "1096"), ("R-Uracil_C1'", "1097"),
  ("R-Uracil_H1'", "1098"), ("R-Uracil_C3'", "1099"), ("R-Uracil_H3'", "1100"),
  ("R-Uracil_C2'", "1101"), ("R-Uracil_H2'1", "1102"), ("R-Uracil_O2'", "1103"),
  ("R-Uracil_HO'2", "1104"), ("R-Uracil_O3'", "1105"), ("R-Uracil_N1", "1106"),
  ("R-Uracil_C2", "1107"), ("R-Uracil_N3", "1108"), ("R-Uracil_C4", "1109"),
  ("R-Uracil_C5", "1110"), ("R-Uracil_C6", "1111"), ("R-Uracil_O2", "1112"),
  ("R-Uracil_H3", "1113"), ("R-Uracil_O4", "1114"), ("R-Uracil_H5", "1115"),
  ("R-Uracil_H6", "1116"), ("D-Adenosine_O5'", "1117"), ("D-Adenosine_C5'", "1118"),
  ("D-Adenosine_H5'1", "1119"), ("D-Adenosine_H5'2", "1120"), ("D-Adenosine_C4'", "1121"),
  ("D-Adenosine_H4'", "1122"), ("D-Adenosine_O4'", "1123"), ("D-Adenosine_C1'", "1124"),
  ("D-Adenosine_H1'", "1125"), ("D-Adenosine_C3'", "1126"), ("D-Adenosine_H3'", "1127"),
  ("D-Adenosine_C2'", "1128"), ("D-Adenosine_H2'1", "1129"), ("D-Adenosine_H2'2", "1130"),
  ("D-Adenosine_O3'", "1131"), ("D-Adenosine_N9", "1132"), ("D-Adenosine_C4", "1133"),
  ("D-Adenosine_C5", "1134"), ("D-Adenosine_N7", "1135"), ("D-Adenosine_C8", "1136"),
  ("D-Adenosine_N3", "1137"), ("D-Adenosine_C2", "1138"), ("D-Adenosine_N1", "1139"),
  ("D-Adenosine_C6", "1140"), ("D-Adenosine_H2", "1141"), ("D-Adenosine_N6", "1142"),
  ("D-Adenosine_H61", "1143"), ("D-Adenosine_H62", "1144"), ("D-Adenosine_H8", "1145"),
  ("D-Guanosine_O5'", "1146"), ("D-Guanosine_C5'", "1147"), ("D-Guanosine_H5'1", "1148"),
  ("D-Guanosine_H5'2", "1149"), ("D-Guanosine_C4'", "1150"), ("D-Guanosine_H4'", "1151"),
  ("D-Guanosine_O4'", "1152"), ("D-Guanosine_C1'", "1153"), ("D-Guanosine_H1'", "1154"),
  ("D-Guanosine_C3'", "1155"), ("D-Guanosine_H3'", "1156"), ("D-Guanosine_C2'", "1157"),
  ("D-Guanosine_H2'1", "1158"), ("D-Guanosine_H2'2", "1159"), ("D-Guanosine_O3'", "1160"),
  ("D-Guanosine_N9", "1161"), ("D-Guanosine_C4", "1162"), ("D-Guanosine_C5", "1163"),
  ("D-Guanosine_N7", "1164"), ("D-Guanosine_C8", "1165"), ("D-Guanosine_N3", "1166"),
  ("D-Guanosine_C2", "1167"), ("D-Guanosine_N1", "1168"), ("D-Guanosine_C6", "1169"),
  ("D-Guanosine_H1", "1170"), ("D-Guanosine_N2", "1171"), ("D-Guanosine_H21", "1172"),
  ("D-Guanosine_H22", "1173"), ("D-Guanosine_O6", "1174"), ("D-Guanosine_H8", "1175"),
  ("D-Cytosine_O5'", "1176"), ("D-Cytosine_C5'", "1177"), ("D-Cytosine_H5'1", "1178"),
  ("D-Cytosine_H5'2", "1179"), ("D-Cytosine_C4'", "1180"), ("D-Cytosine_H4'", "1181"),
  ("D-Cytosine_O4'", "1182"), ("D-Cytosine_C1'", "1183"), ("D-Cytosine_H1'", "1184"),
  ("D-Cytosine_C3'", "1185"), ("D-Cytosine_H3'", "1186"), ("D-Cytosine_C2'", "1187"),
  ("D-Cytosine_H2'1", "1188"), ("D-Cytosine_H2'2", "1189"), ("D-Cytosine_O3'", "1190"),
  ("D-Cytosine_N1", "1191"), ("D-Cytosine_C2", "1192"), ("D-Cytosine_N3", "1193"),
  ("D-Cytosine_C4", "1194"), ("D-Cytosine_C5", "1195"), ("D-Cytosine_C6", "1196"),
  ("D-Cytosine_O2", "1197"), ("D-Cytosine_N4", "1198"), ("D-Cytosine_H41", "1199"),
  ("D-Cytosine_H42", "1200"), ("D-Cytosine_H5", "1201"), ("D-Cytosine_H6", "1202"),
  ("D-Thymine_O5'", "1203"), ("D-Thymine_C5'", "1204"), ("D-Thymine_H5'1", "1205"),
  ("D-Thymine_H5'2", "1206"), ("D-Thymine_C4'", "1207"), ("D-Thymine_H4'", "1208"),
  ("D-Thymine_O4'", "1209"), ("D-Thymine_C1'", "1210"), ("D-Thymine_H1'", "1211"),
  ("D-Thymine_C3'", "1212"), ("D-Thymine_H3'", "1213"), ("D-Thymine_C2'", "1214"),
  ("D-Thymine_H2'1", "1215"), ("D-Thymine_H2'2", "1216"), ("D-Thymine_O3'", "1217"),
  ("D-Thymine_N1", "1218"), ("D-Thymine_C2", "1219"), ("D-Thymine_N3", "1220"),
  ("D-Thymine_C4", "1221"), ("D-Thymine_C5", "1222"), ("D-Thymine_C6", "1223"),
  ("D-Thymine_O2", "1224"), ("D-Thymine_H3", "1225"), ("D-Thymine_O4", "1226"),
  ("D-Thymine_C7", "1227"), ("D-Thymine_H7", "1228"), ("D-Thymine_H6", "1229"),
  ("R-Phosphodiester_P", "1230"), ("R-Phosphodiester_OP", "1231"), ("R-5'-Hydroxyl_O5'", "1232"),
  ("R-5'-Hydroxyl_H5T", "1233"), ("R-5'-Phosphate_O5'", "1234"), ("R-5'-Phosphate_P", "1235"),
  ("R-5'-Phosphate_OP", "1236"), ("R-3'-Hydroxyl_O3'", "1237"), ("R-3'-Hydroxyl_H3T", "1238"),
  ("R-3'-Phosphate_O3'", "1239"), ("R-3'-Phosphate_P", "1240"), ("R-3'-Phosphate_OP", "1241"),
  ("D-Phosphodiester_P", "1242"), ("D-Phosphodiester_OP", "1243"), ("D-5'-Hydroxyl_O5'", "1244"),
  ("D-5'-Hydroxyl_H5T", "1245"), ("D-5'-Phosphate_O5'", "1246"), ("D-5'-Phosphate_P", "1247"),
  ("D-5'-Phosphate_OP", "1248"), ("D-3'-Hydroxyl_O3'", "1249"), ("D-3'-Hydroxyl_H3T", "1250"),
  ("D-3'-Phosphate_O3'", "1251"), ("D-3'-Phosphate_P", "1252"), ("D-3'-Phosphate_OP", "1253"),
  ("TIP3P_Oxygen", "2001"), ("TIP3P_Hydrogen", "2002"), ("Li+_Lithium_Ion", "2003"),
  ("Na+_Sodium_Ion", "2004"), ("K+_Potassium_Ion", "2005"), ("Rb+_Rubidium_Ion", "2006"),
  ("Cs+_Cesium_Ion", "2007"), ("Mg+2_Magnesium_Ion", "2008"), ("Ca+2_Calcium_Ion", "2009"),
  ("Zn+2_Zinc_Ion", "2010"), ("Cl-_Chloride_Ion", "2011")]

/-- Value of a run of decimal digits at the head of `cs`, appended to `acc`. -/
def atoiDigits : List Char → Int → Int
  | [], acc => acc
  | c :: cs, acc =>
    if c.isDigit then atoiDigits cs (acc * 10 + ((c.toNat : Int) - 48)) else acc

/-- The C library function `atoi`: optional white space, optional sign, then
decimal digits up to the first other character. -/
def atoi (s : String) : Int :=
  match s.data.dropWhile Char.isWhitespace with
  | '-' :: cs => - atoiDigits cs 0
  | '+' :: cs => atoiDigits cs 0
  | cs => atoiDigits cs 0

/-- The first `while` loop of `getTinkerResidueAtomNameBiotypeMap`: every row
of `amberNameMap` is assigned into a new map, the biotype converted by
`atoi`. -/
def amberBiotypeMap : StringIntMap :=
  amberNameMap.foldl (fun map row => mapAssign map row.1 (atoi row.2)) mapEmpty

/-- The second `while` loop of `getTinkerResidueAtomNameBiotypeMap`: every
row of `amoebaNameMap` is assigned into a new map, the biotype converted by
`atoi`. -/
def amoebaBiotypeMap : StringIntMap :=
  amoebaNameMap.foldl (fun map row => mapAssign map row.1 (atoi row.2)) mapEmpty

/-- The function `getTinkerResidueAtomNameBiotypeMap( forceField )`: returns
the singleton, building it when the static pointer is still null, from
`amberNameMap` if `forceField == AmberForceField` and from `amoebaNameMap`
otherwise. `AmberForceField` is a constant declared outside this file. -/
def getTinkerResidueAtomNameBiotypeMap (AmberForceField forceField : Int)
    (statics : Statics) : StringIntMap × Statics :=
  match statics.residueAtomNameBiotypeMap with
  | some residueAtomNameBiotypeMap => (residueAtomNameBiotypeMap, statics)
  | none =>
    let residueAtomNameBiotypeMap : StringIntMap :=
      if forceField = AmberForceField then amberBiotypeMap else amoebaBiotypeMap
    (residueAtomNameBiotypeMap,
      { statics with residueAtomNameBiotypeMap := some residueAtomNameBiotypeMap })

/-- The character that terminates a C string. -/
def NUL : Char := Char.ofNat 0

/-- The C string held in a character buffer: the characters before the first
terminator. -/
def cString (buffer : List Char) : String :=
  String.mk (buffer.takeWhile (fun c => c ≠ NUL))

/-- The assignment `buffer[i] = c`, the buffer being given by the bytes
written so far (`i` is at most their number). -/
def bufferWrite (buffer : List Char) (i : Nat) (c : Char) : List Char :=
  if i < buffer.length then buffer.set i c else buffer ++ [c]

/-- The array read `array[i]`: defined when `i` is an index of the array. -/
def readAt {α : Type} (array : List α) (i : Int) : Option α :=
  if i < 0 then none else array[i.toNat]?

/-- Body of `getBiotypeGivenResidueAtomNames` once the dictionary `nameMap`
has been obtained: the direct probe, the rewriting of the atom name in
`localAtomName`, the second probe and the probe without a trailing digit.
`none` stands for a read of `localAtomName` outside the bytes written by
`sprintf`; `lastChar` is `(unsigned int) (strlen( localAtomName ) - 1)`. -/
def lookupBiotype (nameMap : StringIntMap) (tinkerResidueName tinkerAtomName : String) :
    Option Int :=
  let fullName := tinkerResidueName ++ "_" ++ tinkerAtomName
  match nameMap fullName with
  | some biotype => some biotype
  | none => do
    let localAtomName := tinkerAtomName.data ++ [NUL]
    let lastChar : Nat := (tinkerAtomName.length + 4294967296 - 1) % 4294967296
    let twoDigits ←
      if lastChar > 2 then
        match localAtomName[lastChar]? with
        | none => none
        | some c =>
          if c.isDigit then
            match localAtomName[lastChar - 1]? with
            | none => none
            | some d => some d.isDigit
          else some false
      else some false
    let (localAtomName, lastChar) :=
      if twoDigits then (localAtomName.set lastChar NUL, lastChar - 1)
      else (localAtomName, lastChar)
    let c0 ← localAtomName[0]?
    let localAtomName :=
      if c0 = 'H' ∧ lastChar = 0 ∧ tinkerResidueName ≠ "AMOEBA_Water" then
        bufferWrite (bufferWrite localAtomName 1 'N') 2 NUL
      else localAtomName
    let secondIsW ←
      if lastChar > 0 then
        match localAtomName[1]? with
        | none => none
        | some c => some (decide (c = 'W'))
      else some false
    let localAtomName := if secondIsW then bufferWrite localAtomName 2 NUL else localAtomName
    let modifiedAtomName := cString localAtomName
    let fullName := tinkerResidueName ++ "_" ++ modifiedAtomName
    match nameMap fullName with
    | some biotype => some biotype
    | none =>
      match localAtomName[lastChar]? with
      | none => none
      | some c =>
        if c.isDigit then
          let localAtomName := localAtomName.set lastChar NUL
          let modifiedAtomName := cString localAtomName
          let fullName := tinkerResidueName ++ "_" ++ modifiedAtomName
          match nameMap fullName with
          | some biotype => some biotype
          | none => some (-1)
        else some (-1)

/-- The function
`getBiotypeGivenResidueAtomNames( tinkerResidueName, tinkerAtomName )`: the
dictionary is the singleton obtained with `AmberForceField`. -/
def getBiotypeGivenResidueAtomNames (AmberForceField : Int)
    (tinkerResidueName tinkerAtomName : String) (statics : Statics) :
    Option (Int × Statics) :=
  let (nameMap, statics) :=
    getTinkerResidueAtomNameBiotypeMap AmberForceField AmberForceField statics
  (lookupBiotype nameMap tinkerResidueName tinkerAtomName).map (fun biotype => (biotype, statics))

/-! ## Biotype scan of a topology -/

/-- The loop-carried variables of `getTinkerBiotypes` and its three output
vectors. `firstAtomName` is `none` while the pointer is null. The variable
`firstWaterAtom` of the source is written but never read and is left out. -/
structure TinkerScan where
  residueI : Int := 0
  firstAtomNameL : Int := -1
  firstAtomName : Option String := none
  residueName : String := ""
  tinkerResidueName : String := ""
  tinkerAtomNames : List String := []
  tinkerResidueNames : List String := []
  tinkerBiotypes : List Int := []
deriving DecidableEq, Repr

/-- The `substr( pos, len )` of `std::string`, for `pos` at most the length. -/
def substr (s : String) (pos len : Nat) : String :=
  String.mk ((s.data.drop pos).take len)

/-- The rewriting of the buffer `atomName` in `getTinkerBiotypes`, after the
atom name has been copied into it: `OC..` becomes `OXT`; in residue 0 `H1..`,
`H2..`, `H3..` get `N` as second character; `OW..`, `HW..` are cut after the
first character. The byte `atomName[1]` of an empty name lies behind the
terminator; no test depends on it, since `atomName[0]` is then the
terminator. -/
def canonicalAtomName (residueI : Int) (atomName : String) : String :=
  let c0 := atomName.data.getD 0 NUL
  let c1 := atomName.data.getD 1 NUL
  if c0 = 'O' ∧ c1 = 'C' then
    "OXT"
  else if residueI = 0 ∧ c0 = 'H' ∧ (c1 = '1' ∨ c1 = '2' ∨ c1 = '3') then
    String.mk (atomName.data.set 1 'N')
  else if c1 = 'W' ∧ (c0 = 'O' ∨ c0 = 'H') then
    String.mk (atomName.data.take 1)
  else
    atomName

/-- First part of the loop body of `getTinkerBiotypes` for one atom: the
residue boundary test and the update of `residueI`, `residueName` and
`tinkerResidueName`. `none` stands for a read outside `residueNames`. -/
def residueBoundaryStep (NotSet : String) (top : t_topology) (scan : TinkerScan)
    (atomName : String) (statics : Statics) : Option (TinkerScan × Statics) :=
  let numberOfResidues : Int := top.atoms.nres
  match scan.firstAtomName with
  | none => do
    let residueName ← readAt top.atoms.resname scan.residueI
    let (tinkerResidueName, statics) :=
      getTinkerBiotypeResidueNameGivenGromacsResidueName NotSet residueName statics
    some ({ scan with
      firstAtomName := some atomName, firstAtomNameL := atomName.length,
      residueName := residueName, tinkerResidueName := tinkerResidueName }, statics)
  | some firstAtomName =>
    if ((atomName.length : Int) = scan.firstAtomNameL ∧ atomName = firstAtomName) ∨
        atomName = "OW" then do
      let residueI := scan.residueI + 1
      let residueName ← readAt top.atoms.resname residueI
      let residueI := if residueI ≥ numberOfResidues then numberOfResidues - 1 else residueI
      let (tinkerResidueName, statics) :=
        getTinkerBiotypeResidueNameGivenGromacsResidueName NotSet residueName statics
      some ({ scan with
        residueI := residueI, residueName := residueName,
        tinkerResidueName := tinkerResidueName }, statics)
    else some (scan, statics)

/-- Second part of the loop body of `getTinkerBiotypes`: the biotype of the
rewritten atom name in the current residue, with the second attempt for a
residue name of length 4 (`NLEU` tried again as `LEU`). -/
def biotypeWithRetry (NotSet : String) (AmberForceField : Int)
    (residueName tinkerResidueName atomName : String) (statics : Statics) :
    Option (Int × Statics) := do
  let (bioType, statics) ←
    getBiotypeGivenResidueAtomNames AmberForceField tinkerResidueName atomName statics
  if bioType < 0 ∧ residueName.length = 4 then
    let removeFirstChar := substr residueName 1 4
    let (localTinkerResidueName, statics) :=
      getTinkerBiotypeResidueNameGivenGromacsResidueName NotSet removeFirstChar statics
    getBiotypeGivenResidueAtomNames AmberForceField localTinkerResidueName atomName statics
  else some (bioType, statics)

/-- Loop body of `getTinkerBiotypes` for atom `atomI`, on the loop variables
and the statics. `none` stands for a read outside `atomNames`,
`residueNames` or `localAtomName`. -/
def getTinkerBiotypesStep (NotSet : String) (AmberForceField : Int) (top : t_topology)
    (state : TinkerScan × Statics) (atomI : Nat) : Option (TinkerScan × Statics) := do
  let atomName ← top.atoms.atomname[atomI]?
  let (scan, statics) ← residueBoundaryStep NotSet top state.1 atomName state.2
  let atomName := canonicalAtomName scan.residueI atomName
  let (bioType, statics) ←
    biotypeWithRetry NotSet AmberForceField scan.residueName scan.tinkerResidueName atomName
      statics
  some ({ scan with
    tinkerAtomNames := scan.tinkerAtomNames.set atomI atomName,
    tinkerResidueNames := scan.tinkerResidueNames.set atomI scan.residueName,
    tinkerBiotypes := scan.tinkerBiotypes.set atomI bioType }, statics)

/-- The function `getTinkerBiotypes( numberOfAtoms, top, tinkerAtomNames,
tinkerResidueNames, tinkerBiotypes )`: returns the status, the final loop
variables with the three output vectors, and the statics. -/
def getTinkerBiotypes (DefaultReturn : Int) (NotSet : String) (AmberForceField : Int)
    (numberOfAtoms : Int) (top : t_topology) (tinkerAtomNames tinkerResidueNames : List String)
    (tinkerBiotypes : List Int) (statics : Statics) : Option (Int × TinkerScan × Statics) :=
  let scan : TinkerScan := {
    tinkerAtomNames := resize tinkerAtomNames numberOfAtoms.toNat "",
    tinkerResidueNames := resize tinkerResidueNames numberOfAtoms.toNat "",
    tinkerBiotypes := resize tinkerBiotypes numberOfAtoms.toNat 0 }
  ((List.range numberOfAtoms.toNat).foldlM (getTinkerBiotypesStep NotSet AmberForceField top)
    (scan, statics)).map (fun state => (DefaultReturn, state.1, state.2))

/-! ### The scan over fixed dictionaries -/

/-- The residue-name dictionary in force in `statics`: the one an access to
the singleton returns. -/
def Statics.residueMap (statics : Statics) : StringMap :=
  (getTinkerGromacsResidueNameMap statics).1

/-- The biotype dictionary in force in `statics`: the one an access to the
singleton with `AmberForceField` returns. -/
def Statics.biotypeMap (AmberForceField : Int) (statics : Statics) : StringIntMap :=
  (getTinkerResidueAtomNameBiotypeMap AmberForceField AmberForceField statics).1

/-- The residue boundary step over a fixed residue-name dictionary. -/
def residueBoundaryPure (residueMap : StringMap) (NotSet : String) (top : t_topology)
    (scan : TinkerScan) (atomName : String) : Option TinkerScan :=
  let numberOfResidues : Int := top.atoms.nres
  match scan.firstAtomName with
  | none => do
    let residueName ← readAt top.atoms.resname scan.residueI
    some { scan with
      firstAtomName := some atomName, firstAtomNameL := atomName.length,
      residueName := residueName, tinkerResidueName := (residueMap residueName).getD NotSet }
  | some firstAtomName =>
    if ((atomName.length : Int) = scan.firstAtomNameL ∧ atomName = firstAtomName) ∨
        atomName = "OW" then do
      let residueI := scan.residueI + 1
      let residueName ← readAt top.atoms.resname residueI
      let residueI := if residueI ≥ numberOfResidues then numberOfResidues - 1 else residueI
      some { scan with
        residueI := residueI, residueName := residueName,
        tinkerResidueName := (residueMap residueName).getD NotSet }
    else some scan

/-- The biotype of an atom name in a residue over fixed dictionaries: the
lookup with the Tinker residue name and, when it gives a negative value and
the Gromacs residue name has length 4, the lookup for the residue name
without its first character. -/
def biotypeOfAtom (residueMap : StringMap) (biotypeMap : StringIntMap) (NotSet : String)
    (residueName tinkerResidueName atomName : String) : Option Int := do
  let bioType ← lookupBiotype biotypeMap tinkerResidueName atomName
  if bioType < 0 ∧ residueName.length = 4 then
    lookupBiotype biotypeMap ((residueMap (substr residueName 1 4)).getD NotSet) atomName
  else some bioType

/-- The loop body of the scan over fixed dictionaries. -/
def tinkerStepPure (residueMap : StringMap) (biotypeMap : StringIntMap) (NotSet : String)
    (top : t_topology) (scan : TinkerScan) (atomI : Nat) : Option TinkerScan := do
  let atomName ← top.atoms.atomname[atomI]?
  let scan ← residueBoundaryPure residueMap NotSet top scan atomName
  let atomName := canonicalAtomName scan.residueI atomName
  let bioType ←
    biotypeOfAtom residueMap biotypeMap NotSet scan.residueName scan.tinkerResidueName atomName
  some { scan with
    tinkerAtomNames := scan.tinkerAtomNames.set atomI atomName,
    tinkerResidueNames := scan.tinkerResidueNames.set atomI scan.residueName,
    tinkerBiotypes := scan.tinkerBiotypes.set atomI bioType }

/-- The scan over fixed dictionaries: the loop of `getTinkerBiotypes` with
every access to a singleton replaced by the dictionary. -/
def tinkerScanPure (residueMap : StringMap) (biotypeMap : StringIntMap) (NotSet : String)
    (numberOfAtoms : Int) (top : t_topology) (tinkerAtomNames tinkerResidueNames : List String)
    (tinkerBiotypes : List Int) : Option TinkerScan :=
  (List.range numberOfAtoms.toNat).foldlM (tinkerStepPure residueMap biotypeMap NotSet top)
    { tinkerAtomNames := resize tinkerAtomNames numberOfAtoms.toNat "",
      tinkerResidueNames := resize tinkerResidueNames numberOfAtoms.toNat "",
      tinkerBiotypes := resize tinkerBiotypes numberOfAtoms.toNat 0 }

/-! ## Atom identifier cache

The model follows the branches compiled when `WIN32` is not defined
(`strcpy`, `sprintf`). The two locals `char atomName[32]` and
`char residueName[32]` of `getAtomIdStringGivenAtomIndex` have their size: a
`strcpy` of more than 32 bytes into one of them is undefined. The `buffer` of
the caller has no size in the model: its documentation asks the caller for
enough space. Lengths are counted in characters, one byte each. -/

/-- The function `getAtomNameGivenAtomIndex( atomIndex, outputAtomName, top )`:
returns the status and the string copied to `outputAtomName`. `capacity` is
the number of bytes of the array `outputAtomName` points to; `strcpy` writes
the characters and the terminator. `none` stands for a read outside
`atomNames` or a write past the end of that array. -/
def getAtomNameGivenAtomIndex (DefaultReturn : Int) (atomIndex : Int) (capacity : Nat)
    (top : t_topology) : Option (Int × String) := do
  let name ← readAt top.atoms.atomname atomIndex
  let atomName := if name.length < 1 ∨ name.length > 100 then "NA" else name
  if atomName.length + 1 ≤ capacity then some (DefaultReturn, atomName) else none

/-- The function `getResidueNameGivenAtomIndex( atomIndex, top,
outputResidueName, outputResidueIndex )`: returns the status, the string
copied to `outputResidueName` and the value stored in `*outputResidueIndex`.
`capacity` is the number of bytes of the array `outputResidueName` points to.
`none` stands for a read outside `atom` or `residueNames` or a write past the
end of that array. -/
def getResidueNameGivenAtomIndex (DefaultReturn : Int) (atomIndex : Int) (top : t_topology)
    (capacity : Nat) : Option (Int × String × Int) := do
  let atom ← readAt top.atoms.atom atomIndex
  let residueIndex := atom.resnr
  let name ← readAt top.atoms.resname residueIndex
  let residueName := if name.length < 1 ∨ name.length > 100 then "NA" else name
  if residueName.length + 1 ≤ capacity then some (DefaultReturn, residueName, residueIndex)
  else none

/-- The two function-local statics of `getAtomIdStringGivenAtomIndex`:
`maxAtomIndex`, initially -1, and the array `atomIdStrings`, `none` standing
for a null pointer, both for the array and for each of its entries. -/
structure AtomIdCache where
  maxAtomIndex : Int := -1
  atomIdStrings : Option (List (Option String)) := none
deriving DecidableEq, Repr

/-- The block `// allocate cache memory?` of `getAtomIdStringGivenAtomIndex`:
a zeroed array of `maxAtoms + 1` pointers replaces the array when `maxAtoms`
is positive and no array is allocated or `maxAtoms` exceeds `maxAtomIndex`. -/
def allocateAtomIdStrings (maxAtoms : Int) (statics : AtomIdCache) : AtomIdCache :=
  if maxAtoms > 0 ∧ (statics.maxAtomIndex = -1 ∨ maxAtoms > statics.maxAtomIndex) then
    { maxAtomIndex := maxAtoms + 1,
      atomIdStrings := some (List.replicate (maxAtoms + 1).toNat none) }
  else statics

/-- The test `atomIndex < maxAtomIndex && atomIdStrings[atomIndex] != NULL` of
the block `// if id is cached, return it`: `some (some s)` when it holds, `s`
being the cached string, `some none` when it fails, `none` when
`atomIdStrings[atomIndex]` is read through a null pointer or outside the
array. -/
def cachedAtomIdString (atomIndex : Int) (statics : AtomIdCache) : Option (Option String) :=
  if atomIndex < statics.maxAtomIndex then
    match statics.atomIdStrings with
    | none => none
    | some atomIdStrings => readAt atomIdStrings atomIndex
  else some none

/-- The block `// not cached -- assemble info` of
`getAtomIdStringGivenAtomIndex` followed by `// tab string`: the two names
are copied into the locals `atomName[32]` and `residueName[32]`; the result
is the contents of `buffer` after `sprintf( buffer, "%s_%d %s", residueName,
residueIndex, atomName )` and the conditional call of `tabStringInPlace`. -/
def assembleAtomIdString (DefaultReturn : Int) (tabStringInPlace : String → Nat → String)
    (atomIndex : Int) (top : t_topology) (tab : Nat) : Option String := do
  let (_, atomName) ← getAtomNameGivenAtomIndex DefaultReturn atomIndex 32 top
  let (_, residueName, residueIndex) ←
    getResidueNameGivenAtomIndex DefaultReturn atomIndex top 32
  let buffer := residueName ++ "_" ++ toString residueIndex ++ " " ++ atomName
  some (if tab > 0 ∧ buffer.length < tab then tabStringInPlace buffer tab else buffer)

/-- The block `// cache info if atomIdStrings array is allocated` of
`getAtomIdStringGivenAtomIndex`: a copy of `buffer` becomes
`atomIdStrings[atomIndex]` when `atomIndex < maxAtomIndex` and the array is
allocated. -/
def storeAtomIdString (atomIndex : Int) (buffer : String) (statics : AtomIdCache) :
    AtomIdCache :=
  match statics.atomIdStrings with
  | some atomIdStrings =>
    if atomIndex < statics.maxAtomIndex then
      { statics with atomIdStrings := some (atomIdStrings.set atomIndex.toNat (some buffer)) }
    else statics
  | none => statics

/-- The function `getAtomIdStringGivenAtomIndex( atomIndex, top,
sizeOfBuffer, buffer, maxAtoms, tab )`: returns the status, the contents of
`buffer` and the statics. `tabStringInPlace` is
`SimTKOpenMMUtilities::tabStringInPlace`, defined outside this file;
`sizeOfBuffer` is read by `sprintf_s` only; `none` stands for a read outside
an array or a write past the end of one of the two 32-byte locals. -/
def getAtomIdStringGivenAtomIndex (DefaultReturn : Int)
    (tabStringInPlace : String → Nat → String) (atomIndex : Int) (top : t_topology)
    (_sizeOfBuffer : Int) (buffer : String) (maxAtoms : Int) (tab : Nat)
    (statics : AtomIdCache) : Option (Int × String × AtomIdCache) :=
  if atomIndex = -1 then
    if statics.maxAtomIndex > 0 ∧ statics.atomIdStrings ≠ none then
      some (DefaultReturn, buffer, { maxAtomIndex := -1, atomIdStrings := none })
    else
      some (DefaultReturn, buffer, statics)
  else
    let statics := allocateAtomIdStrings maxAtoms statics
    match cachedAtomIdString atomIndex statics with
    | none => none
    | some (some atomIdString) => some (DefaultReturn, atomIdString, statics)
    | some none =>
      match assembleAtomIdString DefaultReturn tabStringInPlace atomIndex top tab with
      | none => none
      | some buffer => some (DefaultReturn, buffer, storeAtomIdString atomIndex buffer statics)

/-- A sequence of calls of `getAtomIdStringGivenAtomIndex` on one topology
with one tab width, each call given by its `atomIndex` and its `maxAtoms` and
made with an empty `buffer`: returns the contents of `buffer` after each call
and the statics after the last call. -/
def atomIdCalls (DefaultReturn : Int) (tabStringInPlace : String → Nat → String)
    (top : t_topology) (tab : Nat) :
    List (Int × Int) → AtomIdCache → Option (List String × AtomIdCache)
  | [], statics => some ([], statics)
  | (atomIndex, maxAtoms) :: calls, statics => do
    let (_, buffer, statics) ←
      getAtomIdStringGivenAtomIndex DefaultReturn tabStringInPlace atomIndex top 0 ""
        maxAtoms tab statics
    let (buffers, statics) ← atomIdCalls DefaultReturn tabStringInPlace top tab calls statics
    some (buffer :: buffers, statics)

/-- The label of an atom as the specification words it, derived from the
topology without any cache: residue name, `_`, the residue index in decimal,
a blank and the atom name, a name that is empty or longer than 100 characters
being replaced by `NA`, the whole padded to the tab width. `none` when the
topology has no such atom or residue. -/
def atomIdLabel (tabStringInPlace : String → Nat → String) (top : t_topology) (tab : Nat)
    (atomIndex : Nat) : Option String := do
  let atomName ← top.atoms.atomname[atomIndex]?
  let atom ← top.atoms.atom[atomIndex]?
  let residueName ← readAt top.atoms.resname atom.resnr
  let atomName := if atomName.length = 0 ∨ 100 < atomName.length then "NA" else atomName
  let residueName :=
    if residueName.length = 0 ∨ 100 < residueName.length then "NA" else residueName
  let label := residueName ++ "_" ++ toString atom.resnr ++ " " ++ atomName
  some (if 0 < tab ∧ label.length < tab then tabStringInPlace label tab else label)

/-- The buffer one call leaves when the label is derived afresh: the label
of the atom for a request, the untouched empty buffer for a call with
`atomIndex = -1`. -/
def uncachedAtomIdCall (tabStringInPlace : String → Nat → String) (top : t_topology)
    (tab : Nat) (atomIndex : Int) : Option String :=
  if atomIndex = -1 then some "" else atomIdLabel tabStringInPlace top tab atomIndex.toNat

/-- The buffers a sequence of calls leaves when every label is derived
afresh. -/
def uncachedAtomIdCalls (tabStringInPlace : String → Nat → String) (top : t_topology)
    (tab : Nat) : List (Int × Int) → Option (List String)
  | [] => some []
  | (atomIndex, _) :: calls => do
    let buffer ← uncachedAtomIdCall tabStringInPlace top tab atomIndex
    let buffers ← uncachedAtomIdCalls tabStringInPlace top tab calls
    some (buffer :: buffers)

/-- The statics of the cache as the calls leave them: without an array
`maxAtomIndex` is -1, with an array `maxAtomIndex` is positive and is the
number of its entries. -/
def AtomIdCache.wellFormed (statics : AtomIdCache) : Prop :=
  (statics.atomIdStrings = none → statics.maxAtomIndex = -1) ∧
  ∀ atomIdStrings, statics.atomIdStrings = some atomIdStrings →
    0 < statics.maxAtomIndex ∧ (atomIdStrings.length : Int) = statics.maxAtomIndex

/-- The names of the topology that the code copies as they are (those of 1
to 100 characters) fit the 32-byte locals of `getAtomIdStringGivenAtomIndex`
with their terminator. -/
def namesFit (top : t_topology) : Prop :=
  (∀ name ∈ top.atoms.atomname, name.length ≤ 31 ∨ 100 < name.length) ∧
  ∀ name ∈ top.atoms.resname, name.length ≤ 31 ∨ 100 < name.length

/-- Every entry held by the cache is the label of its atom for the topology
`top` and the tab width `tab`. -/
def AtomIdCache.agrees (tabStringInPlace : String → Nat → String) (top : t_topology)
    (tab : Nat) (statics : AtomIdCache) : Prop :=
  ∀ atomIdStrings, statics.atomIdStrings = some atomIdStrings →
    ∀ (i : Nat) (s : String), atomIdStrings[i]? = some (some s) →
      atomIdLabel tabStringInPlace top tab i = some s

/-! ## The Grycuk force routine (`gromacsCpuGrycukInterface.cpp`)

The values of the types `real` and `RealOpenMM` are numbers in `ℚ`. In
`convertCoordinates`, `addForces` and `gromacsCpuCalculateGrycukForces` the
products and sums are exact: they carry the control flow and the statements
made over the rationals. `convertCoordinatesFloat`, `addForcesFloat` and
`gromacsCpuCalculateGrycukForcesFloat` keep the machine operations of the
source, as parameters, and the `float` constant `0.4184f`. -/

/-- Gromacs `rvec`: three components. -/
abbrev rvec := Fin 3 → ℚ

/-- How a call ends: it returns a value, it calls `exit( status )`, or it
reads or writes outside an array. -/
inductive Call (α : Type) where
  | returns (value : α)
  | exits (status : Int)
  | undefined

/-- A computation whose only failure is an access outside an array. -/
def Call.ofOption {α : Type} : Option α → Call α
  | some value => Call.returns value
  | none => Call.undefined

/-- The engine `CpuImplicitSolvent`, defined outside these files, as far as
`gromacsCpuCalculateGrycukForces` uses it: `getNumberOfAtoms()` and
`computeImplicitSolventForces( coordinates, partialCharges, forces,
updateBornRadii )`, which returns the contents of `forces` after the call. -/
structure CpuImplicitSolvent where
  numberOfAtoms : Int
  computeImplicitSolventForces : List rvec → List ℚ → List rvec → Int → List rvec

/-- The function-local statics of `gromacsCpuCalculateGrycukForces`, `none`
standing for `NULL`. -/
structure GrycukStatics where
  partialCharges : Option (List ℚ) := none
  coordinates : Option (List rvec) := none
  localForces : Option (List rvec) := none

/-- A loop `for( int ii = 0; ii < numberOfAtoms; ii++ )` whose body assigns
to `array[ii]`: `body ii a` is the new value of an entry holding `a`; `none`
stands for an access outside an array. -/
def forEachAtom {α : Type} (numberOfAtoms : Int) (body : Nat → α → Option α)
    (array : List α) : Option (List α) :=
  (List.range numberOfAtoms.toNat).foldlM
    (fun array ii =>
      match array[ii]? with
      | none => none
      | some a => (body ii a).map (array.set ii))
    array

/-- The block `if( coordinates == NULL )` of `gromacsCpuCalculateGrycukForces`:
two zeroed arrays of `numberOfAtoms` rows and a copy of the first
`numberOfAtoms` entries of `partialChargesIn`. An allocation of a negative
number of entries is not modelled. -/
def allocateGrycukStatics (numberOfAtoms : Int) (partialChargesIn : List ℚ)
    (statics : GrycukStatics) : Option GrycukStatics :=
  match statics.coordinates with
  | some _ => some statics
  | none =>
    if numberOfAtoms < 0 then none
    else do
      let coordinates : List rvec := List.replicate numberOfAtoms.toNat (fun _ => 0)
      let localForces : List rvec := List.replicate numberOfAtoms.toNat (fun _ => 0)
      let partialCharges ←
        forEachAtom numberOfAtoms (fun ii _ => partialChargesIn[ii]?)
          (List.replicate numberOfAtoms.toNat 0)
      some { partialCharges := some partialCharges, coordinates := some coordinates,
             localForces := some localForces }

/-- The body of the loop `// convert coordinates from nm -> Angstrom`, the
products taken exactly; `convertCoordinatesFloat` keeps the machine
operations. -/
def convertCoordinates (atomCoordinates : List rvec) (ii : Nat) (row : rvec) : Option rvec :=
  (atomCoordinates[ii]?).map fun x =>
    let distanceScaleFactor : ℚ := 10
    let row := Function.update row 0 (distanceScaleFactor * x 0)
    let row := Function.update row 1 (distanceScaleFactor * x 1)
    Function.update row 2 (distanceScaleFactor * x 2)

/-- The body of the last loop of `gromacsCpuCalculateGrycukForces`:
`forces[ii][k] += forceScaleFactor*localForces[ii][k]`, with the factor read
as the decimal 0.4184 and the product and the sum taken exactly;
`addForcesFloat` keeps the constant `0.4184f` and the machine operations. -/
def addForces (localForces : List rvec) (ii : Nat) (row : rvec) : Option rvec :=
  (localForces[ii]?).map fun l =>
    let forceScaleFactor : ℚ := 0.4184
    let row := Function.update row 0 (row 0 + forceScaleFactor * l 0)
    let row := Function.update row 1 (row 1 + forceScaleFactor * l 1)
    Function.update row 2 (row 2 + forceScaleFactor * l 2)

/-- The function `gromacsCpuCalculateGrycukForces( atomCoordinates,
partialChargesIn, forces )`: `cpuImplicitSolvent` is the value of
`CpuImplicitSolvent::getCpuImplicitSolvent()`, `none` standing for `NULL`;
returns the status, the contents of `forces` and the statics. The arithmetic
of the two loops is exact here; `gromacsCpuCalculateGrycukForcesFloat` is the
same function with the machine operations, which ends in `exit( -1 )` and
returns the status 0 on the same conditions
(`gromacsCpuCalculateGrycukForcesFloat_ends`). -/
def gromacsCpuCalculateGrycukForces (cpuImplicitSolvent : Option CpuImplicitSolvent)
    (atomCoordinates : List rvec) (partialChargesIn : List ℚ) (forces : List rvec)
    (statics : GrycukStatics) : Call (Int × List rvec × GrycukStatics) :=
  let updateBornRadii : Int := 0
  match cpuImplicitSolvent with
  | none => Call.exits (-1)
  | some engine =>
    let numberOfAtoms := engine.numberOfAtoms
    Call.ofOption do
      let statics ← allocateGrycukStatics numberOfAtoms partialChargesIn statics
      let coordinates ← statics.coordinates
      let coordinates ← forEachAtom numberOfAtoms (convertCoordinates atomCoordinates) coordinates
      let partialCharges ← statics.partialCharges
      let localForces ← statics.localForces
      let localForces :=
        engine.computeImplicitSolventForces coordinates partialCharges localForces
          updateBornRadii
      let forces ← forEachAtom numberOfAtoms (addForces localForces) forces
      some (0, forces,
        { partialCharges := some partialCharges, coordinates := some coordinates,
          localForces := some localForces })

/-- The floating-point operations of `gromacsCpuCalculateGrycukForces`. The
types `real` (of the components of an `rvec`) and `RealOpenMM` are declared
outside these files, single or double precision each, so the results of the
operations on them are parameters: `convert x` is the value of
`(RealOpenMM) x` for a literal `x`; `scaleDistance d x` is the value of
`(RealOpenMM) (d*x)` for a `RealOpenMM` `d` and a `real` `x`; `scaleForce f l`
is the value of the product `(float) f*l` of a `float` `f` and a `RealOpenMM`
`l`; `accumulate a p` is the value a `real` that holds `a` has after
`a += p`. -/
structure FloatArithmetic where
  convert : ℚ → ℚ
  scaleDistance : ℚ → ℚ → ℚ
  scaleForce : ℚ → ℚ → ℚ
  accumulate : ℚ → ℚ → ℚ

/-- The body of the loop `// convert coordinates from nm -> Angstrom` with
the machine operations: `distanceScaleFactor = (RealOpenMM) 10.0` and
`coordinates[ii][k] = (RealOpenMM) (distanceScaleFactor*atomCoordinates[ii][k])`. -/
def convertCoordinatesFloat (arithmetic : FloatArithmetic) (atomCoordinates : List rvec)
    (ii : Nat) (row : rvec) : Option rvec :=
  (atomCoordinates[ii]?).map fun x =>
    let distanceScaleFactor : ℚ := arithmetic.convert 10.0
    let row := Function.update row 0 (arithmetic.scaleDistance distanceScaleFactor (x 0))
    let row := Function.update row 1 (arithmetic.scaleDistance distanceScaleFactor (x 1))
    Function.update row 2 (arithmetic.scaleDistance distanceScaleFactor (x 2))

/-- The body of the last loop of `gromacsCpuCalculateGrycukForces` with the
machine operations: `float forceScaleFactor = 0.4184f`, the single-precision
number next to 0.4184, which is `7019587/16777216` (`singlePrecision_0_4184`),
and
`forces[ii][k] += (float) forceScaleFactor*localForces[ii][k]`. -/
def addForcesFloat (arithmetic : FloatArithmetic) (localForces : List rvec) (ii : Nat)
    (row : rvec) : Option rvec :=
  (localForces[ii]?).map fun l =>
    let forceScaleFactor : ℚ := 7019587 / 16777216
    let row := Function.update row 0
      (arithmetic.accumulate (row 0) (arithmetic.scaleForce forceScaleFactor (l 0)))
    let row := Function.update row 1
      (arithmetic.accumulate (row 1) (arithmetic.scaleForce forceScaleFactor (l 1)))
    Function.update row 2
      (arithmetic.accumulate (row 2) (arithmetic.scaleForce forceScaleFactor (l 2)))

/-- The function `gromacsCpuCalculateGrycukForces( atomCoordinates,
partialChargesIn, forces )` with the machine operations: returns the status,
the contents of `forces` and the statics. The copy
`partialCharges[ii] = (RealOpenMM) partialChargesIn[ii]` converts a
`RealOpenMM` to its own type and changes no value. -/
def gromacsCpuCalculateGrycukForcesFloat (arithmetic : FloatArithmetic)
    (cpuImplicitSolvent : Option CpuImplicitSolvent)
    (atomCoordinates : List rvec) (partialChargesIn : List ℚ) (forces : List rvec)
    (statics : GrycukStatics) : Call (Int × List rvec × GrycukStatics) :=
  let updateBornRadii : Int := 0
  match cpuImplicitSolvent with
  | none => Call.exits (-1)
  | some engine =>
    let numberOfAtoms := engine.numberOfAtoms
    Call.ofOption do
      let statics ← allocateGrycukStatics numberOfAtoms partialChargesIn statics
      let coordinates ← statics.coordinates
      let coordinates ←
        forEachAtom numberOfAtoms (convertCoordinatesFloat arithmetic atomCoordinates)
          coordinates
      let partialCharges ← statics.partialCharges
      let localForces ← statics.localForces
      let localForces :=
        engine.computeImplicitSolventForces coordinates partialCharges localForces
          updateBornRadii
      let forces ← forEachAtom numberOfAtoms (addForcesFloat arithmetic localForces) forces
      some (0, forces,
        { partialCharges := some partialCharges, coordinates := some coordinates,
          localForces := some localForces })

/-- Single-precision arithmetic, `real` and `RealOpenMM` both `float`: every
operation gives the single-precision number next to the exact result. -/
def singlePrecisionArithmetic : FloatArithmetic where
  convert := singlePrecision
  scaleDistance := fun d x => singlePrecision (d * x)
  scaleForce := fun f l => singlePrecision (f * l)
  accumulate := fun a p => singlePrecision (a + p)

/-- The statics as the calls made with an engine of `numberOfAtoms` atoms
leave them: nothing allocated, or three arrays, `coordinates` and
`localForces` with at least `numberOfAtoms` rows. -/
def GrycukStatics.allocatedFor (numberOfAtoms : Int) (statics : GrycukStatics) : Prop :=
  (statics.partialCharges = none ∧ statics.coordinates = none ∧ statics.localForces = none) ∨
  ∃ partialCharges coordinates localForces,
    statics.partialCharges = some partialCharges ∧ statics.coordinates = some coordinates ∧
    statics.localForces = some localForces ∧
    numberOfAtoms ≤ coordinates.length ∧ numberOfAtoms ≤ localForces.length

/-! ## Atomic radii from the parameter file

`SimTKOpenMMUtilities::tokenizeString`, `readFileIntoStringVector` and the C
library function `atof` are defined outside these files and are parameters:
`tokenizeString line tokenVector delimiter 1` is the contents of
`tokenVector` after the call, `readFileIntoStringVector parameterFileName` is
the status and the contents of `fileContents` after the call. -/

/-- The type `StringRealOpenMMMap`. -/
abbrev StringRealOpenMMMap := String → Option ℚ

/-- Body of the loop over `fileContents` in `getMacroModelAtomicRadii`, on
`parameterMap` and `tokenVector`: the line is tokenized and, when the test
`tokenVector[0] != "#" && tokenVector[0] != "@" && tokenVector.size() >= 2`
holds, `parameterMap[tokenVector[0]]` becomes `atof( tokenVector[1] )`.
`none` stands for the read `tokenVector[0]` of an empty vector. -/
def parameterLineStep (tokenizeString : String → List String → String → Int → List String)
    (atof : String → ℚ) (state : StringRealOpenMMMap × List String) (line : String) :
    Option (StringRealOpenMMMap × List String) :=
  let delimiter := " "
  let tokenVector := tokenizeString line state.2 delimiter 1
  match tokenVector[0]? with
  | none => none
  | some token0 =>
    if token0 ≠ "#" ∧ token0 ≠ "@" ∧ tokenVector.length ≥ 2 then
      match tokenVector[1]? with
      | none => none
      | some token1 => some (mapAssign state.1 token0 (atof token1), tokenVector)
    else some (state.1, tokenVector)

/-- Body of the loop `// get radii` of `getMacroModelAtomicRadii` for atom
`ii`: the value assigned to `radii[ii]`. `none` stands for a read outside
`atomtype`, or outside `atomNames` for the message of the branch without
entry. -/
def radiusOfAtom (parameterMap : StringRealOpenMMMap) (top : t_topology) (scaleFactor : ℚ)
    (ii : Nat) : Option ℚ := do
  let atomType ← top.atoms.atomtype[ii]?
  match parameterMap atomType with
  | some entry => some (scaleFactor * entry)
  | none => do
    let _ ← top.atoms.atomname[ii]?
    some 0.000001

/-- The function `getMacroModelAtomicRadii( numberOfAtoms, fileContents, top,
radii, scaleFactor )` on a `StringVector` of lines and a `RealOpenMMVector`:
returns the status and the contents of `radii`. A `resize` to a negative
number of entries is not modelled. -/
def getMacroModelAtomicRadii (DefaultReturn : Int)
    (tokenizeString : String → List String → String → Int → List String)
    (atof : String → ℚ) (numberOfAtoms : Int) (fileContents : List String)
    (top : t_topology) (radii : List ℚ) (scaleFactor : ℚ) : Option (Int × List ℚ) := do
  let (parameterMap, _) ←
    fileContents.foldlM (parameterLineStep tokenizeString atof) (mapEmpty, [])
  if numberOfAtoms < 0 then none
  else
    let radii := resize radii numberOfAtoms.toNat 0
    let radii ←
      forEachAtom numberOfAtoms (fun ii _ => radiusOfAtom parameterMap top scaleFactor ii) radii
    some (DefaultReturn, radii)

/-- The function `getMacroModelAtomicRadii( numberOfAtoms, parameterFileName,
top, radii, scaleFactor )` on a file name and a `RealOpenMMVector`. -/
def getMacroModelAtomicRadiiOfFile (DefaultReturn ErrorReturn : Int)
    (readFileIntoStringVector : String → Int × List String)
    (tokenizeString : String → List String → String → Int → List String)
    (atof : String → ℚ) (numberOfAtoms : Int) (parameterFileName : String)
    (top : t_topology) (radii : List ℚ) (scaleFactor : ℚ) : Option (Int × List ℚ) :=
  let (returnStatus, fileContents) := readFileIntoStringVector parameterFileName
  if returnStatus ≠ DefaultReturn then some (ErrorReturn, radii)
  else
    getMacroModelAtomicRadii DefaultReturn tokenizeString atof numberOfAtoms fileContents top
      radii scaleFactor

/-- The function `getMacroModelAtomicRadii( numberOfAtoms, parameterFileName,
top, radii, scaleFactor )` on a file name and an array `RealOpenMM* radii`:
the vector `radiiV` is filled and copied entry by entry. `none` stands for a
read outside `radiiV` or a write outside `radii`. -/
def getMacroModelAtomicRadiiArray (DefaultReturn ErrorReturn : Int)
    (readFileIntoStringVector : String → Int × List String)
    (tokenizeString : String → List String → String → Int → List String)
    (atof : String → ℚ) (numberOfAtoms : Int) (parameterFileName : String)
    (top : t_topology) (radii : List ℚ) (scaleFactor : ℚ) : Option (Int × List ℚ) := do
  let (status, radiiV) ←
    getMacroModelAtomicRadiiOfFile DefaultReturn ErrorReturn readFileIntoStringVector
      tokenizeString atof numberOfAtoms parameterFileName top [] scaleFactor
  let radii ← forEachAtom numberOfAtoms (fun ii _ => radiiV[ii]?) radii
  some (status, radii)

/-- The accepted records of the parameter source as the specification words
them, on the token vectors of the lines: a record has at least two tokens and
a first token other than `#` and `@`. -/
abbrev acceptedRecord (tokens : List String) : Prop :=
  2 ≤ tokens.length ∧ tokens[0]? ≠ some "#" ∧ tokens[0]? ≠ some "@"

/-- The radius that the parsed lines give for an atom type: the second token,
read by `atof`, of the last accepted record whose first token is the atom
type; `none` when there is no such record. -/
def lastRecord (atof : String → ℚ) : List (List String) → String → Option ℚ
  | [], _ => none
  | tokens :: parsedLines, atomType =>
    match lastRecord atof parsedLines atomType with
    | some r => some r
    | none =>
      if acceptedRecord tokens ∧ tokens[0]? = some atomType then (tokens[1]?).map atof
      else none

/-- The token vectors of the lines of the parameter source: the contents of
`tokenVector` after each call of `tokenizeString`, the vector being empty
before the first call. -/
def tokenVectors (tokenizeString : String → List String → String → Int → List String) :
    List String → List String → List (List String)
  | [], _ => []
  | line :: fileContents, tokenVector =>
    let tokenVector := tokenizeString line tokenVector " " 1
    tokenVector :: tokenVectors tokenizeString fileContents tokenVector

/-! ## Setup of the Grycuk engine (`gromacsCpuGrycukInterface.cpp`) -/

/-- A value of the C type `float`: a finite number, an infinity or a NaN. -/
inductive FloatValue where
  | finite (value : ℚ)
  | positiveInfinity
  | negativeInfinity
  | notANumber
deriving DecidableEq

/-- The comparison `x < bound` of a `float` with a finite constant; it is
false when `x` is a NaN. -/
def FloatValue.lessThan (x : FloatValue) (bound : ℚ) : Bool :=
  match x with
  | FloatValue.finite value => decide (value < bound)
  | FloatValue.positiveInfinity => false
  | FloatValue.negativeInfinity => true
  | FloatValue.notANumber => false

/-- The comparison `x >= bound` of a `float` with a finite constant; it is
false when `x` is a NaN. -/
def FloatValue.atLeast (x : FloatValue) (bound : ℚ) : Bool :=
  match x with
  | FloatValue.finite value => decide (value ≥ bound)
  | FloatValue.positiveInfinity => true
  | FloatValue.negativeInfinity => false
  | FloatValue.notANumber => false

/-- The arguments of the call `cpuSetGrycukParameters( numberOfAtoms,
atomicRadii, grycukScaleFactors, includeAceApproximation, soluteDielectric,
solventDielectric, log )` that hands the parameters to the engine. -/
structure GrycukParameterArguments where
  numberOfAtoms : Int
  atomicRadii : List ℚ
  grycukScaleFactors : List ℚ
  includeAceApproximation : Int
  soluteDielectric : FloatValue
  solventDielectric : FloatValue

/-- The function `gromacsCpuInitialSetupGrycuk( top, log,
includeAceApproximation, soluteDielectric, solventDielectric )`: returns the
status and the arguments handed to `cpuSetGrycukParameters`, a function of
the engine defined outside these files, as is
`GrycukParameters::ParameterFileName`; `scaleFactor` is the default argument
of `getMacroModelAtomicRadii`, declared in a header outside these files.
`log` tells whether the pointer `log` is non-null: the first statement prints
to it. The two dielectric constants are `float` parameters; the constant
`1.0f` is the number 1 and `78.3f` is the single-precision number next to
78.3, `5131469/65536` (`singlePrecision_78_3`). `RealOpenMM` is the
conversion of
`getObcScaleFactorsRealOpenMM`. The calls `setOwnAtomicRadii` and
`setOwnScaleFactors` act on the engine only and are left out. -/
def gromacsCpuInitialSetupGrycuk (RealOpenMM : ℚ → ℚ) (DefaultReturn ErrorReturn : Int)
    (readFileIntoStringVector : String → Int × List String)
    (tokenizeString : String → List String → String → Int → List String)
    (atof : String → ℚ) (ParameterFileName : String) (scaleFactor : ℚ)
    (cpuSetGrycukParameters : GrycukParameterArguments → Int)
    (top : t_topology) (log : Bool) (includeAceApproximation : Int)
    (soluteDielectric solventDielectric : FloatValue) :
    Call (Int × GrycukParameterArguments) :=
  if log = false then Call.undefined
  else
    let soluteDielectric : FloatValue :=
      if soluteDielectric.lessThan 1.0 then FloatValue.finite 1.0 else soluteDielectric
    let solventDielectric : FloatValue :=
      if solventDielectric.lessThan 50.0 then FloatValue.finite (5131469 / 65536)
      else solventDielectric
    let numberOfAtoms : Int := top.atoms.nr
    let grycukScaleFactors := (getObcScaleFactorsRealOpenMM RealOpenMM DefaultReturn top []).2
    match getMacroModelAtomicRadiiArray DefaultReturn ErrorReturn readFileIntoStringVector
        tokenizeString atof numberOfAtoms ParameterFileName top
        (List.replicate numberOfAtoms.toNat 0) scaleFactor with
    | none => Call.undefined
    | some (returnStatus, atomicRadii) =>
      if returnStatus ≠ DefaultReturn then Call.exits (-1)
      else
        let arguments : GrycukParameterArguments :=
          { numberOfAtoms := numberOfAtoms, atomicRadii := atomicRadii,
            grycukScaleFactors := grycukScaleFactors,
            includeAceApproximation := includeAceApproximation,
            soluteDielectric := soluteDielectric, solventDielectric := solventDielectric }
        Call.returns (cpuSetGrycukParameters arguments, arguments)

/-! ## Copy of a coordinate array -/

/-- The function `copyRvecArrayToRealOpenMMArray( numberOfEntries,
gromacsArray, realArray, scaleFactor )`: returns the contents of the array
returned, `realArray` being `none` for a null pointer. The array allocated is
not initialised by the source; its entries are taken to be 0. `none` stands
for an access outside an array. -/
def copyRvecArrayToRealOpenMMArray (numberOfEntries : Int) (gromacsArray : List rvec)
    (realArray : Option (List rvec)) (scaleFactor : ℚ) : Option (List rvec) := do
  let realArray ←
    match realArray with
    | some realArray => some realArray
    | none =>
      if numberOfEntries < 0 then none
      else some (List.replicate numberOfEntries.toNat (fun _ => (0 : ℚ)))
  forEachAtom numberOfEntries
    (fun ii row =>
      (gromacsArray[ii]?).map fun x =>
        let row := Function.update row 0 (scaleFactor * x 0)
        let row := Function.update row 1 (scaleFactor * x 1)
        Function.update row 2 (scaleFactor * x 2))
    realArray

/-! ## The loop of the biotype scan, iteration by iteration -/

/-- The loop variables and output vectors of `getTinkerBiotypes` before the
first iteration of its loop. -/
def tinkerScanInitial (numberOfAtoms : Int) (tinkerAtomNames tinkerResidueNames : List String)
    (tinkerBiotypes : List Int) : TinkerScan :=
  { tinkerAtomNames := resize tinkerAtomNames numberOfAtoms.toNat "",
    tinkerResidueNames := resize tinkerResidueNames numberOfAtoms.toNat "",
    tinkerBiotypes := resize tinkerBiotypes numberOfAtoms.toNat 0 }

/-- The loop variables, the output vectors and the statics of
`getTinkerBiotypes` after the first `atoms` iterations of its loop. -/
def getTinkerBiotypesLoop (NotSet : String) (AmberForceField : Int) (numberOfAtoms : Int)
    (top : t_topology) (tinkerAtomNames tinkerResidueNames : List String)
    (tinkerBiotypes : List Int) (statics : Statics) (atoms : Nat) :
    Option (TinkerScan × Statics) :=
  (List.range atoms).foldlM (getTinkerBiotypesStep NotSet AmberForceField top)
    (tinkerScanInitial numberOfAtoms tinkerAtomNames tinkerResidueNames tinkerBiotypes, statics)

/-- Whether a key of the biotype dictionary holds an underscore followed by
one character and `W`: the shape of a key whose atom name has `W` as second
character. -/
def underscoreThenW : List Char → Bool
  | [] => false
  | a :: rest => (a == '_' && rest.getD 1 NUL == 'W') || underscoreThenW rest

/-! ### The cascade of `lookupBiotype`, rule by rule -/

/-- The rule `// if atom name ends with two digits -> remove last digit` of
`getBiotypeGivenResidueAtomNames`, as in `lookupBiotype`: the buffer
`localAtomName` and `lastChar` after the rule. -/
def twoDigitRule (localAtomName : List Char) (lastChar : Nat) : Option (List Char × Nat) := do
  let twoDigits ←
    if lastChar > 2 then
      match localAtomName[lastChar]? with
      | none => none
      | some c =>
        if c.isDigit then
          match localAtomName[lastChar - 1]? with
          | none => none
          | some d => some d.isDigit
        else some false
    else some false
  some (if twoDigits then (localAtomName.set lastChar NUL, lastChar - 1)
    else (localAtomName, lastChar))

/-- The part of `getBiotypeGivenResidueAtomNames` that follows the two-digit
rule, as in `lookupBiotype`: the rule for `H`, the rule for a second
character `W`, the second probe and the probe without a trailing digit. -/
def lookupModifiedName (nameMap : StringIntMap) (tinkerResidueName : String)
    (localAtomName : List Char) (lastChar : Nat) : Option Int := do
  let c0 ← localAtomName[0]?
  let localAtomName :=
    if c0 = 'H' ∧ lastChar = 0 ∧ tinkerResidueName ≠ "AMOEBA_Water" then
      bufferWrite (bufferWrite localAtomName 1 'N') 2 NUL
    else localAtomName
  let secondIsW ←
    if lastChar > 0 then
      match localAtomName[1]? with
      | none => none
      | some c => some (decide (c = 'W'))
    else some false
  let localAtomName := if secondIsW then bufferWrite localAtomName 2 NUL else localAtomName
  let modifiedAtomName := cString localAtomName
  let fullName := tinkerResidueName ++ "_" ++ modifiedAtomName
  match nameMap fullName with
  | some biotype => some biotype
  | none =>
    match localAtomName[lastChar]? with
    | none => none
    | some c =>
      if c.isDigit then
        let localAtomName := localAtomName.set lastChar NUL
        let modifiedAtomName := cString localAtomName
        let fullName := tinkerResidueName ++ "_" ++ modifiedAtomName
        match nameMap fullName with
        | some biotype => some biotype
        | none => some (-1)
      else some (-1)

/-- The rule for `H` and the rule for a second character `W` of
`getBiotypeGivenResidueAtomNames`, as in `lookupModifiedName`: the buffer
`localAtomName` from which `modifiedAtomName` is built. -/
def modifiedBuffer (tinkerResidueName : String) (localAtomName : List Char)
    (lastChar : Nat) : Option (List Char) := do
  let c0 ← localAtomName[0]?
  let localAtomName :=
    if c0 = 'H' ∧ lastChar = 0 ∧ tinkerResidueName ≠ "AMOEBA_Water" then
      bufferWrite (bufferWrite localAtomName 1 'N') 2 NUL
    else localAtomName
  let secondIsW ←
    if lastChar > 0 then
      match localAtomName[1]? with
      | none => none
      | some c => some (decide (c = 'W'))
    else some false
  some (if secondIsW then bufferWrite localAtomName 2 NUL else localAtomName)

/-- The second probe of `getBiotypeGivenResidueAtomNames` and its probe
without a trailing digit, as in `lookupModifiedName`, on the buffer the rules
have left. -/
def lastProbes (nameMap : StringIntMap) (tinkerResidueName : String)
    (localAtomName : List Char) (lastChar : Nat) : Option Int :=
  match nameMap (tinkerResidueName ++ "_" ++ cString localAtomName) with
  | some biotype => some biotype
  | none =>
    match localAtomName[lastChar]? with
    | none => none
    | some c =>
      if c.isDigit then
        match nameMap (tinkerResidueName ++ "_" ++ cString (localAtomName.set lastChar NUL)) with
        | some biotype => some biotype
        | none => some (-1)
      else some (-1)

/-- The string `modifiedAtomName` of the second probe of
`getBiotypeGivenResidueAtomNames`, reached when the direct probe misses. -/
def modifiedAtomName (tinkerResidueName tinkerAtomName : String) : Option String :=
  (twoDigitRule (tinkerAtomName.data ++ [NUL])
    ((tinkerAtomName.length + 4294967296 - 1) % 4294967296)).bind
    fun p => (modifiedBuffer tinkerResidueName p.1 p.2).map cString

/-! ## The residue pointer of the biotype scan -/

/-- The six tests of the `if / else if` chains of `getAtomicNumbers` and
`getObcScaleFactors`, in the order of the source, each with the element and
the scale factor of its branch; `RealOpenMM` is the conversion of
`elementOfRealOpenMM`. -/
def massRanges (RealOpenMM : ℚ → ℚ) : List ((ℚ → Bool) × Int × ℚ) :=
  [ (fun mass => decide (mass < RealOpenMM 1.2 ∧ mass ≥ RealOpenMM 1.0), 1, RealOpenMM 0.85),
    (fun mass => decide (mass > RealOpenMM 11.8 ∧ mass < RealOpenMM 12.2), 6, RealOpenMM 0.72),
    (fun mass => decide (mass > RealOpenMM 14.0 ∧ mass < RealOpenMM 15.0), 7, RealOpenMM 0.79),
    (fun mass => decide (mass > RealOpenMM 15.5 ∧ mass < RealOpenMM 16.5), 8, RealOpenMM 0.85),
    (fun mass => decide (mass > RealOpenMM 31.5 ∧ mass < RealOpenMM 32.5), 16,
      RealOpenMM 0.96),
    (fun mass => decide (mass > RealOpenMM 29.5 ∧ mass < RealOpenMM 30.5), 15,
      RealOpenMM 0.86) ]

/-- An `if / else if` chain over a list of tests taken in the order of the
list: the values of the first test that holds, and the initial values
`element = 0`, `scaleFactor = (RealOpenMM) 0.8` when none holds. -/
def classifyByRanges (RealOpenMM : ℚ → ℚ) (ranges : List ((ℚ → Bool) × Int × ℚ))
    (mass : ℚ) : Int × ℚ :=
  match ranges.find? (fun range => range.1 mass) with
  | some range => range.2
  | none => (0, RealOpenMM 0.8)

/-! ## Names and residue numbers of the atoms -/

/-- The loop variables of `getAtomResidueNames` and its three output
vectors. `firstAtomName` is `none` while the pointer is null. -/
structure AtomResidueScan where
  residueI : Int := 0
  firstAtomName : Option String := none
  residueName : String := ""
  residueNamesVector : List String := []
  residueIndicesVector : List Int := []
  atomNamesVector : List String := []
deriving DecidableEq, Repr

/-- First part of the loop body of `getAtomResidueNames`: the residue
boundary test. `none` stands for a read outside `residueNames`. -/
def atomResidueBoundary (top : t_topology) (scan : AtomResidueScan) (atomName : String) :
    Option AtomResidueScan :=
  match scan.firstAtomName with
  | none => do
    let residueName ← readAt top.atoms.resname scan.residueI
    some { scan with firstAtomName := some atomName, residueName := residueName }
  | some firstAtomName =>
    if atomName = firstAtomName then do
      let residueI := scan.residueI + 1
      let residueName ← readAt top.atoms.resname residueI
      some { scan with residueI := residueI, residueName := residueName }
    else some scan

/-- Loop body of `getAtomResidueNames` for atom `atomI`: the boundary test
and the three `push_back`. -/
def getAtomResidueNamesStep (top : t_topology) (scan : AtomResidueScan) (atomI : Nat) :
    Option AtomResidueScan := do
  let atomName ← top.atoms.atomname[atomI]?
  let scan ← atomResidueBoundary top scan atomName
  some { scan with
    atomNamesVector := scan.atomNamesVector ++ [atomName],
    residueNamesVector := scan.residueNamesVector ++ [scan.residueName],
    residueIndicesVector := scan.residueIndicesVector ++ [scan.residueI + 1] }

/-- The function `getAtomResidueNames( top, residueNamesVector,
residueIndicesVector, atomNamesVector )`: the status and the contents left
in the three vectors, in the order of the parameters. The vectors are resized
to `top->atoms.nr` entries and the loop then appends to them. -/
def getAtomResidueNames (DefaultReturn : Int) (top : t_topology)
    (residueNamesVector : List String) (residueIndicesVector : List Int)
    (atomNamesVector : List String) : Option (Int × List String × List Int × List String) :=
  let numberOfAtoms := top.atoms.nr
  ((List.range numberOfAtoms).foldlM (getAtomResidueNamesStep top)
    { residueNamesVector := resize residueNamesVector numberOfAtoms "",
      residueIndicesVector := resize residueIndicesVector numberOfAtoms 0,
      atomNamesVector := resize atomNamesVector numberOfAtoms "" }).map
    fun scan => (DefaultReturn, scan.residueNamesVector, scan.residueIndicesVector,
      scan.atomNamesVector)

/-! ## Coordinates read from an xyz file -/

/-- The loop `while( ii != tokens.end() && coordinateCount++ < 3 )` of
`readXyzFile`, on the tokens from `ii` on: the assignments it makes to
`atomCoordinates[atomCount]`, each as the component index and the value. The
test increments `coordinateCount`, and the index expression
`coordinateCount++` of the body increments it again. -/
def coordinateLoop (atof : String → ℚ) : List String → Int → List (Int × ℚ)
  | [], _ => []
  | token :: tokens, coordinateCount =>
    if coordinateCount < 3 then
      (coordinateCount + 1, 0.1 * atof token) ::
        coordinateLoop atof tokens (coordinateCount + 1 + 1)
    else []

/-- The assignment `row[component] = value` to an `rvec`, which has the
components 0, 1 and 2; `none` stands for any other index. -/
def writeComponent (row : rvec) (component : Int) (value : ℚ) : Option rvec :=
  if component = 0 then some (Function.update row 0 value)
  else if component = 1 then some (Function.update row 1 value)
  else if component = 2 then some (Function.update row 2 value)
  else none

/-- The assignments of `coordinateLoop` made to `atomCoordinates[atomCount]`,
in their order. -/
def storeCoordinates (atomCoordinates : List rvec) (atomCount : Int)
    (writes : List (Int × ℚ)) : Option (List rvec) := do
  let row ← readAt atomCoordinates atomCount
  let row ← writes.foldlM (fun row write => writeComponent row write.1 write.2) row
  some (atomCoordinates.set atomCount.toNat row)

/-- The loop `while( atomCount < numberOfAtoms && fgets( ... ) )` of
`readXyzFile` and the statements after it, on the lines `fgets` still
returns. The last character of a line is overwritten by the terminator;
`tokenizeString` is the helper of `SimTKOpenMMUtilities`, called with an
empty `tokens`. `none` stands for an access outside an array. -/
def readXyzAtomLines (DefaultReturn ErrorReturn : Int)
    (tokenizeString : String → List String → List String) (atof : String → ℚ)
    (numberOfAtoms : Int) : List String → Int → List rvec → Option (Int × List rvec)
  | [], atomCount, atomCoordinates =>
    some (if atomCount ≠ numberOfAtoms then ErrorReturn else DefaultReturn, atomCoordinates)
  | line :: lines, atomCount, atomCoordinates =>
    if atomCount < numberOfAtoms then
      if line = "" then none
      else
        let buffer := String.mk line.data.dropLast
        let tokens := tokenizeString buffer []
        if tokens.length < 5 then some (ErrorReturn, atomCoordinates)
        else
          match storeCoordinates atomCoordinates atomCount
              (coordinateLoop atof (tokens.drop 2) 0) with
          | none => none
          | some atomCoordinates =>
            readXyzAtomLines DefaultReturn ErrorReturn tokenizeString atof numberOfAtoms lines
              (atomCount + 1) atomCoordinates
    else
      some (if atomCount ≠ numberOfAtoms then ErrorReturn else DefaultReturn, atomCoordinates)

/-- The function `readXyzFile( numberOfAtoms, atomCoordinates, top,
xyzFileName )`: the status and the contents left in `atomCoordinates`. The
file opened is `example.xyz`, whatever `xyzFileName` is; `xyzFile` holds its
lines as `fgets` returns them, `none` when it cannot be opened. The first
line is skipped; `top` is not read. -/
def readXyzFile (DefaultReturn ErrorReturn : Int)
    (tokenizeString : String → List String → List String) (atof : String → ℚ)
    (numberOfAtoms : Int) (atomCoordinates : List rvec) (xyzFile : Option (List String)) :
    Option (Int × List rvec) :=
  match xyzFile with
  | none => some (ErrorReturn, atomCoordinates)
  | some lines =>
    readXyzAtomLines DefaultReturn ErrorReturn tokenizeString atof numberOfAtoms
      (lines.drop 1) 0 atomCoordinates

/-! ### The cascade in closed form -/

/-- The test of the two-digit rule of `getBiotypeGivenResidueAtomNames` on a
name: `lastChar > 2`, `lastChar` being the length minus 1, and digits as the
last two characters. -/
def endsWithTwoDigits (name : List Char) : Bool :=
  decide (name.length - 1 > 2) && (name.getD (name.length - 1) NUL).isDigit &&
    (name.getD (name.length - 1 - 1) NUL).isDigit

/-- The name left by the two-digit rule. -/
def afterTwoDigitRule (name : List Char) : List Char :=
  if endsWithTwoDigits name then name.dropLast else name

/-- Closed form of `modifiedAtomName` for a name without terminator: the name
left by the two-digit rule, `HN` for the single letter `H` outside
`AMOEBA_Water`, the first two characters when the second is `W`. It is
compared with the source in `modifiedAtomName_eq`. -/
def cascadeName (tinkerResidueName : String) (name : List Char) : List Char :=
  if afterTwoDigitRule name = ['H'] ∧ tinkerResidueName ≠ "AMOEBA_Water" then ['H', 'N']
  else if (afterTwoDigitRule name).getD 1 NUL = 'W' then (afterTwoDigitRule name).take 2
  else afterTwoDigitRule name

/-- Closed form of the value of `getBiotypeGivenResidueAtomNames` after a
miss of the direct probe, for a name without terminator: the value of the key
of `cascadeName`, else of that name without its last character when the rules
for `H` and `W` have not applied and it is a digit, else -1. It is compared
with the source in `lookupBiotype_eq_cascade`. -/
def cascadeAfterMiss (nameMap : StringIntMap) (tinkerResidueName : String)
    (name : List Char) : Int :=
  if afterTwoDigitRule name = ['H'] ∧ tinkerResidueName ≠ "AMOEBA_Water" then
    (nameMap (tinkerResidueName ++ "_" ++ "HN")).getD (-1)
  else if (afterTwoDigitRule name).getD 1 NUL = 'W' then
    (nameMap (tinkerResidueName ++ "_" ++ String.mk ((afterTwoDigitRule name).take 2))).getD (-1)
  else
    match nameMap (tinkerResidueName ++ "_" ++ String.mk (afterTwoDigitRule name)) with
    | some biotype => biotype
    | none =>
      if ((afterTwoDigitRule name).getD ((afterTwoDigitRule name).length - 1) NUL).isDigit then
        (nameMap (tinkerResidueName ++ "_" ++
          String.mk (afterTwoDigitRule name).dropLast)).getD (-1)
      else -1

/-! ## Vector primitives: lemmas -/

theorem length_resize {α : Type} (v : List α) (n : Nat) (c : α) :
    (resize v n c).length = n := by
  simp [resize]; omega

theorem getD_resize (v : IntSetVector) (n k : Nat) :
    (resize v n ∅).getD k ∅ = if k < n then v.getD k ∅ else ∅ := by
  unfold resize
  simp only [List.getD_eq_getElem?_getD]
  by_cases hk : k < n
  · simp only [hk, if_true]
    by_cases hv : k < v.length
    · rw [List.getElem?_append_left (by simp; omega)]
      simp [List.getElem?_take, hk]
    · rw [List.getElem?_append_right (by simp; omega)]
      have : v[k]? = none := by simp; omega
      simp [this, List.getElem?_replicate]
      split_ifs <;> simp
  · simp only [hk, if_false]
    have : (List.take n v ++ List.replicate (n - v.length) ∅)[k]? = none := by
      simp; omega
    simp [this]

theorem length_insertAt (v : IntSetVector) (i x : Int) :
    (insertAt v i x).length = v.length := by
  simp [insertAt]

theorem getD_insertAt (v : IntSetVector) (i x : Int) (k : Nat) (h : i.toNat < v.length) :
    (insertAt v i x).getD k ∅ = if k = i.toNat then insert x (v.getD k ∅) else v.getD k ∅ := by
  unfold insertAt
  simp only [List.getD_eq_getElem?_getD, List.getElem?_set]
  by_cases hk : i.toNat = k
  · subst hk; simp [h]
  · have : ¬ k = i.toNat := fun h => hk h.symm
    simp [hk, this]


theorem adj_resize (v : IntSetVector) (n : Nat) (i : Int) :
    adj (resize v n ∅) i = if i < n then adj v i else ∅ := by
  unfold adj
  by_cases hi : 0 ≤ i
  · simp only [hi, if_true, getD_resize]
    have : i.toNat < n ↔ i < n := by omega
    simp only [this]
  · simp [hi]

theorem mem_adj_insertAt (v : IntSetVector) (a x i j : Int) (ha : 0 ≤ a)
    (hlt : a.toNat < v.length) :
    j ∈ adj (insertAt v a x) i ↔ j ∈ adj v i ∨ (i = a ∧ j = x) := by
  unfold adj
  by_cases hi : 0 ≤ i
  · simp only [hi, if_true, getD_insertAt v a x _ hlt]
    have : i.toNat = a.toNat ↔ i = a := by omega
    by_cases hia : i = a
    · subst hia; simp [Finset.mem_insert]; tauto
    · have h2 : ¬ i.toNat = a.toNat := fun h => hia (this.mp h)
      simp [h2, hia]
  · have : i ≠ a := by omega
    simp [hi, this]

theorem bondStep_fst (maxAtoms : Int) (st : IntSetVector × Int) (r : BondRecord) :
    (bondStep maxAtoms st r).1 =
      if inRange maxAtoms r.atomI ∧ inRange maxAtoms r.atomJ then
        insertAt (insertAt st.1 r.atomI r.atomJ) r.atomJ r.atomI
      else st.1 := by
  unfold bondStep inRange
  by_cases hI : r.atomI ≥ maxAtoms ∨ r.atomI < 0 <;>
    by_cases hJ : r.atomJ ≥ maxAtoms ∨ r.atomJ < 0 <;>
    simp only [hI, hJ, if_true, if_false] <;> split_ifs <;> first | rfl | omega

theorem bondStep_snd (maxAtoms : Int) (st : IntSetVector × Int) (r : BondRecord) :
    (bondStep maxAtoms st r).2 = st.2 + badIndices maxAtoms r := by
  unfold bondStep badIndices inRange
  by_cases hI : r.atomI ≥ maxAtoms ∨ r.atomI < 0 <;>
    by_cases hJ : r.atomJ ≥ maxAtoms ∨ r.atomJ < 0 <;>
    simp only [hI, hJ, if_true, if_false] <;> split_ifs <;> omega


theorem length_bondStep (maxAtoms : Int) (st : IntSetVector × Int) (r : BondRecord) :
    (bondStep maxAtoms st r).1.length = st.1.length := by
  rw [bondStep_fst]; split_ifs <;> simp [length_insertAt]

theorem mem_adj_bondStep (maxAtoms : Int) (st : IntSetVector × Int) (r : BondRecord)
    (hlen : st.1.length = (maxAtoms + 1).toNat) (i j : Int) :
    j ∈ adj (bondStep maxAtoms st r).1 i ↔ j ∈ adj st.1 i ∨ bondEdge maxAtoms [r] i j := by
  rw [bondStep_fst]
  unfold bondEdge
  by_cases h : inRange maxAtoms r.atomI ∧ inRange maxAtoms r.atomJ
  · rw [if_pos h]
    obtain ⟨⟨hI0, hI1⟩, hJ0, hJ1⟩ := h
    have hI : r.atomI.toNat < st.1.length := by omega
    have hJ : r.atomJ.toNat < (insertAt st.1 r.atomI r.atomJ).length := by
      rw [length_insertAt]; omega
    rw [mem_adj_insertAt _ _ _ _ _ hJ0 hJ, mem_adj_insertAt _ _ _ _ _ hI0 hI]
    simp only [List.mem_singleton, exists_eq_left, inRange]
    constructor
    · rintro ((h | ⟨h1, h2⟩) | ⟨h1, h2⟩)
      · exact Or.inl h
      · exact Or.inr ⟨⟨⟨hI0, hI1⟩, hJ0, hJ1⟩, Or.inl ⟨h1.symm, h2.symm⟩⟩
      · exact Or.inr ⟨⟨⟨hI0, hI1⟩, hJ0, hJ1⟩, Or.inr ⟨h2.symm, h1.symm⟩⟩
    · rintro (h | ⟨_, (⟨h1, h2⟩ | ⟨h1, h2⟩)⟩)
      · exact Or.inl (Or.inl h)
      · exact Or.inl (Or.inr ⟨h1.symm, h2.symm⟩)
      · exact Or.inr ⟨h2.symm, h1.symm⟩
  · rw [if_neg h]
    simp only [List.mem_singleton, exists_eq_left, h, false_and, or_false]

theorem bondEdge_cons (maxAtoms : Int) (r : BondRecord) (rs : List BondRecord) (i j : Int) :
    bondEdge maxAtoms (r :: rs) i j ↔ bondEdge maxAtoms [r] i j ∨ bondEdge maxAtoms rs i j := by
  simp [bondEdge]

theorem bondEdge_append (maxAtoms : Int) (rs ss : List BondRecord) (i j : Int) :
    bondEdge maxAtoms (rs ++ ss) i j ↔ bondEdge maxAtoms rs i j ∨ bondEdge maxAtoms ss i j := by
  simp only [bondEdge, List.mem_append]
  constructor
  · rintro ⟨r, (h | h), h2⟩
    · exact Or.inl ⟨r, h, h2⟩
    · exact Or.inr ⟨r, h, h2⟩
  · rintro (⟨r, h, h2⟩ | ⟨r, h, h2⟩)
    · exact ⟨r, Or.inl h, h2⟩
    · exact ⟨r, Or.inr h, h2⟩

theorem length_foldl_bondStep (maxAtoms : Int) (rs : List BondRecord) (st : IntSetVector × Int) :
    (rs.foldl (bondStep maxAtoms) st).1.length = st.1.length := by
  induction rs generalizing st with
  | nil => rfl
  | cons r rs ih => rw [List.foldl_cons, ih, length_bondStep]

theorem snd_foldl_bondStep (maxAtoms : Int) (rs : List BondRecord) (st : IntSetVector × Int) :
    (rs.foldl (bondStep maxAtoms) st).2 = st.2 + (rs.map (badIndices maxAtoms)).sum := by
  induction rs generalizing st with
  | nil => simp
  | cons r rs ih => rw [List.foldl_cons, ih, bondStep_snd]; simp; ring

theorem mem_adj_foldl_bondStep (maxAtoms : Int) (rs : List BondRecord)
    (st : IntSetVector × Int) (hlen : st.1.length = (maxAtoms + 1).toNat) (i j : Int) :
    j ∈ adj (rs.foldl (bondStep maxAtoms) st).1 i ↔
      j ∈ adj st.1 i ∨ bondEdge maxAtoms rs i j := by
  induction rs generalizing st with
  | nil => simp [bondEdge]
  | cons r rs ih =>
    rw [List.foldl_cons, ih _ (by rw [length_bondStep]; exact hlen),
      mem_adj_bondStep _ _ _ hlen, bondEdge_cons maxAtoms r rs, or_assoc]


theorem settleStep_fst (maxAtoms : Int) (st : IntSetVector × Int) (r : SettleRecord) :
    (settleStep maxAtoms st r).1 =
      if settleOk maxAtoms r then
        insertAt (insertAt (insertAt (insertAt st.1 r.atomI (r.atomI + 1)) (r.atomI + 1) r.atomI)
          r.atomI (r.atomI + 2)) (r.atomI + 2) r.atomI
      else st.1 := by
  unfold settleStep settleOk
  by_cases hI : (r.atomI + 2) ≥ maxAtoms ∨ r.atomI < 0 <;>
    simp only [hI, if_true, if_false] <;> split_ifs <;> first | rfl | omega

theorem settleStep_snd (maxAtoms : Int) (st : IntSetVector × Int) (r : SettleRecord) :
    (settleStep maxAtoms st r).2 = st.2 + settleErrors maxAtoms r := by
  unfold settleStep settleErrors settleOk
  by_cases hI : (r.atomI + 2) ≥ maxAtoms ∨ r.atomI < 0 <;>
    simp only [hI, if_true, if_false] <;> split_ifs <;> omega

theorem length_settleStep (maxAtoms : Int) (st : IntSetVector × Int) (r : SettleRecord) :
    (settleStep maxAtoms st r).1.length = st.1.length := by
  rw [settleStep_fst]; split_ifs <;> simp [length_insertAt]

theorem mem_adj_settleStep (maxAtoms : Int) (st : IntSetVector × Int) (r : SettleRecord)
    (hlen : st.1.length = (maxAtoms + 1).toNat) (i j : Int) :
    j ∈ adj (settleStep maxAtoms st r).1 i ↔
      j ∈ adj st.1 i ∨ settleEdge maxAtoms [r] i j := by
  rw [settleStep_fst]
  unfold settleEdge
  by_cases h : settleOk maxAtoms r
  · rw [if_pos h]
    have h0 : 0 ≤ r.atomI := h.1
    have h2 : r.atomI + 2 < maxAtoms := h.2
    rw [mem_adj_insertAt _ _ _ _ _ (by omega) (by simp only [length_insertAt]; omega),
      mem_adj_insertAt _ _ _ _ _ (by omega) (by simp only [length_insertAt]; omega),
      mem_adj_insertAt _ _ _ _ _ (by omega) (by simp only [length_insertAt]; omega),
      mem_adj_insertAt _ _ _ _ _ (by omega) (by omega)]
    simp only [List.mem_singleton, exists_eq_left, h, true_and]
    tauto
  · rw [if_neg h]
    simp only [List.mem_singleton, exists_eq_left, h, false_and, or_false]

theorem settleEdge_cons (maxAtoms : Int) (r : SettleRecord) (rs : List SettleRecord)
    (i j : Int) :
    settleEdge maxAtoms (r :: rs) i j ↔
      settleEdge maxAtoms [r] i j ∨ settleEdge maxAtoms rs i j := by
  simp [settleEdge]

theorem settleEdge_append (maxAtoms : Int) (rs ss : List SettleRecord) (i j : Int) :
    settleEdge maxAtoms (rs ++ ss) i j ↔
      settleEdge maxAtoms rs i j ∨ settleEdge maxAtoms ss i j := by
  simp only [settleEdge, List.mem_append]
  constructor
  · rintro ⟨r, (h | h), h2⟩
    · exact Or.inl ⟨r, h, h2⟩
    · exact Or.inr ⟨r, h, h2⟩
  · rintro (⟨r, h, h2⟩ | ⟨r, h, h2⟩)
    · exact ⟨r, Or.inl h, h2⟩
    · exact ⟨r, Or.inr h, h2⟩

theorem length_foldl_settleStep (maxAtoms : Int) (rs : List SettleRecord)
    (st : IntSetVector × Int) :
    (rs.foldl (settleStep maxAtoms) st).1.length = st.1.length := by
  induction rs generalizing st with
  | nil => rfl
  | cons r rs ih => rw [List.foldl_cons, ih, length_settleStep]

theorem snd_foldl_settleStep (maxAtoms : Int) (rs : List SettleRecord)
    (st : IntSetVector × Int) :
    (rs.foldl (settleStep maxAtoms) st).2 = st.2 + (rs.map (settleErrors maxAtoms)).sum := by
  induction rs generalizing st with
  | nil => simp
  | cons r rs ih => rw [List.foldl_cons, ih, settleStep_snd]; simp; ring

theorem mem_adj_foldl_settleStep (maxAtoms : Int) (rs : List SettleRecord)
    (st : IntSetVector × Int) (hlen : st.1.length = (maxAtoms + 1).toNat) (i j : Int) :
    j ∈ adj (rs.foldl (settleStep maxAtoms) st).1 i ↔
      j ∈ adj st.1 i ∨ settleEdge maxAtoms rs i j := by
  induction rs generalizing st with
  | nil => simp [settleEdge]
  | cons r rs ih =>
    rw [List.foldl_cons, ih _ (by rw [length_settleStep]; exact hlen),
      mem_adj_settleStep _ _ _ hlen, settleEdge_cons maxAtoms r rs, or_assoc]

theorem resize_length_self {α : Type} (v : List α) (c : α) : resize v v.length c = v := by
  simp [resize]

/-! ### Characterisation of the two builders -/

theorem length_getSettleCovalentBondIndices (maxAtoms : Int) (cb : IntSetVector)
    (top : t_topology) :
    (getSettleCovalentBondIndices maxAtoms cb top).2.length = (maxAtoms + 1).toNat := by
  simp [getSettleCovalentBondIndices, length_foldl_settleStep, length_resize]

theorem fst_getSettleCovalentBondIndices (maxAtoms : Int) (cb : IntSetVector)
    (top : t_topology) :
    (getSettleCovalentBondIndices maxAtoms cb top).1 =
      (top.idef.F_SETTLE.map (settleErrors maxAtoms)).sum := by
  simp [getSettleCovalentBondIndices, snd_foldl_settleStep]

theorem mem_adj_getSettleCovalentBondIndices (maxAtoms : Int) (cb : IntSetVector)
    (top : t_topology) (i j : Int) :
    j ∈ adj (getSettleCovalentBondIndices maxAtoms cb top).2 i ↔
      j ∈ adj (resize cb (maxAtoms + 1).toNat ∅) i ∨
        settleEdge maxAtoms top.idef.F_SETTLE i j := by
  simp only [getSettleCovalentBondIndices]
  rw [mem_adj_foldl_settleStep _ _ _ (length_resize _ _ _)]

theorem length_getCovalentBondIndices (maxAtoms : Int) (cb : IntSetVector)
    (top : t_topology) :
    (getCovalentBondIndices maxAtoms cb top).2.length = (maxAtoms + 1).toNat := by
  simp only [getCovalentBondIndices, length_getSettleCovalentBondIndices]

theorem fst_getCovalentBondIndices (maxAtoms : Int) (cb : IntSetVector)
    (top : t_topology) :
    (getCovalentBondIndices maxAtoms cb top).1 =
      ((top.idef.F_BONDS ++ top.idef.F_SHAKE).map (badIndices maxAtoms)).sum +
        (top.idef.F_SETTLE.map (settleErrors maxAtoms)).sum := by
  simp only [getCovalentBondIndices, fst_getSettleCovalentBondIndices, List.foldl_cons,
    List.foldl_nil, snd_foldl_bondStep, List.map_append, List.sum_append]
  ring

theorem mem_adj_getCovalentBondIndices (maxAtoms : Int) (cb : IntSetVector)
    (top : t_topology) (i j : Int) :
    j ∈ adj (getCovalentBondIndices maxAtoms cb top).2 i ↔
      j ∈ adj (resize cb (maxAtoms + 1).toNat ∅) i ∨
        bondEdge maxAtoms (top.idef.F_BONDS ++ top.idef.F_SHAKE) i j ∨
        settleEdge maxAtoms top.idef.F_SETTLE i j := by
  simp only [getCovalentBondIndices, List.foldl_cons, List.foldl_nil]
  have hlen1 : ((top.idef.F_BONDS.foldl (bondStep maxAtoms)
      (resize cb (maxAtoms + 1).toNat ∅, 0)).1).length = (maxAtoms + 1).toNat := by
    rw [length_foldl_bondStep]; exact length_resize _ _ _
  have hlen2 : ((top.idef.F_SHAKE.foldl (bondStep maxAtoms)
      (top.idef.F_BONDS.foldl (bondStep maxAtoms)
        (resize cb (maxAtoms + 1).toNat ∅, 0))).1).length = (maxAtoms + 1).toNat := by
    rw [length_foldl_bondStep]; exact hlen1
  rw [mem_adj_getSettleCovalentBondIndices]
  have hres := resize_length_self ((top.idef.F_SHAKE.foldl (bondStep maxAtoms)
      (top.idef.F_BONDS.foldl (bondStep maxAtoms) (resize cb (maxAtoms + 1).toNat ∅, 0))).1) ∅
  rw [hlen2] at hres
  rw [hres, mem_adj_foldl_bondStep _ _ _ hlen1, mem_adj_foldl_bondStep _ _ _ (length_resize _ _ _),
    bondEdge_append]
  tauto

/-! ### Edges: symmetry and range -/

theorem bondEdge_symm (maxAtoms : Int) (rs : List BondRecord) (i j : Int) :
    bondEdge maxAtoms rs i j ↔ bondEdge maxAtoms rs j i := by
  unfold bondEdge
  constructor <;>
  · rintro ⟨r, hr, hv, h⟩
    exact ⟨r, hr, hv, h.symm⟩

theorem settleEdge_symm (maxAtoms : Int) (rs : List SettleRecord) (i j : Int) :
    settleEdge maxAtoms rs i j ↔ settleEdge maxAtoms rs j i := by
  unfold settleEdge
  constructor <;>
  · rintro ⟨r, hr, hv, h⟩
    exact ⟨r, hr, hv, by tauto⟩

theorem bondEdge_inRange (maxAtoms : Int) (rs : List BondRecord) (i j : Int)
    (h : bondEdge maxAtoms rs i j) : inRange maxAtoms i ∧ inRange maxAtoms j := by
  obtain ⟨r, _, ⟨hI, hJ⟩, (⟨h1, h2⟩ | ⟨h1, h2⟩)⟩ := h
  · rw [← h1, ← h2]; exact ⟨hI, hJ⟩
  · rw [← h1, ← h2]; exact ⟨hJ, hI⟩

theorem settleEdge_inRange (maxAtoms : Int) (rs : List SettleRecord) (i j : Int)
    (h : settleEdge maxAtoms rs i j) : inRange maxAtoms i ∧ inRange maxAtoms j := by
  obtain ⟨r, _, ⟨h0, h2⟩, h⟩ := h
  unfold inRange
  omega

theorem adj_nil (i : Int) : adj [] i = ∅ := by
  unfold adj; split_ifs <;> simp

theorem adj_resize_nil (n : Nat) (i : Int) : adj (resize [] n ∅) i = ∅ := by
  rw [adj_resize, adj_nil]; simp

theorem eq_of_adj_eq (v w : IntSetVector) (hlen : v.length = w.length)
    (h : ∀ i : Int, adj v i = adj w i) : v = w := by
  apply List.ext_getElem hlen
  intro n h1 h2
  have hn := h (n : Int)
  unfold adj at hn
  simpa [List.getD_eq_getElem?_getD, h1, h2] using hn

/-! ## The bond graph is symmetric -/

/-- C1. For every topology and every `maxAtoms >= 0`, when
`getCovalentBondIndices` is called on an adjacency vector that is empty, or
already symmetric, the adjacency on return is symmetric: for all indices `i`
and `j` of the returned vector, `j` is in `covalentBonds[i]` if and only if `i`
is in `covalentBonds[j]`. Started from the empty vector the equivalence holds
for all integers `i` and `j`. -/
theorem getCovalentBondIndices_symmetric (maxAtoms : Int) (covalentBonds : IntSetVector)
    (top : t_topology) (hmax : 0 ≤ maxAtoms)
    (hsym : covalentBonds = [] ∨
      ∀ i j : Int, 0 ≤ i ∧ i ≤ maxAtoms → 0 ≤ j ∧ j ≤ maxAtoms →
        (j ∈ adj covalentBonds i ↔ i ∈ adj covalentBonds j)) :
    (∀ i j : Int, 0 ≤ i ∧ i ≤ maxAtoms → 0 ≤ j ∧ j ≤ maxAtoms →
      (j ∈ adj (getCovalentBondIndices maxAtoms covalentBonds top).2 i ↔
        i ∈ adj (getCovalentBondIndices maxAtoms covalentBonds top).2 j)) ∧
    (covalentBonds = [] → ∀ i j : Int,
      (j ∈ adj (getCovalentBondIndices maxAtoms covalentBonds top).2 i ↔
        i ∈ adj (getCovalentBondIndices maxAtoms covalentBonds top).2 j)) := by
  have hedges : ∀ i j : Int,
      (bondEdge maxAtoms (top.idef.F_BONDS ++ top.idef.F_SHAKE) i j ∨
        settleEdge maxAtoms top.idef.F_SETTLE i j) ↔
      (bondEdge maxAtoms (top.idef.F_BONDS ++ top.idef.F_SHAKE) j i ∨
        settleEdge maxAtoms top.idef.F_SETTLE j i) := by
    intro i j
    rw [bondEdge_symm maxAtoms _ i j, settleEdge_symm maxAtoms _ i j]
  have hempty : covalentBonds = [] → ∀ i j : Int,
      (j ∈ adj (getCovalentBondIndices maxAtoms covalentBonds top).2 i ↔
        i ∈ adj (getCovalentBondIndices maxAtoms covalentBonds top).2 j) := by
    intro hnil i j
    subst hnil
    simp only [mem_adj_getCovalentBondIndices, adj_resize_nil, Finset.not_mem_empty,
      false_or]
    exact hedges i j
  refine ⟨?_, hempty⟩
  rcases hsym with hnil | hsym
  · intro i j _ _
    exact hempty hnil i j
  · intro i j hi hj
    have hi' : i < ((maxAtoms + 1).toNat : Int) := by omega
    have hj' : j < ((maxAtoms + 1).toNat : Int) := by omega
    simp only [mem_adj_getCovalentBondIndices, adj_resize, hi', hj', if_true]
    rw [hsym i j hi hj, hedges i j]

/-- Witness for C1: a symmetric three-atom adjacency extended by one bond
record and one SETTLE record, `maxAtoms = 4`. -/
theorem getCovalentBondIndices_symmetric_witness :
    (0 : Int) ≤ 4 ∧
    (∀ i j : Int, 0 ≤ i ∧ i ≤ 4 → 0 ≤ j ∧ j ≤ 4 →
      (j ∈ adj [{1}, {0}, ∅] i ↔ i ∈ adj [{1}, {0}, ∅] j)) ∧
    (∀ i j : Int, 0 ≤ i ∧ i ≤ 4 → 0 ≤ j ∧ j ≤ 4 →
      (j ∈ adj (getCovalentBondIndices 4 [{1}, {0}, ∅]
          { idef := { F_BONDS := [{ atomI := 0, atomJ := 3 }],
                      F_SETTLE := [{ atomI := 1 }] } }).2 i ↔
        i ∈ adj (getCovalentBondIndices 4 [{1}, {0}, ∅]
          { idef := { F_BONDS := [{ atomI := 0, atomJ := 3 }],
                      F_SETTLE := [{ atomI := 1 }] } }).2 j)) := by
  have hs : ∀ i j : Int, 0 ≤ i ∧ i ≤ 4 → 0 ≤ j ∧ j ≤ 4 →
      (j ∈ adj [{1}, {0}, ∅] i ↔ i ∈ adj [{1}, {0}, ∅] j) := by
    intro i j hi hj
    have hi' : i = 0 ∨ i = 1 ∨ i = 2 ∨ i = 3 ∨ i = 4 := by omega
    have hj' : j = 0 ∨ j = 1 ∨ j = 2 ∨ j = 3 ∨ j = 4 := by omega
    rcases hi' with h | h | h | h | h <;> rcases hj' with h' | h' | h' | h' | h' <;>
      subst h <;> subst h' <;> decide
  exact ⟨by decide, hs,
    (getCovalentBondIndices_symmetric 4 [{1}, {0}, ∅]
      { idef := { F_BONDS := [{ atomI := 0, atomJ := 3 }], F_SETTLE := [{ atomI := 1 }] } }
      (by decide) (Or.inr hs)).1⟩

/-! ## The triatomic rule -/

/-- C2. For a topology whose only bonded record is one SETTLE triplet with
central atom `k`, where `0 <= k` and `k + 2 < maxAtoms`, and an initially
empty adjacency, the bond graph built by `getCovalentBondIndices` (and by
`getSettleCovalentBondIndices` alone) has `covalentBonds[k] = {k+1, k+2}`,
`covalentBonds[k+1] = {k}` and `covalentBonds[k+2] = {k}`; there is no edge
between `k+1` and `k+2`, and the returned error count is 0. -/
theorem settle_triplet_graph (maxAtoms k : Int) (top : t_topology) (r : SettleRecord)
    (hk0 : 0 ≤ k) (hk2 : k + 2 < maxAtoms) (hr : r.atomI = k)
    (hbonds : top.idef.F_BONDS = []) (hshake : top.idef.F_SHAKE = [])
    (hsettle : top.idef.F_SETTLE = [r]) :
    (adj (getCovalentBondIndices maxAtoms [] top).2 k = {k + 1, k + 2} ∧
      adj (getCovalentBondIndices maxAtoms [] top).2 (k + 1) = {k} ∧
      adj (getCovalentBondIndices maxAtoms [] top).2 (k + 2) = {k} ∧
      k + 2 ∉ adj (getCovalentBondIndices maxAtoms [] top).2 (k + 1) ∧
      k + 1 ∉ adj (getCovalentBondIndices maxAtoms [] top).2 (k + 2) ∧
      (getCovalentBondIndices maxAtoms [] top).1 = 0) ∧
    (adj (getSettleCovalentBondIndices maxAtoms [] top).2 k = {k + 1, k + 2} ∧
      adj (getSettleCovalentBondIndices maxAtoms [] top).2 (k + 1) = {k} ∧
      adj (getSettleCovalentBondIndices maxAtoms [] top).2 (k + 2) = {k} ∧
      k + 2 ∉ adj (getSettleCovalentBondIndices maxAtoms [] top).2 (k + 1) ∧
      k + 1 ∉ adj (getSettleCovalentBondIndices maxAtoms [] top).2 (k + 2) ∧
      (getSettleCovalentBondIndices maxAtoms [] top).1 = 0) := by
  have hok : settleOk maxAtoms r := by unfold settleOk; rw [hr]; exact ⟨hk0, hk2⟩
  have hmem : ∀ i j : Int, j ∈ adj (getSettleCovalentBondIndices maxAtoms [] top).2 i ↔
      (((i = k ∧ j = k + 1) ∨ (i = k + 1 ∧ j = k)) ∨
       ((i = k ∧ j = k + 2) ∨ (i = k + 2 ∧ j = k))) := by
    intro i j
    rw [mem_adj_getSettleCovalentBondIndices, adj_resize_nil, hsettle]
    simp only [Finset.not_mem_empty, false_or, settleEdge, List.mem_singleton,
      exists_eq_left, hok, true_and, hr]
  have hmem' : ∀ i j : Int, j ∈ adj (getCovalentBondIndices maxAtoms [] top).2 i ↔
      j ∈ adj (getSettleCovalentBondIndices maxAtoms [] top).2 i := by
    intro i j
    rw [mem_adj_getCovalentBondIndices, mem_adj_getSettleCovalentBondIndices, hbonds, hshake]
    simp [bondEdge]
  have herr : (getSettleCovalentBondIndices maxAtoms [] top).1 = 0 := by
    rw [fst_getSettleCovalentBondIndices, hsettle]
    simp [settleErrors, hok]
  have herr' : (getCovalentBondIndices maxAtoms [] top).1 = 0 := by
    rw [fst_getCovalentBondIndices, hbonds, hshake, hsettle]
    simp [settleErrors, hok]
  have hadj : ∀ i : Int, adj (getCovalentBondIndices maxAtoms [] top).2 i =
      adj (getSettleCovalentBondIndices maxAtoms [] top).2 i :=
    fun i => Finset.ext (fun j => hmem' i j)
  have main : adj (getSettleCovalentBondIndices maxAtoms [] top).2 k = {k + 1, k + 2} ∧
      adj (getSettleCovalentBondIndices maxAtoms [] top).2 (k + 1) = {k} ∧
      adj (getSettleCovalentBondIndices maxAtoms [] top).2 (k + 2) = {k} ∧
      k + 2 ∉ adj (getSettleCovalentBondIndices maxAtoms [] top).2 (k + 1) ∧
      k + 1 ∉ adj (getSettleCovalentBondIndices maxAtoms [] top).2 (k + 2) := by
    refine ⟨?_, ?_, ?_, ?_, ?_⟩
    · ext j
      rw [hmem, Finset.mem_insert, Finset.mem_singleton]
      omega
    · ext j
      rw [hmem, Finset.mem_singleton]
      omega
    · ext j
      rw [hmem, Finset.mem_singleton]
      omega
    · rw [hmem]; omega
    · rw [hmem]; omega
  refine ⟨?_, main.1, main.2.1, main.2.2.1, main.2.2.2.1, main.2.2.2.2, herr⟩
  simp only [hadj]
  exact ⟨main.1, main.2.1, main.2.2.1, main.2.2.2.1, main.2.2.2.2, herr'⟩

/-- Witness for C2: one water molecule at atoms 2, 3, 4 of a five-atom
topology. -/
theorem settle_triplet_graph_witness :
    ((0 : Int) ≤ 2 ∧ (2 : Int) + 2 < 5) ∧
    getCovalentBondIndices 5 [] { idef := { F_SETTLE := [{ atomI := 2 }] } } =
      (0, [∅, ∅, {3, 4}, {2}, {2}, ∅]) ∧
    adj (getCovalentBondIndices 5 [] { idef := { F_SETTLE := [{ atomI := 2 }] } }).2 2 =
      {2 + 1, 2 + 2} :=
  ⟨by decide, by decide,
    (settle_triplet_graph 5 2 { idef := { F_SETTLE := [{ atomI := 2 }] } } { atomI := 2 }
      (by decide) (by decide) rfl rfl rfl rfl).1.1⟩

/-! ## Rejected records -/

theorem badIndices_nonneg (maxAtoms : Int) (r : BondRecord) : 0 ≤ badIndices maxAtoms r := by
  unfold badIndices; split_ifs <;> omega

theorem badIndices_pos (maxAtoms : Int) (r : BondRecord)
    (h : ¬ inRange maxAtoms r.atomI ∨ ¬ inRange maxAtoms r.atomJ) :
    1 ≤ badIndices maxAtoms r := by
  unfold badIndices; split_ifs <;> first | omega | tauto

theorem bondEdge_singleton_rejected (maxAtoms : Int) (r : BondRecord) (i j : Int)
    (h : ¬ inRange maxAtoms r.atomI ∨ ¬ inRange maxAtoms r.atomJ) :
    ¬ bondEdge maxAtoms [r] i j := by
  rintro ⟨s, hs, ⟨hI, hJ⟩, _⟩
  rw [List.mem_singleton] at hs
  subst hs
  tauto

theorem settleEdge_singleton_rejected (maxAtoms : Int) (r : SettleRecord) (i j : Int)
    (h : ¬ settleOk maxAtoms r) : ¬ settleEdge maxAtoms [r] i j := by
  rintro ⟨s, hs, hok, _⟩
  rw [List.mem_singleton] at hs
  subst hs
  exact h hok

/-- C3. In a batch of `F_BONDS`/`F_SHAKE` records (the two lists in the order
they are scanned, `pre ++ r :: post`), a record `r` with an atom index outside
`[0, maxAtoms)` leaves the adjacency untouched when it is processed, raises
the error count, and the graph returned is the one returned for the batch
without `r`; every record of the batch whose two indices are valid is
inserted in both directions. -/
theorem bond_record_rejected (maxAtoms : Int) (covalentBonds : IntSetVector)
    (top top' : t_topology) (pre post : List BondRecord) (r : BondRecord)
    (hbad : ¬ inRange maxAtoms r.atomI ∨ ¬ inRange maxAtoms r.atomJ)
    (hbatch : top.idef.F_BONDS ++ top.idef.F_SHAKE = pre ++ r :: post)
    (hbatch' : top'.idef.F_BONDS ++ top'.idef.F_SHAKE = pre ++ post)
    (hsettle : top'.idef.F_SETTLE = top.idef.F_SETTLE) :
    (∀ st : IntSetVector × Int,
      (bondStep maxAtoms st r).1 = st.1 ∧ st.2 < (bondStep maxAtoms st r).2) ∧
    (getCovalentBondIndices maxAtoms covalentBonds top).2 =
      (getCovalentBondIndices maxAtoms covalentBonds top').2 ∧
    (getCovalentBondIndices maxAtoms covalentBonds top').1 <
      (getCovalentBondIndices maxAtoms covalentBonds top).1 ∧
    (∀ s ∈ pre ++ post, inRange maxAtoms s.atomI → inRange maxAtoms s.atomJ →
      s.atomJ ∈ adj (getCovalentBondIndices maxAtoms covalentBonds top).2 s.atomI ∧
      s.atomI ∈ adj (getCovalentBondIndices maxAtoms covalentBonds top).2 s.atomJ) := by
  have hpos := badIndices_pos maxAtoms r hbad
  refine ⟨?_, ?_, ?_, ?_⟩
  · intro st
    rw [bondStep_fst, bondStep_snd, if_neg (by tauto)]
    exact ⟨rfl, by omega⟩
  · apply eq_of_adj_eq
    · rw [length_getCovalentBondIndices, length_getCovalentBondIndices]
    · intro i
      ext j
      rw [mem_adj_getCovalentBondIndices, mem_adj_getCovalentBondIndices, hbatch, hbatch',
        hsettle, bondEdge_append, bondEdge_append, bondEdge_cons maxAtoms r post]
      have := bondEdge_singleton_rejected maxAtoms r i j hbad
      tauto
  · rw [fst_getCovalentBondIndices, fst_getCovalentBondIndices, hbatch, hbatch', hsettle]
    simp only [List.map_append, List.map_cons, List.sum_append, List.sum_cons]
    omega
  · intro s hs hI hJ
    have hedge : bondEdge maxAtoms (pre ++ r :: post) s.atomI s.atomJ := by
      refine ⟨s, ?_, ⟨hI, hJ⟩, Or.inl ⟨rfl, rfl⟩⟩
      rw [List.mem_append] at hs ⊢
      rcases hs with h | h
      · exact Or.inl h
      · exact Or.inr (List.mem_cons_of_mem _ h)
    constructor
    · rw [mem_adj_getCovalentBondIndices, hbatch]
      exact Or.inr (Or.inl hedge)
    · rw [mem_adj_getCovalentBondIndices, hbatch]
      exact Or.inr (Or.inl ((bondEdge_symm _ _ _ _).mp hedge))

/-- Witness for C3: `maxAtoms = 4`; the record with `atomI = maxAtoms + 5`
is skipped, the bond `0 -- 1` before it and the constraint `2 -- 3` after it
are kept. -/
theorem bond_record_rejected_witness :
    (¬ inRange 4 (9 : Int) ∨ ¬ inRange 4 (1 : Int)) ∧
    getCovalentBondIndices 4 []
      { idef := { F_BONDS := [{ atomI := 0, atomJ := 1 }, { atomI := 9, atomJ := 1 }],
                  F_SHAKE := [{ atomI := 2, atomJ := 3 }] } } =
      (1, [{1}, {0}, {3}, {2}, ∅]) ∧
    (getCovalentBondIndices 4 []
      { idef := { F_BONDS := [{ atomI := 0, atomJ := 1 }, { atomI := 9, atomJ := 1 }],
                  F_SHAKE := [{ atomI := 2, atomJ := 3 }] } }).2 =
    (getCovalentBondIndices 4 []
      { idef := { F_BONDS := [{ atomI := 0, atomJ := 1 }],
                  F_SHAKE := [{ atomI := 2, atomJ := 3 }] } }).2 :=
  ⟨by decide, by decide,
    (bond_record_rejected 4 []
      { idef := { F_BONDS := [{ atomI := 0, atomJ := 1 }, { atomI := 9, atomJ := 1 }],
                  F_SHAKE := [{ atomI := 2, atomJ := 3 }] } }
      { idef := { F_BONDS := [{ atomI := 0, atomJ := 1 }],
                  F_SHAKE := [{ atomI := 2, atomJ := 3 }] } }
      [{ atomI := 0, atomJ := 1 }] [{ atomI := 2, atomJ := 3 }] { atomI := 9, atomJ := 1 }
      (by decide) rfl rfl rfl).2.1⟩

/-- A rejected SETTLE record under the exact sum `atomI + 2`: the step leaves
the adjacency untouched and raises the count by 1, the graph returned is the
one returned for the list without the record, and every accepted record of
the list has its two edges, in both directions. -/
theorem getSettleCovalentBondIndices_of_rejected (maxAtoms : Int) (covalentBonds : IntSetVector)
    (top top' : t_topology) (pre post : List SettleRecord) (r : SettleRecord)
    (hbad : r.atomI < 0 ∨ r.atomI + 2 ≥ maxAtoms)
    (hlist : top.idef.F_SETTLE = pre ++ r :: post)
    (hlist' : top'.idef.F_SETTLE = pre ++ post) :
    (∀ st : IntSetVector × Int,
      (settleStep maxAtoms st r).1 = st.1 ∧ (settleStep maxAtoms st r).2 = st.2 + 1) ∧
    (getSettleCovalentBondIndices maxAtoms covalentBonds top).2 =
      (getSettleCovalentBondIndices maxAtoms covalentBonds top').2 ∧
    (getSettleCovalentBondIndices maxAtoms covalentBonds top).1 =
      (getSettleCovalentBondIndices maxAtoms covalentBonds top').1 + 1 ∧
    (∀ s ∈ pre ++ post, 0 ≤ s.atomI → s.atomI + 2 < maxAtoms →
      (s.atomI + 1 ∈ adj (getSettleCovalentBondIndices maxAtoms covalentBonds top).2 s.atomI ∧
       s.atomI ∈ adj (getSettleCovalentBondIndices maxAtoms covalentBonds top).2 (s.atomI + 1)) ∧
      (s.atomI + 2 ∈ adj (getSettleCovalentBondIndices maxAtoms covalentBonds top).2 s.atomI ∧
       s.atomI ∈
        adj (getSettleCovalentBondIndices maxAtoms covalentBonds top).2 (s.atomI + 2))) := by
  have hnot : ¬ settleOk maxAtoms r := by unfold settleOk; omega
  refine ⟨?_, ?_, ?_, ?_⟩
  · intro st
    rw [settleStep_fst, settleStep_snd, if_neg hnot]
    simp [settleErrors, hnot]
  · apply eq_of_adj_eq
    · rw [length_getSettleCovalentBondIndices, length_getSettleCovalentBondIndices]
    · intro i
      ext j
      rw [mem_adj_getSettleCovalentBondIndices, mem_adj_getSettleCovalentBondIndices, hlist,
        hlist', settleEdge_append, settleEdge_append, settleEdge_cons maxAtoms r post]
      have := settleEdge_singleton_rejected maxAtoms r i j hnot
      tauto
  · rw [fst_getSettleCovalentBondIndices, fst_getSettleCovalentBondIndices, hlist, hlist']
    simp only [List.map_append, List.map_cons, List.sum_append, List.sum_cons, settleErrors,
      if_neg hnot]
    omega
  · intro s hs h0 h2
    have hmem : s ∈ pre ++ r :: post := by
      rw [List.mem_append] at hs ⊢
      rcases hs with h | h
      · exact Or.inl h
      · exact Or.inr (List.mem_cons_of_mem _ h)
    have hedge : ∀ i j : Int,
        (((i = s.atomI ∧ j = s.atomI + 1) ∨ (i = s.atomI + 1 ∧ j = s.atomI)) ∨
          ((i = s.atomI ∧ j = s.atomI + 2) ∨ (i = s.atomI + 2 ∧ j = s.atomI))) →
        j ∈ adj (getSettleCovalentBondIndices maxAtoms covalentBonds top).2 i := by
      intro i j h
      rw [mem_adj_getSettleCovalentBondIndices, hlist]
      exact Or.inr ⟨s, hmem, ⟨h0, h2⟩, h⟩
    exact ⟨⟨hedge _ _ (by tauto), hedge _ _ (by tauto)⟩,
      ⟨hedge _ _ (by tauto), hedge _ _ (by tauto)⟩⟩

/-! ## Rejected SETTLE records in `int` arithmetic -/

theorem wrapInt_of_int (x : Int) (hlo : -2147483648 ≤ x) (hhi : x ≤ 2147483647) :
    wrapInt x = x := by
  unfold wrapInt; omega

theorem insertInside_of_lt (v : IntSetVector) (i x : Int) (h0 : 0 ≤ i) (h : i < v.length) :
    insertInside v i x = some (insertAt v i x) := by
  unfold insertInside; rw [if_pos ⟨h0, h⟩]

/-- Where `atomI + 2` does not leave the range of `int`, the step in `int`
arithmetic is the step with the exact sum, and it writes inside the vector. -/
theorem settleStepInt_eq (maxAtoms : Int) (st : IntSetVector × Int) (r : SettleRecord)
    (hlo : -2147483648 ≤ r.atomI) (hhi : r.atomI ≤ 2147483645) (hlen : st.1.length = (maxAtoms + 1).toNat) :
    settleStepInt maxAtoms st r = some (settleStep maxAtoms st r) := by
  unfold settleStepInt settleStep
  dsimp only
  rw [wrapInt_of_int (r.atomI + 2) (by omega) (by omega)]
  by_cases hI : (r.atomI + 2) ≥ maxAtoms ∨ r.atomI < 0
  · simp only [hI, if_true]
    rw [if_neg (by decide), if_neg (by decide)]
  · simp only [hI, if_false]
    rw [wrapInt_of_int (r.atomI + 2) (by omega) (by omega),
      wrapInt_of_int (r.atomI + 1) (by omega) (by omega)]
    have h0 : r.atomI ≥ 0 := by omega
    have hl : ((maxAtoms + 1).toNat : Int) = maxAtoms + 1 := Int.toNat_of_nonneg (by omega)
    rw [if_pos h0, if_pos h0]
    rw [insertInside_of_lt _ _ _ (by omega) (by rw [hlen, hl]; omega)]
    simp only [Option.bind_eq_bind, Option.some_bind]
    rw [insertInside_of_lt _ _ _ (by omega) (by rw [length_insertAt, hlen, hl]; omega)]
    simp only [Option.some_bind]
    rw [insertInside_of_lt _ _ _ (by omega)
      (by rw [length_insertAt, length_insertAt, hlen, hl]; omega)]
    simp only [Option.some_bind]
    rw [insertInside_of_lt _ _ _ (by omega)
      (by rw [length_insertAt, length_insertAt, length_insertAt, hlen, hl]; omega)]
    simp only [Option.some_bind]

theorem foldlM_settleStepInt_eq (maxAtoms : Int) (rs : List SettleRecord)
    (st : IntSetVector × Int)
    (hrs : ∀ s ∈ rs, -2147483648 ≤ s.atomI ∧ s.atomI ≤ 2147483645)
    (hlen : st.1.length = (maxAtoms + 1).toNat) :
    rs.foldlM (settleStepInt maxAtoms) st = some (rs.foldl (settleStep maxAtoms) st) := by
  induction rs generalizing st with
  | nil => rfl
  | cons r rs ih =>
    rw [List.foldlM_cons, List.foldl_cons,
      settleStepInt_eq maxAtoms st r (hrs r (List.mem_cons_self _ _)).1
        (hrs r (List.mem_cons_self _ _)).2 hlen]
    exact ih _ (fun s hs => hrs s (List.mem_cons_of_mem _ hs))
      (by rw [length_settleStep]; exact hlen)

/-- Where no record makes `atomI + 2` leave the range of `int`, the function
in `int` arithmetic returns what the function with the exact sum returns. -/
theorem getSettleCovalentBondIndicesInt_eq (maxAtoms : Int) (covalentBonds : IntSetVector)
    (top : t_topology)
    (hrs : ∀ s ∈ top.idef.F_SETTLE, -2147483648 ≤ s.atomI ∧ s.atomI ≤ 2147483645) :
    getSettleCovalentBondIndicesInt maxAtoms covalentBonds top =
      some (getSettleCovalentBondIndices maxAtoms covalentBonds top) := by
  unfold getSettleCovalentBondIndicesInt getSettleCovalentBondIndices
  simp only [Option.bind_eq_bind]
  rw [foldlM_settleStepInt_eq maxAtoms _ _ hrs (length_resize _ _ _)]
  rfl

/-- A record whose `atomI + 2` leaves the range of `int` passes the test (the
wrapped sum is negative) and the step writes outside the vector. -/
theorem settleStepInt_of_overflow (maxAtoms : Int) (st : IntSetVector × Int) (r : SettleRecord)
    (hmin : 0 ≤ maxAtoms) (hmax : maxAtoms ≤ 2147483646) (hlo : 2147483646 ≤ r.atomI)
    (hhi : r.atomI ≤ 2147483647) (hlen : st.1.length = (maxAtoms + 1).toNat) :
    ¬ (wrapInt (r.atomI + 2) ≥ maxAtoms ∨ r.atomI < 0) ∧
      settleStepInt maxAtoms st r = none := by
  have hw2 : wrapInt (r.atomI + 2) = r.atomI + 2 - 4294967296 := by unfold wrapInt; omega
  have htest : ¬ (wrapInt (r.atomI + 2) ≥ maxAtoms ∨ r.atomI < 0) := by rw [hw2]; omega
  refine ⟨htest, ?_⟩
  have hl : ((maxAtoms + 1).toNat : Int) = maxAtoms + 1 := Int.toNat_of_nonneg (by omega)
  unfold settleStepInt
  simp only [htest, if_false]
  rw [if_pos (by omega : r.atomI ≥ 0)]
  by_cases h1 : r.atomI < (st.1.length : Int)
  · rw [insertInside_of_lt _ _ _ (by omega) h1]
    simp only [Option.bind_eq_bind, Option.some_bind]
    by_cases h2 : r.atomI = 2147483647
    · have hw1 : wrapInt (r.atomI + 1) = -2147483648 := by unfold wrapInt; omega
      rw [hw1]
      unfold insertInside
      rw [if_neg (by omega)]
      rfl
    · have hw1 : wrapInt (r.atomI + 1) = r.atomI + 1 := by unfold wrapInt; omega
      rw [hw1]
      by_cases h3 : r.atomI + 1 < (st.1.length : Int)
      · rw [insertInside_of_lt _ _ _ (by omega) (by rw [length_insertAt]; exact h3)]
        simp only [Option.some_bind]
        rw [insertInside_of_lt _ _ _ (by omega)
          (by rw [length_insertAt, length_insertAt]; exact h1)]
        simp only [Option.some_bind]
        rw [hw2]
        unfold insertInside
        rw [if_neg (by omega)]
        rfl
      · unfold insertInside
        rw [if_neg (by rw [length_insertAt]; omega)]
        rfl
  · unfold insertInside
    rw [if_neg (by omega)]
    rfl

/-- C4, evaluation: the record with `atomI = 2147483646` has
`atomI + 2 >= maxAtoms` for `maxAtoms = 5`, but the `int` sum wraps to
`-2147483648`, so the test of the source does not reject it: no error is
counted and `covalentBonds[2147483646]` is written in a vector of
`maxAtoms + 1 = 6` entries, where the exact sum rejects the record and
returns one error and an empty graph; the same for `atomI = 2147483647`.
A record whose `atomI + 2` stays inside the range of `int` and that fails
the validation leaves the adjacency and counts one error, and the function
returns the graph of the list without it, with every accepted record's two
edges in both directions. -/
theorem settle_index_overflow_is_accepted :
    ((2147483646 : Int) + 2 ≥ 5) ∧
    wrapInt (2147483646 + 2) = -2147483648 ∧
    ¬ (wrapInt (2147483646 + 2) ≥ 5 ∨ (2147483646 : Int) < 0) ∧
    getSettleCovalentBondIndicesInt 5 []
      { idef := { F_SETTLE := [{ atomI := 2147483646 }] } } = none ∧
    getSettleCovalentBondIndices 5 []
      { idef := { F_SETTLE := [{ atomI := 2147483646 }] } } = (1, [∅, ∅, ∅, ∅, ∅, ∅]) ∧
    (∀ (maxAtoms : Int) (st : IntSetVector × Int) (r : SettleRecord),
      0 ≤ maxAtoms → maxAtoms ≤ 2147483646 → 2147483646 ≤ r.atomI → r.atomI ≤ 2147483647 →
      st.1.length = (maxAtoms + 1).toNat →
      ¬ (wrapInt (r.atomI + 2) ≥ maxAtoms ∨ r.atomI < 0) ∧
        settleStepInt maxAtoms st r = none) ∧
    (∀ (maxAtoms : Int) (st : IntSetVector × Int) (r : SettleRecord),
      -2147483648 ≤ r.atomI → r.atomI ≤ 2147483645 →
      (r.atomI < 0 ∨ r.atomI + 2 ≥ maxAtoms) →
      settleStepInt maxAtoms st r = some (st.1, st.2 + 1)) ∧
    (∀ (maxAtoms : Int) (covalentBonds : IntSetVector) (top top' : t_topology)
      (pre post : List SettleRecord) (r : SettleRecord),
      maxAtoms ≤ 2147483646 →
      (∀ s ∈ pre ++ r :: post, -2147483648 ≤ s.atomI ∧ s.atomI ≤ 2147483645) →
      (r.atomI < 0 ∨ r.atomI + 2 ≥ maxAtoms) →
      top.idef.F_SETTLE = pre ++ r :: post → top'.idef.F_SETTLE = pre ++ post →
      ∃ (errors : Int) (graph : IntSetVector),
        getSettleCovalentBondIndicesInt maxAtoms covalentBonds top' = some (errors, graph) ∧
        getSettleCovalentBondIndicesInt maxAtoms covalentBonds top =
          some (errors + 1, graph) ∧
        ∀ s ∈ pre ++ post, 0 ≤ s.atomI → s.atomI + 2 < maxAtoms →
          (s.atomI + 1 ∈ adj graph s.atomI ∧ s.atomI ∈ adj graph (s.atomI + 1)) ∧
          (s.atomI + 2 ∈ adj graph s.atomI ∧ s.atomI ∈ adj graph (s.atomI + 2))) := by
  refine ⟨by decide, by decide, by decide, by decide, by decide, ?_, ?_, ?_⟩
  · intro maxAtoms st r hmin hmax hlo hhi hlen
    exact settleStepInt_of_overflow maxAtoms st r hmin hmax hlo hhi hlen
  · intro maxAtoms st r hlo hhi hbad
    unfold settleStepInt
    dsimp only
    rw [wrapInt_of_int (r.atomI + 2) (by omega) (by omega)]
    have hI : (r.atomI + 2) ≥ maxAtoms ∨ r.atomI < 0 := by omega
    simp only [hI, if_true]
    rw [if_neg (by decide)]
  · intro maxAtoms covalentBonds top top' pre post r _ hrs hbad hlist hlist'
    have hrs' : ∀ s ∈ pre ++ post, -2147483648 ≤ s.atomI ∧ s.atomI ≤ 2147483645 := by
      intro s hs
      apply hrs s
      rw [List.mem_append] at hs ⊢
      rcases hs with h | h
      · exact Or.inl h
      · exact Or.inr (List.mem_cons_of_mem _ h)
    have h := getSettleCovalentBondIndices_of_rejected maxAtoms covalentBonds top top' pre post r
      hbad hlist hlist'
    refine ⟨(getSettleCovalentBondIndices maxAtoms covalentBonds top').1,
      (getSettleCovalentBondIndices maxAtoms covalentBonds top').2, ?_, ?_, ?_⟩
    · rw [getSettleCovalentBondIndicesInt_eq maxAtoms covalentBonds top'
        (by rw [hlist']; exact hrs')]
    · rw [getSettleCovalentBondIndicesInt_eq maxAtoms covalentBonds top
        (by rw [hlist]; exact hrs), ← h.2.1, ← h.2.2.1]
    · rw [← h.2.1]
      exact h.2.2.2

/-! ## The error count -/

theorem sum_badIndices (maxAtoms : Int) (rs : List BondRecord) :
    (rs.map (badIndices maxAtoms)).sum =
      (rs.countP (fun r => decide (¬ (inRange maxAtoms r.atomI ∧ inRange maxAtoms r.atomJ)))
        : Int) +
      (rs.countP (fun r => decide (¬ inRange maxAtoms r.atomI ∧ ¬ inRange maxAtoms r.atomJ))
        : Int) := by
  induction rs with
  | nil => simp
  | cons r rs ih =>
    rw [List.map_cons, List.sum_cons, ih, List.countP_cons, List.countP_cons]
    unfold badIndices
    by_cases hI : inRange maxAtoms r.atomI <;> by_cases hJ : inRange maxAtoms r.atomJ <;>
      simp [hI, hJ] <;> ring

theorem sum_settleErrors (maxAtoms : Int) (rs : List SettleRecord) :
    (rs.map (settleErrors maxAtoms)).sum =
      (rs.countP (fun r => decide (¬ settleOk maxAtoms r)) : Int) := by
  induction rs with
  | nil => simp
  | cons r rs ih =>
    rw [List.map_cons, List.sum_cons, ih, List.countP_cons]
    unfold settleErrors
    by_cases h : settleOk maxAtoms r
    · simp [h]
    · simp [h]; ring

theorem settleErrors_nonneg (maxAtoms : Int) (r : SettleRecord) :
    0 ≤ settleErrors maxAtoms r := by
  unfold settleErrors; split_ifs <;> omega

theorem sum_map_nonneg {α : Type} (f : α → Int) (hf : ∀ a, 0 ≤ f a) (l : List α) :
    0 ≤ (l.map f).sum := by
  induction l with
  | nil => simp
  | cons a l ih => rw [List.map_cons, List.sum_cons]; have := hf a; omega

theorem sum_map_eq_zero_iff {α : Type} (f : α → Int) (hf : ∀ a, 0 ≤ f a) (l : List α) :
    (l.map f).sum = 0 ↔ ∀ a ∈ l, f a = 0 := by
  induction l with
  | nil => simp
  | cons a l ih =>
    rw [List.map_cons, List.sum_cons, List.forall_mem_cons, ← ih]
    have h1 := hf a
    have h2 := sum_map_nonneg f hf l
    omega

theorem badIndices_eq_zero_iff (maxAtoms : Int) (r : BondRecord) :
    badIndices maxAtoms r = 0 ↔ inRange maxAtoms r.atomI ∧ inRange maxAtoms r.atomJ := by
  unfold badIndices
  by_cases hI : inRange maxAtoms r.atomI <;> by_cases hJ : inRange maxAtoms r.atomJ <;>
    simp [hI, hJ]

theorem settleErrors_eq_zero_iff (maxAtoms : Int) (r : SettleRecord) :
    settleErrors maxAtoms r = 0 ↔ settleOk maxAtoms r := by
  unfold settleErrors
  by_cases h : settleOk maxAtoms r <;> simp [h]

/-- C5, as stated, fails: for `maxAtoms = 2` the single bond record with
`atomI = 7` and `atomJ = 9` is one excluded record (the graph stays empty),
and the value returned is 2. -/
theorem error_count_counts_indices :
    getCovalentBondIndices 2 [] { idef := { F_BONDS := [{ atomI := 7, atomJ := 9 }] } } =
      (2, [∅, ∅, ∅]) ∧
    rejectedRecords 2 { idef := { F_BONDS := [{ atomI := 7, atomJ := 9 }] } } = 1 ∧
    (getCovalentBondIndices 2 []
        { idef := { F_BONDS := [{ atomI := 7, atomJ := 9 }] } }).1 ≠
      (rejectedRecords 2 { idef := { F_BONDS := [{ atomI := 7, atomJ := 9 }] } } : Int) := by
  decide

/-- C5, amended. The value returned by `getCovalentBondIndices` is the number
of records excluded from the graph plus the number of bond records whose two
atom indices are both out of range: a rejected SETTLE triplet and a bond
record with one invalid index are counted once, a bond record with two invalid
indices is counted twice. -/
theorem error_count_eq (maxAtoms : Int) (covalentBonds : IntSetVector) (top : t_topology) :
    (getCovalentBondIndices maxAtoms covalentBonds top).1 =
      (rejectedRecords maxAtoms top : Int) + (doublyRejectedRecords maxAtoms top : Int) := by
  rw [fst_getCovalentBondIndices, sum_badIndices, sum_settleErrors]
  unfold rejectedRecords doublyRejectedRecords
  push_cast
  ring

/-- C6. The function `getCovalentBondIndices` returns 0 if and only if every
`F_BONDS` and `F_SHAKE` record has both atom indices in `[0, maxAtoms)` and
every SETTLE record has `0 <= atomI` and `atomI + 2 < maxAtoms`. -/
theorem error_count_eq_zero_iff (maxAtoms : Int) (covalentBonds : IntSetVector)
    (top : t_topology) :
    (getCovalentBondIndices maxAtoms covalentBonds top).1 = 0 ↔
      (∀ r ∈ top.idef.F_BONDS,
        (0 ≤ r.atomI ∧ r.atomI < maxAtoms) ∧ (0 ≤ r.atomJ ∧ r.atomJ < maxAtoms)) ∧
      (∀ r ∈ top.idef.F_SHAKE,
        (0 ≤ r.atomI ∧ r.atomI < maxAtoms) ∧ (0 ≤ r.atomJ ∧ r.atomJ < maxAtoms)) ∧
      (∀ r ∈ top.idef.F_SETTLE, 0 ≤ r.atomI ∧ r.atomI + 2 < maxAtoms) := by
  rw [fst_getCovalentBondIndices]
  have h1 := sum_map_nonneg (badIndices maxAtoms) (badIndices_nonneg maxAtoms)
    (top.idef.F_BONDS ++ top.idef.F_SHAKE)
  have h2 := sum_map_nonneg (settleErrors maxAtoms) (settleErrors_nonneg maxAtoms)
    top.idef.F_SETTLE
  have h3 := sum_map_eq_zero_iff (badIndices maxAtoms) (badIndices_nonneg maxAtoms)
    (top.idef.F_BONDS ++ top.idef.F_SHAKE)
  have h4 := sum_map_eq_zero_iff (settleErrors maxAtoms) (settleErrors_nonneg maxAtoms)
    top.idef.F_SETTLE
  simp only [badIndices_eq_zero_iff, settleErrors_eq_zero_iff, List.mem_append] at h3 h4
  constructor
  · intro h
    have h3' := h3.mp (by omega)
    have h4' := h4.mp (by omega)
    exact ⟨fun r hr => h3' r (Or.inl hr), fun r hr => h3' r (Or.inr hr), h4'⟩
  · rintro ⟨hb, hs, hw⟩
    have h3' := h3.mpr (fun r hr => hr.elim (hb r) (hs r))
    have h4' := h4.mpr hw
    omega

/-! ## The graph built from an empty adjacency -/

/-- C7. Starting from an empty adjacency, after `getCovalentBondIndices` the
vector has exactly `maxAtoms + 1` sets and, for all `i` and `j`, `j` is in
`covalentBonds[i]` if and only if some `F_BONDS` or `F_SHAKE` record with
both indices in `[0, maxAtoms)` has `{atomI, atomJ} = {i, j}`, or some
accepted SETTLE record with central atom `c` has `{i, j} = {c, c+1}` or
`{i, j} = {c, c+2}`; consequently every stored edge joins two indices of
`[0, maxAtoms)`. -/
theorem graph_from_empty (maxAtoms : Int) (top : t_topology) (hmax : 0 ≤ maxAtoms) :
    ((getCovalentBondIndices maxAtoms [] top).2.length : Int) = maxAtoms + 1 ∧
    (∀ i j : Int, j ∈ adj (getCovalentBondIndices maxAtoms [] top).2 i ↔
      (∃ r : BondRecord, (r ∈ top.idef.F_BONDS ∨ r ∈ top.idef.F_SHAKE) ∧
        ((0 ≤ r.atomI ∧ r.atomI < maxAtoms) ∧ (0 ≤ r.atomJ ∧ r.atomJ < maxAtoms)) ∧
        ((r.atomI = i ∧ r.atomJ = j) ∨ (r.atomI = j ∧ r.atomJ = i))) ∨
      (∃ r : SettleRecord, r ∈ top.idef.F_SETTLE ∧
        (0 ≤ r.atomI ∧ r.atomI + 2 < maxAtoms) ∧
        (((i = r.atomI ∧ j = r.atomI + 1) ∨ (i = r.atomI + 1 ∧ j = r.atomI)) ∨
         ((i = r.atomI ∧ j = r.atomI + 2) ∨ (i = r.atomI + 2 ∧ j = r.atomI))))) ∧
    (∀ i j : Int, j ∈ adj (getCovalentBondIndices maxAtoms [] top).2 i →
      (0 ≤ i ∧ i < maxAtoms) ∧ (0 ≤ j ∧ j < maxAtoms)) := by
  refine ⟨?_, ?_, ?_⟩
  · rw [length_getCovalentBondIndices]; omega
  · intro i j
    rw [mem_adj_getCovalentBondIndices, adj_resize_nil]
    simp only [Finset.not_mem_empty, false_or, bondEdge, settleEdge, settleOk, inRange,
      List.mem_append]
  · intro i j h
    rw [mem_adj_getCovalentBondIndices, adj_resize_nil] at h
    rcases h with h | h | h
    · exact absurd h (Finset.not_mem_empty _)
    · exact bondEdge_inRange _ _ _ _ h
    · exact settleEdge_inRange _ _ _ _ h

/-- Witness for C7: a bond, a constraint-replaced bond and a water molecule
merged into one graph over five atoms. -/
theorem graph_from_empty_witness :
    (0 : Int) ≤ 5 ∧
    getCovalentBondIndices 5 []
      { idef := { F_BONDS := [{ atomI := 0, atomJ := 1 }],
                  F_SHAKE := [{ atomI := 1, atomJ := 2 }, { atomI := 5, atomJ := 0 }],
                  F_SETTLE := [{ atomI := 2 }] } } =
      (1, [{1}, {0, 2}, {1, 3, 4}, {2}, {2}, ∅]) ∧
    ((getCovalentBondIndices 5 []
      { idef := { F_BONDS := [{ atomI := 0, atomJ := 1 }],
                  F_SHAKE := [{ atomI := 1, atomJ := 2 }, { atomI := 5, atomJ := 0 }],
                  F_SETTLE := [{ atomI := 2 }] } }).2.length : Int) = 5 + 1 :=
  ⟨by decide, by decide,
    (graph_from_empty 5
      { idef := { F_BONDS := [{ atomI := 0, atomJ := 1 }],
                  F_SHAKE := [{ atomI := 1, atomJ := 2 }, { atomI := 5, atomJ := 0 }],
                  F_SETTLE := [{ atomI := 2 }] } } (by decide)).1⟩

/-! ## Mass-based classification -/

theorem foldl_set_range {α : Type} (f : Nat → α) (n : Nat) (v : List α) (h : v.length = n) :
    (List.range n).foldl (fun v i => v.set i (f i)) v = (List.range n).map f := by
  have key : ∀ k, k ≤ n →
      ((List.range k).foldl (fun v i => v.set i (f i)) v).length = n ∧
      ∀ i, i < n → ((List.range k).foldl (fun v i => v.set i (f i)) v)[i]? =
        if i < k then some (f i) else v[i]? := by
    intro k
    induction k with
    | zero => intro _; simp [h]
    | succ k ih =>
      intro hk
      obtain ⟨hl, hg⟩ := ih (by omega)
      rw [List.range_succ, List.foldl_append]
      simp only [List.foldl_cons, List.foldl_nil, List.length_set]
      refine ⟨hl, fun i hi => ?_⟩
      rw [List.getElem?_set]
      by_cases hik : k = i
      · subst hik; simp [hl, hi]
      · simp only [hik, if_false, hg i hi]
        by_cases h1 : i < k
        · simp [h1, Nat.lt_succ_of_lt h1]
        · have : ¬ i < k + 1 := by omega
          simp [h1, this]
  obtain ⟨hl, hg⟩ := key n le_rfl
  apply List.ext_getElem?
  intro i
  by_cases hi : i < n
  · rw [hg i hi]; simp [hi]
  · rw [List.getElem?_eq_none (by omega), List.getElem?_eq_none (by simp; omega)]

theorem map_range_getD {α β : Type} (g : α → β) (l : List α) (d : α) :
    (List.range l.length).map (fun i => g (l.getD i d)) = l.map g := by
  apply List.ext_getElem?
  intro i
  by_cases hi : i < l.length
  · simp [List.getElem?_map, List.getElem?_range, hi, List.getD_eq_getElem?_getD]
  · rw [List.getElem?_eq_none (by simp; omega), List.getElem?_eq_none (by simp; omega)]

theorem foldl_set_getD {α β : Type} (g : α → β) (l : List α) (d : α) (v : List β)
    (h : v.length = l.length) :
    (List.range l.length).foldl (fun v i => v.set i (g (l.getD i d))) v = l.map g := by
  rw [foldl_set_range (fun i => g (l.getD i d)) _ _ h, map_range_getD]

theorem getAtomicNumbers_eq (DefaultReturn : Int) (top : t_topology) (atomicNumber : List Int) :
    getAtomicNumbers DefaultReturn top atomicNumber =
      (DefaultReturn, top.atoms.atom.map (fun a => elementOfMass a.m)) := by
  unfold getAtomicNumbers t_atoms.nr
  simp only
  rw [foldl_set_getD (fun a : t_atom => elementOfMass a.m) top.atoms.atom { m := 0 } _
    (length_resize _ _ _)]

theorem getObcScaleFactors_eq (DefaultReturn : Int) (top : t_topology)
    (scaleFactors : List ℚ) :
    getObcScaleFactors DefaultReturn top scaleFactors =
      (DefaultReturn, top.atoms.atom.map (fun a => scaleFactorOfMass a.m)) := by
  unfold getObcScaleFactors t_atoms.nr
  simp only
  rw [foldl_set_getD (fun a : t_atom => scaleFactorOfMass a.m) top.atoms.atom { m := 0 } _
    (length_resize _ _ _)]

/-- The value of the rounding of a positive number, from its binade and the
integer next to its scaled value. -/
theorem roundToBits_eq (precision : Nat) (x : ℚ) (e n : Int) (hpos : 0 < x)
    (hlo : (2 : ℚ) ^ e ≤ x) (hhi : x < (2 : ℚ) ^ (e + 1))
    (hn : |x / 2 ^ (e - ((precision : Int) - 1)) - n| < 1 / 2) :
    roundToBits precision x = n * 2 ^ (e - ((precision : Int) - 1)) := by
  have hlog : Int.log 2 |x| = e := by
    rw [abs_of_pos hpos]
    have h1 : e ≤ Int.log 2 x :=
      (Int.zpow_le_iff_le_log (by norm_num : 1 < 2) hpos).mp (by exact_mod_cast hlo)
    have h2 : Int.log 2 x < e + 1 :=
      (Int.lt_zpow_iff_log_lt (by norm_num : 1 < 2) hpos).mp (by exact_mod_cast hhi)
    omega
  unfold roundToBits
  rw [if_neg (ne_of_gt hpos)]
  simp only [hlog]
  generalize x / 2 ^ (e - ((precision : Int) - 1)) = s at hn ⊢
  rw [abs_lt] at hn
  by_cases hs : (n : ℚ) ≤ s
  · have hf : ⌊s⌋ = n := Int.floor_eq_iff.mpr ⟨hs, by linarith [hn.2]⟩
    rw [hf, if_pos (by linarith [hn.2])]
  · have hf : ⌊s⌋ = n - 1 :=
      Int.floor_eq_iff.mpr ⟨by push_cast; linarith [hn.1], by push_cast; linarith⟩
    rw [hf]
    rw [if_neg (by push_cast; linarith [hn.1]), if_pos (by push_cast; linarith [hn.1])]
    simp

theorem singlePrecision_1_0 : singlePrecision 1.0 = 1 := by
  rw [singlePrecision, roundToBits_eq 24 1.0 (0) 8388608 (by norm_num) (by norm_num)
    (by norm_num) (by rw [abs_lt]; norm_num)]
  norm_num

theorem singlePrecision_1_2 : singlePrecision 1.2 = 5033165 / 4194304 := by
  rw [singlePrecision, roundToBits_eq 24 1.2 (0) 10066330 (by norm_num) (by norm_num)
    (by norm_num) (by rw [abs_lt]; norm_num)]
  norm_num

theorem singlePrecision_11_8 : singlePrecision 11.8 = 12373197 / 1048576 := by
  rw [singlePrecision, roundToBits_eq 24 11.8 (3) 12373197 (by norm_num) (by norm_num)
    (by norm_num) (by rw [abs_lt]; norm_num)]
  norm_num

theorem singlePrecision_12_2 : singlePrecision 12.2 = 12792627 / 1048576 := by
  rw [singlePrecision, roundToBits_eq 24 12.2 (3) 12792627 (by norm_num) (by norm_num)
    (by norm_num) (by rw [abs_lt]; norm_num)]
  norm_num

theorem singlePrecision_14_0 : singlePrecision 14.0 = 14 := by
  rw [singlePrecision, roundToBits_eq 24 14.0 (3) 14680064 (by norm_num) (by norm_num)
    (by norm_num) (by rw [abs_lt]; norm_num)]
  norm_num

theorem singlePrecision_15_0 : singlePrecision 15.0 = 15 := by
  rw [singlePrecision, roundToBits_eq 24 15.0 (3) 15728640 (by norm_num) (by norm_num)
    (by norm_num) (by rw [abs_lt]; norm_num)]
  norm_num

theorem singlePrecision_15_5 : singlePrecision 15.5 = 31 / 2 := by
  rw [singlePrecision, roundToBits_eq 24 15.5 (3) 16252928 (by norm_num) (by norm_num)
    (by norm_num) (by rw [abs_lt]; norm_num)]
  norm_num

theorem singlePrecision_16_5 : singlePrecision 16.5 = 33 / 2 := by
  rw [singlePrecision, roundToBits_eq 24 16.5 (4) 8650752 (by norm_num) (by norm_num)
    (by norm_num) (by rw [abs_lt]; norm_num)]
  norm_num

theorem singlePrecision_29_5 : singlePrecision 29.5 = 59 / 2 := by
  rw [singlePrecision, roundToBits_eq 24 29.5 (4) 15466496 (by norm_num) (by norm_num)
    (by norm_num) (by rw [abs_lt]; norm_num)]
  norm_num

theorem singlePrecision_30_5 : singlePrecision 30.5 = 61 / 2 := by
  rw [singlePrecision, roundToBits_eq 24 30.5 (4) 15990784 (by norm_num) (by norm_num)
    (by norm_num) (by rw [abs_lt]; norm_num)]
  norm_num

theorem singlePrecision_31_5 : singlePrecision 31.5 = 63 / 2 := by
  rw [singlePrecision, roundToBits_eq 24 31.5 (4) 16515072 (by norm_num) (by norm_num)
    (by norm_num) (by rw [abs_lt]; norm_num)]
  norm_num

theorem singlePrecision_32_5 : singlePrecision 32.5 = 65 / 2 := by
  rw [singlePrecision, roundToBits_eq 24 32.5 (5) 8519680 (by norm_num) (by norm_num)
    (by norm_num) (by rw [abs_lt]; norm_num)]
  norm_num

theorem singlePrecision_0_85 : singlePrecision 0.85 = 7130317 / 8388608 := by
  rw [singlePrecision, roundToBits_eq 24 0.85 (-1) 14260634 (by norm_num) (by norm_num)
    (by norm_num) (by rw [abs_lt]; norm_num)]
  norm_num

theorem singlePrecision_0_72 : singlePrecision 0.72 = 3019899 / 4194304 := by
  rw [singlePrecision, roundToBits_eq 24 0.72 (-1) 12079596 (by norm_num) (by norm_num)
    (by norm_num) (by rw [abs_lt]; norm_num)]
  norm_num

theorem singlePrecision_0_79 : singlePrecision 0.79 = 13254001 / 16777216 := by
  rw [singlePrecision, roundToBits_eq 24 0.79 (-1) 13254001 (by norm_num) (by norm_num)
    (by norm_num) (by rw [abs_lt]; norm_num)]
  norm_num

theorem singlePrecision_0_96 : singlePrecision 0.96 = 16106127 / 16777216 := by
  rw [singlePrecision, roundToBits_eq 24 0.96 (-1) 16106127 (by norm_num) (by norm_num)
    (by norm_num) (by rw [abs_lt]; norm_num)]
  norm_num

theorem singlePrecision_0_86 : singlePrecision 0.86 = 7214203 / 8388608 := by
  rw [singlePrecision, roundToBits_eq 24 0.86 (-1) 14428406 (by norm_num) (by norm_num)
    (by norm_num) (by rw [abs_lt]; norm_num)]
  norm_num

theorem singlePrecision_0_8 : singlePrecision 0.8 = 13421773 / 16777216 := by
  rw [singlePrecision, roundToBits_eq 24 0.8 (-1) 13421773 (by norm_num) (by norm_num)
    (by norm_num) (by rw [abs_lt]; norm_num)]
  norm_num

theorem singlePrecision_1_199999 : singlePrecision 1.199999 = 10066321 / 8388608 := by
  rw [singlePrecision, roundToBits_eq 24 1.199999 (0) 10066321 (by norm_num) (by norm_num)
    (by norm_num) (by rw [abs_lt]; norm_num)]
  norm_num

theorem doublePrecision_1_0 : doublePrecision 1.0 = 1 := by
  rw [doublePrecision, roundToBits_eq 53 1.0 (0) 4503599627370496 (by norm_num) (by norm_num)
    (by norm_num) (by rw [abs_lt]; norm_num)]
  norm_num

theorem doublePrecision_1_2 : doublePrecision 1.2 = 5404319552844595 / 4503599627370496 := by
  rw [doublePrecision, roundToBits_eq 53 1.2 (0) 5404319552844595 (by norm_num) (by norm_num)
    (by norm_num) (by rw [abs_lt]; norm_num)]
  norm_num

theorem doublePrecision_11_8 : doublePrecision 11.8 = 3321404725185741 / 281474976710656 := by
  rw [doublePrecision, roundToBits_eq 53 11.8 (3) 6642809450371482 (by norm_num) (by norm_num)
    (by norm_num) (by rw [abs_lt]; norm_num)]
  norm_num

theorem doublePrecision_12_2 : doublePrecision 12.2 = 3433994715870003 / 281474976710656 := by
  rw [doublePrecision, roundToBits_eq 53 12.2 (3) 6867989431740006 (by norm_num) (by norm_num)
    (by norm_num) (by rw [abs_lt]; norm_num)]
  norm_num

theorem doublePrecision_14_0 : doublePrecision 14.0 = 14 := by
  rw [doublePrecision, roundToBits_eq 53 14.0 (3) 7881299347898368 (by norm_num) (by norm_num)
    (by norm_num) (by rw [abs_lt]; norm_num)]
  norm_num

theorem doublePrecision_15_0 : doublePrecision 15.0 = 15 := by
  rw [doublePrecision, roundToBits_eq 53 15.0 (3) 8444249301319680 (by norm_num) (by norm_num)
    (by norm_num) (by rw [abs_lt]; norm_num)]
  norm_num

theorem doublePrecision_15_5 : doublePrecision 15.5 = 31 / 2 := by
  rw [doublePrecision, roundToBits_eq 53 15.5 (3) 8725724278030336 (by norm_num) (by norm_num)
    (by norm_num) (by rw [abs_lt]; norm_num)]
  norm_num

theorem doublePrecision_16_5 : doublePrecision 16.5 = 33 / 2 := by
  rw [doublePrecision, roundToBits_eq 53 16.5 (4) 4644337115725824 (by norm_num) (by norm_num)
    (by norm_num) (by rw [abs_lt]; norm_num)]
  norm_num

theorem doublePrecision_29_5 : doublePrecision 29.5 = 59 / 2 := by
  rw [doublePrecision, roundToBits_eq 53 29.5 (4) 8303511812964352 (by norm_num) (by norm_num)
    (by norm_num) (by rw [abs_lt]; norm_num)]
  norm_num

theorem doublePrecision_30_5 : doublePrecision 30.5 = 61 / 2 := by
  rw [doublePrecision, roundToBits_eq 53 30.5 (4) 8584986789675008 (by norm_num) (by norm_num)
    (by norm_num) (by rw [abs_lt]; norm_num)]
  norm_num

theorem doublePrecision_31_5 : doublePrecision 31.5 = 63 / 2 := by
  rw [doublePrecision, roundToBits_eq 53 31.5 (4) 8866461766385664 (by norm_num) (by norm_num)
    (by norm_num) (by rw [abs_lt]; norm_num)]
  norm_num

theorem doublePrecision_32_5 : doublePrecision 32.5 = 65 / 2 := by
  rw [doublePrecision, roundToBits_eq 53 32.5 (5) 4573968371548160 (by norm_num) (by norm_num)
    (by norm_num) (by rw [abs_lt]; norm_num)]
  norm_num

theorem doublePrecision_0_85 : doublePrecision 0.85 = 7656119366529843 / 9007199254740992 := by
  rw [doublePrecision, roundToBits_eq 53 0.85 (-1) 7656119366529843 (by norm_num) (by norm_num)
    (by norm_num) (by rw [abs_lt]; norm_num)]
  norm_num

theorem doublePrecision_0_72 : doublePrecision 0.72 = 3242591731706757 / 4503599627370496 := by
  rw [doublePrecision, roundToBits_eq 53 0.72 (-1) 6485183463413514 (by norm_num) (by norm_num)
    (by norm_num) (by rw [abs_lt]; norm_num)]
  norm_num

theorem doublePrecision_0_79 : doublePrecision 0.79 = 889460926405673 / 1125899906842624 := by
  rw [doublePrecision, roundToBits_eq 53 0.79 (-1) 7115687411245384 (by norm_num) (by norm_num)
    (by norm_num) (by rw [abs_lt]; norm_num)]
  norm_num

theorem doublePrecision_0_96 : doublePrecision 0.96 = 1080863910568919 / 1125899906842624 := by
  rw [doublePrecision, roundToBits_eq 53 0.96 (-1) 8646911284551352 (by norm_num) (by norm_num)
    (by norm_num) (by rw [abs_lt]; norm_num)]
  norm_num

theorem doublePrecision_0_86 : doublePrecision 0.86 = 7746191359077253 / 9007199254740992 := by
  rw [doublePrecision, roundToBits_eq 53 0.86 (-1) 7746191359077253 (by norm_num) (by norm_num)
    (by norm_num) (by rw [abs_lt]; norm_num)]
  norm_num

theorem doublePrecision_0_8 : doublePrecision 0.8 = 3602879701896397 / 4503599627370496 := by
  rw [doublePrecision, roundToBits_eq 53 0.8 (-1) 7205759403792794 (by norm_num) (by norm_num)
    (by norm_num) (by rw [abs_lt]; norm_num)]
  norm_num

theorem doublePrecision_1_199999 : doublePrecision 1.199999 = 675539381155621 / 562949953421312 := by
  rw [doublePrecision, roundToBits_eq 53 1.199999 (0) 5404315049244968 (by norm_num) (by norm_num)
    (by norm_num) (by rw [abs_lt]; norm_num)]
  norm_num

theorem singlePrecision_of_single_11_8 : singlePrecision (12373197 / 1048576) = 12373197 / 1048576 := by
  rw [singlePrecision, roundToBits_eq 24 (12373197 / 1048576) (3) 12373197 (by norm_num) (by norm_num)
    (by norm_num) (by rw [abs_lt]; norm_num)]
  norm_num

theorem singlePrecision_of_single_12_2 : singlePrecision (12792627 / 1048576) = 12792627 / 1048576 := by
  rw [singlePrecision, roundToBits_eq 24 (12792627 / 1048576) (3) 12792627 (by norm_num) (by norm_num)
    (by norm_num) (by rw [abs_lt]; norm_num)]
  norm_num

theorem doublePrecision_of_single_11_8 : doublePrecision (12373197 / 1048576) = 12373197 / 1048576 := by
  rw [doublePrecision, roundToBits_eq 53 (12373197 / 1048576) (3) 6642809557745664 (by norm_num) (by norm_num)
    (by norm_num) (by rw [abs_lt]; norm_num)]
  norm_num

theorem doublePrecision_of_single_12_2 : doublePrecision (12792627 / 1048576) = 12792627 / 1048576 := by
  rw [doublePrecision, roundToBits_eq 53 (12792627 / 1048576) (3) 6867989324365824 (by norm_num) (by norm_num)
    (by norm_num) (by rw [abs_lt]; norm_num)]
  norm_num

theorem doublePrecision_of_double_11_8 : doublePrecision (3321404725185741 / 281474976710656) = 3321404725185741 / 281474976710656 := by
  rw [doublePrecision, roundToBits_eq 53 (3321404725185741 / 281474976710656) (3) 6642809450371482 (by norm_num) (by norm_num)
    (by norm_num) (by rw [abs_lt]; norm_num)]
  norm_num

theorem singlePrecision_78_3 : singlePrecision 78.3 = 5131469 / 65536 := by
  rw [singlePrecision, roundToBits_eq 24 78.3 (6) 10262938 (by norm_num) (by norm_num)
    (by norm_num) (by rw [abs_lt]; norm_num)]
  norm_num

theorem singlePrecision_0_4184 : singlePrecision 0.4184 = 7019587 / 16777216 := by
  rw [singlePrecision, roundToBits_eq 24 0.4184 (-2) 14039174 (by norm_num) (by norm_num)
    (by norm_num) (by rw [abs_lt]; norm_num)]
  norm_num

theorem singlePrecision_10_0 : singlePrecision 10.0 = 10 := by
  rw [singlePrecision, roundToBits_eq 24 10.0 (3) 10485760 (by norm_num) (by norm_num)
    (by norm_num) (by rw [abs_lt]; norm_num)]
  norm_num

theorem singlePrecision_of_product : singlePrecision (7019587 / 16777216 * 10) = 2193621 / 524288 := by
  rw [singlePrecision, roundToBits_eq 24 (7019587 / 16777216 * 10) (2) 8774484 (by norm_num) (by norm_num)
    (by norm_num) (by rw [abs_lt]; norm_num)]
  norm_num

theorem singlePrecision_of_sum : singlePrecision (1000000 + 2193621 / 524288) = 16000067 / 16 := by
  rw [singlePrecision, roundToBits_eq 24 (1000000 + 2193621 / 524288) (19) 16000067 (by norm_num) (by norm_num)
    (by norm_num) (by rw [abs_lt]; norm_num)]
  norm_num

theorem singlePrecision_of_distance : singlePrecision (10 * 1) = 10 := by
  rw [singlePrecision, roundToBits_eq 24 (10 * 1) (3) 10485760 (by norm_num) (by norm_num)
    (by norm_num) (by rw [abs_lt]; norm_num)]
  norm_num

theorem doublePrecision_78_3 : doublePrecision 78.3 = 5509872669111091 / 70368744177664 := by
  rw [doublePrecision, roundToBits_eq 53 78.3 (6) 5509872669111091 (by norm_num) (by norm_num)
    (by norm_num) (by rw [abs_lt]; norm_num)]
  norm_num

theorem doublePrecision_0_4184 : doublePrecision 0.4184 = 3768612168183631 / 9007199254740992 := by
  rw [doublePrecision, roundToBits_eq 53 0.4184 (-2) 7537224336367262 (by norm_num) (by norm_num)
    (by norm_num) (by rw [abs_lt]; norm_num)]
  norm_num

theorem doublePrecision_10_0 : doublePrecision 10.0 = 10 := by
  rw [doublePrecision, roundToBits_eq 53 10.0 (3) 5629499534213120 (by norm_num) (by norm_num)
    (by norm_num) (by rw [abs_lt]; norm_num)]
  norm_num

theorem singlePrecision_of_double_1_0 : singlePrecision 1 = 1 := by
  rw [singlePrecision, roundToBits_eq 24 1 (0) 8388608 (by norm_num) (by norm_num)
    (by norm_num) (by rw [abs_lt]; norm_num)]
  norm_num

theorem singlePrecision_of_double_1_2 : singlePrecision (5404319552844595 / 4503599627370496) = 5033165 / 4194304 := by
  rw [singlePrecision, roundToBits_eq 24 (5404319552844595 / 4503599627370496) (0) 10066330 (by norm_num) (by norm_num)
    (by norm_num) (by rw [abs_lt]; norm_num)]
  norm_num

theorem singlePrecision_of_double_11_8 : singlePrecision (3321404725185741 / 281474976710656) = 12373197 / 1048576 := by
  rw [singlePrecision, roundToBits_eq 24 (3321404725185741 / 281474976710656) (3) 12373197 (by norm_num) (by norm_num)
    (by norm_num) (by rw [abs_lt]; norm_num)]
  norm_num

theorem singlePrecision_of_double_12_2 : singlePrecision (3433994715870003 / 281474976710656) = 12792627 / 1048576 := by
  rw [singlePrecision, roundToBits_eq 24 (3433994715870003 / 281474976710656) (3) 12792627 (by norm_num) (by norm_num)
    (by norm_num) (by rw [abs_lt]; norm_num)]
  norm_num

theorem singlePrecision_of_double_14_0 : singlePrecision 14 = 14 := by
  rw [singlePrecision, roundToBits_eq 24 14 (3) 14680064 (by norm_num) (by norm_num)
    (by norm_num) (by rw [abs_lt]; norm_num)]
  norm_num

theorem singlePrecision_of_double_15_0 : singlePrecision 15 = 15 := by
  rw [singlePrecision, roundToBits_eq 24 15 (3) 15728640 (by norm_num) (by norm_num)
    (by norm_num) (by rw [abs_lt]; norm_num)]
  norm_num

theorem singlePrecision_of_double_15_5 : singlePrecision (31 / 2) = 31 / 2 := by
  rw [singlePrecision, roundToBits_eq 24 (31 / 2) (3) 16252928 (by norm_num) (by norm_num)
    (by norm_num) (by rw [abs_lt]; norm_num)]
  norm_num

theorem singlePrecision_of_double_16_5 : singlePrecision (33 / 2) = 33 / 2 := by
  rw [singlePrecision, roundToBits_eq 24 (33 / 2) (4) 8650752 (by norm_num) (by norm_num)
    (by norm_num) (by rw [abs_lt]; norm_num)]
  norm_num

theorem singlePrecision_of_double_29_5 : singlePrecision (59 / 2) = 59 / 2 := by
  rw [singlePrecision, roundToBits_eq 24 (59 / 2) (4) 15466496 (by norm_num) (by norm_num)
    (by norm_num) (by rw [abs_lt]; norm_num)]
  norm_num

theorem singlePrecision_of_double_30_5 : singlePrecision (61 / 2) = 61 / 2 := by
  rw [singlePrecision, roundToBits_eq 24 (61 / 2) (4) 15990784 (by norm_num) (by norm_num)
    (by norm_num) (by rw [abs_lt]; norm_num)]
  norm_num

theorem singlePrecision_of_double_31_5 : singlePrecision (63 / 2) = 63 / 2 := by
  rw [singlePrecision, roundToBits_eq 24 (63 / 2) (4) 16515072 (by norm_num) (by norm_num)
    (by norm_num) (by rw [abs_lt]; norm_num)]
  norm_num

theorem singlePrecision_of_double_32_5 : singlePrecision (65 / 2) = 65 / 2 := by
  rw [singlePrecision, roundToBits_eq 24 (65 / 2) (5) 8519680 (by norm_num) (by norm_num)
    (by norm_num) (by rw [abs_lt]; norm_num)]
  norm_num

theorem singlePrecision_of_double_0_85 : singlePrecision (7656119366529843 / 9007199254740992) = 7130317 / 8388608 := by
  rw [singlePrecision, roundToBits_eq 24 (7656119366529843 / 9007199254740992) (-1) 14260634 (by norm_num) (by norm_num)
    (by norm_num) (by rw [abs_lt]; norm_num)]
  norm_num

theorem singlePrecision_of_double_0_72 : singlePrecision (3242591731706757 / 4503599627370496) = 3019899 / 4194304 := by
  rw [singlePrecision, roundToBits_eq 24 (3242591731706757 / 4503599627370496) (-1) 12079596 (by norm_num) (by norm_num)
    (by norm_num) (by rw [abs_lt]; norm_num)]
  norm_num

theorem singlePrecision_of_double_0_79 : singlePrecision (889460926405673 / 1125899906842624) = 13254001 / 16777216 := by
  rw [singlePrecision, roundToBits_eq 24 (889460926405673 / 1125899906842624) (-1) 13254001 (by norm_num) (by norm_num)
    (by norm_num) (by rw [abs_lt]; norm_num)]
  norm_num

theorem singlePrecision_of_double_0_96 : singlePrecision (1080863910568919 / 1125899906842624) = 16106127 / 16777216 := by
  rw [singlePrecision, roundToBits_eq 24 (1080863910568919 / 1125899906842624) (-1) 16106127 (by norm_num) (by norm_num)
    (by norm_num) (by rw [abs_lt]; norm_num)]
  norm_num

theorem singlePrecision_of_double_0_86 : singlePrecision (7746191359077253 / 9007199254740992) = 7214203 / 8388608 := by
  rw [singlePrecision, roundToBits_eq 24 (7746191359077253 / 9007199254740992) (-1) 14428406 (by norm_num) (by norm_num)
    (by norm_num) (by rw [abs_lt]; norm_num)]
  norm_num

theorem singlePrecision_of_double_0_8 : singlePrecision (3602879701896397 / 4503599627370496) = 13421773 / 16777216 := by
  rw [singlePrecision, roundToBits_eq 24 (3602879701896397 / 4503599627370496) (-1) 13421773 (by norm_num) (by norm_num)
    (by norm_num) (by rw [abs_lt]; norm_num)]
  norm_num

theorem singlePrecision_of_double_78_3 : singlePrecision (5509872669111091 / 70368744177664) = 5131469 / 65536 := by
  rw [singlePrecision, roundToBits_eq 24 (5509872669111091 / 70368744177664) (6) 10262938 (by norm_num) (by norm_num)
    (by norm_num) (by rw [abs_lt]; norm_num)]
  norm_num

theorem singlePrecision_of_double_0_4184 : singlePrecision (3768612168183631 / 9007199254740992) = 7019587 / 16777216 := by
  rw [singlePrecision, roundToBits_eq 24 (3768612168183631 / 9007199254740992) (-2) 14039174 (by norm_num) (by norm_num)
    (by norm_num) (by rw [abs_lt]; norm_num)]
  norm_num

theorem singlePrecision_of_double_10_0 : singlePrecision 10 = 10 := by
  rw [singlePrecision, roundToBits_eq 24 10 (3) 10485760 (by norm_num) (by norm_num)
    (by norm_num) (by rw [abs_lt]; norm_num)]
  norm_num

/-- A decimal literal of the source is a `double` before `(float)` converts
it: for the literals of the mass ranges, of the scale factors and of the
Grycuk interface the two roundings give the single-precision number next to
the decimal. -/
theorem singlePrecision_of_double_literal :
    singlePrecision (doublePrecision 1.0) = singlePrecision 1.0 ∧
    singlePrecision (doublePrecision 1.2) = singlePrecision 1.2 ∧
    singlePrecision (doublePrecision 11.8) = singlePrecision 11.8 ∧
    singlePrecision (doublePrecision 12.2) = singlePrecision 12.2 ∧
    singlePrecision (doublePrecision 14.0) = singlePrecision 14.0 ∧
    singlePrecision (doublePrecision 15.0) = singlePrecision 15.0 ∧
    singlePrecision (doublePrecision 15.5) = singlePrecision 15.5 ∧
    singlePrecision (doublePrecision 16.5) = singlePrecision 16.5 ∧
    singlePrecision (doublePrecision 29.5) = singlePrecision 29.5 ∧
    singlePrecision (doublePrecision 30.5) = singlePrecision 30.5 ∧
    singlePrecision (doublePrecision 31.5) = singlePrecision 31.5 ∧
    singlePrecision (doublePrecision 32.5) = singlePrecision 32.5 ∧
    singlePrecision (doublePrecision 0.85) = singlePrecision 0.85 ∧
    singlePrecision (doublePrecision 0.72) = singlePrecision 0.72 ∧
    singlePrecision (doublePrecision 0.79) = singlePrecision 0.79 ∧
    singlePrecision (doublePrecision 0.96) = singlePrecision 0.96 ∧
    singlePrecision (doublePrecision 0.86) = singlePrecision 0.86 ∧
    singlePrecision (doublePrecision 0.8) = singlePrecision 0.8 ∧
    singlePrecision (doublePrecision 78.3) = singlePrecision 78.3 ∧
    singlePrecision (doublePrecision 0.4184) = singlePrecision 0.4184 ∧
    singlePrecision (doublePrecision 10.0) = singlePrecision 10.0 :=
  ⟨by rw [doublePrecision_1_0, singlePrecision_of_double_1_0, singlePrecision_1_0],
    by rw [doublePrecision_1_2, singlePrecision_of_double_1_2, singlePrecision_1_2],
    by rw [doublePrecision_11_8, singlePrecision_of_double_11_8, singlePrecision_11_8],
    by rw [doublePrecision_12_2, singlePrecision_of_double_12_2, singlePrecision_12_2],
    by rw [doublePrecision_14_0, singlePrecision_of_double_14_0, singlePrecision_14_0],
    by rw [doublePrecision_15_0, singlePrecision_of_double_15_0, singlePrecision_15_0],
    by rw [doublePrecision_15_5, singlePrecision_of_double_15_5, singlePrecision_15_5],
    by rw [doublePrecision_16_5, singlePrecision_of_double_16_5, singlePrecision_16_5],
    by rw [doublePrecision_29_5, singlePrecision_of_double_29_5, singlePrecision_29_5],
    by rw [doublePrecision_30_5, singlePrecision_of_double_30_5, singlePrecision_30_5],
    by rw [doublePrecision_31_5, singlePrecision_of_double_31_5, singlePrecision_31_5],
    by rw [doublePrecision_32_5, singlePrecision_of_double_32_5, singlePrecision_32_5],
    by rw [doublePrecision_0_85, singlePrecision_of_double_0_85, singlePrecision_0_85],
    by rw [doublePrecision_0_72, singlePrecision_of_double_0_72, singlePrecision_0_72],
    by rw [doublePrecision_0_79, singlePrecision_of_double_0_79, singlePrecision_0_79],
    by rw [doublePrecision_0_96, singlePrecision_of_double_0_96, singlePrecision_0_96],
    by rw [doublePrecision_0_86, singlePrecision_of_double_0_86, singlePrecision_0_86],
    by rw [doublePrecision_0_8, singlePrecision_of_double_0_8, singlePrecision_0_8],
    by rw [doublePrecision_78_3, singlePrecision_of_double_78_3, singlePrecision_78_3],
    by rw [doublePrecision_0_4184, singlePrecision_of_double_0_4184, singlePrecision_0_4184],
    by rw [doublePrecision_10_0, singlePrecision_of_double_10_0, singlePrecision_10_0]⟩

/-! ## Mass-based classification with the conversions to `RealOpenMM` -/

/-- The chains with the literals taken exactly are the chains with a
conversion that changes no value. -/
theorem elementOfRealOpenMM_id (mass : ℚ) :
    elementOfRealOpenMM (fun x => x) mass = elementOfMass mass ∧
      scaleFactorOfRealOpenMM (fun x => x) mass = scaleFactorOfMass mass :=
  ⟨rfl, rfl⟩

theorem getAtomicNumbersRealOpenMM_eq (RealOpenMM : ℚ → ℚ) (DefaultReturn : Int)
    (top : t_topology) (atomicNumber : List Int) :
    getAtomicNumbersRealOpenMM RealOpenMM DefaultReturn top atomicNumber =
      (DefaultReturn,
        top.atoms.atom.map (fun a => elementOfRealOpenMM RealOpenMM (RealOpenMM a.m))) := by
  unfold getAtomicNumbersRealOpenMM t_atoms.nr
  simp only
  rw [foldl_set_getD (fun a : t_atom => elementOfRealOpenMM RealOpenMM (RealOpenMM a.m))
    top.atoms.atom { m := 0 } _ (length_resize _ _ _)]

theorem getObcScaleFactorsRealOpenMM_eq (RealOpenMM : ℚ → ℚ) (DefaultReturn : Int)
    (top : t_topology) (scaleFactors : List ℚ) :
    getObcScaleFactorsRealOpenMM RealOpenMM DefaultReturn top scaleFactors =
      (DefaultReturn,
        top.atoms.atom.map (fun a => scaleFactorOfRealOpenMM RealOpenMM (RealOpenMM a.m))) := by
  unfold getObcScaleFactorsRealOpenMM t_atoms.nr
  simp only
  rw [foldl_set_getD (fun a : t_atom => scaleFactorOfRealOpenMM RealOpenMM (RealOpenMM a.m))
    top.atoms.atom { m := 0 } _ (length_resize _ _ _)]

theorem classify_hydrogen (RealOpenMM : ℚ → ℚ) (mass : ℚ)
    (h : RealOpenMM 1.0 ≤ mass ∧ mass < RealOpenMM 1.2) :
    elementOfRealOpenMM RealOpenMM mass = 1 ∧
      scaleFactorOfRealOpenMM RealOpenMM mass = RealOpenMM 0.85 := by
  unfold elementOfRealOpenMM scaleFactorOfRealOpenMM
  rw [if_pos ⟨h.2, h.1⟩, if_pos ⟨h.2, h.1⟩]
  exact ⟨rfl, rfl⟩

theorem classify_carbon (RealOpenMM : ℚ → ℚ) (horder : keepsBoundOrder RealOpenMM) (mass : ℚ)
    (h : RealOpenMM 11.8 < mass ∧ mass < RealOpenMM 12.2) :
    elementOfRealOpenMM RealOpenMM mass = 6 ∧
      scaleFactorOfRealOpenMM RealOpenMM mass = RealOpenMM 0.72 := by
  unfold elementOfRealOpenMM scaleFactorOfRealOpenMM
  obtain ⟨o1, o2, o3, o4, o5, o6, o7, o8, o9, o10, o11⟩ := horder
  have e1 : ¬ (mass < RealOpenMM 1.2 ∧ mass ≥ RealOpenMM 1.0) := by
    rintro ⟨a, b⟩; linarith [h.1, h.2]
  rw [if_neg e1, if_pos h, if_neg e1, if_pos h]
  exact ⟨rfl, rfl⟩

theorem classify_nitrogen (RealOpenMM : ℚ → ℚ) (horder : keepsBoundOrder RealOpenMM)
    (mass : ℚ) (h : RealOpenMM 14.0 < mass ∧ mass < RealOpenMM 15.0) :
    elementOfRealOpenMM RealOpenMM mass = 7 ∧
      scaleFactorOfRealOpenMM RealOpenMM mass = RealOpenMM 0.79 := by
  unfold elementOfRealOpenMM scaleFactorOfRealOpenMM
  obtain ⟨o1, o2, o3, o4, o5, o6, o7, o8, o9, o10, o11⟩ := horder
  have e1 : ¬ (mass < RealOpenMM 1.2 ∧ mass ≥ RealOpenMM 1.0) := by
    rintro ⟨a, b⟩; linarith [h.1, h.2]
  have e2 : ¬ (mass > RealOpenMM 11.8 ∧ mass < RealOpenMM 12.2) := by
    rintro ⟨a, b⟩; linarith [h.1, h.2]
  rw [if_neg e1, if_neg e2, if_pos h, if_neg e1, if_neg e2, if_pos h]
  exact ⟨rfl, rfl⟩

theorem classify_oxygen (RealOpenMM : ℚ → ℚ) (horder : keepsBoundOrder RealOpenMM) (mass : ℚ)
    (h : RealOpenMM 15.5 < mass ∧ mass < RealOpenMM 16.5) :
    elementOfRealOpenMM RealOpenMM mass = 8 ∧
      scaleFactorOfRealOpenMM RealOpenMM mass = RealOpenMM 0.85 := by
  unfold elementOfRealOpenMM scaleFactorOfRealOpenMM
  obtain ⟨o1, o2, o3, o4, o5, o6, o7, o8, o9, o10, o11⟩ := horder
  have e1 : ¬ (mass < RealOpenMM 1.2 ∧ mass ≥ RealOpenMM 1.0) := by
    rintro ⟨a, b⟩; linarith [h.1, h.2]
  have e2 : ¬ (mass > RealOpenMM 11.8 ∧ mass < RealOpenMM 12.2) := by
    rintro ⟨a, b⟩; linarith [h.1, h.2]
  have e3 : ¬ (mass > RealOpenMM 14.0 ∧ mass < RealOpenMM 15.0) := by
    rintro ⟨a, b⟩; linarith [h.1, h.2]
  rw [if_neg e1, if_neg e2, if_neg e3, if_pos h, if_neg e1, if_neg e2, if_neg e3, if_pos h]
  exact ⟨rfl, rfl⟩

theorem classify_sulphur (RealOpenMM : ℚ → ℚ) (horder : keepsBoundOrder RealOpenMM)
    (mass : ℚ) (h : RealOpenMM 31.5 < mass ∧ mass < RealOpenMM 32.5) :
    elementOfRealOpenMM RealOpenMM mass = 16 ∧
      scaleFactorOfRealOpenMM RealOpenMM mass = RealOpenMM 0.96 := by
  unfold elementOfRealOpenMM scaleFactorOfRealOpenMM
  obtain ⟨o1, o2, o3, o4, o5, o6, o7, o8, o9, o10, o11⟩ := horder
  have e1 : ¬ (mass < RealOpenMM 1.2 ∧ mass ≥ RealOpenMM 1.0) := by
    rintro ⟨a, b⟩; linarith [h.1, h.2]
  have e2 : ¬ (mass > RealOpenMM 11.8 ∧ mass < RealOpenMM 12.2) := by
    rintro ⟨a, b⟩; linarith [h.1, h.2]
  have e3 : ¬ (mass > RealOpenMM 14.0 ∧ mass < RealOpenMM 15.0) := by
    rintro ⟨a, b⟩; linarith [h.1, h.2]
  have e4 : ¬ (mass > RealOpenMM 15.5 ∧ mass < RealOpenMM 16.5) := by
    rintro ⟨a, b⟩; linarith [h.1, h.2]
  rw [if_neg e1, if_neg e2, if_neg e3, if_neg e4, if_pos h,
    if_neg e1, if_neg e2, if_neg e3, if_neg e4, if_pos h]
  exact ⟨rfl, rfl⟩

theorem classify_phosphorus (RealOpenMM : ℚ → ℚ) (horder : keepsBoundOrder RealOpenMM)
    (mass : ℚ) (h : RealOpenMM 29.5 < mass ∧ mass < RealOpenMM 30.5) :
    elementOfRealOpenMM RealOpenMM mass = 15 ∧
      scaleFactorOfRealOpenMM RealOpenMM mass = RealOpenMM 0.86 := by
  unfold elementOfRealOpenMM scaleFactorOfRealOpenMM
  obtain ⟨o1, o2, o3, o4, o5, o6, o7, o8, o9, o10, o11⟩ := horder
  have e1 : ¬ (mass < RealOpenMM 1.2 ∧ mass ≥ RealOpenMM 1.0) := by
    rintro ⟨a, b⟩; linarith [h.1, h.2]
  have e2 : ¬ (mass > RealOpenMM 11.8 ∧ mass < RealOpenMM 12.2) := by
    rintro ⟨a, b⟩; linarith [h.1, h.2]
  have e3 : ¬ (mass > RealOpenMM 14.0 ∧ mass < RealOpenMM 15.0) := by
    rintro ⟨a, b⟩; linarith [h.1, h.2]
  have e4 : ¬ (mass > RealOpenMM 15.5 ∧ mass < RealOpenMM 16.5) := by
    rintro ⟨a, b⟩; linarith [h.1, h.2]
  have e5 : ¬ (mass > RealOpenMM 31.5 ∧ mass < RealOpenMM 32.5) := by
    rintro ⟨a, b⟩; linarith [h.1, h.2]
  rw [if_neg e1, if_neg e2, if_neg e3, if_neg e4, if_neg e5, if_pos h,
    if_neg e1, if_neg e2, if_neg e3, if_neg e4, if_neg e5, if_pos h]
  exact ⟨rfl, rfl⟩

theorem classify_no_range (RealOpenMM : ℚ → ℚ) (mass : ℚ)
    (h : ¬ (mass < RealOpenMM 1.2 ∧ mass ≥ RealOpenMM 1.0) ∧
      ¬ (mass > RealOpenMM 11.8 ∧ mass < RealOpenMM 12.2) ∧
      ¬ (mass > RealOpenMM 14.0 ∧ mass < RealOpenMM 15.0) ∧
      ¬ (mass > RealOpenMM 15.5 ∧ mass < RealOpenMM 16.5) ∧
      ¬ (mass > RealOpenMM 31.5 ∧ mass < RealOpenMM 32.5) ∧
      ¬ (mass > RealOpenMM 29.5 ∧ mass < RealOpenMM 30.5)) :
    elementOfRealOpenMM RealOpenMM mass = 0 ∧
      scaleFactorOfRealOpenMM RealOpenMM mass = RealOpenMM 0.8 := by
  unfold elementOfRealOpenMM scaleFactorOfRealOpenMM
  obtain ⟨h1, h2, h3, h4, h5, h6⟩ := h
  rw [if_neg h1, if_neg h2, if_neg h3, if_neg h4, if_neg h5, if_neg h6,
    if_neg h1, if_neg h2, if_neg h3, if_neg h4, if_neg h5, if_neg h6]
  exact ⟨rfl, rfl⟩

theorem keepsBoundOrder_singlePrecision : keepsBoundOrder singlePrecision := by
  unfold keepsBoundOrder
  simp only [
    singlePrecision_1_0, singlePrecision_1_2, singlePrecision_11_8, singlePrecision_12_2,
    singlePrecision_14_0, singlePrecision_15_0, singlePrecision_15_5, singlePrecision_16_5,
    singlePrecision_29_5, singlePrecision_30_5, singlePrecision_31_5, singlePrecision_32_5]
  norm_num

theorem keepsBoundOrder_doublePrecision : keepsBoundOrder doublePrecision := by
  unfold keepsBoundOrder
  simp only [
    doublePrecision_1_0, doublePrecision_1_2, doublePrecision_11_8, doublePrecision_12_2,
    doublePrecision_14_0, doublePrecision_15_0, doublePrecision_15_5, doublePrecision_16_5,
    doublePrecision_29_5, doublePrecision_30_5, doublePrecision_31_5, doublePrecision_32_5]
  norm_num

/-- C8, as stated, fails where `RealOpenMM` is single precision: the mass
`12373197/1048576` (the single-precision number next to 11.8, which a
single-precision topology holds for 11.8) lies strictly between 11.8 and
12.2, yet it is not greater than `(RealOpenMM) 11.8`, which is that same
number; the atom gets element 0 and the scale factor `(RealOpenMM) 0.8`, not
(6, 0.72). -/
theorem stored_mass_above_11_8_is_unknown :
    ((11.8 : ℚ) < 12373197 / 1048576 ∧ (12373197 / 1048576 : ℚ) < 12.2) ∧
    singlePrecision 11.8 = 12373197 / 1048576 ∧
    getAtomicNumbersRealOpenMM singlePrecision 0
      { atoms := { atom := [{ m := 12373197 / 1048576 }] } } [] = (0, [0]) ∧
    getObcScaleFactorsRealOpenMM singlePrecision 0
      { atoms := { atom := [{ m := 12373197 / 1048576 }] } } [] =
      (0, [13421773 / 16777216]) ∧
    (13421773 / 16777216 : ℚ) ≠ 0.72 := by
  refine ⟨by norm_num, singlePrecision_11_8, ?_, ?_, by norm_num⟩
  · rw [getAtomicNumbersRealOpenMM_eq]
    simp only [List.map_cons, List.map_nil, elementOfRealOpenMM,
      singlePrecision_1_0, singlePrecision_1_2, singlePrecision_11_8, singlePrecision_12_2,
      singlePrecision_14_0, singlePrecision_15_0, singlePrecision_15_5, singlePrecision_16_5,
      singlePrecision_29_5, singlePrecision_30_5, singlePrecision_31_5, singlePrecision_32_5,
      singlePrecision_of_single_11_8]
    norm_num
  · rw [getObcScaleFactorsRealOpenMM_eq]
    simp only [List.map_cons, List.map_nil, scaleFactorOfRealOpenMM,
      singlePrecision_1_0, singlePrecision_1_2, singlePrecision_11_8, singlePrecision_12_2,
      singlePrecision_14_0, singlePrecision_15_0, singlePrecision_15_5, singlePrecision_16_5,
      singlePrecision_29_5, singlePrecision_30_5, singlePrecision_31_5, singlePrecision_32_5,
      singlePrecision_of_single_11_8, singlePrecision_0_8]
    norm_num

/-- C8, amended: with `M = (RealOpenMM) m` the value compared for an atom of
mass `m`, and a conversion to `RealOpenMM` that keeps the order of the twelve
bounds, `getAtomicNumbers` and `getObcScaleFactors` store for that atom the
pair (element, scale factor) = (1, `(RealOpenMM) 0.85`) if
`(RealOpenMM) 1.0 <= M < (RealOpenMM) 1.2`; (6, `(RealOpenMM) 0.72`) if
`(RealOpenMM) 11.8 < M < (RealOpenMM) 12.2`; (7, `(RealOpenMM) 0.79`) if
`(RealOpenMM) 14.0 < M < (RealOpenMM) 15.0`; (8, `(RealOpenMM) 0.85`) if
`(RealOpenMM) 15.5 < M < (RealOpenMM) 16.5`; (16, `(RealOpenMM) 0.96`) if
`(RealOpenMM) 31.5 < M < (RealOpenMM) 32.5`; (15, `(RealOpenMM) 0.86`) if
`(RealOpenMM) 29.5 < M < (RealOpenMM) 30.5`. -/
theorem classify_converted_ranges (RealOpenMM : ℚ → ℚ) (DefaultReturn : Int)
    (top : t_topology) (atomicNumber : List Int) (scaleFactors : List ℚ) (atomI : Nat)
    (a : t_atom) (horder : keepsBoundOrder RealOpenMM)
    (ha : top.atoms.atom[atomI]? = some a) :
    (RealOpenMM 1.0 ≤ RealOpenMM a.m ∧ RealOpenMM a.m < RealOpenMM 1.2 →
      (getAtomicNumbersRealOpenMM RealOpenMM DefaultReturn top atomicNumber).2[atomI]? =
        some 1 ∧
      (getObcScaleFactorsRealOpenMM RealOpenMM DefaultReturn top scaleFactors).2[atomI]? =
        some (RealOpenMM 0.85)) ∧
    (RealOpenMM 11.8 < RealOpenMM a.m ∧ RealOpenMM a.m < RealOpenMM 12.2 →
      (getAtomicNumbersRealOpenMM RealOpenMM DefaultReturn top atomicNumber).2[atomI]? =
        some 6 ∧
      (getObcScaleFactorsRealOpenMM RealOpenMM DefaultReturn top scaleFactors).2[atomI]? =
        some (RealOpenMM 0.72)) ∧
    (RealOpenMM 14.0 < RealOpenMM a.m ∧ RealOpenMM a.m < RealOpenMM 15.0 →
      (getAtomicNumbersRealOpenMM RealOpenMM DefaultReturn top atomicNumber).2[atomI]? =
        some 7 ∧
      (getObcScaleFactorsRealOpenMM RealOpenMM DefaultReturn top scaleFactors).2[atomI]? =
        some (RealOpenMM 0.79)) ∧
    (RealOpenMM 15.5 < RealOpenMM a.m ∧ RealOpenMM a.m < RealOpenMM 16.5 →
      (getAtomicNumbersRealOpenMM RealOpenMM DefaultReturn top atomicNumber).2[atomI]? =
        some 8 ∧
      (getObcScaleFactorsRealOpenMM RealOpenMM DefaultReturn top scaleFactors).2[atomI]? =
        some (RealOpenMM 0.85)) ∧
    (RealOpenMM 31.5 < RealOpenMM a.m ∧ RealOpenMM a.m < RealOpenMM 32.5 →
      (getAtomicNumbersRealOpenMM RealOpenMM DefaultReturn top atomicNumber).2[atomI]? =
        some 16 ∧
      (getObcScaleFactorsRealOpenMM RealOpenMM DefaultReturn top scaleFactors).2[atomI]? =
        some (RealOpenMM 0.96)) ∧
    (RealOpenMM 29.5 < RealOpenMM a.m ∧ RealOpenMM a.m < RealOpenMM 30.5 →
      (getAtomicNumbersRealOpenMM RealOpenMM DefaultReturn top atomicNumber).2[atomI]? =
        some 15 ∧
      (getObcScaleFactorsRealOpenMM RealOpenMM DefaultReturn top scaleFactors).2[atomI]? =
        some (RealOpenMM 0.86)) := by
  simp only [getAtomicNumbersRealOpenMM_eq, getObcScaleFactorsRealOpenMM_eq, List.getElem?_map,
    ha, Option.map_some']
  refine ⟨fun h => ?_, fun h => ?_, fun h => ?_, fun h => ?_, fun h => ?_, fun h => ?_⟩
  · rw [(classify_hydrogen RealOpenMM _ h).1, (classify_hydrogen RealOpenMM _ h).2]
    exact ⟨rfl, rfl⟩
  · rw [(classify_carbon RealOpenMM horder _ h).1, (classify_carbon RealOpenMM horder _ h).2]
    exact ⟨rfl, rfl⟩
  · rw [(classify_nitrogen RealOpenMM horder _ h).1,
      (classify_nitrogen RealOpenMM horder _ h).2]
    exact ⟨rfl, rfl⟩
  · rw [(classify_oxygen RealOpenMM horder _ h).1, (classify_oxygen RealOpenMM horder _ h).2]
    exact ⟨rfl, rfl⟩
  · rw [(classify_sulphur RealOpenMM horder _ h).1, (classify_sulphur RealOpenMM horder _ h).2]
    exact ⟨rfl, rfl⟩
  · rw [(classify_phosphorus RealOpenMM horder _ h).1,
      (classify_phosphorus RealOpenMM horder _ h).2]
    exact ⟨rfl, rfl⟩

/-- Witness for C8 amended: the masses 1.0 and 1.199999 are hydrogen, with
the scale factor `(float) 0.85` in single precision and `(double) 0.85` in
double precision. -/
theorem classify_converted_ranges_witness :
    keepsBoundOrder singlePrecision ∧
    singlePrecision 1.199999 = 10066321 / 8388608 ∧
    singlePrecision 0.85 = 7130317 / 8388608 ∧
    ((getAtomicNumbersRealOpenMM singlePrecision 0
        { atoms := { atom := [{ m := 1.0 }, { m := 1.199999 }, { m := 12.0 }] } } []).2[1]?
        = some (1 : Int) ∧
      (getObcScaleFactorsRealOpenMM singlePrecision 0
        { atoms := { atom := [{ m := 1.0 }, { m := 1.199999 }, { m := 12.0 }] } } []).2[1]?
        = some (singlePrecision 0.85)) ∧
    ((getAtomicNumbersRealOpenMM singlePrecision 0
        { atoms := { atom := [{ m := 1.0 }, { m := 1.199999 }, { m := 12.0 }] } } []).2[0]?
        = some (1 : Int) ∧
      (getObcScaleFactorsRealOpenMM singlePrecision 0
        { atoms := { atom := [{ m := 1.0 }, { m := 1.199999 }, { m := 12.0 }] } } []).2[0]?
        = some (singlePrecision 0.85)) ∧
    keepsBoundOrder doublePrecision ∧
    ((getAtomicNumbersRealOpenMM doublePrecision 0
        { atoms := { atom := [{ m := 1.0 }, { m := 1.199999 }, { m := 12.0 }] } } []).2[1]?
        = some (1 : Int) ∧
      (getObcScaleFactorsRealOpenMM doublePrecision 0
        { atoms := { atom := [{ m := 1.0 }, { m := 1.199999 }, { m := 12.0 }] } } []).2[1]?
        = some (doublePrecision 0.85)) ∧
    ((getAtomicNumbersRealOpenMM doublePrecision 0
        { atoms := { atom := [{ m := 1.0 }, { m := 1.199999 }, { m := 12.0 }] } } []).2[0]?
        = some (1 : Int) ∧
      (getObcScaleFactorsRealOpenMM doublePrecision 0
        { atoms := { atom := [{ m := 1.0 }, { m := 1.199999 }, { m := 12.0 }] } } []).2[0]?
        = some (doublePrecision 0.85)) :=
  ⟨keepsBoundOrder_singlePrecision, singlePrecision_1_199999, singlePrecision_0_85,
    (classify_converted_ranges singlePrecision 0
      { atoms := { atom := [{ m := 1.0 }, { m := 1.199999 }, { m := 12.0 }] } } [] []
      1 { m := 1.199999 } keepsBoundOrder_singlePrecision rfl).1
      (by simp only [singlePrecision_1_0, singlePrecision_1_2, singlePrecision_1_199999]
          norm_num),
    (classify_converted_ranges singlePrecision 0
      { atoms := { atom := [{ m := 1.0 }, { m := 1.199999 }, { m := 12.0 }] } } [] []
      0 { m := 1.0 } keepsBoundOrder_singlePrecision rfl).1
      (by simp only [singlePrecision_1_0, singlePrecision_1_2]
          norm_num),
    keepsBoundOrder_doublePrecision,
    (classify_converted_ranges doublePrecision 0
      { atoms := { atom := [{ m := 1.0 }, { m := 1.199999 }, { m := 12.0 }] } } [] []
      1 { m := 1.199999 } keepsBoundOrder_doublePrecision rfl).1
      (by simp only [doublePrecision_1_0, doublePrecision_1_2, doublePrecision_1_199999]
          norm_num),
    (classify_converted_ranges doublePrecision 0
      { atoms := { atom := [{ m := 1.0 }, { m := 1.199999 }, { m := 12.0 }] } } [] []
      0 { m := 1.0 } keepsBoundOrder_doublePrecision rfl).1
      (by simp only [doublePrecision_1_0, doublePrecision_1_2]
          norm_num)⟩

/-- C10, evaluation at the natural isotopic average masses: hydrogen 1.008,
carbon 12.011, nitrogen 14.007, oxygen 15.999 and sulfur 32.06 are classified
as themselves, while phosphorus 30.974 lies above the tested range
`(29.5, 30.5)` and is stored as element 0 with scale factor 0.8. -/
theorem natural_masses_classification (DefaultReturn : Int) :
    getAtomicNumbers DefaultReturn
      { atoms := { atom := [{ m := 1.008 }, { m := 12.011 }, { m := 14.007 }, { m := 15.999 }, { m := 32.06 }, { m := 30.974 }] } } [] =
      (DefaultReturn, [1, 6, 7, 8, 16, 0]) ∧
    getObcScaleFactors DefaultReturn
      { atoms := { atom := [{ m := 1.008 }, { m := 12.011 }, { m := 14.007 }, { m := 15.999 }, { m := 32.06 }, { m := 30.974 }] } } [] =
      (DefaultReturn, [0.85, 0.72, 0.79, 0.85, 0.96, 0.8]) ∧
    ¬ ((29.5 : ℚ) < 30.974 ∧ (30.974 : ℚ) < 30.5) := by
  refine ⟨?_, ?_, by norm_num⟩
  · rw [getAtomicNumbers_eq]
    simp only [List.map_cons, List.map_nil, elementOfMass]
    norm_num
  · rw [getObcScaleFactors_eq]
    simp only [List.map_cons, List.map_nil, scaleFactorOfMass]
    norm_num

/-! ## The residue-name dictionary -/

theorem getTinkerGromacsResidueNameMap_fst (statics : Statics)
    (hs : statics.residueNameMap = none ∨ statics.residueNameMap = some residueNameMapBuilt) :
    (getTinkerGromacsResidueNameMap statics).1 = residueNameMapBuilt := by
  unfold getTinkerGromacsResidueNameMap
  rcases hs with h | h
  · rw [h]; rfl
  · rw [h]

theorem getTinkerGromacsResidueNameMap_snd (statics : Statics) :
    (getTinkerGromacsResidueNameMap statics).2 =
      { statics with residueNameMap := some (getTinkerGromacsResidueNameMap statics).1 } := by
  unfold getTinkerGromacsResidueNameMap
  cases h : statics.residueNameMap with
  | none => rfl
  | some m =>
    cases statics
    simp only at h
    subst h
    rfl

theorem getTinkerBiotypeResidueName_fst (NotSet gromacsResidueName : String)
    (statics : Statics) :
    (getTinkerBiotypeResidueNameGivenGromacsResidueName NotSet gromacsResidueName statics).1 =
      ((getTinkerGromacsResidueNameMap statics).1 gromacsResidueName).getD NotSet := by
  unfold getTinkerBiotypeResidueNameGivenGromacsResidueName
  simp only
  cases (getTinkerGromacsResidueNameMap statics).1 gromacsResidueName <;> rfl

theorem getTinkerBiotypeResidueName_snd (NotSet gromacsResidueName : String)
    (statics : Statics) :
    (getTinkerBiotypeResidueNameGivenGromacsResidueName NotSet gromacsResidueName statics).2 =
      (getTinkerGromacsResidueNameMap statics).2 := by
  unfold getTinkerBiotypeResidueNameGivenGromacsResidueName
  simp only
  cases (getTinkerGromacsResidueNameMap statics).1 gromacsResidueName <;> rfl

theorem foldl_residueNameMapStep_of_not_key (rows : List (String × String × Option String))
    (m : StringMap) (name : String)
    (h : ∀ row ∈ rows, name ≠ row.1 ∧ name ≠ "N" ++ row.1 ∧ name ≠ "C" ++ row.1) :
    (rows.foldl residueNameMapStep m) name = m name := by
  induction rows generalizing m with
  | nil => rfl
  | cons row rows ih =>
    rw [List.foldl_cons, ih _ (fun r hr => h r (List.mem_cons_of_mem _ hr))]
    obtain ⟨h1, h2, h3⟩ := h row (List.mem_cons_self _ _)
    simp only [residueNameMapStep, mapAssign, h1, h2, h3, if_false]

theorem residueNameMapBuilt_of_not_key (name : String)
    (h : ∀ row ∈ nameMap, name ≠ row.1 ∧ name ≠ "N" ++ row.1 ∧ name ≠ "C" ++ row.1) :
    residueNameMapBuilt name = none :=
  foldl_residueNameMapStep_of_not_key nameMap mapEmpty name h

/-- C14. For each of the 30 rows of the residue-name table,
`getTinkerBiotypeResidueNameGivenGromacsResidueName` returns the listed Tinker
name for the row's Gromacs name (so no synthesized terminal entry overwrites a
base entry), whether the dictionary is built by this call or was built before;
for every name that is not a key of the dictionary, in particular every name
that is neither a table name nor a table name prefixed by `N` or `C`, it
returns the `NotSet` sentinel. -/
theorem residue_name_lookup (NotSet : String) (statics : Statics)
    (hs : statics.residueNameMap = none ∨ statics.residueNameMap = some residueNameMapBuilt) :
    (∀ row ∈ nameMap,
      (getTinkerBiotypeResidueNameGivenGromacsResidueName NotSet row.1 statics).1 = row.2.1) ∧
    (∀ name : String, (getTinkerGromacsResidueNameMap statics).1 name = none →
      (getTinkerBiotypeResidueNameGivenGromacsResidueName NotSet name statics).1 = NotSet) ∧
    (∀ name : String, (∀ row ∈ nameMap, name ≠ row.1 ∧ name ≠ "N" ++ row.1 ∧
        name ≠ "C" ++ row.1) →
      (getTinkerBiotypeResidueNameGivenGromacsResidueName NotSet name statics).1 = NotSet) := by
  have hall : ∀ row ∈ nameMap, residueNameMapBuilt row.1 = some row.2.1 := by decide
  refine ⟨?_, ?_, ?_⟩
  · intro row hrow
    rw [getTinkerBiotypeResidueName_fst, getTinkerGromacsResidueNameMap_fst statics hs,
      hall row hrow]
    rfl
  · intro name hname
    rw [getTinkerBiotypeResidueName_fst, hname]
    rfl
  · intro name hname
    rw [getTinkerBiotypeResidueName_fst, getTinkerGromacsResidueNameMap_fst statics hs,
      residueNameMapBuilt_of_not_key name hname]
    rfl

/-- Witness for C14: from the initial statics, `HIP`, `CYX`, `CYS2` and `SOL`
resolve to their listed names and `XYZ` gives the sentinel. -/
theorem residue_name_lookup_witness :
    ((({} : Statics).residueNameMap = none ∨
      ({} : Statics).residueNameMap = some residueNameMapBuilt)) ∧
    (getTinkerBiotypeResidueNameGivenGromacsResidueName "NotSet" "HIP" {}).1 =
      "Histidine_(+)" ∧
    (getTinkerBiotypeResidueNameGivenGromacsResidueName "NotSet" "CYX" {}).1 =
      "Cystine_(-SS-)" ∧
    (getTinkerBiotypeResidueNameGivenGromacsResidueName "NotSet" "CYS2" {}).1 =
      "Cystine_(-SS-)" ∧
    (getTinkerBiotypeResidueNameGivenGromacsResidueName "NotSet" "SOL" {}).1 =
      "AMOEBA_Water" ∧
    (getTinkerBiotypeResidueNameGivenGromacsResidueName "NotSet" "XYZ" {}).1 = "NotSet" :=
  ⟨Or.inl rfl,
   (residue_name_lookup "NotSet" {} (Or.inl rfl)).1 ("HIP", "Histidine_(+)", none) (by decide),
   (residue_name_lookup "NotSet" {} (Or.inl rfl)).1 ("CYX", "Cystine_(-SS-)", none) (by decide),
   (residue_name_lookup "NotSet" {} (Or.inl rfl)).1 ("CYS2", "Cystine_(-SS-)", none) (by decide),
   (residue_name_lookup "NotSet" {} (Or.inl rfl)).1 ("SOL", "AMOEBA_Water", none) (by decide),
   (residue_name_lookup "NotSet" {} (Or.inl rfl)).2.2 "XYZ" (by decide)⟩

/-- C15, as stated, fails: the row `("ALA", "Alanine")` has no third column,
and the dictionary maps `NALA` to `N-Terminal_ALA`, not to
`N-Terminal_Alanine`; likewise `CALA` goes to `C-Terminal_ALA`. -/
theorem terminal_entries_use_source_name :
    ("ALA", "Alanine", (none : Option String)) ∈ nameMap ∧
    (getTinkerGromacsResidueNameMap {}).1 ("N" ++ "ALA") = some "N-Terminal_ALA" ∧
    (getTinkerGromacsResidueNameMap {}).1 ("N" ++ "ALA") ≠ some ("N-Terminal_" ++ "Alanine") ∧
    (getTinkerGromacsResidueNameMap {}).1 ("C" ++ "ALA") = some "C-Terminal_ALA" ∧
    (getTinkerGromacsResidueNameMap {}).1 ("C" ++ "ALA") ≠ some ("C-Terminal_" ++ "Alanine") := by
  decide

/-- C15, amended. For every table row (Gromacs name `s`, Tinker name `c`)
without a third column, the residue-name dictionary maps `N` + `s` to
`N-Terminal_` + `s` and `C` + `s` to `C-Terminal_` + `s`: the terminal prefix
is put in front of the Gromacs name (`NALA` gives `N-Terminal_ALA`). -/
theorem terminal_entries (statics : Statics)
    (hs : statics.residueNameMap = none ∨ statics.residueNameMap = some residueNameMapBuilt)
    (row : String × String × Option String) (hrow : row ∈ nameMap) (hnone : row.2.2 = none) :
    (getTinkerGromacsResidueNameMap statics).1 ("N" ++ row.1) = some ("N-Terminal_" ++ row.1) ∧
    (getTinkerGromacsResidueNameMap statics).1 ("C" ++ row.1) = some ("C-Terminal_" ++ row.1) := by
  have hall : ∀ row ∈ nameMap, row.2.2 = none →
      residueNameMapBuilt ("N" ++ row.1) = some ("N-Terminal_" ++ row.1) ∧
      residueNameMapBuilt ("C" ++ row.1) = some ("C-Terminal_" ++ row.1) := by decide
  rw [getTinkerGromacsResidueNameMap_fst statics hs]
  exact hall row hrow hnone

/-- Witness for C15 amended: the row of `ALA`, from the initial statics. -/
theorem terminal_entries_witness :
    ((({} : Statics).residueNameMap = none ∨
      ({} : Statics).residueNameMap = some residueNameMapBuilt)) ∧
    ("ALA", "Alanine", (none : Option String)) ∈ nameMap ∧
    (getTinkerGromacsResidueNameMap {}).1 ("N" ++ "ALA") = some ("N-Terminal_" ++ "ALA") ∧
    (getTinkerGromacsResidueNameMap {}).1 ("C" ++ "ALA") = some ("C-Terminal_" ++ "ALA") :=
  ⟨Or.inl rfl, by decide,
    terminal_entries {} (Or.inl rfl) ("ALA", "Alanine", none) (by decide) rfl⟩

/-- C16, evaluation on the four rows that carry a third column (`NLE`, `LYN`,
`LYSH`, `LYP`, all with `LYS`): the N-terminal entry uses the third column,
`N` + `s` gives `N-Terminal_LYS`, while the C-terminal entry does not, `C` +
`s` gives `C-Terminal_` + `s` (`CLYN` gives `C-Terminal_LYN`, not
`C-Terminal_LYS`). -/
theorem override_rows :
    (∀ row ∈ nameMap, row.2.2.isSome = true →
      row.2.2 = some "LYS" ∧
      (getTinkerGromacsResidueNameMap {}).1 ("N" ++ row.1) = some "N-Terminal_LYS" ∧
      (getTinkerGromacsResidueNameMap {}).1 ("C" ++ row.1) = some ("C-Terminal_" ++ row.1) ∧
      (getTinkerGromacsResidueNameMap {}).1 ("C" ++ row.1) ≠ some "C-Terminal_LYS") ∧
    (getTinkerBiotypeResidueNameGivenGromacsResidueName "NotSet" "CLYN" {}).1 =
      "C-Terminal_LYN" ∧
    (getTinkerBiotypeResidueNameGivenGromacsResidueName "NotSet" "NLYN" {}).1 =
      "N-Terminal_LYS" := by
  decide

/-! ## Singleton dictionaries -/

theorem residueMap_accessor (statics : Statics) :
    (getTinkerGromacsResidueNameMap statics).2.residueMap = statics.residueMap := by
  rcases statics with ⟨_ | r, _ | b⟩ <;> rfl

theorem biotypeMap_accessor (A : Int) (statics : Statics) :
    (getTinkerGromacsResidueNameMap statics).2.biotypeMap A = statics.biotypeMap A := by
  rcases statics with ⟨_ | r, _ | b⟩ <;> rfl

theorem residueMap_biotypeAccessor (A f : Int) (statics : Statics) :
    (getTinkerResidueAtomNameBiotypeMap A f statics).2.residueMap = statics.residueMap := by
  rcases statics with ⟨_ | r, _ | b⟩ <;> rfl

theorem biotypeMap_biotypeAccessor (A : Int) (statics : Statics) :
    (getTinkerResidueAtomNameBiotypeMap A A statics).2.biotypeMap A = statics.biotypeMap A := by
  rcases statics with ⟨_ | r, _ | b⟩ <;> rfl

theorem getTinkerBiotypeResidueName_eq (NotSet gromacsResidueName : String)
    (statics : Statics) :
    getTinkerBiotypeResidueNameGivenGromacsResidueName NotSet gromacsResidueName statics =
      ((statics.residueMap gromacsResidueName).getD NotSet,
        (getTinkerGromacsResidueNameMap statics).2) := by
  unfold getTinkerBiotypeResidueNameGivenGromacsResidueName Statics.residueMap
  simp only
  cases (getTinkerGromacsResidueNameMap statics).1 gromacsResidueName <;> rfl

theorem getBiotypeGivenResidueAtomNames_eq (A : Int) (tinkerResidueName tinkerAtomName : String)
    (statics : Statics) :
    getBiotypeGivenResidueAtomNames A tinkerResidueName tinkerAtomName statics =
      (lookupBiotype (statics.biotypeMap A) tinkerResidueName tinkerAtomName).map
        (fun biotype => (biotype, (getTinkerResidueAtomNameBiotypeMap A A statics).2)) := by
  rfl

/-! ## The scan and the scan over fixed dictionaries -/

theorem biotypeWithRetry_pure (NotSet : String) (A : Int)
    (residueName tinkerResidueName atomName : String) (statics : Statics) :
    (biotypeWithRetry NotSet A residueName tinkerResidueName atomName statics).map Prod.fst =
        biotypeOfAtom statics.residueMap (statics.biotypeMap A) NotSet residueName
          tinkerResidueName atomName ∧
    ∀ r, biotypeWithRetry NotSet A residueName tinkerResidueName atomName statics = some r →
      r.2.residueMap = statics.residueMap ∧ r.2.biotypeMap A = statics.biotypeMap A := by
  unfold biotypeWithRetry biotypeOfAtom
  simp only [getBiotypeGivenResidueAtomNames_eq, getTinkerBiotypeResidueName_eq]
  cases h1 : lookupBiotype (statics.biotypeMap A) tinkerResidueName atomName with
  | none => simp [h1]
  | some b =>
    simp only [Option.map_some', Option.bind_eq_bind, Option.some_bind]
    by_cases hb : b < 0 ∧ residueName.length = 4
    · simp only [hb, and_self, if_true, biotypeMap_accessor, biotypeMap_biotypeAccessor,
        residueMap_biotypeAccessor, Option.map_map]
      constructor
      · cases lookupBiotype (statics.biotypeMap A)
          ((statics.residueMap (substr residueName 1 4)).getD NotSet) atomName <;> rfl
      · intro r hr
        rw [Option.map_eq_some'] at hr
        obtain ⟨_, _, rfl⟩ := hr
        simp only [residueMap_biotypeAccessor, biotypeMap_biotypeAccessor, residueMap_accessor,
          biotypeMap_accessor, and_self]
    · simp only [hb, if_false, Option.map_some', true_and]
      intro r hr
      cases hr
      simp only [residueMap_biotypeAccessor, biotypeMap_biotypeAccessor, and_self]

theorem residueBoundaryStep_pure (NotSet : String) (A : Int) (top : t_topology)
    (scan : TinkerScan) (atomName : String) (statics : Statics) :
    (residueBoundaryStep NotSet top scan atomName statics).map Prod.fst =
        residueBoundaryPure statics.residueMap NotSet top scan atomName ∧
    ∀ r, residueBoundaryStep NotSet top scan atomName statics = some r →
      r.2.residueMap = statics.residueMap ∧ r.2.biotypeMap A = statics.biotypeMap A := by
  unfold residueBoundaryStep residueBoundaryPure
  simp only [getTinkerBiotypeResidueName_eq]
  cases hf : scan.firstAtomName with
  | none =>
    simp only
    cases hr : readAt top.atoms.resname scan.residueI with
    | none => simp
    | some residueName =>
      refine ⟨by simp, ?_⟩
      intro r hr'
      simp only [Option.bind_eq_bind, Option.some_bind, Option.some.injEq] at hr'
      subst hr'
      exact ⟨residueMap_accessor _, biotypeMap_accessor _ _⟩
  | some firstAtomName =>
    simp only
    by_cases hc : ((atomName.length : Int) = scan.firstAtomNameL ∧ atomName = firstAtomName) ∨
        atomName = "OW"
    · rw [if_pos hc, if_pos hc]
      cases hr : readAt top.atoms.resname (scan.residueI + 1) with
      | none => simp
      | some residueName =>
        refine ⟨by simp, ?_⟩
        intro r hr'
        simp only [Option.bind_eq_bind, Option.some_bind, Option.some.injEq] at hr'
        subst hr'
        exact ⟨residueMap_accessor _, biotypeMap_accessor _ _⟩
    · rw [if_neg hc, if_neg hc]
      refine ⟨rfl, ?_⟩
      intro r hr'
      cases hr'
      exact ⟨rfl, rfl⟩

theorem getTinkerBiotypesStep_pure (NotSet : String) (A : Int) (top : t_topology)
    (state : TinkerScan × Statics) (atomI : Nat) :
    (getTinkerBiotypesStep NotSet A top state atomI).map Prod.fst =
        tinkerStepPure state.2.residueMap (state.2.biotypeMap A) NotSet top state.1 atomI ∧
    ∀ r, getTinkerBiotypesStep NotSet A top state atomI = some r →
      r.2.residueMap = state.2.residueMap ∧ r.2.biotypeMap A = state.2.biotypeMap A := by
  unfold getTinkerBiotypesStep tinkerStepPure
  cases hn : top.atoms.atomname[atomI]? with
  | none => simp
  | some atomName =>
    simp only [Option.bind_eq_bind, Option.some_bind]
    obtain ⟨hb1, hb2⟩ := residueBoundaryStep_pure NotSet A top state.1 atomName state.2
    rw [← hb1]
    cases hs : residueBoundaryStep NotSet top state.1 atomName state.2 with
    | none => simp
    | some r1 =>
      obtain ⟨hm1, hm2⟩ := hb2 r1 hs
      simp only [Option.map_some', Option.some_bind]
      obtain ⟨hw1, hw2⟩ := biotypeWithRetry_pure NotSet A r1.1.residueName
        r1.1.tinkerResidueName (canonicalAtomName r1.1.residueI atomName) r1.2
      rw [hm1, hm2] at hw1 hw2
      rw [← hw1]
      cases hw : biotypeWithRetry NotSet A r1.1.residueName r1.1.tinkerResidueName
          (canonicalAtomName r1.1.residueI atomName) r1.2 with
      | none => simp
      | some r2 =>
        simp only [Option.map_some', Option.some_bind, true_and]
        intro r hr
        cases hr
        exact hw2 r2 hw

theorem foldlM_getTinkerBiotypesStep_pure (NotSet : String) (A : Int) (top : t_topology)
    (l : List Nat) (state : TinkerScan × Statics) :
    (l.foldlM (getTinkerBiotypesStep NotSet A top) state).map Prod.fst =
        l.foldlM (tinkerStepPure state.2.residueMap (state.2.biotypeMap A) NotSet top)
          state.1 ∧
    ∀ r, l.foldlM (getTinkerBiotypesStep NotSet A top) state = some r →
      r.2.residueMap = state.2.residueMap ∧ r.2.biotypeMap A = state.2.biotypeMap A := by
  induction l generalizing state with
  | nil =>
    simp only [List.foldlM_nil, Option.pure_def, Option.map_some', true_and]
    intro r hr
    cases hr
    exact ⟨rfl, rfl⟩
  | cons atomI l ih =>
    simp only [List.foldlM_cons, Option.bind_eq_bind]
    obtain ⟨hs1, hs2⟩ := getTinkerBiotypesStep_pure NotSet A top state atomI
    rw [← hs1]
    cases hs : getTinkerBiotypesStep NotSet A top state atomI with
    | none => simp
    | some r1 =>
      obtain ⟨hm1, hm2⟩ := hs2 r1 hs
      obtain ⟨ih1, ih2⟩ := ih r1
      simp only [Option.some_bind, Option.map_some']
      rw [hm1, hm2] at ih1 ih2
      exact ⟨ih1, ih2⟩

/-- The scan of `getTinkerBiotypes` computes what the scan over the
dictionaries in force computes, and leaves the same dictionaries in force. -/
theorem getTinkerBiotypes_pure (DefaultReturn : Int) (NotSet : String) (A : Int)
    (numberOfAtoms : Int) (top : t_topology) (tinkerAtomNames tinkerResidueNames : List String)
    (tinkerBiotypes : List Int) (statics : Statics) :
    (getTinkerBiotypes DefaultReturn NotSet A numberOfAtoms top tinkerAtomNames
        tinkerResidueNames tinkerBiotypes statics).map (fun r => (r.1, r.2.1)) =
      (tinkerScanPure statics.residueMap (statics.biotypeMap A) NotSet numberOfAtoms top
        tinkerAtomNames tinkerResidueNames tinkerBiotypes).map (fun scan => (DefaultReturn, scan)) ∧
    ∀ r, getTinkerBiotypes DefaultReturn NotSet A numberOfAtoms top tinkerAtomNames
        tinkerResidueNames tinkerBiotypes statics = some r →
      r.2.2.residueMap = statics.residueMap ∧ r.2.2.biotypeMap A = statics.biotypeMap A := by
  unfold getTinkerBiotypes tinkerScanPure
  simp only
  obtain ⟨h1, h2⟩ := foldlM_getTinkerBiotypesStep_pure NotSet A top
    (List.range numberOfAtoms.toNat)
    ({ tinkerAtomNames := resize tinkerAtomNames numberOfAtoms.toNat "",
       tinkerResidueNames := resize tinkerResidueNames numberOfAtoms.toNat "",
       tinkerBiotypes := resize tinkerBiotypes numberOfAtoms.toNat 0 }, statics)
  constructor
  · rw [← h1, Option.map_map, Option.map_map]
    rfl
  · intro r hr
    rw [Option.map_eq_some'] at hr
    obtain ⟨st, hst, rfl⟩ := hr
    exact h2 st hst

/-! ## Outputs of the scan over fixed dictionaries -/

theorem residueBoundaryPure_outputs (residueMap : StringMap) (NotSet : String)
    (top : t_topology) (scan scan' : TinkerScan) (atomName : String)
    (h : residueBoundaryPure residueMap NotSet top scan atomName = some scan') :
    scan'.tinkerAtomNames = scan.tinkerAtomNames ∧
    scan'.tinkerResidueNames = scan.tinkerResidueNames ∧
    scan'.tinkerBiotypes = scan.tinkerBiotypes := by
  unfold residueBoundaryPure at h
  cases hf : scan.firstAtomName with
  | none =>
    simp only [hf] at h
    cases hr : readAt top.atoms.resname scan.residueI with
    | none => simp [hr] at h
    | some residueName =>
      simp only [hr, Option.bind_eq_bind, Option.some_bind, Option.some.injEq] at h
      subst h
      exact ⟨rfl, rfl, rfl⟩
  | some firstAtomName =>
    simp only [hf] at h
    by_cases hc : ((atomName.length : Int) = scan.firstAtomNameL ∧ atomName = firstAtomName) ∨
        atomName = "OW"
    · rw [if_pos hc] at h
      cases hr : readAt top.atoms.resname (scan.residueI + 1) with
      | none => simp [hr] at h
      | some residueName =>
        simp only [hr, Option.bind_eq_bind, Option.some_bind, Option.some.injEq] at h
        subst h
        exact ⟨rfl, rfl, rfl⟩
    · rw [if_neg hc] at h
      cases h
      exact ⟨rfl, rfl, rfl⟩

/-- What one iteration of the scan stores for atom `atomI`. -/
theorem tinkerStepPure_eq_some (residueMap : StringMap) (biotypeMap : StringIntMap)
    (NotSet : String) (top : t_topology) (scan scan' : TinkerScan) (atomI : Nat)
    (h : tinkerStepPure residueMap biotypeMap NotSet top scan atomI = some scan') :
    ∃ (atomName : String) (scan₁ : TinkerScan) (bioType : Int),
      top.atoms.atomname[atomI]? = some atomName ∧
      residueBoundaryPure residueMap NotSet top scan atomName = some scan₁ ∧
      biotypeOfAtom residueMap biotypeMap NotSet scan₁.residueName scan₁.tinkerResidueName
        (canonicalAtomName scan₁.residueI atomName) = some bioType ∧
      scan'.tinkerAtomNames =
        scan.tinkerAtomNames.set atomI (canonicalAtomName scan₁.residueI atomName) ∧
      scan'.tinkerResidueNames = scan.tinkerResidueNames.set atomI scan₁.residueName ∧
      scan'.tinkerBiotypes = scan.tinkerBiotypes.set atomI bioType ∧
      scan'.tinkerResidueName = scan₁.tinkerResidueName ∧
      scan'.residueName = scan₁.residueName ∧ scan'.residueI = scan₁.residueI ∧
      scan'.firstAtomName = scan₁.firstAtomName ∧ scan'.firstAtomNameL = scan₁.firstAtomNameL := by
  unfold tinkerStepPure at h
  cases hn : top.atoms.atomname[atomI]? with
  | none => simp [hn] at h
  | some atomName =>
    simp only [hn, Option.bind_eq_bind, Option.some_bind] at h
    cases hb : residueBoundaryPure residueMap NotSet top scan atomName with
    | none => simp [hb] at h
    | some scan₁ =>
      simp only [hb, Option.some_bind] at h
      cases hw : biotypeOfAtom residueMap biotypeMap NotSet scan₁.residueName
          scan₁.tinkerResidueName (canonicalAtomName scan₁.residueI atomName) with
      | none => simp [hw] at h
      | some bioType =>
        simp only [hw, Option.some_bind, Option.some.injEq] at h
        subst h
        obtain ⟨h1, h2, h3⟩ := residueBoundaryPure_outputs _ _ _ _ _ _ hb
        refine ⟨atomName, scan₁, bioType, rfl, hb, hw, ?_, ?_, ?_, rfl, rfl, rfl, rfl, rfl⟩
        · simp only [h1]
        · simp only [h2]
        · simp only [h3]

theorem foldlM_tinkerStepPure_length (residueMap : StringMap) (biotypeMap : StringIntMap)
    (NotSet : String) (top : t_topology) (l : List Nat) (scan scan' : TinkerScan)
    (h : l.foldlM (tinkerStepPure residueMap biotypeMap NotSet top) scan = some scan') :
    scan'.tinkerAtomNames.length = scan.tinkerAtomNames.length ∧
    scan'.tinkerResidueNames.length = scan.tinkerResidueNames.length ∧
    scan'.tinkerBiotypes.length = scan.tinkerBiotypes.length := by
  induction l generalizing scan with
  | nil =>
    simp only [List.foldlM_nil, Option.pure_def, Option.some.injEq] at h
    subst h
    exact ⟨rfl, rfl, rfl⟩
  | cons atomI l ih =>
    simp only [List.foldlM_cons, Option.bind_eq_bind] at h
    cases hs : tinkerStepPure residueMap biotypeMap NotSet top scan atomI with
    | none => simp [hs] at h
    | some scan₁ =>
      simp only [hs, Option.some_bind] at h
      obtain ⟨_, _, _, _, _, _, h1, h2, h3, _⟩ := tinkerStepPure_eq_some _ _ _ _ _ _ _ hs
      obtain ⟨i1, i2, i3⟩ := ih scan₁ h
      rw [i1, i2, i3, h1, h2, h3]
      simp only [List.length_set, and_self]

theorem foldlM_tinkerStepPure_getElem? (residueMap : StringMap) (biotypeMap : StringIntMap)
    (NotSet : String) (top : t_topology) (l : List Nat) (scan scan' : TinkerScan) (i : Nat)
    (hi : ∀ j ∈ l, j ≠ i)
    (h : l.foldlM (tinkerStepPure residueMap biotypeMap NotSet top) scan = some scan') :
    scan'.tinkerAtomNames[i]? = scan.tinkerAtomNames[i]? ∧
    scan'.tinkerResidueNames[i]? = scan.tinkerResidueNames[i]? ∧
    scan'.tinkerBiotypes[i]? = scan.tinkerBiotypes[i]? := by
  induction l generalizing scan with
  | nil =>
    simp only [List.foldlM_nil, Option.pure_def, Option.some.injEq] at h
    subst h
    exact ⟨rfl, rfl, rfl⟩
  | cons atomI l ih =>
    simp only [List.foldlM_cons, Option.bind_eq_bind] at h
    cases hs : tinkerStepPure residueMap biotypeMap NotSet top scan atomI with
    | none => simp [hs] at h
    | some scan₁ =>
      simp only [hs, Option.some_bind] at h
      obtain ⟨_, _, _, _, _, _, h1, h2, h3, _⟩ := tinkerStepPure_eq_some _ _ _ _ _ _ _ hs
      obtain ⟨i1, i2, i3⟩ := ih scan₁ (fun j hj => hi j (List.mem_cons_of_mem _ hj)) h
      have hne : atomI ≠ i := hi atomI (List.mem_cons_self _ _)
      rw [i1, i2, i3, h1, h2, h3]
      simp only [List.getElem?_set_ne hne, and_self]

theorem residueBoundaryPure_tinkerResidueName (residueMap : StringMap) (NotSet : String)
    (top : t_topology) (scan scan' : TinkerScan) (atomName : String)
    (hinv : scan.firstAtomName ≠ none →
      scan.tinkerResidueName = (residueMap scan.residueName).getD NotSet)
    (h : residueBoundaryPure residueMap NotSet top scan atomName = some scan') :
    scan'.firstAtomName ≠ none ∧
    scan'.tinkerResidueName = (residueMap scan'.residueName).getD NotSet := by
  unfold residueBoundaryPure at h
  cases hf : scan.firstAtomName with
  | none =>
    simp only [hf] at h
    cases hr : readAt top.atoms.resname scan.residueI with
    | none => simp [hr] at h
    | some residueName =>
      simp only [hr, Option.bind_eq_bind, Option.some_bind, Option.some.injEq] at h
      subst h
      exact ⟨by simp, rfl⟩
  | some firstAtomName =>
    simp only [hf] at h
    by_cases hc : ((atomName.length : Int) = scan.firstAtomNameL ∧ atomName = firstAtomName) ∨
        atomName = "OW"
    · rw [if_pos hc] at h
      cases hr : readAt top.atoms.resname (scan.residueI + 1) with
      | none => simp [hr] at h
      | some residueName =>
        simp only [hr, Option.bind_eq_bind, Option.some_bind, Option.some.injEq] at h
        subst h
        exact ⟨by simp [hf], rfl⟩
    · rw [if_neg hc] at h
      cases h
      exact ⟨by simp [hf], hinv (by simp [hf])⟩

theorem foldlM_tinkerStepPure_inv (residueMap : StringMap) (biotypeMap : StringIntMap)
    (NotSet : String) (top : t_topology) (l : List Nat) (scan scan' : TinkerScan)
    (hinv : scan.firstAtomName ≠ none →
      scan.tinkerResidueName = (residueMap scan.residueName).getD NotSet)
    (h : l.foldlM (tinkerStepPure residueMap biotypeMap NotSet top) scan = some scan') :
    scan'.firstAtomName ≠ none →
      scan'.tinkerResidueName = (residueMap scan'.residueName).getD NotSet := by
  induction l generalizing scan with
  | nil =>
    simp only [List.foldlM_nil, Option.pure_def, Option.some.injEq] at h
    subst h
    exact hinv
  | cons atomI l ih =>
    simp only [List.foldlM_cons, Option.bind_eq_bind] at h
    cases hs : tinkerStepPure residueMap biotypeMap NotSet top scan atomI with
    | none => simp [hs] at h
    | some scan₁ =>
      simp only [hs, Option.some_bind] at h
      obtain ⟨_, scan₀, _, _, hb, _, _, _, _, e1, e2, _, e4, _⟩ :=
        tinkerStepPure_eq_some _ _ _ _ _ _ _ hs
      obtain ⟨_, k2⟩ := residueBoundaryPure_tinkerResidueName _ _ _ _ _ _ hinv hb
      exact ih scan₁ (fun _ => by rw [e1, e2]; exact k2) h

theorem range_split (n i : Nat) (hi : i < n) :
    List.range n = List.range i ++ i :: List.range' (i + 1) (n - i - 1) := by
  rw [List.range_eq_range', List.range_eq_range']
  have h1 : n = (n - i - 1 + 1) + i := by omega
  conv_lhs => rw [h1]
  rw [← List.range'_append_1 0 i (n - i - 1 + 1), List.range'_succ]
  simp

/-- What the scan over fixed dictionaries leaves in the three output vectors
for atom `i`: the values stored by iteration `i`, reached from the variables
left by the iterations before it. -/
theorem tinkerScanPure_at (residueMap : StringMap) (biotypeMap : StringIntMap)
    (NotSet : String) (numberOfAtoms : Int) (top : t_topology)
    (tinkerAtomNames tinkerResidueNames : List String) (tinkerBiotypes : List Int)
    (final : TinkerScan)
    (h : tinkerScanPure residueMap biotypeMap NotSet numberOfAtoms top tinkerAtomNames
      tinkerResidueNames tinkerBiotypes = some final)
    (i : Nat) (hi : (i : Int) < numberOfAtoms) :
    ∃ (atomName : String) (before scan₁ : TinkerScan) (bioType : Int),
      top.atoms.atomname[i]? = some atomName ∧
      residueBoundaryPure residueMap NotSet top before atomName = some scan₁ ∧
      biotypeOfAtom residueMap biotypeMap NotSet scan₁.residueName scan₁.tinkerResidueName
        (canonicalAtomName scan₁.residueI atomName) = some bioType ∧
      scan₁.tinkerResidueName = (residueMap scan₁.residueName).getD NotSet ∧
      final.tinkerAtomNames[i]? = some (canonicalAtomName scan₁.residueI atomName) ∧
      final.tinkerResidueNames[i]? = some scan₁.residueName ∧
      final.tinkerBiotypes[i]? = some bioType := by
  unfold tinkerScanPure at h
  have hi' : i < numberOfAtoms.toNat := by omega
  rw [range_split _ _ hi', List.foldlM_append] at h
  simp only [Option.bind_eq_bind] at h
  cases hb : (List.range i).foldlM (tinkerStepPure residueMap biotypeMap NotSet top)
      { tinkerAtomNames := resize tinkerAtomNames numberOfAtoms.toNat "",
        tinkerResidueNames := resize tinkerResidueNames numberOfAtoms.toNat "",
        tinkerBiotypes := resize tinkerBiotypes numberOfAtoms.toNat 0 } with
  | none => simp [hb] at h
  | some before =>
    simp only [hb, Option.some_bind, List.foldlM_cons, Option.bind_eq_bind] at h
    obtain ⟨l1, l2, l3⟩ := foldlM_tinkerStepPure_length _ _ _ _ _ _ _ hb
    simp only [length_resize] at l1 l2 l3
    cases hs : tinkerStepPure residueMap biotypeMap NotSet top before i with
    | none => simp [hs] at h
    | some after =>
      simp only [hs, Option.some_bind] at h
      obtain ⟨atomName, scan₁, bioType, hn, hbd, hbio, o1, o2, o3, _⟩ :=
        tinkerStepPure_eq_some _ _ _ _ _ _ _ hs
      obtain ⟨g1, g2, g3⟩ := foldlM_tinkerStepPure_getElem? _ _ _ _ _ _ _ i
        (fun j hj => by
          rw [List.mem_range'_1] at hj
          omega) h
      have hinv := foldlM_tinkerStepPure_inv _ _ _ _ _ _ _ (fun hne => absurd rfl hne) hb
      obtain ⟨_, k2⟩ := residueBoundaryPure_tinkerResidueName _ _ _ _ _ _ hinv hbd
      refine ⟨atomName, before, scan₁, bioType, hn, hbd, hbio, k2, ?_, ?_, ?_⟩
      · rw [g1, o1, List.getElem?_set_self (by omega)]
      · rw [g2, o2, List.getElem?_set_self (by omega)]
      · rw [g3, o3, List.getElem?_set_self (by omega)]

theorem getTinkerBiotypes_eq_some (DefaultReturn : Int) (NotSet : String) (A : Int)
    (numberOfAtoms : Int) (top : t_topology) (tinkerAtomNames tinkerResidueNames : List String)
    (tinkerBiotypes : List Int) (statics : Statics) (r : Int × TinkerScan × Statics)
    (h : getTinkerBiotypes DefaultReturn NotSet A numberOfAtoms top tinkerAtomNames
      tinkerResidueNames tinkerBiotypes statics = some r) :
    r.1 = DefaultReturn ∧
    tinkerScanPure statics.residueMap (statics.biotypeMap A) NotSet numberOfAtoms top
      tinkerAtomNames tinkerResidueNames tinkerBiotypes = some r.2.1 := by
  have h1 := (getTinkerBiotypes_pure DefaultReturn NotSet A numberOfAtoms top tinkerAtomNames
    tinkerResidueNames tinkerBiotypes statics).1
  rw [h, Option.map_some'] at h1
  cases hp : tinkerScanPure statics.residueMap (statics.biotypeMap A) NotSet numberOfAtoms top
      tinkerAtomNames tinkerResidueNames tinkerBiotypes with
  | none => rw [hp] at h1; cases h1
  | some scan =>
    rw [hp, Option.map_some', Option.some.injEq, Prod.mk.injEq] at h1
    exact ⟨h1.1, by rw [h1.2]⟩

theorem getTinkerBiotypes_isSome (DefaultReturn : Int) (NotSet : String) (A : Int)
    (numberOfAtoms : Int) (top : t_topology) (tinkerAtomNames tinkerResidueNames : List String)
    (tinkerBiotypes : List Int) (statics : Statics) :
    (getTinkerBiotypes DefaultReturn NotSet A numberOfAtoms top tinkerAtomNames
      tinkerResidueNames tinkerBiotypes statics).isSome =
    (tinkerScanPure statics.residueMap (statics.biotypeMap A) NotSet numberOfAtoms top
      tinkerAtomNames tinkerResidueNames tinkerBiotypes).isSome := by
  have h1 := (getTinkerBiotypes_pure DefaultReturn NotSet A numberOfAtoms top tinkerAtomNames
    tinkerResidueNames tinkerBiotypes statics).1
  have h2 := congrArg Option.isSome h1
  simpa using h2

theorem biotypeWithRetry_of_pure (NotSet : String) (A : Int)
    (residueName tinkerResidueName atomName : String) (statics : Statics) (bioType : Int)
    (h : biotypeOfAtom statics.residueMap (statics.biotypeMap A) NotSet residueName
      tinkerResidueName atomName = some bioType) :
    ∃ statics', biotypeWithRetry NotSet A residueName tinkerResidueName atomName statics =
      some (bioType, statics') := by
  have h1 := (biotypeWithRetry_pure NotSet A residueName tinkerResidueName atomName statics).1
  rw [h] at h1
  cases hw : biotypeWithRetry NotSet A residueName tinkerResidueName atomName statics with
  | none => rw [hw] at h1; cases h1
  | some r =>
    rw [hw, Option.map_some', Option.some.injEq] at h1
    exact ⟨r.2, by rw [← h1]⟩

theorem canonicalAtomName_of_OC (residueI : Int) (atomName : String)
    (hoc : "OC".data <+: atomName.data) : canonicalAtomName residueI atomName = "OXT" := by
  obtain ⟨rest, hrest⟩ := hoc
  unfold canonicalAtomName
  rw [← hrest]
  rfl

/-- C12. For every atom whose name starts with `OC`, in any residue and at
any position of the scan, `getTinkerBiotypes` stores `OXT` in
`tinkerAtomNames` for that atom, and the biotype it stores is the one that
the lookup with its retry returns for the name `OXT` in the residue of that
atom. -/
theorem oc_atoms_are_oxt (DefaultReturn : Int) (NotSet : String) (AmberForceField : Int)
    (numberOfAtoms : Int) (top : t_topology) (tinkerAtomNames tinkerResidueNames : List String)
    (tinkerBiotypes : List Int) (statics : Statics) (r : Int × TinkerScan × Statics)
    (h : getTinkerBiotypes DefaultReturn NotSet AmberForceField numberOfAtoms top
      tinkerAtomNames tinkerResidueNames tinkerBiotypes statics = some r)
    (atomI : Nat) (hi : (atomI : Int) < numberOfAtoms) (atomName : String)
    (hname : top.atoms.atomname[atomI]? = some atomName)
    (hoc : "OC".data <+: atomName.data) :
    r.2.1.tinkerAtomNames[atomI]? = some "OXT" ∧
    ∃ (residueName : String) (bioType : Int) (statics' : Statics),
      r.2.1.tinkerResidueNames[atomI]? = some residueName ∧
      biotypeWithRetry NotSet AmberForceField residueName
        (getTinkerBiotypeResidueNameGivenGromacsResidueName NotSet residueName statics).1
        "OXT" statics = some (bioType, statics') ∧
      r.2.1.tinkerBiotypes[atomI]? = some bioType := by
  obtain ⟨_, hp⟩ := getTinkerBiotypes_eq_some _ _ _ _ _ _ _ _ _ _ h
  obtain ⟨name', before, scan₁, bioType, hn, _, hbio, htr, o1, o2, o3⟩ :=
    tinkerScanPure_at _ _ _ _ _ _ _ _ _ hp atomI hi
  rw [hname, Option.some.injEq] at hn
  subst hn
  rw [canonicalAtomName_of_OC _ _ hoc] at o1 hbio
  refine ⟨o1, scan₁.residueName, bioType, ?_⟩
  rw [getTinkerBiotypeResidueName_eq]
  rw [htr] at hbio
  obtain ⟨statics', hs'⟩ := biotypeWithRetry_of_pure _ _ _ _ _ _ _ hbio
  exact ⟨statics', o2, hs', o3⟩

theorem getTinkerBiotypes_map_scan {β : Type} (f : TinkerScan → β) (DefaultReturn : Int)
    (NotSet : String) (A : Int) (numberOfAtoms : Int) (top : t_topology)
    (tinkerAtomNames tinkerResidueNames : List String) (tinkerBiotypes : List Int)
    (statics : Statics) :
    (getTinkerBiotypes DefaultReturn NotSet A numberOfAtoms top tinkerAtomNames
        tinkerResidueNames tinkerBiotypes statics).map (fun r => f r.2.1) =
      (tinkerScanPure statics.residueMap (statics.biotypeMap A) NotSet numberOfAtoms top
        tinkerAtomNames tinkerResidueNames tinkerBiotypes).map f := by
  have h1 := (getTinkerBiotypes_pure DefaultReturn NotSet A numberOfAtoms top tinkerAtomNames
    tinkerResidueNames tinkerBiotypes statics).1
  have h2 := congrArg (Option.map (fun p : Int × TinkerScan => f p.2)) h1
  simpa [Option.map_map, Function.comp] using h2

theorem map_eq_some_get {α β : Type} (f : α → β) (x : Option α) (h : x.isSome = true) :
    x.map f = some (f (x.get h)) := by
  cases x with
  | none => cases h
  | some a => rfl

theorem residueMap_of_initial (statics : Statics)
    (hs : statics.residueNameMap = none ∨ statics.residueNameMap = some residueNameMapBuilt) :
    statics.residueMap = residueNameMapBuilt :=
  getTinkerGromacsResidueNameMap_fst statics hs

theorem biotypeMap_of_initial (A : Int) (statics : Statics)
    (hs : statics.residueAtomNameBiotypeMap = none ∨
      statics.residueAtomNameBiotypeMap = some amberBiotypeMap) :
    statics.biotypeMap A = amberBiotypeMap := by
  unfold Statics.biotypeMap getTinkerResidueAtomNameBiotypeMap
  rcases hs with h | h
  · rw [h]
    simp only [if_true]
  · rw [h]

theorem getTinkerBiotypes_map_scan_initial {β : Type} (f : TinkerScan → β)
    (DefaultReturn : Int) (NotSet : String) (numberOfAtoms : Int) (top : t_topology)
    (tinkerAtomNames tinkerResidueNames : List String) (tinkerBiotypes : List Int) :
    (getTinkerBiotypes DefaultReturn NotSet 0 numberOfAtoms top tinkerAtomNames
        tinkerResidueNames tinkerBiotypes {}).map (fun r => f r.2.1) =
      (tinkerScanPure residueNameMapBuilt amberBiotypeMap NotSet numberOfAtoms top
        tinkerAtomNames tinkerResidueNames tinkerBiotypes).map f := by
  rw [getTinkerBiotypes_map_scan, residueMap_of_initial {} (Or.inl rfl),
    biotypeMap_of_initial 0 {} (Or.inl rfl)]

theorem getTinkerBiotypes_isSome_initial (DefaultReturn : Int) (NotSet : String)
    (numberOfAtoms : Int) (top : t_topology)
    (tinkerAtomNames tinkerResidueNames : List String) (tinkerBiotypes : List Int) :
    (getTinkerBiotypes DefaultReturn NotSet 0 numberOfAtoms top tinkerAtomNames
        tinkerResidueNames tinkerBiotypes {}).isSome =
      (tinkerScanPure residueNameMapBuilt amberBiotypeMap NotSet numberOfAtoms top
        tinkerAtomNames tinkerResidueNames tinkerBiotypes).isSome := by
  rw [getTinkerBiotypes_isSome, residueMap_of_initial {} (Or.inl rfl),
    biotypeMap_of_initial 0 {} (Or.inl rfl)]

/-! ### Entries of the two dictionaries used below -/

theorem residueNameMapBuilt_NLEU : residueNameMapBuilt "NLEU" = some "N-Terminal_LEU" := by
  decide

theorem residueNameMapBuilt_LEU : residueNameMapBuilt "LEU" = some "Leucine" := by
  decide

set_option maxRecDepth 1000000 in
theorem lookupBiotype_NLEU_CA : lookupBiotype amberBiotypeMap "N-Terminal_LEU" "CA" = some 369 := by
  decide

set_option maxRecDepth 1000000 in
theorem lookupBiotype_LEU_CA : lookupBiotype amberBiotypeMap "Leucine" "CA" = some 28 := by
  decide

set_option maxRecDepth 1000000 in
theorem lookupBiotype_NLEU_CB :
    lookupBiotype amberBiotypeMap "N-Terminal_LEU" "CB" = some (-1) := by
  decide

set_option maxRecDepth 1000000 in
theorem lookupBiotype_LEU_CB : lookupBiotype amberBiotypeMap "Leucine" "CB" = some 33 := by
  decide

theorem biotypeOfAtom_NLEU_CA (NotSet : String) :
    biotypeOfAtom residueNameMapBuilt amberBiotypeMap NotSet "NLEU"
      ((residueNameMapBuilt "NLEU").getD NotSet) "CA" = some 369 := by
  unfold biotypeOfAtom
  rw [residueNameMapBuilt_NLEU, Option.getD_some, lookupBiotype_NLEU_CA]
  rfl

theorem biotypeOfAtom_LEU_CA (NotSet : String) :
    biotypeOfAtom residueNameMapBuilt amberBiotypeMap NotSet "LEU"
      ((residueNameMapBuilt "LEU").getD NotSet) "CA" = some 28 := by
  unfold biotypeOfAtom
  rw [residueNameMapBuilt_LEU, Option.getD_some, lookupBiotype_LEU_CA]
  rfl

theorem biotypeOfAtom_NLEU_CB (NotSet : String) :
    biotypeOfAtom residueNameMapBuilt amberBiotypeMap NotSet "NLEU"
      ((residueNameMapBuilt "NLEU").getD NotSet) "CB" = some 33 := by
  unfold biotypeOfAtom
  rw [residueNameMapBuilt_NLEU, Option.getD_some, lookupBiotype_NLEU_CB]
  have h1 : substr "NLEU" 1 4 = "LEU" := by decide
  have h2 : ((-1 : Int) < 0 ∧ "NLEU".length = 4) := by decide
  simp only [Option.bind_eq_bind, Option.some_bind, h2, and_self, if_true, h1,
    residueNameMapBuilt_LEU, Option.getD_some, lookupBiotype_LEU_CB]

theorem biotypeOfAtom_LEU_CB (NotSet : String) :
    biotypeOfAtom residueNameMapBuilt amberBiotypeMap NotSet "LEU"
      ((residueNameMapBuilt "LEU").getD NotSet) "CB" = some 33 := by
  unfold biotypeOfAtom
  rw [residueNameMapBuilt_LEU, Option.getD_some, lookupBiotype_LEU_CB]
  rfl

/-! ## Biotypes in an N-terminal residue -/

set_option maxRecDepth 1000000 in
/-- C11, as stated, fails: for the atom `CA` of a residue named `NLEU` the
first lookup finds the key `N-Terminal_LEU_CA`, so the retry without the
first character is not made, and the biotype stored is 369, while the atom
`CA` of a residue named `LEU` gets 28. -/
theorem nleu_ca_is_not_leu_ca :
    (getTinkerBiotypes 0 "NotSet" 0 1
      { atoms := { atomname := ["CA"], resname := ["NLEU"] } } [] [] [] {}).map
        (fun r => r.2.1.tinkerBiotypes) = some [369] ∧
    (getTinkerBiotypes 0 "NotSet" 0 1
      { atoms := { atomname := ["CA"], resname := ["LEU"] } } [] [] [] {}).map
        (fun r => r.2.1.tinkerBiotypes) = some [28] ∧
    (getBiotypeGivenResidueAtomNames 0 "N-Terminal_LEU" "CA" {}).map Prod.fst = some 369 := by
  refine ⟨?_, ?_, ?_⟩
  · exact (getTinkerBiotypes_map_scan_initial (fun scan => scan.tinkerBiotypes) 0 "NotSet" 1
      { atoms := { atomname := ["CA"], resname := ["NLEU"] } } [] [] []).trans (by decide)
  · exact (getTinkerBiotypes_map_scan_initial (fun scan => scan.tinkerBiotypes) 0 "NotSet" 1
      { atoms := { atomname := ["CA"], resname := ["LEU"] } } [] [] []).trans (by decide)
  · rw [getBiotypeGivenResidueAtomNames_eq, Option.map_map]
    exact (congrArg (Option.map _) lookupBiotype_NLEU_CA).trans rfl

theorem canonicalAtomName_of_ne (residueI : Int) (atomName : String)
    (hO : atomName.data.getD 0 NUL ≠ 'O') (hH : atomName.data.getD 0 NUL ≠ 'H') :
    canonicalAtomName residueI atomName = atomName := by
  unfold canonicalAtomName
  simp only [hO, hH, false_and, and_false, false_or, if_false]

/-- C11, amended. In a scan started with the dictionaries of the source
(statics null or built before), for an atom whose residue is named `NLEU`:
the atom `CA` gets the biotype 369 of the key `N-Terminal_LEU_CA` by the
first lookup, not the 28 that `CA` gets in a residue named `LEU`; the atom
`CB`, for which the first lookup returns -1, gets through the retry without
the first character of the residue name the biotype 33 that `CB` gets in a
residue named `LEU`. -/
theorem nleu_biotypes (DefaultReturn : Int) (NotSet : String) (AmberForceField : Int)
    (numberOfAtoms : Int) (top : t_topology) (tinkerAtomNames tinkerResidueNames : List String)
    (tinkerBiotypes : List Int) (statics : Statics) (r : Int × TinkerScan × Statics)
    (hres : statics.residueNameMap = none ∨ statics.residueNameMap = some residueNameMapBuilt)
    (hbio : statics.residueAtomNameBiotypeMap = none ∨
      statics.residueAtomNameBiotypeMap = some amberBiotypeMap)
    (h : getTinkerBiotypes DefaultReturn NotSet AmberForceField numberOfAtoms top
      tinkerAtomNames tinkerResidueNames tinkerBiotypes statics = some r)
    (atomI : Nat) (hi : (atomI : Int) < numberOfAtoms) :
    (top.atoms.atomname[atomI]? = some "CA" →
      r.2.1.tinkerResidueNames[atomI]? = some "NLEU" →
      r.2.1.tinkerBiotypes[atomI]? = some 369) ∧
    (top.atoms.atomname[atomI]? = some "CA" →
      r.2.1.tinkerResidueNames[atomI]? = some "LEU" →
      r.2.1.tinkerBiotypes[atomI]? = some 28) ∧
    (top.atoms.atomname[atomI]? = some "CB" →
      r.2.1.tinkerResidueNames[atomI]? = some "NLEU" →
      r.2.1.tinkerBiotypes[atomI]? = some 33) ∧
    (top.atoms.atomname[atomI]? = some "CB" →
      r.2.1.tinkerResidueNames[atomI]? = some "LEU" →
      r.2.1.tinkerBiotypes[atomI]? = some 33) ∧
    (getBiotypeGivenResidueAtomNames AmberForceField "N-Terminal_LEU" "CB" statics).map
      Prod.fst = some (-1) := by
  obtain ⟨_, hp⟩ := getTinkerBiotypes_eq_some _ _ _ _ _ _ _ _ _ _ h
  rw [residueMap_of_initial statics hres, biotypeMap_of_initial _ statics hbio] at hp
  obtain ⟨name, before, scan₁, bioType, hn, _, hb, htr, _, o2, o3⟩ :=
    tinkerScanPure_at _ _ _ _ _ _ _ _ _ hp atomI hi
  have hca : ∀ residueI : Int, canonicalAtomName residueI "CA" = "CA" :=
    fun residueI => canonicalAtomName_of_ne residueI "CA" (by decide) (by decide)
  have hcb : ∀ residueI : Int, canonicalAtomName residueI "CB" = "CB" :=
    fun residueI => canonicalAtomName_of_ne residueI "CB" (by decide) (by decide)
  rw [htr] at hb
  refine ⟨?_, ?_, ?_, ?_, ?_⟩
  · intro hname hresname
    rw [hn, Option.some.injEq] at hname
    rw [o2, Option.some.injEq] at hresname
    rw [hname, hresname, hca, biotypeOfAtom_NLEU_CA] at hb
    rw [o3, ← hb]
  · intro hname hresname
    rw [hn, Option.some.injEq] at hname
    rw [o2, Option.some.injEq] at hresname
    rw [hname, hresname, hca, biotypeOfAtom_LEU_CA] at hb
    rw [o3, ← hb]
  · intro hname hresname
    rw [hn, Option.some.injEq] at hname
    rw [o2, Option.some.injEq] at hresname
    rw [hname, hresname, hcb, biotypeOfAtom_NLEU_CB] at hb
    rw [o3, ← hb]
  · intro hname hresname
    rw [hn, Option.some.injEq] at hname
    rw [o2, Option.some.injEq] at hresname
    rw [hname, hresname, hcb, biotypeOfAtom_LEU_CB] at hb
    rw [o3, ← hb]
  · rw [getBiotypeGivenResidueAtomNames_eq, Option.map_map, biotypeMap_of_initial _ statics hbio,
      lookupBiotype_NLEU_CB]
    rfl

set_option maxRecDepth 1000000 in
theorem tinkerScanPure_NLEU_CA_isSome :
    (tinkerScanPure residueNameMapBuilt amberBiotypeMap "NotSet" 1
      { atoms := { atomname := ["CA"], resname := ["NLEU"] } } [] [] []).isSome = true := by
  decide

theorem getTinkerBiotypes_NLEU_CA_isSome :
    (getTinkerBiotypes 0 "NotSet" 0 1
      { atoms := { atomname := ["CA"], resname := ["NLEU"] } } [] [] [] {}).isSome = true := by
  exact (getTinkerBiotypes_isSome_initial 0 "NotSet" 1
    { atoms := { atomname := ["CA"], resname := ["NLEU"] } } [] [] []).trans
    tinkerScanPure_NLEU_CA_isSome

set_option maxRecDepth 1000000 in
theorem getTinkerBiotypes_NLEU_CA_residueNames :
    (getTinkerBiotypes 0 "NotSet" 0 1
      { atoms := { atomname := ["CA"], resname := ["NLEU"] } } [] [] [] {}).map
        (fun r => r.2.1.tinkerResidueNames[0]?) = some (some "NLEU") := by
  exact (getTinkerBiotypes_map_scan_initial (fun scan => scan.tinkerResidueNames[0]?) 0
    "NotSet" 1 { atoms := { atomname := ["CA"], resname := ["NLEU"] } } [] [] []).trans
    (by decide)

/-- Witness for C11 amended: the one-atom topology `NLEU` / `CA`, scanned
from the initial statics. -/
theorem nleu_biotypes_witness :
    (getTinkerBiotypes 0 "NotSet" 0 1
      { atoms := { atomname := ["CA"], resname := ["NLEU"] } } [] [] [] {}).isSome = true ∧
    (getTinkerBiotypes 0 "NotSet" 0 1
      { atoms := { atomname := ["CA"], resname := ["NLEU"] } } [] [] [] {}).map
        (fun r => r.2.1.tinkerBiotypes[0]?) = some (some 369) := by
  refine ⟨getTinkerBiotypes_NLEU_CA_isSome, ?_⟩
  have hr := getTinkerBiotypes_NLEU_CA_residueNames
  rw [map_eq_some_get _ _ getTinkerBiotypes_NLEU_CA_isSome, Option.some.injEq] at hr
  rw [map_eq_some_get _ _ getTinkerBiotypes_NLEU_CA_isSome, Option.some.injEq]
  exact (nleu_biotypes 0 "NotSet" 0 1 { atoms := { atomname := ["CA"], resname := ["NLEU"] } }
    [] [] [] {} _ (Or.inl rfl) (Or.inl rfl)
    (Option.some_get getTinkerBiotypes_NLEU_CA_isSome).symm 0 (by decide)).1 rfl hr

/-! ## Carboxylate oxygens -/

set_option maxRecDepth 1000000 in
theorem getTinkerBiotypes_CALA_OC1_isSome :
    (getTinkerBiotypes 0 "NotSet" 0 1
      { atoms := { atomname := ["OC1"], resname := ["CALA"] } } [] [] [] {}).isSome = true :=
  (getTinkerBiotypes_isSome_initial 0 "NotSet" 1
    { atoms := { atomname := ["OC1"], resname := ["CALA"] } } [] [] []).trans (by decide)

/-- Witness for C12: the one-atom topology `CALA` / `OC1`, scanned from the
initial statics. -/
theorem oc_atoms_are_oxt_witness :
    (getTinkerBiotypes 0 "NotSet" 0 1
      { atoms := { atomname := ["OC1"], resname := ["CALA"] } } [] [] [] {}).isSome = true ∧
    "OC".data <+: "OC1".data ∧
    (getTinkerBiotypes 0 "NotSet" 0 1
      { atoms := { atomname := ["OC1"], resname := ["CALA"] } } [] [] [] {}).map
        (fun r => r.2.1.tinkerAtomNames[0]?) = some (some "OXT") := by
  refine ⟨getTinkerBiotypes_CALA_OC1_isSome, by decide, ?_⟩
  rw [map_eq_some_get _ _ getTinkerBiotypes_CALA_OC1_isSome, Option.some.injEq]
  exact (oc_atoms_are_oxt 0 "NotSet" 0 1
    { atoms := { atomname := ["OC1"], resname := ["CALA"] } } [] [] [] {} _
    (Option.some_get getTinkerBiotypes_CALA_OC1_isSome).symm 0 (by decide) "OC1" rfl
    (by decide)).1

/-! ## The residue names returned by the scan -/

set_option maxRecDepth 1000000 in
/-- C17, evaluation on the one-atom topology `ALA` / `CA`: the biotype 8 is
the one of the key `Alanine_CA`, looked up with the Tinker residue name
`Alanine`, while the entry stored in `tinkerResidueNames` is the Gromacs
residue name `ALA`; each of the three output vectors has one entry. -/
theorem tinkerResidueNames_hold_gromacs_names :
    (getTinkerBiotypes 0 "NotSet" 0 1
      { atoms := { atomname := ["CA"], resname := ["ALA"] } } [] [] [] {}).map
        (fun r => (r.2.1.tinkerResidueNames, r.2.1.tinkerResidueName, r.2.1.tinkerBiotypes,
          r.2.1.tinkerAtomNames)) = some (["ALA"], "Alanine", [8], ["CA"]) ∧
    (getBiotypeGivenResidueAtomNames 0 "Alanine" "CA" {}).map Prod.fst = some 8 ∧
    (getBiotypeGivenResidueAtomNames 0 "ALA" "CA" {}).map Prod.fst = some (-1) := by
  refine ⟨?_, ?_, ?_⟩
  · exact (getTinkerBiotypes_map_scan_initial
      (fun scan => (scan.tinkerResidueNames, scan.tinkerResidueName, scan.tinkerBiotypes,
        scan.tinkerAtomNames)) 0 "NotSet" 1
      { atoms := { atomname := ["CA"], resname := ["ALA"] } } [] [] []).trans (by decide)
  · rw [getBiotypeGivenResidueAtomNames_eq, Option.map_map,
      biotypeMap_of_initial 0 {} (Or.inl rfl)]
    exact (congrArg (Option.map _)
      (by decide : lookupBiotype amberBiotypeMap "Alanine" "CA" = some 8)).trans rfl
  · rw [getBiotypeGivenResidueAtomNames_eq, Option.map_map,
      biotypeMap_of_initial 0 {} (Or.inl rfl)]
    exact (congrArg (Option.map _)
      (by decide : lookupBiotype amberBiotypeMap "ALA" "CA" = some (-1))).trans rfl

/-! ## Repeated lookups -/

/-- C13. Resolving the same (Tinker residue name, atom name) pair twice with
`getBiotypeGivenResidueAtomNames` yields the identical biotype code both
times: the code is the value of the lookup in the dictionary in force, a
function of the two names; the first call leaves that dictionary in the
singleton (the one built from `amberNameMap` when the pointer was null), the
residue-name singleton is untouched, and the second call returns the same
code and leaves the statics as the first call left them. -/
theorem lookup_twice (AmberForceField : Int) (tinkerResidueName tinkerAtomName : String)
    (statics : Statics) :
    (getBiotypeGivenResidueAtomNames AmberForceField tinkerResidueName tinkerAtomName
        statics).map Prod.fst =
      lookupBiotype (statics.biotypeMap AmberForceField) tinkerResidueName tinkerAtomName ∧
    (statics.residueAtomNameBiotypeMap = none →
      statics.biotypeMap AmberForceField = amberBiotypeMap) ∧
    (∀ map, statics.residueAtomNameBiotypeMap = some map →
      statics.biotypeMap AmberForceField = map) ∧
    (∀ first, getBiotypeGivenResidueAtomNames AmberForceField tinkerResidueName tinkerAtomName
        statics = some first →
      first.2.residueAtomNameBiotypeMap = some (statics.biotypeMap AmberForceField) ∧
      first.2.residueNameMap = statics.residueNameMap ∧
      getBiotypeGivenResidueAtomNames AmberForceField tinkerResidueName tinkerAtomName
        first.2 = some first) := by
  refine ⟨?_, ?_, ?_, ?_⟩
  · rw [getBiotypeGivenResidueAtomNames_eq, Option.map_map]
    cases lookupBiotype (statics.biotypeMap AmberForceField) tinkerResidueName tinkerAtomName <;>
      rfl
  · intro h
    exact biotypeMap_of_initial _ statics (Or.inl h)
  · intro map h
    unfold Statics.biotypeMap getTinkerResidueAtomNameBiotypeMap
    rw [h]
  · intro first h
    rw [getBiotypeGivenResidueAtomNames_eq, Option.map_eq_some'] at h
    obtain ⟨b, hb, rfl⟩ := h
    have hstat : (getTinkerResidueAtomNameBiotypeMap AmberForceField AmberForceField
        statics).2.residueAtomNameBiotypeMap = some (statics.biotypeMap AmberForceField) ∧
        (getTinkerResidueAtomNameBiotypeMap AmberForceField AmberForceField
        statics).2.residueNameMap = statics.residueNameMap := by
      rcases statics with ⟨r, _ | m⟩ <;> exact ⟨rfl, rfl⟩
    refine ⟨hstat.1, hstat.2, ?_⟩
    rw [getBiotypeGivenResidueAtomNames_eq, biotypeMap_biotypeAccessor, hb, Option.map_some']
    have hfix : (getTinkerResidueAtomNameBiotypeMap AmberForceField AmberForceField
        (getTinkerResidueAtomNameBiotypeMap AmberForceField AmberForceField statics).2).2 =
        (getTinkerResidueAtomNameBiotypeMap AmberForceField AmberForceField statics).2 := by
      rcases statics with ⟨r, _ | m⟩ <;> rfl
    rw [hfix]

/-! ## Atom identifier cache: lemmas -/

theorem wellFormed_initial : AtomIdCache.wellFormed {} := by
  refine ⟨fun _ => rfl, fun arr h => ?_⟩
  cases h

theorem agrees_initial (tabStringInPlace : String → Nat → String) (top : t_topology)
    (tab : Nat) : AtomIdCache.agrees tabStringInPlace top tab {} := by
  intro arr h
  cases h

theorem allocateAtomIdStrings_wellFormed (maxAtoms : Int) (statics : AtomIdCache)
    (h : statics.wellFormed) : (allocateAtomIdStrings maxAtoms statics).wellFormed := by
  unfold allocateAtomIdStrings
  split_ifs with hc
  · refine ⟨fun h0 => (by cases h0), fun arr harr => ?_⟩
    have harr : List.replicate (maxAtoms + 1).toNat none = arr := Option.some.inj harr
    subst harr
    refine ⟨?_, ?_⟩
    · show (0 : Int) < maxAtoms + 1
      omega
    show ((List.replicate (maxAtoms + 1).toNat (none : Option String)).length : Int)
      = maxAtoms + 1
    rw [List.length_replicate]
    omega
  · exact h

theorem allocateAtomIdStrings_agrees (tabStringInPlace : String → Nat → String)
    (top : t_topology) (tab : Nat) (maxAtoms : Int) (statics : AtomIdCache)
    (h : statics.agrees tabStringInPlace top tab) :
    (allocateAtomIdStrings maxAtoms statics).agrees tabStringInPlace top tab := by
  unfold allocateAtomIdStrings
  split_ifs with hc
  · intro arr harr i s his
    have harr : List.replicate (maxAtoms + 1).toNat none = arr := Option.some.inj harr
    subst harr
    rw [List.getElem?_replicate] at his
    split_ifs at his
    cases his
  · exact h

theorem copiedName_fits (name : String) (h : name.length ≤ 31 ∨ 100 < name.length) :
    (if name.length < 1 ∨ name.length > 100 then "NA" else name).length + 1 ≤ 32 := by
  by_cases hc : name.length < 1 ∨ name.length > 100
  · rw [if_pos hc]
    decide
  · rw [if_neg hc]
    omega

/-- Where the names fit the two 32-byte locals, the block that assembles the
identifier gives the label of the specification. -/
theorem assembleAtomIdString_eq (DefaultReturn : Int)
    (tabStringInPlace : String → Nat → String) (atomIndex : Int) (top : t_topology)
    (tab : Nat) (hfit : namesFit top) (h0 : 0 ≤ atomIndex) :
    assembleAtomIdString DefaultReturn tabStringInPlace atomIndex top tab
      = atomIdLabel tabStringInPlace top tab atomIndex.toNat := by
  have hneg : ¬ atomIndex < 0 := by omega
  unfold assembleAtomIdString atomIdLabel getAtomNameGivenAtomIndex
    getResidueNameGivenAtomIndex
  simp only [readAt, if_neg hneg]
  cases h1 : top.atoms.atomname[atomIndex.toNat]? with
  | none => rfl
  | some atomName =>
    have hcopy1 := copiedName_fits atomName (hfit.1 atomName (List.getElem?_mem h1))
    cases h2 : top.atoms.atom[atomIndex.toNat]? with
    | none => simp [hcopy1]
    | some atom =>
      by_cases h3 : atom.resnr < 0
      · simp [h3, hcopy1]
      · cases h4 : top.atoms.resname[atom.resnr.toNat]? with
        | none => simp [h3, h4, hcopy1]
        | some residueName =>
          have hcopy2 :=
            copiedName_fits residueName (hfit.2 residueName (List.getElem?_mem h4))
          have e1 : (atomName.length < 1 ∨ atomName.length > 100)
              ↔ (atomName.length = 0 ∨ 100 < atomName.length) := by omega
          have e2 : (residueName.length < 1 ∨ residueName.length > 100)
              ↔ (residueName.length = 0 ∨ 100 < residueName.length) := by omega
          simp only [Option.bind_eq_bind, Option.some_bind, if_neg h3, h4, if_pos hcopy1,
            if_pos hcopy2]
          simp only [e1, e2, gt_iff_lt]

theorem cachedAtomIdString_of_wellFormed (atomIndex : Int) (statics : AtomIdCache)
    (h : statics.wellFormed) (h0 : 0 ≤ atomIndex) :
    cachedAtomIdString atomIndex statics = some none ∨
    ∃ s atomIdStrings, cachedAtomIdString atomIndex statics = some (some s) ∧
      statics.atomIdStrings = some atomIdStrings ∧
      atomIdStrings[atomIndex.toNat]? = some (some s) := by
  unfold cachedAtomIdString
  by_cases hlt : atomIndex < statics.maxAtomIndex
  · rw [if_pos hlt]
    cases harr : statics.atomIdStrings with
    | none =>
      have := h.1 harr
      omega
    | some arr =>
      have hlen := (h.2 arr harr).2
      have hneg : ¬ atomIndex < 0 := by omega
      have hi : atomIndex.toNat < arr.length := by omega
      simp only [readAt, if_neg hneg]
      rw [List.getElem?_eq_getElem hi]
      cases he : arr[atomIndex.toNat] with
      | none => exact Or.inl rfl
      | some s =>
        refine Or.inr ⟨s, arr, rfl, rfl, ?_⟩
        rw [List.getElem?_eq_getElem hi, he]
  · rw [if_neg hlt]
    exact Or.inl rfl

theorem storeAtomIdString_wellFormed (atomIndex : Int) (buffer : String)
    (statics : AtomIdCache) (h : statics.wellFormed) :
    (storeAtomIdString atomIndex buffer statics).wellFormed := by
  unfold storeAtomIdString
  cases harr : statics.atomIdStrings with
  | none => exact h
  | some arr =>
    by_cases hlt : atomIndex < statics.maxAtomIndex
    · simp only [if_pos hlt]
      refine ⟨fun h0 => (by cases h0), fun arr2 harr2 => ?_⟩
      have harr2 : arr.set atomIndex.toNat (some buffer) = arr2 := Option.some.inj harr2
      subst harr2
      have := h.2 arr harr
      refine ⟨this.1, ?_⟩
      rw [List.length_set]
      exact this.2
    · simp only [if_neg hlt]
      exact h

theorem storeAtomIdString_agrees (tabStringInPlace : String → Nat → String)
    (top : t_topology) (tab : Nat) (atomIndex : Int) (buffer : String)
    (statics : AtomIdCache) (h : statics.agrees tabStringInPlace top tab)
    (hlabel : atomIdLabel tabStringInPlace top tab atomIndex.toNat = some buffer) :
    (storeAtomIdString atomIndex buffer statics).agrees tabStringInPlace top tab := by
  unfold storeAtomIdString
  cases harr : statics.atomIdStrings with
  | none => exact h
  | some arr =>
    by_cases hlt : atomIndex < statics.maxAtomIndex
    · simp only [if_pos hlt]
      intro arr2 harr2 i s his
      have harr2 : arr.set atomIndex.toNat (some buffer) = arr2 := Option.some.inj harr2
      subst harr2
      by_cases hi : atomIndex.toNat = i
      · subst hi
        rw [List.getElem?_set_self'] at his
        cases hget : arr[atomIndex.toNat]? with
        | none => rw [hget] at his; cases his
        | some e =>
          rw [hget] at his
          have : buffer = s := Option.some.inj (Option.some.inj his)
          rw [← this]
          exact hlabel
      · rw [List.getElem?_set_ne hi] at his
        exact h arr harr i s his
    · simp only [if_neg hlt]
      exact h

/-- One request (`atomIndex ≥ 0`) made with statics that are well formed and
agree with a topology whose names fit the 32-byte locals: the call fails
exactly when the label is undefined,
and otherwise returns the label and leaves statics of the same kind. -/
theorem getAtomIdStringGivenAtomIndex_request (DefaultReturn : Int)
    (tabStringInPlace : String → Nat → String) (atomIndex : Int) (top : t_topology)
    (sizeOfBuffer : Int) (buffer : String) (maxAtoms : Int) (tab : Nat)
    (statics : AtomIdCache) (hfit : namesFit top) (hwf : statics.wellFormed)
    (hag : statics.agrees tabStringInPlace top tab) (h0 : 0 ≤ atomIndex) :
    (getAtomIdStringGivenAtomIndex DefaultReturn tabStringInPlace atomIndex top sizeOfBuffer
        buffer maxAtoms tab statics = none ∧
      atomIdLabel tabStringInPlace top tab atomIndex.toNat = none) ∨
    ∃ label statics2,
      getAtomIdStringGivenAtomIndex DefaultReturn tabStringInPlace atomIndex top sizeOfBuffer
        buffer maxAtoms tab statics = some (DefaultReturn, label, statics2) ∧
      atomIdLabel tabStringInPlace top tab atomIndex.toNat = some label ∧
      statics2.wellFormed ∧ statics2.agrees tabStringInPlace top tab := by
  have hne : atomIndex ≠ -1 := by omega
  have hwf1 := allocateAtomIdStrings_wellFormed maxAtoms statics hwf
  have hag1 := allocateAtomIdStrings_agrees tabStringInPlace top tab maxAtoms statics hag
  unfold getAtomIdStringGivenAtomIndex
  simp only [if_neg hne]
  rcases cachedAtomIdString_of_wellFormed atomIndex _ hwf1 h0 with hc | ⟨s, arr, hc, harr, hs⟩
  · rw [hc]
    simp only
    rw [assembleAtomIdString_eq DefaultReturn tabStringInPlace atomIndex top tab hfit h0]
    cases hl : atomIdLabel tabStringInPlace top tab atomIndex.toNat with
    | none => exact Or.inl ⟨rfl, rfl⟩
    | some label =>
      exact Or.inr ⟨label, _, rfl, rfl,
        storeAtomIdString_wellFormed atomIndex label _ hwf1,
        storeAtomIdString_agrees tabStringInPlace top tab atomIndex label _ hag1 hl⟩
  · rw [hc]
    exact Or.inr ⟨s, _, rfl, hag1 arr harr _ s hs, hwf1, hag1⟩

/-- A call with `atomIndex = -1` made with well-formed statics returns the
buffer untouched and leaves the initial statics. -/
theorem getAtomIdStringGivenAtomIndex_reset (DefaultReturn : Int)
    (tabStringInPlace : String → Nat → String) (top : t_topology)
    (sizeOfBuffer : Int) (buffer : String) (maxAtoms : Int) (tab : Nat)
    (statics : AtomIdCache) (hwf : statics.wellFormed) :
    getAtomIdStringGivenAtomIndex DefaultReturn tabStringInPlace (-1) top sizeOfBuffer
      buffer maxAtoms tab statics = some (DefaultReturn, buffer, {}) := by
  unfold getAtomIdStringGivenAtomIndex
  simp only [if_true]
  rcases statics with ⟨m, _ | arr⟩
  · have : m = -1 := hwf.1 rfl
    subst this
    rfl
  · have : 0 < m := (hwf.2 arr rfl).1
    have hc : m > 0 ∧ (some arr : Option (List (Option String))) ≠ none :=
      ⟨this, by simp⟩
    simp only [if_pos hc]

theorem atomIdCalls_eq_uncached (DefaultReturn : Int)
    (tabStringInPlace : String → Nat → String) (top : t_topology) (tab : Nat)
    (hfit : namesFit top) (calls : List (Int × Int)) :
    ∀ statics : AtomIdCache, statics.wellFormed → statics.agrees tabStringInPlace top tab →
      (∀ call ∈ calls, -1 ≤ call.1) →
      (atomIdCalls DefaultReturn tabStringInPlace top tab calls statics).map (fun r => r.1)
        = uncachedAtomIdCalls tabStringInPlace top tab calls := by
  induction calls with
  | nil => intro statics _ _ _; rfl
  | cons call calls ih =>
    intro statics hwf hag hcalls
    obtain ⟨atomIndex, maxAtoms⟩ := call
    have hge : -1 ≤ atomIndex := hcalls (atomIndex, maxAtoms) (List.mem_cons_self _ _)
    have hrest : ∀ call ∈ calls, -1 ≤ call.1 :=
      fun c hc => hcalls c (List.mem_cons_of_mem _ hc)
    have key : ∀ (o : Option (List String × AtomIdCache)) (b : String),
        Option.map (fun r => r.1) (o.bind fun r => some (b :: r.1, r.2))
          = (Option.map (fun r => r.1) o).bind fun buffers => some (b :: buffers) := by
      intro o b
      cases o <;> rfl
    unfold atomIdCalls uncachedAtomIdCalls uncachedAtomIdCall
    by_cases hm : atomIndex = -1
    · subst hm
      rw [if_pos rfl, getAtomIdStringGivenAtomIndex_reset DefaultReturn tabStringInPlace top 0 ""
        maxAtoms tab statics hwf]
      rw [← ih {} wellFormed_initial (agrees_initial tabStringInPlace top tab) hrest]
      exact key (atomIdCalls DefaultReturn tabStringInPlace top tab calls {}) ""
    · have h0 : 0 ≤ atomIndex := by omega
      rw [if_neg hm]
      rcases getAtomIdStringGivenAtomIndex_request DefaultReturn tabStringInPlace atomIndex
        top 0 "" maxAtoms tab statics hfit hwf hag h0 with
        ⟨hn, hl⟩ | ⟨label, st2, hs, hl, hwf2, hag2⟩
      · rw [hn, hl]; rfl
      · rw [hs, hl]
        rw [← ih st2 hwf2 hag2 hrest]
        exact key (atomIdCalls DefaultReturn tabStringInPlace top tab calls st2) label

/-- Every call that returns leaves well-formed statics, whatever its
arguments. -/
theorem getAtomIdStringGivenAtomIndex_wellFormed (DefaultReturn : Int)
    (tabStringInPlace : String → Nat → String) (atomIndex : Int) (top : t_topology)
    (sizeOfBuffer : Int) (buffer : String) (maxAtoms : Int) (tab : Nat)
    (statics : AtomIdCache) (hwf : statics.wellFormed)
    (result : Int × String × AtomIdCache)
    (h : getAtomIdStringGivenAtomIndex DefaultReturn tabStringInPlace atomIndex top
      sizeOfBuffer buffer maxAtoms tab statics = some result) :
    result.2.2.wellFormed := by
  by_cases hm : atomIndex = -1
  · subst hm
    rw [getAtomIdStringGivenAtomIndex_reset DefaultReturn tabStringInPlace top sizeOfBuffer
      buffer maxAtoms tab statics hwf] at h
    rw [← Option.some.inj h]
    exact wellFormed_initial
  · have hwf1 := allocateAtomIdStrings_wellFormed maxAtoms statics hwf
    unfold getAtomIdStringGivenAtomIndex at h
    simp only [if_neg hm] at h
    cases hc : cachedAtomIdString atomIndex (allocateAtomIdStrings maxAtoms statics) with
    | none => rw [hc] at h; cases h
    | some e =>
      rw [hc] at h
      cases e with
      | some s =>
        rw [← Option.some.inj h]
        exact hwf1
      | none =>
        simp only at h
        cases ha : assembleAtomIdString DefaultReturn tabStringInPlace atomIndex top tab with
        | none => rw [ha] at h; cases h
        | some b =>
          rw [ha] at h
          rw [← Option.some.inj h]
          exact storeAtomIdString_wellFormed atomIndex b _ hwf1

/-- A cached entry is returned as it is while no reset intervenes: with the
label of atom 0 cached from a topology that names its residue `ALA`, a
request made with a topology that names it `GLY` returns the cached
`ALA_0 CA`. -/
theorem getAtomIdStringGivenAtomIndex_cached_entry :
    (getAtomIdStringGivenAtomIndex 0 (fun s _ => s) 0
      { atoms := { atom := [{ m := 12 }], atomname := ["CA"], resname := ["GLY"] } }
      32 "" 2 0
      { maxAtomIndex := 3, atomIdStrings := some [some "ALA_0 CA", none, none] }).map
        (fun r => r.2.1) = some "ALA_0 CA" := by
  decide

/-- A request made with the initial statics finds no cached entry, whether
the call allocates the array or not. -/
theorem cachedAtomIdString_of_initial (atomIndex maxAtoms : Int) (h0 : 0 ≤ atomIndex) :
    cachedAtomIdString atomIndex (allocateAtomIdStrings maxAtoms {}) = some none := by
  rcases cachedAtomIdString_of_wellFormed atomIndex _
    (allocateAtomIdStrings_wellFormed maxAtoms {} wellFormed_initial) h0 with
    hc | ⟨s, arr, _, harr, hs⟩
  · exact hc
  · unfold allocateAtomIdStrings at harr
    split_ifs at harr with hc
    · have harr : List.replicate (maxAtoms + 1).toNat none = arr := Option.some.inj harr
      subst harr
      rw [List.getElem?_replicate] at hs
      split_ifs at hs
      cases hs

/-- A request made with the initial statics returns what the block that
assembles the identifier derives from the topology of the request. -/
theorem getAtomIdStringGivenAtomIndex_of_initial (DefaultReturn : Int)
    (tabStringInPlace : String → Nat → String) (atomIndex : Int) (top : t_topology)
    (sizeOfBuffer : Int) (buffer : String) (maxAtoms : Int) (tab : Nat)
    (h0 : 0 ≤ atomIndex) :
    (getAtomIdStringGivenAtomIndex DefaultReturn tabStringInPlace atomIndex top sizeOfBuffer
      buffer maxAtoms tab {}).map (fun r => r.2.1)
      = assembleAtomIdString DefaultReturn tabStringInPlace atomIndex top tab := by
  have hne : atomIndex ≠ -1 := by omega
  unfold getAtomIdStringGivenAtomIndex
  simp only [if_neg hne]
  rw [cachedAtomIdString_of_initial atomIndex maxAtoms h0]
  simp only
  cases assembleAtomIdString DefaultReturn tabStringInPlace atomIndex top tab <;> rfl

/-- C18: a call with `atomIndex = -1` made with well-formed statics leaves
the cache without array and with `maxAtomIndex = -1`, and the next request,
for any atom index, with any topology, `maxAtoms` and tab width, returns what
the code derives afresh from the topology of that request, none of the
entries cached before; where the names of that topology fit the 32-byte
locals this is the label of the specification (and the request fails exactly
when that topology has no such atom or residue). -/
theorem reset_forgets_cached_entries (DefaultReturn : Int)
    (tabStringInPlace : String → Nat → String) (statics : AtomIdCache) (top : t_topology)
    (sizeOfBuffer : Int) (buffer : String) (maxAtoms : Int) (tab : Nat)
    (hwf : statics.wellFormed) :
    getAtomIdStringGivenAtomIndex DefaultReturn tabStringInPlace (-1) top sizeOfBuffer
      buffer maxAtoms tab statics
        = some (DefaultReturn, buffer, { maxAtomIndex := -1, atomIdStrings := none }) ∧
    ∀ (atomIndex : Int) (top2 : t_topology) (sizeOfBuffer2 : Int) (buffer2 : String)
      (maxAtoms2 : Int) (tab2 : Nat), 0 ≤ atomIndex →
      (getAtomIdStringGivenAtomIndex DefaultReturn tabStringInPlace atomIndex top2
        sizeOfBuffer2 buffer2 maxAtoms2 tab2
        { maxAtomIndex := -1, atomIdStrings := none }).map (fun r => r.2.1)
        = assembleAtomIdString DefaultReturn tabStringInPlace atomIndex top2 tab2 ∧
      (namesFit top2 →
        (getAtomIdStringGivenAtomIndex DefaultReturn tabStringInPlace atomIndex top2
          sizeOfBuffer2 buffer2 maxAtoms2 tab2
          { maxAtomIndex := -1, atomIdStrings := none }).map (fun r => r.2.1)
          = atomIdLabel tabStringInPlace top2 tab2 atomIndex.toNat) := by
  refine ⟨getAtomIdStringGivenAtomIndex_reset DefaultReturn tabStringInPlace top
    sizeOfBuffer buffer maxAtoms tab statics hwf, ?_⟩
  intro atomIndex top2 sizeOfBuffer2 buffer2 maxAtoms2 tab2 h0
  have h := getAtomIdStringGivenAtomIndex_of_initial DefaultReturn tabStringInPlace atomIndex
    top2 sizeOfBuffer2 buffer2 maxAtoms2 tab2 h0
  refine ⟨h, fun hfit => ?_⟩
  rw [← assembleAtomIdString_eq DefaultReturn tabStringInPlace atomIndex top2 tab2 hfit h0]
  exact h

/-- Witness of C18: the statics hold `ALA_0 CA` for atom 0; after the reset
a request for atom 0 with a topology naming the residue `GLY` returns
`GLY_0 CA`. -/
theorem reset_forgets_cached_entries_witness :
    AtomIdCache.wellFormed
      { maxAtomIndex := 3, atomIdStrings := some [some "ALA_0 CA", none, none] } ∧
    (getAtomIdStringGivenAtomIndex 0 (fun s _ => s) (-1) {} 32 "" 2 0
      { maxAtomIndex := 3, atomIdStrings := some [some "ALA_0 CA", none, none] }
        = some (0, "", { maxAtomIndex := -1, atomIdStrings := none }) ∧
      (getAtomIdStringGivenAtomIndex 0 (fun s _ => s) 0
        { atoms := { atom := [{ m := 12 }], atomname := ["CA"], resname := ["GLY"] } }
        32 "" 2 0 { maxAtomIndex := -1, atomIdStrings := none }).map (fun r => r.2.1)
        = some "GLY_0 CA") :=
  have hwf : AtomIdCache.wellFormed
      { maxAtomIndex := 3, atomIdStrings := some [some "ALA_0 CA", none, none] } :=
    ⟨fun h => (by cases h), fun arr h => (by cases h; exact ⟨by decide, rfl⟩)⟩
  ⟨hwf,
    (reset_forgets_cached_entries 0 (fun s _ => s)
      { maxAtomIndex := 3, atomIdStrings := some [some "ALA_0 CA", none, none] } {}
      32 "" 2 0 hwf).1,
    (((reset_forgets_cached_entries 0 (fun s _ => s)
      { maxAtomIndex := 3, atomIdStrings := some [some "ALA_0 CA", none, none] } {}
      32 "" 2 0 hwf).2 0
      { atoms := { atom := [{ m := 12 }], atomname := ["CA"], resname := ["GLY"] } }
      32 "" 2 0 (by decide)).1).trans (by decide)⟩

/-- C19, evaluation: a name of 32 to 100 characters passes the test
`strlen( ... ) > 100` and `strcpy` writes it past the end of the 32-byte
local: for the residue name of 40 characters
`DIPALMITOYLPHOSPHATIDYLCHOLINE_BILAYER_A` the first request is undefined,
where the label derived without a cache is that name followed by `_0 CA`.
For a topology whose names of 1 to 100 characters fit the locals `atomName`
and `residueName`, every sequence of calls made from the initial statics,
requests for atom indices `≥ 0` with any `maxAtoms` mixed with resets
(`atomIndex = -1`), leaves in the buffers exactly the labels derived without
a cache, and fails exactly when such a label is undefined. -/
theorem long_name_overflows_the_local :
    "DIPALMITOYLPHOSPHATIDYLCHOLINE_BILAYER_A".length = 40 ∧
    (∀ tabStringInPlace : String → Nat → String,
      atomIdCalls 0 tabStringInPlace
        { atoms := { atom := [{ m := 12 }], atomname := ["CA"], resname := ["DIPALMITOYLPHOSPHATIDYLCHOLINE_BILAYER_A"] } }
        0 [(0, 10)] {} = none) ∧
    (∀ tabStringInPlace : String → Nat → String,
      uncachedAtomIdCalls tabStringInPlace
        { atoms := { atom := [{ m := 12 }], atomname := ["CA"], resname := ["DIPALMITOYLPHOSPHATIDYLCHOLINE_BILAYER_A"] } }
        0 [(0, 10)] = some ["DIPALMITOYLPHOSPHATIDYLCHOLINE_BILAYER_A_0 CA"]) ∧
    getResidueNameGivenAtomIndex 0 0
      { atoms := { atom := [{ m := 12 }], atomname := ["CA"], resname := ["DIPALMITOYLPHOSPHATIDYLCHOLINE_BILAYER_A"] } }
      32 = none ∧
    getResidueNameGivenAtomIndex 0 0
      { atoms := { atom := [{ m := 12 }], atomname := ["CA"], resname := ["DIPALMITOYLPHOSPHATIDYLCHOLINE_BILAYER_A"] } }
      41 = some (0, "DIPALMITOYLPHOSPHATIDYLCHOLINE_BILAYER_A", 0) ∧
    (∀ (DefaultReturn : Int) (tabStringInPlace : String → Nat → String) (top : t_topology)
      (tab : Nat) (calls : List (Int × Int)), namesFit top → (∀ call ∈ calls, -1 ≤ call.1) →
      (atomIdCalls DefaultReturn tabStringInPlace top tab calls {}).map (fun r => r.1)
        = uncachedAtomIdCalls tabStringInPlace top tab calls) ∧
    (atomIdCalls 0 (fun s n => s.pushn (Char.ofNat 32) (n - s.length))
      { atoms := { atom := [{ m := 12, resnr := 0 }, { m := 1, resnr := 1 }], atomname := ["CA", ""], resname := ["ALA", "GLY"] } }
      10 [(0, 2), (1, 2), (0, 2), (1, 0), (-1, 0), (1, 0), (0, 1), (1, 5), (0, 5)] {}).map
        (fun r => r.1)
      = some ["ALA_0 CA  ", "GLY_1 NA  ", "ALA_0 CA  ", "GLY_1 NA  ", "", "GLY_1 NA  ",
          "ALA_0 CA  ", "GLY_1 NA  ", "ALA_0 CA  "] := by
  refine ⟨by decide, fun _ => rfl, fun _ => rfl, by decide, by decide, ?_, by decide⟩
  intro DefaultReturn tabStringInPlace top tab calls hfit hcalls
  exact atomIdCalls_eq_uncached DefaultReturn tabStringInPlace top tab hfit calls {}
    wellFormed_initial (agrees_initial tabStringInPlace top tab) hcalls

/-! ## The Grycuk force routine: lemmas -/

theorem foldlM_forEachAtom {α : Type} (body : Nat → α → Option α) (array : List α)
    (n : Nat) (hn : n ≤ array.length) (hbody : ∀ i, i < n → ∀ a, ∃ b, body i a = some b) :
    ∃ out, (List.range n).foldlM
        (fun array ii =>
          match array[ii]? with
          | none => none
          | some a => (body ii a).map (array.set ii))
        array = some out ∧
      out.length = array.length ∧
      (∀ i, i < n → ∃ a b, array[i]? = some a ∧ body i a = some b ∧ out[i]? = some b) ∧
      ∀ i, n ≤ i → out[i]? = array[i]? := by
  induction n with
  | zero =>
    exact ⟨array, rfl, rfl, fun i hi => absurd hi (Nat.not_lt_zero i), fun i _ => rfl⟩
  | succ n ih =>
    obtain ⟨out, hout, hlen, hlt, hge⟩ :=
      ih (Nat.le_of_succ_le hn) (fun i hi => hbody i (Nat.lt_succ_of_lt hi))
    have hnlt : n < array.length := hn
    have houtn : out[n]? = some array[n] := by
      rw [hge n (Nat.le_refl n), List.getElem?_eq_getElem hnlt]
    obtain ⟨b, hb⟩ := hbody n (Nat.lt_succ_self n) array[n]
    refine ⟨out.set n b, ?_, ?_, ?_, ?_⟩
    · rw [List.range_succ, List.foldlM_append, hout]
      simp only [Option.bind_eq_bind, Option.some_bind, List.foldlM_cons, List.foldlM_nil,
        houtn, hb, Option.map_some']
      rfl
    · rw [List.length_set, hlen]
    · intro i hi
      by_cases hin : i = n
      · subst hin
        refine ⟨array[i], b, List.getElem?_eq_getElem hnlt, hb, ?_⟩
        rw [List.getElem?_set_self (by rw [hlen]; exact hnlt)]
      · have hi2 : i < n := by omega
        obtain ⟨a, b2, ha, hb2, ho⟩ := hlt i hi2
        refine ⟨a, b2, ha, hb2, ?_⟩
        rw [List.getElem?_set_ne (fun h => hin h.symm)]
        exact ho
    · intro i hi
      have hne : n ≠ i := by omega
      rw [List.getElem?_set_ne hne]
      exact hge i (by omega)

theorem forEachAtom_eq_some {α : Type} (numberOfAtoms : Int) (body : Nat → α → Option α)
    (array : List α) (hn : numberOfAtoms ≤ array.length)
    (hbody : ∀ i : Nat, (i : Int) < numberOfAtoms → ∀ a, ∃ b, body i a = some b) :
    ∃ out, forEachAtom numberOfAtoms body array = some out ∧
      out.length = array.length ∧
      (∀ i : Nat, (i : Int) < numberOfAtoms →
        ∃ a b, array[i]? = some a ∧ body i a = some b ∧ out[i]? = some b) ∧
      ∀ i : Nat, ¬ (i : Int) < numberOfAtoms → out[i]? = array[i]? := by
  obtain ⟨out, hout, hlen, hlt, hge⟩ :=
    foldlM_forEachAtom body array numberOfAtoms.toNat (by omega)
      (fun i hi => hbody i (by omega))
  exact ⟨out, hout, hlen, fun i hi => hlt i (by omega), fun i hi => hge i (by omega)⟩

theorem convertCoordinates_eq (atomCoordinates : List rvec) (ii : Nat) (row x : rvec)
    (hx : atomCoordinates[ii]? = some x) :
    ∃ b, convertCoordinates atomCoordinates ii row = some b ∧ ∀ k, b k = 10 * x k := by
  refine ⟨_, by rw [convertCoordinates, hx]; rfl, ?_⟩
  intro k
  fin_cases k <;> simp [Function.update]

theorem addForces_eq (localForces : List rvec) (ii : Nat) (row l : rvec)
    (hl : localForces[ii]? = some l) :
    ∃ b, addForces localForces ii row = some b ∧ ∀ k, b k = row k + 0.4184 * l k := by
  refine ⟨_, by rw [addForces, hl]; rfl, ?_⟩
  intro k
  fin_cases k <;> simp [Function.update]

theorem allocateGrycukStatics_eq_some (numberOfAtoms : Int) (partialChargesIn : List ℚ)
    (statics : GrycukStatics) (hn : 0 ≤ numberOfAtoms)
    (hq : statics.coordinates = none → numberOfAtoms ≤ partialChargesIn.length)
    (hstatics : statics.allocatedFor numberOfAtoms) :
    ∃ partialCharges coordinates localForces,
      allocateGrycukStatics numberOfAtoms partialChargesIn statics
        = some { partialCharges := some partialCharges, coordinates := some coordinates,
                 localForces := some localForces } ∧
      numberOfAtoms ≤ coordinates.length ∧ numberOfAtoms ≤ localForces.length := by
  rcases hstatics with ⟨_, hc, _⟩ | ⟨p, c, l, hp, hc, hl, hclen, hllen⟩
  · have hq := hq hc
    obtain ⟨out, hout, _, _, _⟩ :=
      forEachAtom_eq_some numberOfAtoms (fun ii _ => partialChargesIn[ii]?)
        (List.replicate numberOfAtoms.toNat (0 : ℚ))
        (by rw [List.length_replicate]; omega)
        (fun i hi _ =>
          have h : i < partialChargesIn.length := by omega
          ⟨partialChargesIn.get ⟨i, h⟩, List.getElem?_eq_getElem h⟩)
    refine ⟨out, List.replicate numberOfAtoms.toNat (fun _ => 0),
      List.replicate numberOfAtoms.toNat (fun _ => 0), ?_, ?_, ?_⟩
    · unfold allocateGrycukStatics
      rw [hc]
      simp only [if_neg (not_lt.mpr hn), hout]
      rfl
    · rw [List.length_replicate]; omega
    · rw [List.length_replicate]; omega
  · refine ⟨p, c, l, ?_, hclen, hllen⟩
    unfold allocateGrycukStatics
    rcases statics with ⟨sp, sc, sl⟩
    simp only at hp hc hl
    subst hp hc hl
    rfl

theorem convertCoordinatesFloat_eq (arithmetic : FloatArithmetic)
    (atomCoordinates : List rvec) (ii : Nat) (row x : rvec)
    (hx : atomCoordinates[ii]? = some x) :
    ∃ b, convertCoordinatesFloat arithmetic atomCoordinates ii row = some b ∧
      ∀ k, b k = arithmetic.scaleDistance (arithmetic.convert 10.0) (x k) := by
  refine ⟨_, by rw [convertCoordinatesFloat, hx]; rfl, ?_⟩
  intro k
  fin_cases k <;> simp [Function.update]

theorem addForcesFloat_eq (arithmetic : FloatArithmetic) (localForces : List rvec) (ii : Nat)
    (row l : rvec) (hl : localForces[ii]? = some l) :
    ∃ b, addForcesFloat arithmetic localForces ii row = some b ∧
      ∀ k, b k =
        arithmetic.accumulate (row k) (arithmetic.scaleForce (7019587 / 16777216) (l k)) := by
  refine ⟨_, by rw [addForcesFloat, hl]; rfl, ?_⟩
  intro k
  fin_cases k <;> simp [Function.update]

/-- A call of `gromacsCpuCalculateGrycukForces` with the machine operations,
made with an engine set up for `numberOfAtoms` atoms, with host arrays of at
least `numberOfAtoms` entries and an engine that keeps the number of rows of
the array it writes to: the status, the coordinates handed to the engine and
the forces left. -/
theorem gromacsCpuCalculateGrycukForcesFloat_eq (arithmetic : FloatArithmetic)
    (engine : CpuImplicitSolvent)
    (atomCoordinates : List rvec) (partialChargesIn : List ℚ) (forces : List rvec)
    (statics : GrycukStatics) (hn : 0 ≤ engine.numberOfAtoms)
    (hengine : ∀ c p l u, (engine.computeImplicitSolventForces c p l u).length = l.length)
    (hx : engine.numberOfAtoms ≤ atomCoordinates.length)
    (hq : statics.coordinates = none → engine.numberOfAtoms ≤ partialChargesIn.length)
    (hf : engine.numberOfAtoms ≤ forces.length)
    (hstatics : statics.allocatedFor engine.numberOfAtoms) :
    ∃ (forces2 coordinates : List rvec) (partialCharges : List ℚ) (localForces0 : List rvec),
      gromacsCpuCalculateGrycukForcesFloat arithmetic (some engine) atomCoordinates
          partialChargesIn forces statics
        = Call.returns (0, forces2,
            { partialCharges := some partialCharges, coordinates := some coordinates,
              localForces := some
                (engine.computeImplicitSolventForces coordinates partialCharges localForces0
                  0) }) ∧
      forces2.length = forces.length ∧
      engine.numberOfAtoms ≤ localForces0.length ∧
      (∀ i : Nat, (i : Int) < engine.numberOfAtoms → ∀ k,
        coordinates.getD i 0 k =
          arithmetic.scaleDistance (arithmetic.convert 10.0) (atomCoordinates.getD i 0 k)) ∧
      (∀ i : Nat, (i : Int) < engine.numberOfAtoms → ∀ k,
        forces2.getD i 0 k =
          arithmetic.accumulate (forces.getD i 0 k)
            (arithmetic.scaleForce (7019587 / 16777216)
              ((engine.computeImplicitSolventForces coordinates partialCharges localForces0
                0).getD i 0 k))) ∧
      ∀ i : Nat, ¬ (i : Int) < engine.numberOfAtoms → forces2[i]? = forces[i]? := by
  obtain ⟨p, c0, l0, halloc, hclen, hllen⟩ :=
    allocateGrycukStatics_eq_some engine.numberOfAtoms partialChargesIn statics hn hq hstatics
  obtain ⟨c, hc, _, hclt, _⟩ :=
    forEachAtom_eq_some engine.numberOfAtoms (convertCoordinatesFloat arithmetic atomCoordinates)
      c0 hclen
      (fun i hi row =>
        have h : i < atomCoordinates.length := by omega
        (convertCoordinatesFloat_eq arithmetic atomCoordinates i row _
          (List.getElem?_eq_getElem h)).imp fun _ hb => hb.1)
  have hlflen : engine.numberOfAtoms
      ≤ (engine.computeImplicitSolventForces c p l0 0).length := by
    rw [hengine]; exact hllen
  obtain ⟨f2, hf2, hf2len, hf2lt, hf2ge⟩ :=
    forEachAtom_eq_some engine.numberOfAtoms
      (addForcesFloat arithmetic (engine.computeImplicitSolventForces c p l0 0)) forces hf
      (fun i hi row =>
        have h : i < (engine.computeImplicitSolventForces c p l0 0).length := by omega
        (addForcesFloat_eq arithmetic _ i row _ (List.getElem?_eq_getElem h)).imp
          fun _ hb => hb.1)
  refine ⟨f2, c, p, l0, ?_, hf2len, hllen, ?_, ?_, hf2ge⟩
  · unfold gromacsCpuCalculateGrycukForcesFloat
    simp only [halloc, hc, hf2, Option.bind_eq_bind, Option.some_bind]
    rfl
  · intro i hi k
    obtain ⟨row, b, _, hb, hci⟩ := hclt i hi
    have h : i < atomCoordinates.length := by omega
    obtain ⟨b2, hb2, hk⟩ :=
      convertCoordinatesFloat_eq arithmetic atomCoordinates i row _
        (List.getElem?_eq_getElem h)
    have hbb : b = b2 := Option.some.inj (hb.symm.trans hb2)
    rw [List.getD_eq_getElem?_getD, List.getD_eq_getElem?_getD, hci,
      List.getElem?_eq_getElem h, hbb]
    exact hk k
  · intro i hi k
    obtain ⟨row, b, hrow, hb, hfi⟩ := hf2lt i hi
    have h : i < (engine.computeImplicitSolventForces c p l0 0).length := by omega
    obtain ⟨b2, hb2, hk⟩ := addForcesFloat_eq arithmetic _ i row _ (List.getElem?_eq_getElem h)
    have hbb : b = b2 := Option.some.inj (hb.symm.trans hb2)
    rw [List.getD_eq_getElem?_getD, List.getD_eq_getElem?_getD, List.getD_eq_getElem?_getD,
      hfi, hrow, List.getElem?_eq_getElem h, hbb]
    exact hk k

/-- C20, as stated, fails in single precision: with the force 1000000 in
`forces[0][k]` and the engine returning 10 in `localForces[0][k]`, the call
leaves `16000067/16`, which is 1000004.1875, and not
`1000000 + 0.4184 * 10`, which is 1000004.184. -/
theorem accumulated_force_is_rounded :
    ∃ (forces2 : List rvec) (statics2 : GrycukStatics),
      gromacsCpuCalculateGrycukForcesFloat singlePrecisionArithmetic
          (some { numberOfAtoms := 1,
                  computeImplicitSolventForces := fun _ _ l _ => l.map fun _ => ((fun _ => 10) : rvec) })
          [fun _ => 1] [0] [fun _ => 1000000] {}
        = Call.returns (0, forces2, statics2) ∧
      (∀ k, forces2.getD 0 0 k = 16000067 / 16) ∧
      (16000067 / 16 : ℚ) ≠ 1000000 + 0.4184 * 10 := by
  obtain ⟨forces2, coordinates, partialCharges, localForces0, h, _, hl, _, hf, _⟩ :=
    gromacsCpuCalculateGrycukForcesFloat_eq singlePrecisionArithmetic
      { numberOfAtoms := 1,
        computeImplicitSolventForces := fun _ _ l _ => l.map fun _ => ((fun _ => 10) : rvec) }
      [fun _ => 1] [0] [fun _ => 1000000] {} (by decide)
      (fun _ _ l _ => by simp) (by decide) (fun _ => by decide) (by decide)
      (Or.inl ⟨rfl, rfl, rfl⟩)
  refine ⟨forces2, _, h, fun k => ?_, by norm_num⟩
  have hl1 : 1 ≤ localForces0.length := by
    have : ((1 : Int)) ≤ (localForces0.length : Int) := hl
    omega
  rw [hf 0 (by decide) k]
  have hlocal :
      (localForces0.map fun _ => ((fun _ => 10) : rvec)).getD 0 (0 : rvec) k = 10 := by
    cases localForces0 with
    | nil => simp at hl1
    | cons a t => rfl
  show singlePrecisionArithmetic.accumulate _ (singlePrecisionArithmetic.scaleForce _
    ((localForces0.map fun _ => ((fun _ => 10) : rvec)).getD 0 (0 : rvec) k)) = _
  rw [hlocal]
  simp only [singlePrecisionArithmetic, List.getD_cons_zero, singlePrecision_of_product,
    singlePrecision_of_sum]

/-- C20, amended: a call of `gromacsCpuCalculateGrycukForces` made with an
engine set up for `numberOfAtoms` atoms, with host arrays of at least
`numberOfAtoms` entries and an engine that keeps the number of rows of the
array it writes to, returns 0; the engine is called on coordinates that are
the machine product of `(RealOpenMM) 10.0` and the host coordinate, converted
to `RealOpenMM`; every component of `forces[i]`, `i < numberOfAtoms`, is the
value `+=` leaves from its value before the call and the machine product of
`0.4184f` (the single-precision number `7019587/16777216`) and the component
of `localForces[i]` the engine returned; the other entries of `forces` are
unchanged. -/
theorem grycuk_forces_are_accumulated (arithmetic : FloatArithmetic)
    (engine : CpuImplicitSolvent)
    (atomCoordinates : List rvec) (partialChargesIn : List ℚ) (forces : List rvec)
    (statics : GrycukStatics) (hn : 0 ≤ engine.numberOfAtoms)
    (hengine : ∀ c p l u, (engine.computeImplicitSolventForces c p l u).length = l.length)
    (hx : engine.numberOfAtoms ≤ atomCoordinates.length)
    (hq : statics.coordinates = none → engine.numberOfAtoms ≤ partialChargesIn.length)
    (hf : engine.numberOfAtoms ≤ forces.length)
    (hstatics : statics.allocatedFor engine.numberOfAtoms) :
    ∃ (forces2 coordinates : List rvec) (partialCharges : List ℚ) (localForces0 : List rvec),
      gromacsCpuCalculateGrycukForcesFloat arithmetic (some engine) atomCoordinates
          partialChargesIn forces statics
        = Call.returns (0, forces2,
            { partialCharges := some partialCharges, coordinates := some coordinates,
              localForces := some
                (engine.computeImplicitSolventForces coordinates partialCharges localForces0
                  0) }) ∧
      forces2.length = forces.length ∧
      (∀ i : Nat, (i : Int) < engine.numberOfAtoms → ∀ k,
        coordinates.getD i 0 k =
          arithmetic.scaleDistance (arithmetic.convert 10.0) (atomCoordinates.getD i 0 k)) ∧
      (∀ i : Nat, (i : Int) < engine.numberOfAtoms → ∀ k,
        forces2.getD i 0 k =
          arithmetic.accumulate (forces.getD i 0 k)
            (arithmetic.scaleForce (7019587 / 16777216)
              ((engine.computeImplicitSolventForces coordinates partialCharges localForces0
                0).getD i 0 k))) ∧
      ∀ i : Nat, ¬ (i : Int) < engine.numberOfAtoms → forces2[i]? = forces[i]? := by
  obtain ⟨forces2, coordinates, partialCharges, localForces0, h1, h2, _, h4, h5, h6⟩ :=
    gromacsCpuCalculateGrycukForcesFloat_eq arithmetic engine atomCoordinates partialChargesIn
      forces statics hn hengine hx hq hf hstatics
  exact ⟨forces2, coordinates, partialCharges, localForces0, h1, h2, h4, h5, h6⟩

/-- Witness of C20 amended: the first call in single precision, one atom and
a second entry of `forces` beyond it, an engine that returns 10 in every
component. -/
theorem grycuk_forces_are_accumulated_witness :
    GrycukStatics.allocatedFor 1 {} ∧
    ∃ (forces2 coordinates : List rvec) (partialCharges : List ℚ) (localForces0 : List rvec),
      gromacsCpuCalculateGrycukForcesFloat singlePrecisionArithmetic
          (some { numberOfAtoms := 1,
                  computeImplicitSolventForces := fun _ _ l _ => l.map fun _ => ((fun _ => 10) : rvec) })
          [fun _ => 1] [0] [fun _ => 1000000, fun _ => 7] {}
        = Call.returns (0, forces2,
            { partialCharges := some partialCharges, coordinates := some coordinates,
              localForces := some (localForces0.map fun _ => ((fun _ => 10) : rvec)) }) ∧
      forces2.length = 2 ∧
      (∀ i : Nat, (i : Int) < 1 → ∀ k,
        coordinates.getD i 0 k =
          singlePrecisionArithmetic.scaleDistance (singlePrecisionArithmetic.convert 10.0)
            (List.getD [fun _ => 1] i (0 : rvec) k)) ∧
      (∀ i : Nat, (i : Int) < 1 → ∀ k,
        forces2.getD i 0 k =
          singlePrecisionArithmetic.accumulate
            (List.getD [fun _ => 1000000, fun _ => 7] i (0 : rvec) k)
            (singlePrecisionArithmetic.scaleForce (7019587 / 16777216)
              ((localForces0.map fun _ => ((fun _ => 10) : rvec)).getD i 0 k))) ∧
      ∀ i : Nat, ¬ (i : Int) < 1 →
        forces2[i]? = ([fun _ => 1000000, fun _ => 7] : List rvec)[i]? :=
  ⟨Or.inl ⟨rfl, rfl, rfl⟩,
    grycuk_forces_are_accumulated singlePrecisionArithmetic
      { numberOfAtoms := 1,
        computeImplicitSolventForces := fun _ _ l _ => l.map fun _ => ((fun _ => 10) : rvec) }
      [fun _ => 1] [0] [fun _ => 1000000, fun _ => 7] {}
      (by decide) (fun _ _ l _ => List.length_map _ _) (by decide) (fun _ => by decide)
      (by decide) (Or.inl ⟨rfl, rfl, rfl⟩)⟩

/-! ## The fatal error of the force routine -/

theorem Call.ofOption_eq_returns {α : Type} (o : Option α) (value : α) :
    Call.ofOption o = Call.returns value ↔ o = some value := by
  cases o with
  | none => exact ⟨fun h => (by cases h), fun h => (by cases h)⟩
  | some a =>
    constructor
    · intro h
      cases h
      rfl
    · intro h
      cases h
      rfl

theorem Call.ofOption_ne_exits {α : Type} (o : Option α) (status : Int) :
    Call.ofOption o ≠ Call.exits status := by
  cases o <;> intro h <;> cases h

/-- A call of the force routine that returns has the status 0. -/
theorem gromacsCpuCalculateGrycukForces_status
    (cpuImplicitSolvent : Option CpuImplicitSolvent) (atomCoordinates : List rvec)
    (partialChargesIn : List ℚ) (forces : List rvec) (statics : GrycukStatics)
    (value : Int × List rvec × GrycukStatics)
    (h : gromacsCpuCalculateGrycukForces cpuImplicitSolvent atomCoordinates partialChargesIn
      forces statics = Call.returns value) : value.1 = 0 := by
  unfold gromacsCpuCalculateGrycukForces at h
  cases cpuImplicitSolvent with
  | none => cases h
  | some engine =>
    simp only at h
    rw [Call.ofOption_eq_returns] at h
    simp only [Option.bind_eq_bind, Option.bind_eq_some] at h
    obtain ⟨_, _, _, _, _, _, _, _, _, _, _, _, hv⟩ := h
    cases hv
    rfl

/-- With an engine set up for `numberOfAtoms` atoms and arrays that hold
them, the force routine returns. -/
theorem gromacsCpuCalculateGrycukForces_returns (engine : CpuImplicitSolvent)
    (atomCoordinates : List rvec) (partialChargesIn : List ℚ) (forces : List rvec)
    (statics : GrycukStatics) (hn : 0 ≤ engine.numberOfAtoms)
    (hengine : ∀ c p l u, (engine.computeImplicitSolventForces c p l u).length = l.length)
    (hx : engine.numberOfAtoms ≤ atomCoordinates.length)
    (hq : statics.coordinates = none → engine.numberOfAtoms ≤ partialChargesIn.length)
    (hf : engine.numberOfAtoms ≤ forces.length)
    (hstatics : statics.allocatedFor engine.numberOfAtoms) :
    ∃ value, gromacsCpuCalculateGrycukForces (some engine) atomCoordinates partialChargesIn
      forces statics = Call.returns value := by
  obtain ⟨p, c0, l0, halloc, hclen, hllen⟩ :=
    allocateGrycukStatics_eq_some engine.numberOfAtoms partialChargesIn statics hn hq hstatics
  obtain ⟨c, hc, _, _, _⟩ :=
    forEachAtom_eq_some engine.numberOfAtoms (convertCoordinates atomCoordinates) c0 hclen
      (fun i hi row =>
        have h : i < atomCoordinates.length := by omega
        (convertCoordinates_eq atomCoordinates i row _ (List.getElem?_eq_getElem h)).imp
          fun _ hb => hb.1)
  obtain ⟨f2, hf2, _, _, _⟩ :=
    forEachAtom_eq_some engine.numberOfAtoms
      (addForces (engine.computeImplicitSolventForces c p l0 0)) forces hf
      (fun i hi row =>
        have h : i < (engine.computeImplicitSolventForces c p l0 0).length := by
          rw [hengine]; omega
        (addForces_eq _ i row _ (List.getElem?_eq_getElem h)).imp fun _ hb => hb.1)
  refine ⟨(0, f2, ⟨some p, some c,
    some (engine.computeImplicitSolventForces c p l0 0)⟩), ?_⟩
  unfold gromacsCpuCalculateGrycukForces
  simp only [halloc, hc, hf2, Option.bind_eq_bind, Option.some_bind]
  rfl

/-- C21: `gromacsCpuCalculateGrycukForces` ends in `exit( -1 )` if and only
if `getCpuImplicitSolvent()` is null; it then does so whatever the host
arrays are, arrays without any entry included, so that nothing is read from
the coordinates and the force array is left as it is; with an engine a call
that returns has the status 0, and the call returns whenever the host
arrays hold the atoms of the engine. -/
theorem fatal_error_iff_no_engine (cpuImplicitSolvent : Option CpuImplicitSolvent)
    (atomCoordinates : List rvec) (partialChargesIn : List ℚ) (forces : List rvec)
    (statics : GrycukStatics) :
    ((∃ status, gromacsCpuCalculateGrycukForces cpuImplicitSolvent atomCoordinates
        partialChargesIn forces statics = Call.exits status) ↔ cpuImplicitSolvent = none) ∧
    (∀ (atomCoordinates2 : List rvec) (partialChargesIn2 : List ℚ) (forces2 : List rvec)
      (statics2 : GrycukStatics),
      gromacsCpuCalculateGrycukForces none atomCoordinates2 partialChargesIn2 forces2 statics2
        = Call.exits (-1)) ∧
    (∀ value, gromacsCpuCalculateGrycukForces cpuImplicitSolvent atomCoordinates
        partialChargesIn forces statics = Call.returns value → value.1 = 0) ∧
    (∀ engine, cpuImplicitSolvent = some engine → 0 ≤ engine.numberOfAtoms →
      (∀ c p l u, (engine.computeImplicitSolventForces c p l u).length = l.length) →
      engine.numberOfAtoms ≤ atomCoordinates.length →
      (statics.coordinates = none → engine.numberOfAtoms ≤ partialChargesIn.length) →
      engine.numberOfAtoms ≤ forces.length → statics.allocatedFor engine.numberOfAtoms →
      ∃ forces2 statics2, gromacsCpuCalculateGrycukForces cpuImplicitSolvent atomCoordinates
        partialChargesIn forces statics = Call.returns (0, forces2, statics2)) := by
  refine ⟨⟨?_, ?_⟩, fun _ _ _ _ => rfl, ?_, ?_⟩
  · rintro ⟨status, h⟩
    cases cpuImplicitSolvent with
    | none => rfl
    | some engine => exact absurd h (Call.ofOption_ne_exits _ status)
  · intro h
    subst h
    exact ⟨-1, rfl⟩
  · intro value h
    exact gromacsCpuCalculateGrycukForces_status _ _ _ _ _ value h
  · intro engine he hn hengine hx hq hf hstatics
    subst he
    obtain ⟨value, hv⟩ := gromacsCpuCalculateGrycukForces_returns engine atomCoordinates
      partialChargesIn forces statics hn hengine hx hq hf hstatics
    have h0 := gromacsCpuCalculateGrycukForces_status _ _ _ _ _ value hv
    refine ⟨value.2.1, value.2.2, ?_⟩
    rw [hv, ← h0]

/-- Whatever the machine operations, the force routine ends in `exit( -1 )`
if and only if `getCpuImplicitSolvent()` is null, a call that returns has the
status 0, and the call returns whenever the host arrays hold the atoms of the
engine. -/
theorem gromacsCpuCalculateGrycukForcesFloat_ends (arithmetic : FloatArithmetic)
    (cpuImplicitSolvent : Option CpuImplicitSolvent) (atomCoordinates : List rvec)
    (partialChargesIn : List ℚ) (forces : List rvec) (statics : GrycukStatics) :
    ((∃ status, gromacsCpuCalculateGrycukForcesFloat arithmetic cpuImplicitSolvent
        atomCoordinates partialChargesIn forces statics = Call.exits status) ↔
      cpuImplicitSolvent = none) ∧
    gromacsCpuCalculateGrycukForcesFloat arithmetic none atomCoordinates partialChargesIn
      forces statics = Call.exits (-1) ∧
    (∀ value, gromacsCpuCalculateGrycukForcesFloat arithmetic cpuImplicitSolvent
        atomCoordinates partialChargesIn forces statics = Call.returns value →
      value.1 = 0) ∧
    (∀ engine, cpuImplicitSolvent = some engine → 0 ≤ engine.numberOfAtoms →
      (∀ c p l u, (engine.computeImplicitSolventForces c p l u).length = l.length) →
      engine.numberOfAtoms ≤ atomCoordinates.length →
      (statics.coordinates = none → engine.numberOfAtoms ≤ partialChargesIn.length) →
      engine.numberOfAtoms ≤ forces.length → statics.allocatedFor engine.numberOfAtoms →
      ∃ forces2 statics2, gromacsCpuCalculateGrycukForcesFloat arithmetic cpuImplicitSolvent
        atomCoordinates partialChargesIn forces statics = Call.returns (0, forces2, statics2))
    := by
  refine ⟨⟨?_, ?_⟩, rfl, ?_, ?_⟩
  · rintro ⟨status, h⟩
    cases cpuImplicitSolvent with
    | none => rfl
    | some engine => exact absurd h (Call.ofOption_ne_exits _ status)
  · intro h
    subst h
    exact ⟨-1, rfl⟩
  · intro value h
    unfold gromacsCpuCalculateGrycukForcesFloat at h
    cases cpuImplicitSolvent with
    | none => cases h
    | some engine =>
      simp only at h
      rw [Call.ofOption_eq_returns] at h
      simp only [Option.bind_eq_bind, Option.bind_eq_some] at h
      obtain ⟨_, _, _, _, _, _, _, _, _, _, _, _, hv⟩ := h
      cases hv
      rfl
  · intro engine he hn hengine hx hq hf hstatics
    subst he
    obtain ⟨forces2, coordinates, partialCharges, localForces0, h, _⟩ :=
      gromacsCpuCalculateGrycukForcesFloat_eq arithmetic engine atomCoordinates
        partialChargesIn forces statics hn hengine hx hq hf hstatics
    exact ⟨forces2, _, h⟩

/-! ## The dielectric constants of the setup -/

/-- The arguments of a call of `gromacsCpuInitialSetupGrycuk` that reaches
`cpuSetGrycukParameters`: the two dielectric constants after the two tests
of the source, and the status returned. -/
theorem gromacsCpuInitialSetupGrycuk_arguments (RealOpenMM : ℚ → ℚ)
    (DefaultReturn ErrorReturn : Int)
    (readFileIntoStringVector : String → Int × List String)
    (tokenizeString : String → List String → String → Int → List String)
    (atof : String → ℚ) (ParameterFileName : String) (scaleFactor : ℚ)
    (cpuSetGrycukParameters : GrycukParameterArguments → Int)
    (top : t_topology) (log : Bool) (includeAceApproximation : Int)
    (soluteDielectric solventDielectric : FloatValue)
    (value : Int × GrycukParameterArguments)
    (h : gromacsCpuInitialSetupGrycuk RealOpenMM DefaultReturn ErrorReturn
      readFileIntoStringVector tokenizeString atof ParameterFileName scaleFactor
      cpuSetGrycukParameters top log includeAceApproximation soluteDielectric
      solventDielectric = Call.returns value) :
    value.2.soluteDielectric =
      (if soluteDielectric.lessThan 1.0 then FloatValue.finite 1.0 else soluteDielectric) ∧
    value.2.solventDielectric =
      (if solventDielectric.lessThan 50.0 then FloatValue.finite (5131469 / 65536)
        else solventDielectric) ∧
    value.1 = cpuSetGrycukParameters value.2 := by
  unfold gromacsCpuInitialSetupGrycuk at h
  cases log with
  | false => simp at h
  | true =>
    simp only [Bool.true_eq_false, if_false] at h
    cases hr : getMacroModelAtomicRadiiArray DefaultReturn ErrorReturn
        readFileIntoStringVector tokenizeString atof (top.atoms.nr : Int) ParameterFileName top
        (List.replicate ((top.atoms.nr : Int)).toNat 0) scaleFactor with
    | none => rw [hr] at h; cases h
    | some r =>
      rw [hr] at h
      simp only at h
      by_cases hs : r.1 ≠ DefaultReturn
      · rw [if_pos hs] at h
        cases h
      · rw [if_neg hs] at h
        cases h
        exact ⟨rfl, rfl, rfl⟩

theorem FloatValue.atLeast_of_not_lessThan (x : FloatValue) (bound : ℚ)
    (hx : x ≠ FloatValue.notANumber) : x.atLeast bound = !x.lessThan bound := by
  cases x with
  | finite value =>
    by_cases h : value < bound
    · simp [FloatValue.atLeast, FloatValue.lessThan, h]
    · simp [FloatValue.atLeast, FloatValue.lessThan, h, not_lt.mp h]
  | positiveInfinity => rfl
  | negativeInfinity => rfl
  | notANumber => exact absurd rfl hx

/-! ## Atomic radii from the parameter file: lemmas -/

/-- One line whose token vector is not empty: the step is defined and
`parameterMap` changes at the first token of an accepted record only. -/
theorem parameterLineStep_eq_some
    (tokenizeString : String → List String → String → Int → List String)
    (atof : String → ℚ) (parameterMap : StringRealOpenMMMap) (tokenVector : List String)
    (line : String) (h : tokenizeString line tokenVector " " 1 ≠ []) :
    ∃ parameterMap2, parameterLineStep tokenizeString atof (parameterMap, tokenVector) line
        = some (parameterMap2, tokenizeString line tokenVector " " 1) ∧
      ∀ key, parameterMap2 key =
        if acceptedRecord (tokenizeString line tokenVector " " 1) ∧
            (tokenizeString line tokenVector " " 1)[0]? = some key then
          ((tokenizeString line tokenVector " " 1)[1]?).map atof
        else parameterMap key := by
  unfold parameterLineStep
  simp only
  generalize tokenizeString line tokenVector " " 1 = tokens at h
  cases tokens with
  | nil => exact absurd rfl h
  | cons token0 rest =>
    simp only [List.getElem?_cons_zero, List.length_cons, Option.some.injEq, ne_eq]
    by_cases hacc : ¬ token0 = "#" ∧ ¬ token0 = "@" ∧ rest.length + 1 ≥ 2
    · rw [if_pos hacc]
      cases rest with
      | nil => simp at hacc
      | cons token1 rest2 =>
        refine ⟨mapAssign parameterMap token0 (atof token1), (by simp), ?_⟩
        intro key
        by_cases hk : token0 = key
        · subst hk
          have hc : acceptedRecord (token0 :: token1 :: rest2) ∧ token0 = token0 :=
            ⟨⟨by simp, by simpa using hacc.1, by simpa using hacc.2.1⟩, rfl⟩
          rw [if_pos hc]
          simp [mapAssign]
        · have hc : ¬ (acceptedRecord (token0 :: token1 :: rest2) ∧ token0 = key) :=
            fun hc => hk hc.2
          rw [if_neg hc]
          have hk2 : ¬ key = token0 := fun e => hk e.symm
          simp [mapAssign, hk2]
    · rw [if_neg hacc]
      refine ⟨_, rfl, ?_⟩
      intro key
      have hc : ¬ (acceptedRecord (token0 :: rest) ∧ token0 = key) := by
        rintro ⟨⟨h1, h2, h3⟩, _⟩
        exact hacc ⟨by simpa using h2, by simpa using h3, h1⟩
      rw [if_neg hc]

/-- The loop over `fileContents`: when no line leaves `tokenVector` empty the
loop is defined and `parameterMap` holds, for every key, the value of the
last accepted record with that first token, or else its initial value. -/
theorem foldlM_parameterLineStep
    (tokenizeString : String → List String → String → Int → List String)
    (atof : String → ℚ) (fileContents : List String) :
    ∀ (parameterMap : StringRealOpenMMMap) (tokenVector : List String),
      (∀ tokens ∈ tokenVectors tokenizeString fileContents tokenVector, tokens ≠ []) →
      ∃ final, fileContents.foldlM (parameterLineStep tokenizeString atof)
          (parameterMap, tokenVector) = some final ∧
        ∀ key, final.1 key =
          match lastRecord atof (tokenVectors tokenizeString fileContents tokenVector) key with
          | some r => some r
          | none => parameterMap key := by
  induction fileContents with
  | nil =>
    intro parameterMap tokenVector _
    exact ⟨(parameterMap, tokenVector), rfl, fun _ => rfl⟩
  | cons line fileContents ih =>
    intro parameterMap tokenVector h
    have h1 : tokenizeString line tokenVector " " 1 ≠ [] :=
      h _ (List.mem_cons_self _ _)
    obtain ⟨map2, hstep, hmap2⟩ :=
      parameterLineStep_eq_some tokenizeString atof parameterMap tokenVector line h1
    obtain ⟨final, hfinal, hkeys⟩ := ih map2 (tokenizeString line tokenVector " " 1)
      (fun tokens ht => h tokens (List.mem_cons_of_mem _ ht))
    refine ⟨final, ?_, ?_⟩
    · rw [List.foldlM_cons, hstep]
      exact hfinal
    · intro key
      rw [hkeys key]
      show _ = match lastRecord atof (tokenizeString line tokenVector " " 1 ::
        tokenVectors tokenizeString fileContents (tokenizeString line tokenVector " " 1)) key
        with
        | some r => some r
        | none => parameterMap key
      rw [lastRecord]
      cases hl : lastRecord atof
          (tokenVectors tokenizeString fileContents (tokenizeString line tokenVector " " 1))
          key with
      | some r => rfl
      | none =>
        simp only
        rw [hmap2 key]
        by_cases hc : acceptedRecord (tokenizeString line tokenVector " " 1) ∧
            (tokenizeString line tokenVector " " 1)[0]? = some key
        · rw [if_pos hc, if_pos hc]
          obtain ⟨⟨hlen, _, _⟩, _⟩ := hc
          have h2 : 1 < (tokenizeString line tokenVector " " 1).length := hlen
          rw [List.getElem?_eq_getElem h2]
          rfl
        · rw [if_neg hc, if_neg hc]

/-- A line that leaves `tokenVector` empty: the test reads `tokenVector[0]`
before it compares `tokenVector.size()`. -/
theorem parameterLineStep_of_no_token
    (tokenizeString : String → List String → String → Int → List String)
    (atof : String → ℚ) (state : StringRealOpenMMMap × List String) (line : String)
    (h : tokenizeString line state.2 " " 1 = []) :
    parameterLineStep tokenizeString atof state line = none := by
  unfold parameterLineStep
  simp only [h]
  rfl

/-- A line whose first token is `#` or `@`, or that has one token only:
`parameterMap` is left as it is and the loop goes on. -/
theorem parameterLineStep_of_comment
    (tokenizeString : String → List String → String → Int → List String)
    (atof : String → ℚ) (state : StringRealOpenMMMap × List String) (line : String)
    (token0 : String) (rest : List String)
    (h : tokenizeString line state.2 " " 1 = token0 :: rest)
    (hc : token0 = "#" ∨ token0 = "@" ∨ rest = []) :
    parameterLineStep tokenizeString atof state line = some (state.1, token0 :: rest) := by
  unfold parameterLineStep
  simp only [h, List.getElem?_cons_zero, List.length_cons]
  have : ¬ (token0 ≠ "#" ∧ token0 ≠ "@" ∧ rest.length + 1 ≥ 2) := by
    rintro ⟨h1, h2, h3⟩
    rcases hc with hc | hc | hc
    · exact h1 hc
    · exact h2 hc
    · subst hc
      simp at h3
  rw [if_neg this]

theorem radiusOfAtom_eq_some (parameterMap : StringRealOpenMMMap) (top : t_topology)
    (scaleFactor : ℚ) (ii : Nat) (htype : ii < top.atoms.atomtype.length)
    (hname : ii < top.atoms.atomname.length) :
    radiusOfAtom parameterMap top scaleFactor ii =
      some (match parameterMap (top.atoms.atomtype.get ⟨ii, htype⟩) with
        | some entry => scaleFactor * entry
        | none => 0.000001) := by
  unfold radiusOfAtom
  rw [List.getElem?_eq_getElem htype, List.getElem?_eq_getElem hname]
  simp only [Option.bind_eq_bind, Option.some_bind, List.get_eq_getElem]
  cases parameterMap top.atoms.atomtype[ii] <;> rfl

/-- The radii that `getMacroModelAtomicRadii` returns when no line leaves
`tokenVector` empty and the topology holds the names of the atoms. -/
theorem getMacroModelAtomicRadii_eq_some (DefaultReturn : Int)
    (tokenizeString : String → List String → String → Int → List String)
    (atof : String → ℚ) (numberOfAtoms : Int) (fileContents : List String)
    (top : t_topology) (radii : List ℚ) (scaleFactor : ℚ) (hn : 0 ≤ numberOfAtoms)
    (htokens : ∀ tokens ∈ tokenVectors tokenizeString fileContents [], tokens ≠ [])
    (htypes : numberOfAtoms ≤ top.atoms.atomtype.length)
    (hnames : numberOfAtoms ≤ top.atoms.atomname.length) :
    ∃ radii2, getMacroModelAtomicRadii DefaultReturn tokenizeString atof numberOfAtoms
        fileContents top radii scaleFactor = some (DefaultReturn, radii2) ∧
      (radii2.length : Int) = numberOfAtoms ∧
      ∀ ii : Nat, (ii : Int) < numberOfAtoms →
        ∃ atomType, top.atoms.atomtype[ii]? = some atomType ∧
          radii2[ii]? = some
            (match lastRecord atof (tokenVectors tokenizeString fileContents []) atomType with
              | some r => scaleFactor * r
              | none => 0.000001) := by
  obtain ⟨final, hfinal, hkeys⟩ :=
    foldlM_parameterLineStep tokenizeString atof fileContents mapEmpty [] htokens
  obtain ⟨out, hout, hlen, hlt, _⟩ :=
    forEachAtom_eq_some numberOfAtoms (fun ii _ => radiusOfAtom final.1 top scaleFactor ii)
      (resize radii numberOfAtoms.toNat 0) (by rw [length_resize]; omega)
      (fun i hi _ =>
        have h1 : i < top.atoms.atomtype.length := by omega
        have h2 : i < top.atoms.atomname.length := by omega
        ⟨_, radiusOfAtom_eq_some final.1 top scaleFactor i h1 h2⟩)
  refine ⟨out, ?_, ?_, ?_⟩
  · unfold getMacroModelAtomicRadii
    rw [hfinal]
    simp only [Option.bind_eq_bind, Option.some_bind, if_neg (not_lt.mpr hn), hout]
  · rw [hlen, length_resize]
    omega
  · intro ii hii
    have h1 : ii < top.atoms.atomtype.length := by omega
    have h2 : ii < top.atoms.atomname.length := by omega
    obtain ⟨_, b, _, hb, hob⟩ := hlt ii hii
    rw [radiusOfAtom_eq_some final.1 top scaleFactor ii h1 h2, Option.some.injEq] at hb
    refine ⟨top.atoms.atomtype.get ⟨ii, h1⟩, List.getElem?_eq_getElem h1, ?_⟩
    rw [hob, ← hb, hkeys]
    cases lastRecord atof (tokenVectors tokenizeString fileContents [])
      (top.atoms.atomtype.get ⟨ii, h1⟩) <;> rfl

/-- C24, evaluation: a line whose first token is `#` or `@`, or that has one
token only, leaves `parameterMap` as it is and the loop goes on; a line that
leaves `tokenVector` empty makes the test read `tokenVector[0]` of an empty
vector, so that the call on a source with a blank line is not defined. -/
theorem line_without_token_is_read
    (tokenizeString : String → List String → String → Int → List String)
    (atof : String → ℚ) (state : StringRealOpenMMMap × List String) (line : String) :
    (∀ token0 rest, tokenizeString line state.2 " " 1 = token0 :: rest →
      (token0 = "#" ∨ token0 = "@" ∨ rest = []) →
      parameterLineStep tokenizeString atof state line = some (state.1, token0 :: rest)) ∧
    (tokenizeString line state.2 " " 1 = [] →
      parameterLineStep tokenizeString atof state line = none) ∧
    getMacroModelAtomicRadii 0 (fun line _ _ _ => if line = "CT 1.5" then ["CT", "1.5"] else [])
      (fun _ => 3 / 2) 1 ["CT 1.5", ""] { atoms := { atomname := ["C"], atomtype := ["CT"] } }
      [] 1 = none :=
  ⟨fun token0 rest h hc => parameterLineStep_of_comment tokenizeString atof state line
      token0 rest h hc,
    parameterLineStep_of_no_token tokenizeString atof state line, by rfl⟩

/-- With a log, a parameter file that is read and parsed, and a topology that
holds the type and the name of its atoms, the setup reaches
`cpuSetGrycukParameters` and returns its status. -/
theorem gromacsCpuInitialSetupGrycuk_returns (RealOpenMM : ℚ → ℚ)
    (DefaultReturn ErrorReturn : Int)
    (readFileIntoStringVector : String → Int × List String)
    (tokenizeString : String → List String → String → Int → List String)
    (atof : String → ℚ) (ParameterFileName : String) (scaleFactor : ℚ)
    (cpuSetGrycukParameters : GrycukParameterArguments → Int)
    (top : t_topology) (includeAceApproximation : Int)
    (soluteDielectric solventDielectric : FloatValue)
    (hfile : (readFileIntoStringVector ParameterFileName).1 = DefaultReturn)
    (htokens : ∀ tokens ∈ tokenVectors tokenizeString
      (readFileIntoStringVector ParameterFileName).2 [], tokens ≠ [])
    (htypes : top.atoms.nr ≤ top.atoms.atomtype.length)
    (hnames : top.atoms.nr ≤ top.atoms.atomname.length) :
    ∃ arguments, gromacsCpuInitialSetupGrycuk RealOpenMM DefaultReturn ErrorReturn
        readFileIntoStringVector tokenizeString atof ParameterFileName scaleFactor
        cpuSetGrycukParameters top true includeAceApproximation soluteDielectric
        solventDielectric = Call.returns (cpuSetGrycukParameters arguments, arguments) := by
  obtain ⟨radiiV, hV, hVlen, _⟩ :=
    getMacroModelAtomicRadii_eq_some DefaultReturn tokenizeString atof (top.atoms.nr : Int)
      (readFileIntoStringVector ParameterFileName).2 top [] scaleFactor (by omega) htokens
      (by omega) (by omega)
  obtain ⟨radii, hradii, _, _, _⟩ :=
    forEachAtom_eq_some (top.atoms.nr : Int) (fun ii _ => radiiV[ii]?)
      (List.replicate ((top.atoms.nr : Int)).toNat (0 : ℚ))
      (by rw [List.length_replicate]; omega)
      (fun i hi _ =>
        have h : i < radiiV.length := by omega
        ⟨radiiV.get ⟨i, h⟩, List.getElem?_eq_getElem h⟩)
  have harray : getMacroModelAtomicRadiiArray DefaultReturn ErrorReturn
      readFileIntoStringVector tokenizeString atof (top.atoms.nr : Int) ParameterFileName top
      (List.replicate ((top.atoms.nr : Int)).toNat 0) scaleFactor
      = some (DefaultReturn, radii) := by
    unfold getMacroModelAtomicRadiiArray getMacroModelAtomicRadiiOfFile
    simp only [hfile, ne_eq, not_true_eq_false, if_false, hV, Option.bind_eq_bind,
      Option.some_bind, hradii]
  refine ⟨⟨(top.atoms.nr : Int), radii,
    (getObcScaleFactorsRealOpenMM RealOpenMM DefaultReturn top []).2,
    includeAceApproximation,
    if soluteDielectric.lessThan 1.0 then FloatValue.finite 1.0 else soluteDielectric,
    if solventDielectric.lessThan 50.0 then FloatValue.finite (5131469 / 65536)
      else solventDielectric⟩, ?_⟩
  unfold gromacsCpuInitialSetupGrycuk
  simp only [Bool.true_eq_false, if_false, harray, ne_eq, not_true_eq_false]

/-! ## The dielectric constants handed to the engine -/

/-- C22, as stated, fails for a NaN: both tests `soluteDielectric < 1.0` and
`solventDielectric < 50.0` are false for a NaN, so the setup hands the NaN
to the engine, and a NaN is neither `>= 1.0` nor `>= 50.0`. -/
theorem nan_dielectric_is_handed_over :
    ∃ value : Int × GrycukParameterArguments,
      gromacsCpuInitialSetupGrycuk singlePrecision 0 1 (fun _ => (0, ["CT 1.9"]))
        (fun line _ _ _ => [line, "1.9"]) (fun _ => 19 / 10) "params.agb" 1 (fun _ => 0)
        { atoms := { atom := [{ m := 12 }], atomname := ["C"], atomtype := ["CT"] } }
        true 0 FloatValue.notANumber FloatValue.notANumber = Call.returns value ∧
      value.2.soluteDielectric = FloatValue.notANumber ∧
      value.2.solventDielectric = FloatValue.notANumber ∧
      value.2.soluteDielectric.atLeast 1.0 = false ∧
      value.2.solventDielectric.atLeast 50.0 = false :=
  (gromacsCpuInitialSetupGrycuk_returns singlePrecision 0 1 (fun _ => (0, ["CT 1.9"]))
    (fun line _ _ _ => [line, "1.9"]) (fun _ => 19 / 10) "params.agb" 1 (fun _ => 0)
    { atoms := { atom := [{ m := 12 }], atomname := ["C"], atomtype := ["CT"] } }
    0 FloatValue.notANumber FloatValue.notANumber rfl (by decide) (by decide)
    (by decide)).elim
    fun arguments h =>
      have hv := gromacsCpuInitialSetupGrycuk_arguments singlePrecision 0 1
        (fun _ => (0, ["CT 1.9"])) (fun line _ _ _ => [line, "1.9"]) (fun _ => 19 / 10)
        "params.agb" 1 (fun _ => 0)
        { atoms := { atom := [{ m := 12 }], atomname := ["C"], atomtype := ["CT"] } }
        true 0 FloatValue.notANumber FloatValue.notANumber _ h
      ⟨_, h, hv.1, hv.2.1, by rw [hv.1]; rfl, by rw [hv.2.1]; rfl⟩

/-- C22, amended: in a call of `gromacsCpuInitialSetupGrycuk` that reaches
`cpuSetGrycukParameters`, for inputs that are not NaN the solute dielectric
handed over is the input when the input is at least 1.0 and 1.0 otherwise,
the solvent dielectric is the input when the input is at least 50.0 and
`78.3f` (the single-precision number `5131469/65536`) otherwise, and the
first is at least 1.0 and the second at least 50.0; a NaN is handed over as
it is. -/
theorem dielectric_constants_handed_over (RealOpenMM : ℚ → ℚ)
    (DefaultReturn ErrorReturn : Int)
    (readFileIntoStringVector : String → Int × List String)
    (tokenizeString : String → List String → String → Int → List String)
    (atof : String → ℚ) (ParameterFileName : String) (scaleFactor : ℚ)
    (cpuSetGrycukParameters : GrycukParameterArguments → Int)
    (top : t_topology) (log : Bool) (includeAceApproximation : Int)
    (soluteDielectric solventDielectric : FloatValue)
    (value : Int × GrycukParameterArguments)
    (h : gromacsCpuInitialSetupGrycuk RealOpenMM DefaultReturn ErrorReturn
      readFileIntoStringVector tokenizeString atof ParameterFileName scaleFactor
      cpuSetGrycukParameters top log includeAceApproximation soluteDielectric
      solventDielectric = Call.returns value) :
    (soluteDielectric ≠ FloatValue.notANumber →
      value.2.soluteDielectric =
        (if soluteDielectric.atLeast 1.0 then soluteDielectric else FloatValue.finite 1.0) ∧
      value.2.soluteDielectric.atLeast 1.0 = true) ∧
    (solventDielectric ≠ FloatValue.notANumber →
      value.2.solventDielectric =
        (if solventDielectric.atLeast 50.0 then solventDielectric
          else FloatValue.finite (5131469 / 65536)) ∧
      value.2.solventDielectric.atLeast 50.0 = true) ∧
    (soluteDielectric = FloatValue.notANumber →
      value.2.soluteDielectric = FloatValue.notANumber) ∧
    (solventDielectric = FloatValue.notANumber →
      value.2.solventDielectric = FloatValue.notANumber) ∧
    value.1 = cpuSetGrycukParameters value.2 := by
  obtain ⟨h1, h2, h3⟩ := gromacsCpuInitialSetupGrycuk_arguments RealOpenMM DefaultReturn
    ErrorReturn readFileIntoStringVector tokenizeString atof ParameterFileName scaleFactor
    cpuSetGrycukParameters top log includeAceApproximation soluteDielectric solventDielectric
    value h
  refine ⟨fun hx => ?_, fun hx => ?_, fun hx => ?_, fun hx => ?_, h3⟩
  · have ha := FloatValue.atLeast_of_not_lessThan soluteDielectric 1.0 hx
    rw [h1]
    cases hl : soluteDielectric.lessThan 1.0
    · rw [hl] at ha
      simp only [Bool.not_false] at ha
      simp only [ha, if_true, Bool.false_eq_true, if_false, and_self]
    · rw [hl] at ha
      simp only [Bool.not_true] at ha
      simp only [ha, if_true, Bool.false_eq_true, if_false, true_and]
      simp [FloatValue.atLeast]
  · have ha := FloatValue.atLeast_of_not_lessThan solventDielectric 50.0 hx
    rw [h2]
    cases hl : solventDielectric.lessThan 50.0
    · rw [hl] at ha
      simp only [Bool.not_false] at ha
      simp only [ha, if_true, Bool.false_eq_true, if_false, and_self]
    · rw [hl] at ha
      simp only [Bool.not_true] at ha
      simp only [ha, if_true, Bool.false_eq_true, if_false, true_and]
      simp only [FloatValue.atLeast, decide_eq_true_eq]
      norm_num
  · rw [h1, hx]
    rfl
  · rw [h2, hx]
    rfl

/-- Witness of C22 amended: a solute dielectric of 1/2 and a solvent dielectric
of 10, an atom of type `CT` and a parameter file of one line. -/
theorem dielectric_constants_handed_over_witness :
    ∃ value : Int × GrycukParameterArguments,
      gromacsCpuInitialSetupGrycuk singlePrecision 0 1 (fun _ => (0, ["CT 1.9"]))
        (fun line _ _ _ => [line, "1.9"]) (fun _ => 19 / 10) "params.agb" 1 (fun _ => 0)
        { atoms := { atom := [{ m := 12 }], atomname := ["C"], atomtype := ["CT"] } }
        true 0 (FloatValue.finite (1 / 2)) (FloatValue.finite 10) = Call.returns value ∧
      (value.2.soluteDielectric =
        (if (FloatValue.finite (1 / 2)).atLeast 1.0 then FloatValue.finite (1 / 2)
          else FloatValue.finite 1.0) ∧
        value.2.soluteDielectric.atLeast 1.0 = true) ∧
      (value.2.solventDielectric =
        (if (FloatValue.finite 10).atLeast 50.0 then FloatValue.finite 10
          else FloatValue.finite (5131469 / 65536)) ∧
        value.2.solventDielectric.atLeast 50.0 = true) :=
  (gromacsCpuInitialSetupGrycuk_returns singlePrecision 0 1 (fun _ => (0, ["CT 1.9"]))
    (fun line _ _ _ => [line, "1.9"]) (fun _ => 19 / 10) "params.agb" 1 (fun _ => 0)
    { atoms := { atom := [{ m := 12 }], atomname := ["C"], atomtype := ["CT"] } }
    0 (FloatValue.finite (1 / 2)) (FloatValue.finite 10) rfl (by decide) (by decide)
    (by decide)).elim
    fun arguments h =>
      ⟨_, h,
        (dielectric_constants_handed_over singlePrecision 0 1 (fun _ => (0, ["CT 1.9"]))
          (fun line _ _ _ => [line, "1.9"]) (fun _ => 19 / 10) "params.agb" 1 (fun _ => 0)
          { atoms := { atom := [{ m := 12 }], atomname := ["C"], atomtype := ["CT"] } }
          true 0 (FloatValue.finite (1 / 2)) (FloatValue.finite 10) _ h).1
          (fun hn => FloatValue.noConfusion hn),
        (dielectric_constants_handed_over singlePrecision 0 1 (fun _ => (0, ["CT 1.9"]))
          (fun line _ _ _ => [line, "1.9"]) (fun _ => 19 / 10) "params.agb" 1 (fun _ => 0)
          { atoms := { atom := [{ m := 12 }], atomname := ["C"], atomtype := ["CT"] } }
          true 0 (FloatValue.finite (1 / 2)) (FloatValue.finite 10) _ h).2.1
          (fun hn => FloatValue.noConfusion hn)⟩

/-! ## The round trip of a coordinate vector -/

theorem copyRvecArrayToRealOpenMMArray_row (scaleFactor : ℚ) (gromacsArray : List rvec)
    (ii : Nat) (row x : rvec) (hx : gromacsArray[ii]? = some x) :
    ∃ b, ((gromacsArray[ii]?).map fun x =>
        Function.update (Function.update (Function.update row 0 (scaleFactor * x 0)) 1
          (scaleFactor * x 1)) 2 (scaleFactor * x 2)) = some b ∧
      ∀ k, b k = scaleFactor * x k := by
  refine ⟨_, by rw [hx]; rfl, ?_⟩
  intro k
  fin_cases k <;> simp [Function.update]

/-- C25: the coordinates of `numberOfAtoms` atoms converted by the loop of
the per-step routine (factor 10) and copied back by
`copyRvecArrayToRealOpenMMArray` with the scale factor 0.1 are the original
coordinates, component by component. -/
theorem coordinate_round_trip (numberOfAtoms : Int) (atomCoordinates coordinates : List rvec)
    (hn : 0 ≤ numberOfAtoms) (hx : numberOfAtoms ≤ atomCoordinates.length)
    (hc : numberOfAtoms ≤ coordinates.length) :
    ∃ scaled back,
      forEachAtom numberOfAtoms (convertCoordinates atomCoordinates) coordinates = some scaled ∧
      copyRvecArrayToRealOpenMMArray numberOfAtoms scaled none 0.1 = some back ∧
      (∀ i : Nat, (i : Int) < numberOfAtoms → ∀ k,
        scaled.getD i 0 k = 10 * atomCoordinates.getD i 0 k) ∧
      (back.length : Int) = numberOfAtoms ∧
      ∀ i : Nat, (i : Int) < numberOfAtoms → back[i]? = atomCoordinates[i]? := by
  obtain ⟨scaled, hs, hslen, hslt, _⟩ :=
    forEachAtom_eq_some numberOfAtoms (convertCoordinates atomCoordinates) coordinates hc
      (fun i hi row =>
        have h : i < atomCoordinates.length := by omega
        (convertCoordinates_eq atomCoordinates i row _ (List.getElem?_eq_getElem h)).imp
          fun _ hb => hb.1)
  have hscaled : ∀ i : Nat, (i : Int) < numberOfAtoms → ∃ x b,
      atomCoordinates[i]? = some x ∧ scaled[i]? = some b ∧ ∀ k, b k = 10 * x k := by
    intro i hi
    have h : i < atomCoordinates.length := by omega
    obtain ⟨row, b, _, hb, hsi⟩ := hslt i hi
    obtain ⟨b2, hb2, hk⟩ :=
      convertCoordinates_eq atomCoordinates i row _ (List.getElem?_eq_getElem h)
    have hbb : b = b2 := Option.some.inj (hb.symm.trans hb2)
    exact ⟨_, b, List.getElem?_eq_getElem h, hsi, fun k => by rw [hbb]; exact hk k⟩
  obtain ⟨back, hb, hblen, hblt, _⟩ :=
    forEachAtom_eq_some numberOfAtoms
      (fun ii row =>
        (scaled[ii]?).map fun x =>
          Function.update (Function.update (Function.update row 0 ((0.1 : ℚ) * x 0)) 1
            ((0.1 : ℚ) * x 1)) 2 ((0.1 : ℚ) * x 2))
      (List.replicate numberOfAtoms.toNat (fun _ => (0 : ℚ)))
      (by rw [List.length_replicate]; omega)
      (fun i hi row =>
        have h : i < scaled.length := by omega
        (copyRvecArrayToRealOpenMMArray_row 0.1 scaled i row _
          (List.getElem?_eq_getElem h)).imp fun _ hb => hb.1)
  refine ⟨scaled, back, hs, ?_, ?_, ?_, ?_⟩
  · unfold copyRvecArrayToRealOpenMMArray
    simp only [if_neg (not_lt.mpr hn), Option.bind_eq_bind, Option.some_bind]
    exact hb
  · intro i hi k
    obtain ⟨x, b, hx1, hb1, hk⟩ := hscaled i hi
    rw [List.getD_eq_getElem?_getD, List.getD_eq_getElem?_getD, hx1, hb1]
    exact hk k
  · rw [hblen, List.length_replicate]
    omega
  · intro i hi
    obtain ⟨x, s, hx1, hs1, hk⟩ := hscaled i hi
    obtain ⟨row, b, _, hbody, hbi⟩ := hblt i hi
    obtain ⟨b2, hb2, hk2⟩ := copyRvecArrayToRealOpenMMArray_row 0.1 scaled i row s hs1
    have hbb : b = b2 := Option.some.inj (hbody.symm.trans hb2)
    rw [hbi, hx1, hbb]
    congr 1
    funext k
    rw [hk2 k, hk k, ← mul_assoc]
    norm_num

/-- Witness of C25: the vector (1, 2, 3) and a second atom. -/
theorem coordinate_round_trip_witness :
    ∃ scaled back,
      forEachAtom 2 (convertCoordinates [![1, 2, 3], ![4, 5, 6]]) [0, 0] = some scaled ∧
      copyRvecArrayToRealOpenMMArray 2 scaled none 0.1 = some back ∧
      (∀ i : Nat, (i : Int) < 2 → ∀ k,
        scaled.getD i 0 k = 10 * List.getD [![1, 2, 3], ![4, 5, 6]] i (0 : rvec) k) ∧
      (back.length : Int) = 2 ∧
      ∀ i : Nat, (i : Int) < 2 →
        back[i]? = ([![1, 2, 3], ![4, 5, 6]] : List rvec)[i]? :=
  coordinate_round_trip 2 [![1, 2, 3], ![4, 5, 6]] [0, 0] (by decide) (by decide) (by decide)

/-! ## The cascade, rule by rule -/

/-- The lookup is the direct probe followed, on a miss, by the two-digit rule
and the rest of the cascade. -/
theorem lookupBiotype_eq (nameMap : StringIntMap) (tinkerResidueName tinkerAtomName : String) :
    lookupBiotype nameMap tinkerResidueName tinkerAtomName =
      match nameMap (tinkerResidueName ++ "_" ++ tinkerAtomName) with
      | some biotype => some biotype
      | none =>
        (twoDigitRule (tinkerAtomName.data ++ [NUL])
          ((tinkerAtomName.length + 4294967296 - 1) % 4294967296)).bind
          fun p => lookupModifiedName nameMap tinkerResidueName p.1 p.2 := by
  unfold lookupBiotype
  simp only
  cases h : nameMap (tinkerResidueName ++ "_" ++ tinkerAtomName) with
  | some b => rfl
  | none =>
    simp only
    unfold twoDigitRule
    simp only [Option.bind_eq_bind]
    by_cases h2 : (tinkerAtomName.length + 4294967296 - 1) % 4294967296 > 2
    · simp only [h2, if_true]
      cases h3 : (tinkerAtomName.data ++ [NUL])[(tinkerAtomName.length + 4294967296 - 1) % 4294967296]? with
      | none => rfl
      | some c =>
        simp only
        by_cases h4 : c.isDigit = true
        · simp only [h4, if_true]
          cases h5 : (tinkerAtomName.data ++ [NUL])[(tinkerAtomName.length + 4294967296 - 1) % 4294967296 - 1]? with
          | none => rfl
          | some d =>
            simp only [Option.some_bind]
            cases d.isDigit <;> (unfold lookupModifiedName; simp only [Option.bind_eq_bind]; rfl)
        · simp only [h4, Bool.false_eq_true, if_false, Option.some_bind]
          unfold lookupModifiedName
          simp only [Option.bind_eq_bind]
          rfl
    · simp only [h2, if_false, Option.some_bind, Bool.false_eq_true]
      unfold lookupModifiedName
      simp only [Option.bind_eq_bind]
      rfl

theorem length_bufferWrite_ge (buffer : List Char) (i : Nat) (c : Char) :
    buffer.length ≤ (bufferWrite buffer i c).length := by
  unfold bufferWrite
  split_ifs
  · rw [List.length_set]
  · rw [List.length_append]
    omega

/-- The two-digit rule is defined when `lastChar` is an index of the buffer,
and leaves an index of the buffer in `lastChar`. -/
theorem twoDigitRule_isSome (localAtomName : List Char) (lastChar : Nat)
    (h : lastChar < localAtomName.length) :
    ∃ p, twoDigitRule localAtomName lastChar = some p ∧ p.2 < p.1.length := by
  unfold twoDigitRule
  have h1 : lastChar - 1 < localAtomName.length := by omega
  rw [List.getElem?_eq_getElem h, List.getElem?_eq_getElem h1]
  simp only [Option.bind_eq_bind]
  by_cases h2 : lastChar > 2
  · rw [if_pos h2]
    by_cases h3 : localAtomName[lastChar].isDigit = true
    · rw [if_pos h3]
      by_cases h4 : localAtomName[lastChar - 1].isDigit = true
      · refine ⟨(localAtomName.set lastChar NUL, lastChar - 1), by simp [h4], ?_⟩
        show lastChar - 1 < (localAtomName.set lastChar NUL).length
        rw [List.length_set]
        exact h1
      · exact ⟨(localAtomName, lastChar), by simp [h4], h⟩
    · rw [if_neg h3]
      exact ⟨(localAtomName, lastChar), by simp, h⟩
  · rw [if_neg h2]
    exact ⟨(localAtomName, lastChar), by simp, h⟩

/-- The rest of the cascade is defined when `lastChar` is an index of the
buffer. -/
theorem lookupModifiedName_isSome (nameMap : StringIntMap) (tinkerResidueName : String)
    (localAtomName : List Char) (lastChar : Nat) (h : lastChar < localAtomName.length) :
    ∃ biotype, lookupModifiedName nameMap tinkerResidueName localAtomName lastChar
      = some biotype := by
  unfold lookupModifiedName
  have h0 : 0 < localAtomName.length := by omega
  rw [List.getElem?_eq_getElem h0]
  simp only [Option.bind_eq_bind, Option.some_bind]
  generalize hL1 : (if localAtomName[0] = 'H' ∧ lastChar = 0 ∧
      tinkerResidueName ≠ "AMOEBA_Water" then
      bufferWrite (bufferWrite localAtomName 1 'N') 2 NUL else localAtomName) = L1
  have hlen1 : lastChar < L1.length := by
    rw [← hL1]
    split_ifs
    · have := length_bufferWrite_ge (bufferWrite localAtomName 1 'N') 2 NUL
      have := length_bufferWrite_ge localAtomName 1 'N'
      omega
    · exact h
  have rest : ∀ w : Bool, ∃ biotype,
      (match nameMap (tinkerResidueName ++ "_" ++
          cString (if w = true then bufferWrite L1 2 NUL else L1)) with
        | some biotype => some biotype
        | none =>
          match (if w = true then bufferWrite L1 2 NUL else L1)[lastChar]? with
          | none => none
          | some c =>
            if c.isDigit = true then
              match nameMap (tinkerResidueName ++ "_" ++
                  cString ((if w = true then bufferWrite L1 2 NUL else L1).set lastChar NUL)) with
              | some biotype => some biotype
              | none => some (-1)
            else some (-1)) = some biotype := by
    intro w
    generalize hL2 : (if w = true then bufferWrite L1 2 NUL else L1) = L2
    have hlen2 : lastChar < L2.length := by
      rw [← hL2]
      split_ifs
      · have := length_bufferWrite_ge L1 2 NUL
        omega
      · exact hlen1
    cases nameMap (tinkerResidueName ++ "_" ++ cString L2) with
    | some b => exact ⟨b, rfl⟩
    | none =>
      simp only
      rw [List.getElem?_eq_getElem hlen2]
      simp only
      by_cases hd : L2[lastChar].isDigit = true
      · rw [if_pos hd]
        cases nameMap (tinkerResidueName ++ "_" ++ cString (L2.set lastChar NUL)) with
        | some b => exact ⟨b, rfl⟩
        | none => exact ⟨-1, rfl⟩
      · rw [if_neg hd]
        exact ⟨-1, rfl⟩
  by_cases hp : lastChar > 0
  · rw [if_pos hp]
    have h1 : 1 < L1.length := by omega
    rw [List.getElem?_eq_getElem h1]
    exact rest _
  · rw [if_neg hp]
    exact rest false

/-- The lookup of a name that is not empty is defined, whatever the
dictionary. -/
theorem lookupBiotype_isSome (nameMap : StringIntMap)
    (tinkerResidueName tinkerAtomName : String) (ha : tinkerAtomName ≠ "") :
    ∃ biotype, lookupBiotype nameMap tinkerResidueName tinkerAtomName = some biotype := by
  rw [lookupBiotype_eq]
  cases nameMap (tinkerResidueName ++ "_" ++ tinkerAtomName) with
  | some b => exact ⟨b, rfl⟩
  | none =>
    simp only
    have hpos : 0 < tinkerAtomName.length := by
      rcases tinkerAtomName with ⟨chars⟩
      cases chars with
      | nil => exact absurd rfl ha
      | cons c cs => simp [String.length]
    have hlast : (tinkerAtomName.length + 4294967296 - 1) % 4294967296
        < (tinkerAtomName.data ++ [NUL]).length := by
      rw [List.length_append, List.length_singleton]
      have : tinkerAtomName.data.length = tinkerAtomName.length := rfl
      omega
    obtain ⟨p, hp, hlt⟩ := twoDigitRule_isSome _ _ hlast
    rw [hp, Option.some_bind]
    exact lookupModifiedName_isSome nameMap tinkerResidueName p.1 p.2 hlt

/-! ## The loop of the scan: one iteration -/

theorem string_ne_empty_iff (s : String) : s ≠ "" ↔ s.data ≠ [] := by
  rcases s with ⟨chars⟩
  constructor
  · intro h hd
    apply h
    show String.mk chars = String.mk []
    rw [show chars = [] from hd]
  · intro h hs
    apply h
    exact congrArg String.data hs

theorem canonicalAtomName_ne_empty (residueI : Int) (atomName : String) (ha : atomName ≠ "") :
    canonicalAtomName residueI atomName ≠ "" := by
  rw [string_ne_empty_iff] at ha ⊢
  unfold canonicalAtomName
  simp only
  split_ifs
  · exact fun h => by cases h
  · show atomName.data.set 1 'N' ≠ []
    intro h
    apply ha
    have := congrArg List.length h
    rw [List.length_set] at this
    exact List.length_eq_zero.mp this
  · show atomName.data.take 1 ≠ []
    cases hd : atomName.data with
    | nil => exact absurd hd ha
    | cons c cs => simp
  · exact ha

theorem biotypeOfAtom_isSome (residueMap : StringMap) (biotypeMap : StringIntMap)
    (NotSet residueName tinkerResidueName atomName : String) (ha : atomName ≠ "") :
    ∃ bioType, biotypeOfAtom residueMap biotypeMap NotSet residueName tinkerResidueName
      atomName = some bioType := by
  unfold biotypeOfAtom
  obtain ⟨b, hb⟩ := lookupBiotype_isSome biotypeMap tinkerResidueName atomName ha
  rw [hb]
  simp only [Option.bind_eq_bind, Option.some_bind]
  split_ifs
  · exact lookupBiotype_isSome biotypeMap _ atomName ha
  · exact ⟨b, rfl⟩

/-- The boundary step at the first atom: the pointer stays, the name of the
atom is kept in `firstAtomName` and the residue name is read. -/
theorem residueBoundaryPure_first (residueMap : StringMap) (NotSet : String)
    (top : t_topology) (scan : TinkerScan) (atomName residueName : String)
    (hf : scan.firstAtomName = none)
    (hr : readAt top.atoms.resname scan.residueI = some residueName) :
    residueBoundaryPure residueMap NotSet top scan atomName =
      some { scan with
        firstAtomName := some atomName, firstAtomNameL := atomName.length,
        residueName := residueName,
        tinkerResidueName := (residueMap residueName).getD NotSet } := by
  unfold residueBoundaryPure
  simp only [hf, hr, Option.bind_eq_bind, Option.some_bind]

/-- The boundary step at an atom whose name is the one kept in
`firstAtomName`, or `OW`: the pointer moves on, clamped to the last residue,
after the residue name has been read at the pointer moved on. -/
theorem residueBoundaryPure_boundary (residueMap : StringMap) (NotSet : String)
    (top : t_topology) (scan : TinkerScan) (atomName firstAtomName residueName : String)
    (hf : scan.firstAtomName = some firstAtomName)
    (hl : scan.firstAtomNameL = firstAtomName.length)
    (hc : atomName = firstAtomName ∨ atomName = "OW")
    (hr : readAt top.atoms.resname (scan.residueI + 1) = some residueName) :
    residueBoundaryPure residueMap NotSet top scan atomName =
      some { scan with
        residueI := if scan.residueI + 1 ≥ (top.atoms.nres : Int) then
          (top.atoms.nres : Int) - 1 else scan.residueI + 1,
        residueName := residueName,
        tinkerResidueName := (residueMap residueName).getD NotSet } := by
  unfold residueBoundaryPure
  have hc2 : ((atomName.length : Int) = scan.firstAtomNameL ∧ atomName = firstAtomName) ∨
      atomName = "OW" := by
    rcases hc with h | h
    · exact Or.inl ⟨by rw [hl, h], h⟩
    · exact Or.inr h
  simp only [hf, if_pos hc2, hr, Option.bind_eq_bind, Option.some_bind]

/-- The boundary step at any other atom: nothing changes. -/
theorem residueBoundaryPure_same (residueMap : StringMap) (NotSet : String)
    (top : t_topology) (scan : TinkerScan) (atomName firstAtomName : String)
    (hf : scan.firstAtomName = some firstAtomName)
    (hc : ¬ (atomName = firstAtomName ∨ atomName = "OW")) :
    residueBoundaryPure residueMap NotSet top scan atomName = some scan := by
  unfold residueBoundaryPure
  have hc2 : ¬ (((atomName.length : Int) = scan.firstAtomNameL ∧ atomName = firstAtomName) ∨
      atomName = "OW") := by
    rintro (h | h)
    · exact hc (Or.inl h.2)
    · exact hc (Or.inr h)
  simp only [hf, if_neg hc2]

/-- An iteration is defined as soon as its boundary step is, for an atom name
that is not empty; it leaves the loop variables of the boundary step. -/
theorem tinkerStepPure_of_boundary (residueMap : StringMap) (biotypeMap : StringIntMap)
    (NotSet : String) (top : t_topology) (scan scan₁ : TinkerScan) (atomI : Nat)
    (atomName : String) (hn : top.atoms.atomname[atomI]? = some atomName)
    (ha : atomName ≠ "")
    (hb : residueBoundaryPure residueMap NotSet top scan atomName = some scan₁) :
    ∃ scan', tinkerStepPure residueMap biotypeMap NotSet top scan atomI = some scan' ∧
      scan'.residueI = scan₁.residueI ∧ scan'.residueName = scan₁.residueName ∧
      scan'.tinkerResidueName = scan₁.tinkerResidueName ∧
      scan'.firstAtomName = scan₁.firstAtomName ∧
      scan'.firstAtomNameL = scan₁.firstAtomNameL ∧
      scan'.tinkerAtomNames =
        scan.tinkerAtomNames.set atomI (canonicalAtomName scan₁.residueI atomName) := by
  obtain ⟨bioType, hbio⟩ := biotypeOfAtom_isSome residueMap biotypeMap NotSet scan₁.residueName
    scan₁.tinkerResidueName (canonicalAtomName scan₁.residueI atomName)
    (canonicalAtomName_ne_empty _ _ ha)
  obtain ⟨h1, _, _⟩ := residueBoundaryPure_outputs _ _ _ _ _ _ hb
  refine ⟨{ scan₁ with
    tinkerAtomNames := scan₁.tinkerAtomNames.set atomI (canonicalAtomName scan₁.residueI atomName),
    tinkerResidueNames := scan₁.tinkerResidueNames.set atomI scan₁.residueName,
    tinkerBiotypes := scan₁.tinkerBiotypes.set atomI bioType }, ?_, rfl, rfl, rfl, rfl, rfl, ?_⟩
  · unfold tinkerStepPure
    simp only [hn, hb, hbio, Option.bind_eq_bind, Option.some_bind]
  · simp only [h1]

/-! ## The loop of the scan: the iterations in a row -/

theorem foldlM_range_succ {σ : Type} (f : σ → Nat → Option σ) (init : σ) (k : Nat) :
    (List.range (k + 1)).foldlM f init = ((List.range k).foldlM f init).bind (fun s => f s k) := by
  rw [List.range_succ, List.foldlM_append]
  simp only [Option.bind_eq_bind, List.foldlM_cons, List.foldlM_nil]
  congr 1
  funext s
  cases f s k <;> rfl

theorem foldlM_range_prefix {σ : Type} (f : σ → Nat → Option σ) (init : σ) (n : Nat) :
    ∀ s, (List.range n).foldlM f init = some s →
      ∀ k, k ≤ n → ∃ sk, (List.range k).foldlM f init = some sk := by
  induction n with
  | zero =>
    intro s hs k hk
    have : k = 0 := by omega
    subst this
    exact ⟨s, hs⟩
  | succ n ih =>
    intro s hs k hk
    by_cases hkn : k = n + 1
    · subst hkn
      exact ⟨s, hs⟩
    · rw [foldlM_range_succ] at hs
      cases hn : (List.range n).foldlM f init with
      | none => rw [hn] at hs; cases hs
      | some sn => exact ih sn hn k (by omega)

theorem readAt_eq_some_lt {α : Type} (array : List α) (i : Int) (a : α)
    (h : readAt array i = some a) : 0 ≤ i ∧ i < (array.length : Int) := by
  unfold readAt at h
  by_cases hneg : i < 0
  · rw [if_pos hneg] at h
    cases h
  · rw [if_neg hneg] at h
    have := (List.getElem?_eq_some_iff.mp h).1
    omega

/-- What a boundary step that is defined does: the step of the first atom,
the step of a boundary, or no change. -/
theorem residueBoundaryPure_eq_some (residueMap : StringMap) (NotSet : String)
    (top : t_topology) (scan scan₁ : TinkerScan) (atomName : String)
    (h : residueBoundaryPure residueMap NotSet top scan atomName = some scan₁) :
    (scan.firstAtomName = none ∧ scan₁.residueI = scan.residueI ∧
      scan₁.firstAtomName = some atomName ∧ scan₁.firstAtomNameL = atomName.length ∧
      readAt top.atoms.resname scan.residueI = some scan₁.residueName ∧
      scan₁.tinkerResidueName = (residueMap scan₁.residueName).getD NotSet) ∨
    (∃ firstAtomName, scan.firstAtomName = some firstAtomName ∧
      (((atomName.length : Int) = scan.firstAtomNameL ∧ atomName = firstAtomName) ∨
        atomName = "OW") ∧
      scan₁.residueI = (if scan.residueI + 1 ≥ (top.atoms.nres : Int) then
        (top.atoms.nres : Int) - 1 else scan.residueI + 1) ∧
      scan₁.firstAtomName = scan.firstAtomName ∧ scan₁.firstAtomNameL = scan.firstAtomNameL ∧
      readAt top.atoms.resname (scan.residueI + 1) = some scan₁.residueName ∧
      scan₁.tinkerResidueName = (residueMap scan₁.residueName).getD NotSet) ∨
    (∃ firstAtomName, scan.firstAtomName = some firstAtomName ∧
      ¬ (((atomName.length : Int) = scan.firstAtomNameL ∧ atomName = firstAtomName) ∨
        atomName = "OW") ∧
      scan₁ = scan) := by
  unfold residueBoundaryPure at h
  cases hf : scan.firstAtomName with
  | none =>
    simp only [hf] at h
    cases hr : readAt top.atoms.resname scan.residueI with
    | none => simp [hr] at h
    | some residueName =>
      simp only [hr, Option.bind_eq_bind, Option.some_bind, Option.some.injEq] at h
      subst h
      exact Or.inl ⟨rfl, rfl, rfl, rfl, rfl, rfl⟩
  | some firstAtomName =>
    simp only [hf] at h
    by_cases hc : ((atomName.length : Int) = scan.firstAtomNameL ∧ atomName = firstAtomName) ∨
        atomName = "OW"
    · rw [if_pos hc] at h
      cases hr : readAt top.atoms.resname (scan.residueI + 1) with
      | none => simp [hr] at h
      | some residueName =>
        simp only [hr, Option.bind_eq_bind, Option.some_bind, Option.some.injEq] at h
        subst h
        exact Or.inr (Or.inl ⟨firstAtomName, rfl, hc, rfl, rfl, rfl, rfl, rfl⟩)
    · rw [if_neg hc] at h
      cases h
      exact Or.inr (Or.inr ⟨firstAtomName, rfl, hc, rfl⟩)

/-- The loop variables after `k` iterations of the scan over fixed
dictionaries: `firstAtomName` is null before the first atom and the name of
atom 0 afterwards, and the pointer is an index of the residue names, below
the number of iterations. -/
theorem foldlM_tinkerStepPure_loopVariables (residueMap : StringMap)
    (biotypeMap : StringIntMap) (NotSet : String) (top : t_topology) (init : TinkerScan)
    (hi0 : init.residueI = 0) (hi1 : init.firstAtomName = none) (k : Nat) :
    ∀ s, (List.range k).foldlM (tinkerStepPure residueMap biotypeMap NotSet top) init = some s →
      (k = 0 → s = init) ∧
      (1 ≤ k → ∃ name0, top.atoms.atomname[0]? = some name0 ∧
        s.firstAtomName = some name0 ∧ s.firstAtomNameL = name0.length) ∧
      0 ≤ s.residueI ∧ s.residueI < max (k : Int) 1 ∧
      (1 ≤ k → s.residueI < (top.atoms.nres : Int)) := by
  induction k with
  | zero =>
    intro s hs
    simp only [List.range_zero, List.foldlM_nil, Option.pure_def, Option.some.injEq] at hs
    subst hs
    refine ⟨fun _ => rfl, fun h => absurd h (by omega), by omega, by omega,
      fun h => absurd h (by omega)⟩
  | succ k ih =>
    intro s hs
    rw [foldlM_range_succ] at hs
    cases hk : (List.range k).foldlM (tinkerStepPure residueMap biotypeMap NotSet top) init with
    | none => rw [hk] at hs; cases hs
    | some sk =>
      rw [hk, Option.some_bind] at hs
      obtain ⟨h0, h1, h2, h3, h4⟩ := ih sk hk
      obtain ⟨atomName, scan₁, _, hn, hb, _, _, _, _, _, _, e3, e4, e5⟩ :=
        tinkerStepPure_eq_some _ _ _ _ _ _ _ hs
      have hnres : (top.atoms.nres : Int) = (top.atoms.resname.length : Int) := rfl
      rcases residueBoundaryPure_eq_some _ _ _ _ _ _ hb with
        ⟨hf, b1, b2, b3, b4, _⟩ | ⟨f, hf, _, b1, b2, b3, b4, _⟩ | ⟨f, hf, _, b1⟩
      · have hk0 : k = 0 := by
          by_contra hne
          obtain ⟨_, _, g2, _⟩ := h1 (by omega)
          rw [hf] at g2
          cases g2
        subst hk0
        have hlt := readAt_eq_some_lt _ _ _ b4
        refine ⟨fun h => absurd h (by omega), fun _ => ⟨atomName, hn, ?_, ?_⟩, ?_, ?_, fun _ => ?_⟩
        · rw [e4, b2]
        · rw [e5, b3]
        · rw [e3, b1]; exact h2
        · rw [e3, b1]
          omega
        · rw [e3, b1, hnres]
          exact hlt.2
      · have hk1 : 1 ≤ k := by
          by_contra hk0
          have hk0 : k = 0 := by omega
          have := h0 hk0
          rw [this, hi1] at hf
          cases hf
        obtain ⟨name0, g1, g2, g3⟩ := h1 hk1
        have hlt := readAt_eq_some_lt _ _ _ b4
        have hres : scan₁.residueI = sk.residueI + 1 := by
          rw [b1, if_neg (by rw [hnres]; omega)]
        refine ⟨fun h => absurd h (by omega), fun _ => ⟨name0, g1, ?_, ?_⟩, ?_, ?_, fun _ => ?_⟩
        · rw [e4, b2, g2]
        · rw [e5, b3, g3]
        · rw [e3, hres]; omega
        · rw [e3, hres]
          omega
        · rw [e3, hres, hnres]
          exact hlt.2
      · have hk1 : 1 ≤ k := by
          by_contra hk0
          have hk0 : k = 0 := by omega
          have := h0 hk0
          rw [this, hi1] at hf
          cases hf
        obtain ⟨name0, g1, g2, g3⟩ := h1 hk1
        subst b1
        refine ⟨fun h => absurd h (by omega), fun _ => ⟨name0, g1, ?_, ?_⟩, ?_, ?_, fun _ => ?_⟩
        · rw [e4, g2]
        · rw [e5, g3]
        · rw [e3]; exact h2
        · rw [e3]
          omega
        · rw [e3]
          exact h4 hk1

theorem readAt_of_lt {α : Type} (array : List α) (i : Int) (h0 : 0 ≤ i)
    (h : i < (array.length : Int)) : ∃ a, readAt array i = some a := by
  unfold readAt
  rw [if_neg (by omega)]
  have hi : i.toNat < array.length := by omega
  exact ⟨array.get ⟨i.toNat, hi⟩, List.getElem?_eq_getElem hi⟩

/-- The scan over fixed dictionaries is defined for `k` atoms when the
topology holds `k` atom names, none of them empty, and at least `k` residue
names. -/
theorem foldlM_tinkerStepPure_isSome (residueMap : StringMap) (biotypeMap : StringIntMap)
    (NotSet : String) (top : t_topology) (init : TinkerScan)
    (hi0 : init.residueI = 0) (hi1 : init.firstAtomName = none)
    (hne : ∀ name ∈ top.atoms.atomname, name ≠ "") (k : Nat) :
    k ≤ top.atoms.atomname.length → k ≤ top.atoms.resname.length →
    ∃ s, (List.range k).foldlM (tinkerStepPure residueMap biotypeMap NotSet top) init
      = some s := by
  induction k with
  | zero => exact fun _ _ => ⟨init, rfl⟩
  | succ k ih =>
    intro hnames hres
    obtain ⟨sk, hsk⟩ := ih (by omega) (by omega)
    obtain ⟨h0, h1, h2, h3, _⟩ :=
      foldlM_tinkerStepPure_loopVariables residueMap biotypeMap NotSet top init hi0 hi1 k sk hsk
    have hk : k < top.atoms.atomname.length := by omega
    have hn : top.atoms.atomname[k]? = some (top.atoms.atomname.get ⟨k, hk⟩) :=
      List.getElem?_eq_getElem hk
    have ha : top.atoms.atomname.get ⟨k, hk⟩ ≠ "" := hne _ (List.get_mem _ _ _)
    have hb : ∃ scan₁, residueBoundaryPure residueMap NotSet top sk
        (top.atoms.atomname.get ⟨k, hk⟩) = some scan₁ := by
      cases hf : sk.firstAtomName with
      | none =>
        obtain ⟨residueName, hr⟩ := readAt_of_lt top.atoms.resname sk.residueI h2 (by omega)
        exact ⟨_, residueBoundaryPure_first _ _ _ _ _ _ hf hr⟩
      | some firstAtomName =>
        have hk1 : 1 ≤ k := by
          by_contra hk0
          have hk0 : k = 0 := by omega
          have := h0 hk0
          rw [this, hi1] at hf
          cases hf
        obtain ⟨name0, _, g2, g3⟩ := h1 hk1
        have hfn : firstAtomName = name0 := Option.some.inj (hf.symm.trans g2)
        by_cases hc : top.atoms.atomname.get ⟨k, hk⟩ = firstAtomName ∨
            top.atoms.atomname.get ⟨k, hk⟩ = "OW"
        · obtain ⟨residueName, hr⟩ :=
            readAt_of_lt top.atoms.resname (sk.residueI + 1) (by omega) (by omega)
          exact ⟨_, residueBoundaryPure_boundary _ _ _ _ _ _ _ hf (by rw [g3, hfn]) hc hr⟩
        · exact ⟨_, residueBoundaryPure_same _ _ _ _ _ _ hf hc⟩
    obtain ⟨scan₁, hb⟩ := hb
    obtain ⟨s, hs, _⟩ :=
      tinkerStepPure_of_boundary residueMap biotypeMap NotSet top sk scan₁ k _ hn ha hb
    exact ⟨s, by rw [foldlM_range_succ, hsk, Option.some_bind, hs]⟩

/-! ## The loop of `getTinkerBiotypes`, iteration by iteration -/

theorem getTinkerBiotypes_eq_loop (DefaultReturn : Int) (NotSet : String) (A : Int)
    (numberOfAtoms : Int) (top : t_topology) (tinkerAtomNames tinkerResidueNames : List String)
    (tinkerBiotypes : List Int) (statics : Statics) :
    getTinkerBiotypes DefaultReturn NotSet A numberOfAtoms top tinkerAtomNames
        tinkerResidueNames tinkerBiotypes statics =
      (getTinkerBiotypesLoop NotSet A numberOfAtoms top tinkerAtomNames tinkerResidueNames
        tinkerBiotypes statics numberOfAtoms.toNat).map
        (fun state => (DefaultReturn, state.1, state.2)) :=
  rfl

theorem getTinkerBiotypesLoop_pure (NotSet : String) (A : Int) (numberOfAtoms : Int)
    (top : t_topology) (tinkerAtomNames tinkerResidueNames : List String)
    (tinkerBiotypes : List Int) (statics : Statics) (k : Nat) :
    (getTinkerBiotypesLoop NotSet A numberOfAtoms top tinkerAtomNames tinkerResidueNames
        tinkerBiotypes statics k).map Prod.fst =
      (List.range k).foldlM
        (tinkerStepPure statics.residueMap (statics.biotypeMap A) NotSet top)
        (tinkerScanInitial numberOfAtoms tinkerAtomNames tinkerResidueNames tinkerBiotypes) :=
  (foldlM_getTinkerBiotypesStep_pure NotSet A top (List.range k)
    (tinkerScanInitial numberOfAtoms tinkerAtomNames tinkerResidueNames tinkerBiotypes,
      statics)).1

theorem getTinkerBiotypesLoop_eq_some (NotSet : String) (A : Int) (numberOfAtoms : Int)
    (top : t_topology) (tinkerAtomNames tinkerResidueNames : List String)
    (tinkerBiotypes : List Int) (statics : Statics) (k : Nat) (s : TinkerScan × Statics)
    (h : getTinkerBiotypesLoop NotSet A numberOfAtoms top tinkerAtomNames tinkerResidueNames
      tinkerBiotypes statics k = some s) :
    (List.range k).foldlM
        (tinkerStepPure statics.residueMap (statics.biotypeMap A) NotSet top)
        (tinkerScanInitial numberOfAtoms tinkerAtomNames tinkerResidueNames tinkerBiotypes)
      = some s.1 := by
  rw [← getTinkerBiotypesLoop_pure, h]
  rfl

/-- The loop of `getTinkerBiotypes` is defined for `k` atoms when the
topology holds `k` atom names, none of them empty, and at least `k` residue
names. -/
theorem getTinkerBiotypesLoop_isSome (NotSet : String) (A : Int) (numberOfAtoms : Int)
    (top : t_topology) (tinkerAtomNames tinkerResidueNames : List String)
    (tinkerBiotypes : List Int) (statics : Statics) (k : Nat)
    (hne : ∀ name ∈ top.atoms.atomname, name ≠ "")
    (hnames : k ≤ top.atoms.atomname.length) (hres : k ≤ top.atoms.resname.length) :
    ∃ s, getTinkerBiotypesLoop NotSet A numberOfAtoms top tinkerAtomNames tinkerResidueNames
      tinkerBiotypes statics k = some s := by
  obtain ⟨sp, hsp⟩ := foldlM_tinkerStepPure_isSome statics.residueMap (statics.biotypeMap A)
    NotSet top
    (tinkerScanInitial numberOfAtoms tinkerAtomNames tinkerResidueNames tinkerBiotypes)
    rfl rfl hne k hnames hres
  have hp := getTinkerBiotypesLoop_pure NotSet A numberOfAtoms top tinkerAtomNames
    tinkerResidueNames tinkerBiotypes statics k
  rw [hsp] at hp
  cases hl : getTinkerBiotypesLoop NotSet A numberOfAtoms top tinkerAtomNames
      tinkerResidueNames tinkerBiotypes statics k with
  | none => rw [hl] at hp; cases hp
  | some s => exact ⟨s, rfl⟩

/-- One iteration of the loop of `getTinkerBiotypes`, from the variables
after `k` iterations to those after `k + 1`: the name of atom `k`, the
boundary step over the dictionary in force, and the name stored for the
atom. -/
theorem getTinkerBiotypesLoop_iteration (NotSet : String) (A : Int) (numberOfAtoms : Int)
    (top : t_topology) (tinkerAtomNames tinkerResidueNames : List String)
    (tinkerBiotypes : List Int) (statics : Statics) (k : Nat) (s s' : TinkerScan × Statics)
    (hs : getTinkerBiotypesLoop NotSet A numberOfAtoms top tinkerAtomNames tinkerResidueNames
      tinkerBiotypes statics k = some s)
    (hs' : getTinkerBiotypesLoop NotSet A numberOfAtoms top tinkerAtomNames tinkerResidueNames
      tinkerBiotypes statics (k + 1) = some s') :
    ∃ atomName scan₁, top.atoms.atomname[k]? = some atomName ∧
      residueBoundaryPure statics.residueMap NotSet top s.1 atomName = some scan₁ ∧
      s'.1.residueI = scan₁.residueI ∧ s'.1.residueName = scan₁.residueName ∧
      s'.1.tinkerResidueName = scan₁.tinkerResidueName ∧
      s'.1.tinkerAtomNames = s.1.tinkerAtomNames.set k (canonicalAtomName scan₁.residueI atomName)
      := by
  have hp := getTinkerBiotypesLoop_eq_some _ _ _ _ _ _ _ _ _ _ hs
  have hp' := getTinkerBiotypesLoop_eq_some _ _ _ _ _ _ _ _ _ _ hs'
  rw [foldlM_range_succ, hp, Option.some_bind] at hp'
  obtain ⟨atomName, scan₁, _, hn, hb, _, o1, _, _, e1, e2, e3, _, _⟩ :=
    tinkerStepPure_eq_some _ _ _ _ _ _ _ hp'
  exact ⟨atomName, scan₁, hn, hb, e3, e2, e1, o1⟩

/-- The entries of the three output vectors for atom `atomI` are those left
by iteration `atomI`: the later iterations do not change them. -/
theorem getTinkerBiotypes_output_at (DefaultReturn : Int) (NotSet : String) (A : Int)
    (numberOfAtoms : Int) (top : t_topology) (tinkerAtomNames tinkerResidueNames : List String)
    (tinkerBiotypes : List Int) (statics : Statics) (r : Int × TinkerScan × Statics)
    (h : getTinkerBiotypes DefaultReturn NotSet A numberOfAtoms top tinkerAtomNames
      tinkerResidueNames tinkerBiotypes statics = some r)
    (atomI : Nat) (hi : (atomI : Int) < numberOfAtoms) :
    ∃ s s', getTinkerBiotypesLoop NotSet A numberOfAtoms top tinkerAtomNames
        tinkerResidueNames tinkerBiotypes statics atomI = some s ∧
      getTinkerBiotypesLoop NotSet A numberOfAtoms top tinkerAtomNames
        tinkerResidueNames tinkerBiotypes statics (atomI + 1) = some s' ∧
      atomI < s.1.tinkerAtomNames.length ∧
      r.2.1.tinkerAtomNames[atomI]? = s'.1.tinkerAtomNames[atomI]? ∧
      r.2.1.tinkerResidueNames[atomI]? = s'.1.tinkerResidueNames[atomI]? ∧
      r.2.1.tinkerBiotypes[atomI]? = s'.1.tinkerBiotypes[atomI]? := by
  rw [getTinkerBiotypes_eq_loop] at h
  cases hn : getTinkerBiotypesLoop NotSet A numberOfAtoms top tinkerAtomNames
      tinkerResidueNames tinkerBiotypes statics numberOfAtoms.toNat with
  | none => rw [hn] at h; cases h
  | some final =>
    rw [hn, Option.map_some', Option.some.injEq] at h
    subst h
    have hi' : atomI + 1 ≤ numberOfAtoms.toNat := by omega
    obtain ⟨s', hs'⟩ := foldlM_range_prefix _ _ _ final hn (atomI + 1) hi'
    obtain ⟨s, hs⟩ := foldlM_range_prefix _ _ _ final hn atomI (by omega)
    have hs : getTinkerBiotypesLoop NotSet A numberOfAtoms top tinkerAtomNames
        tinkerResidueNames tinkerBiotypes statics atomI = some s := hs
    have hs' : getTinkerBiotypesLoop NotSet A numberOfAtoms top tinkerAtomNames
        tinkerResidueNames tinkerBiotypes statics (atomI + 1) = some s' := hs'
    have hp := getTinkerBiotypesLoop_eq_some _ _ _ _ _ _ _ _ _ _ hs
    have hp' := getTinkerBiotypesLoop_eq_some _ _ _ _ _ _ _ _ _ _ hs'
    have hpn := getTinkerBiotypesLoop_eq_some _ _ _ _ _ _ _ _ _ _ hn
    obtain ⟨l1, _, _⟩ := foldlM_tinkerStepPure_length _ _ _ _ _ _ _ hp
    have hlen : atomI < s.1.tinkerAtomNames.length := by
      rw [l1]
      show atomI < (resize tinkerAtomNames numberOfAtoms.toNat "").length
      rw [length_resize]
      omega
    have hsplit : List.range numberOfAtoms.toNat
        = List.range (atomI + 1) ++ List.range' (atomI + 1) (numberOfAtoms.toNat - atomI - 1) := by
      rw [range_split numberOfAtoms.toNat atomI (by omega), List.range_succ,
        List.append_assoc, List.singleton_append]
    rw [hsplit, List.foldlM_append, hp', Option.bind_eq_bind, Option.some_bind] at hpn
    obtain ⟨g1, g2, g3⟩ := foldlM_tinkerStepPure_getElem? _ _ _ _ _ _ _ atomI
      (fun j hj => by
        rw [List.mem_range'_1] at hj
        omega) hpn
    exact ⟨s, s', hs, hs', hlen, g1, g2, g3⟩

/-- Boundaries of the scan: at an atom other than the first, the boundary
branch is taken exactly when the name of the atom is the name of atom 0 or
`OW`. -/
theorem getTinkerBiotypesLoop_boundary (NotSet : String) (A : Int) (numberOfAtoms : Int)
    (top : t_topology) (tinkerAtomNames tinkerResidueNames : List String)
    (tinkerBiotypes : List Int) (statics : Statics) (k : Nat) (hk : 1 ≤ k)
    (s s' : TinkerScan × Statics)
    (hs : getTinkerBiotypesLoop NotSet A numberOfAtoms top tinkerAtomNames tinkerResidueNames
      tinkerBiotypes statics k = some s)
    (hs' : getTinkerBiotypesLoop NotSet A numberOfAtoms top tinkerAtomNames tinkerResidueNames
      tinkerBiotypes statics (k + 1) = some s')
    (name0 atomName : String) (h0 : top.atoms.atomname[0]? = some name0)
    (hn : top.atoms.atomname[k]? = some atomName) :
    ((atomName = name0 ∨ atomName = "OW") →
      s'.1.residueI = (if s.1.residueI + 1 ≥ (top.atoms.nres : Int) then
        (top.atoms.nres : Int) - 1 else s.1.residueI + 1) ∧
      s'.1.residueI = s.1.residueI + 1 ∧
      readAt top.atoms.resname (s.1.residueI + 1) = some s'.1.residueName ∧
      s'.1.tinkerResidueName =
        (getTinkerBiotypeResidueNameGivenGromacsResidueName NotSet s'.1.residueName statics).1) ∧
    (¬ (atomName = name0 ∨ atomName = "OW") →
      s'.1.residueI = s.1.residueI ∧ s'.1.residueName = s.1.residueName ∧
      s'.1.tinkerResidueName = s.1.tinkerResidueName) := by
  obtain ⟨name', scan₁, hn', hb, e1, e2, e3, _⟩ :=
    getTinkerBiotypesLoop_iteration _ _ _ _ _ _ _ _ _ _ _ hs hs'
  rw [hn, Option.some.injEq] at hn'
  subst hn'
  have hp := getTinkerBiotypesLoop_eq_some _ _ _ _ _ _ _ _ _ _ hs
  obtain ⟨_, h1, _, _, _⟩ := foldlM_tinkerStepPure_loopVariables _ _ _ _ _ rfl rfl k s.1 hp
  obtain ⟨name0', g1, g2, g3⟩ := h1 hk
  rw [h0, Option.some.injEq] at g1
  subst g1
  have hcond : (((atomName.length : Int) = s.1.firstAtomNameL ∧ atomName = name0) ∨
      atomName = "OW") ↔ (atomName = name0 ∨ atomName = "OW") := by
    constructor
    · rintro (h | h)
      · exact Or.inl h.2
      · exact Or.inr h
    · rintro (h | h)
      · exact Or.inl ⟨by rw [g3, h], h⟩
      · exact Or.inr h
  rcases residueBoundaryPure_eq_some _ _ _ _ _ _ hb with
    ⟨hf, _⟩ | ⟨f, hf, hc, b1, _, _, b4, b5⟩ | ⟨f, hf, hc, b1⟩
  · rw [g2] at hf
    cases hf
  · rw [g2, Option.some.injEq] at hf
    subst hf
    refine ⟨fun _ => ?_, fun hnc => absurd (hcond.mp hc) hnc⟩
    have hlt := readAt_eq_some_lt _ _ _ b4
    have hnres : (top.atoms.nres : Int) = (top.atoms.resname.length : Int) := rfl
    refine ⟨by rw [e1, b1], ?_, by rw [e2]; exact b4, ?_⟩
    · rw [e1, b1, if_neg (by rw [hnres]; omega)]
    · rw [e3, b5, e2, getTinkerBiotypeResidueName_eq]
  · rw [g2, Option.some.injEq] at hf
    subst hf
    subst b1
    exact ⟨fun hc' => absurd (hcond.mpr hc') hc, fun _ => ⟨e1, e2, e3⟩⟩

/-- The residue pointer of the scan: it is 0 before the first atom, and each
iteration leaves it as it is or adds 1, inside the residue names. -/
theorem getTinkerBiotypesLoop_pointer (NotSet : String) (A : Int) (numberOfAtoms : Int)
    (top : t_topology) (tinkerAtomNames tinkerResidueNames : List String)
    (tinkerBiotypes : List Int) (statics : Statics) (k : Nat) (s s' : TinkerScan × Statics)
    (hs : getTinkerBiotypesLoop NotSet A numberOfAtoms top tinkerAtomNames tinkerResidueNames
      tinkerBiotypes statics k = some s)
    (hs' : getTinkerBiotypesLoop NotSet A numberOfAtoms top tinkerAtomNames tinkerResidueNames
      tinkerBiotypes statics (k + 1) = some s') :
    s.1.residueI ≤ s'.1.residueI ∧ s'.1.residueI ≤ s.1.residueI + 1 ∧
    0 ≤ s.1.residueI ∧ 0 ≤ s'.1.residueI ∧ s'.1.residueI ≤ (top.atoms.nres : Int) - 1 ∧
    (k = 0 → s.1.residueI = 0 ∧ s'.1.residueI = 0) := by
  obtain ⟨atomName, scan₁, _, hb, e1, _, _, _⟩ :=
    getTinkerBiotypesLoop_iteration _ _ _ _ _ _ _ _ _ _ _ hs hs'
  have hp := getTinkerBiotypesLoop_eq_some _ _ _ _ _ _ _ _ _ _ hs
  have hp' := getTinkerBiotypesLoop_eq_some _ _ _ _ _ _ _ _ _ _ hs'
  obtain ⟨h0, _, h2, h3, h4⟩ :=
    foldlM_tinkerStepPure_loopVariables _ _ _ _ _ rfl rfl k s.1 hp
  obtain ⟨_, _, h2', h3', h4'⟩ :=
    foldlM_tinkerStepPure_loopVariables _ _ _ _ _ rfl rfl (k + 1) s'.1 hp'
  have hlt := h4' (by omega)
  have hmono : s.1.residueI ≤ s'.1.residueI ∧ s'.1.residueI ≤ s.1.residueI + 1 := by
    rcases residueBoundaryPure_eq_some _ _ _ _ _ _ hb with
      ⟨_, b1, _⟩ | ⟨f, _, _, b1, _, _, b4, _⟩ | ⟨f, _, _, b1⟩
    · rw [e1, b1]
      omega
    · have hr := readAt_eq_some_lt _ _ _ b4
      have hnres : (top.atoms.nres : Int) = (top.atoms.resname.length : Int) := rfl
      rw [e1, b1, if_neg (by rw [hnres]; omega)]
      omega
    · subst b1
      rw [e1]
      omega
  refine ⟨hmono.1, hmono.2, h2, h2', by omega, fun hk0 => ?_⟩
  subst hk0
  have : s.1.residueI = 0 := by omega
  refine ⟨this, ?_⟩
  have h3'' : s'.1.residueI < max ((0 + 1 : Nat) : Int) 1 := h3'
  omega

theorem getTinkerBiotypes_returns (DefaultReturn : Int) (NotSet : String) (A : Int)
    (numberOfAtoms : Int) (top : t_topology) (tinkerAtomNames tinkerResidueNames : List String)
    (tinkerBiotypes : List Int) (statics : Statics)
    (hne : ∀ name ∈ top.atoms.atomname, name ≠ "")
    (hnames : numberOfAtoms.toNat ≤ top.atoms.atomname.length)
    (hres : numberOfAtoms.toNat ≤ top.atoms.resname.length) :
    ∃ r, getTinkerBiotypes DefaultReturn NotSet A numberOfAtoms top tinkerAtomNames
      tinkerResidueNames tinkerBiotypes statics = some r := by
  obtain ⟨s, hs⟩ := getTinkerBiotypesLoop_isSome NotSet A numberOfAtoms top tinkerAtomNames
    tinkerResidueNames tinkerBiotypes statics numberOfAtoms.toNat hne hnames hres
  exact ⟨(DefaultReturn, s.1, s.2), by rw [getTinkerBiotypes_eq_loop, hs]; rfl⟩

/-! ## Residue boundaries -/

/-- C26, as stated, fails: in the scan of the atoms `N`, `OW`, `N` the
boundary at `OW` opens a residue whose first atom name is `OW`; the next atom
`N` is neither that name nor `OW`, and yet a boundary is detected there, the
pointer going from 1 to 2: the name compared is the one of atom 0. -/
theorem boundary_by_the_name_of_atom_0 :
    ∃ s1 s2 s3,
      getTinkerBiotypesLoop "NotSet" 0 3
        { atoms := { atomname := ["N", "OW", "N"], resname := ["ALA", "SOL", "GLY"] } }
        [] [] [] {} 1 = some s1 ∧
      getTinkerBiotypesLoop "NotSet" 0 3
        { atoms := { atomname := ["N", "OW", "N"], resname := ["ALA", "SOL", "GLY"] } }
        [] [] [] {} 2 = some s2 ∧
      getTinkerBiotypesLoop "NotSet" 0 3
        { atoms := { atomname := ["N", "OW", "N"], resname := ["ALA", "SOL", "GLY"] } }
        [] [] [] {} 3 = some s3 ∧
      s1.1.residueI = 0 ∧ s2.1.residueI = 1 ∧ s3.1.residueI = 2 ∧
      s2.1.residueName = "SOL" ∧ s3.1.residueName = "GLY" ∧
      (["N", "OW", "N"] : List String)[1]? = some "OW" ∧
      (["N", "OW", "N"] : List String)[2]? = some "N" ∧ "N" ≠ "OW" := by
  obtain ⟨s1, h1⟩ := getTinkerBiotypesLoop_isSome "NotSet" 0 3
    { atoms := { atomname := ["N", "OW", "N"], resname := ["ALA", "SOL", "GLY"] } }
    [] [] [] {} 1 (by decide) (by decide) (by decide)
  obtain ⟨s2, h2⟩ := getTinkerBiotypesLoop_isSome "NotSet" 0 3
    { atoms := { atomname := ["N", "OW", "N"], resname := ["ALA", "SOL", "GLY"] } }
    [] [] [] {} 2 (by decide) (by decide) (by decide)
  obtain ⟨s3, h3⟩ := getTinkerBiotypesLoop_isSome "NotSet" 0 3
    { atoms := { atomname := ["N", "OW", "N"], resname := ["ALA", "SOL", "GLY"] } }
    [] [] [] {} 3 (by decide) (by decide) (by decide)
  have p1 := (getTinkerBiotypesLoop_pointer _ _ _ _ _ _ _ _ 0 _ s1 rfl h1).2.2.2.2.2 rfl
  have b2 := (getTinkerBiotypesLoop_boundary _ _ _ _ _ _ _ _ 1 (by decide) s1 s2 h1 h2
    "N" "OW" rfl rfl).1 (Or.inr rfl)
  have b3 := (getTinkerBiotypesLoop_boundary _ _ _ _ _ _ _ _ 2 (by decide) s2 s3 h2 h3
    "N" "N" rfl rfl).1 (Or.inl rfl)
  have r1 : s1.1.residueI = 0 := p1.2
  have r2 : s2.1.residueI = 1 := by rw [b2.2.1, r1]; rfl
  have r3 : s3.1.residueI = 2 := by rw [b3.2.1, r2]; rfl
  have n2 : s2.1.residueName = "SOL" := by
    have := b2.2.2.1
    rw [r1] at this
    exact (Option.some.inj this).symm
  have n3 : s3.1.residueName = "GLY" := by
    have := b3.2.2.1
    rw [r2] at this
    exact (Option.some.inj this).symm
  exact ⟨s1, s2, s3, h1, h2, h3, r1, r2, r3, n2, n3, rfl, rfl, by decide⟩

/-- C26, amended: during the scan a boundary is detected at an atom other
than the first exactly when its name is the name of atom 0 of the scan, or
`OW`; the pointer then moves on by 1, the residue name is read at the pointer
moved on and the Tinker residue name is derived from it; at every other atom
the pointer, the residue name and the Tinker residue name stay as they
are. -/
theorem residue_boundary_detection (NotSet : String) (AmberForceField : Int)
    (numberOfAtoms : Int) (top : t_topology) (tinkerAtomNames tinkerResidueNames : List String)
    (tinkerBiotypes : List Int) (statics : Statics) (k : Nat) (hk : 1 ≤ k)
    (s s' : TinkerScan × Statics)
    (hs : getTinkerBiotypesLoop NotSet AmberForceField numberOfAtoms top tinkerAtomNames
      tinkerResidueNames tinkerBiotypes statics k = some s)
    (hs' : getTinkerBiotypesLoop NotSet AmberForceField numberOfAtoms top tinkerAtomNames
      tinkerResidueNames tinkerBiotypes statics (k + 1) = some s')
    (name0 atomName : String) (h0 : top.atoms.atomname[0]? = some name0)
    (hn : top.atoms.atomname[k]? = some atomName) :
    ((atomName = name0 ∨ atomName = "OW") →
      s'.1.residueI = (if s.1.residueI + 1 ≥ (top.atoms.nres : Int) then
        (top.atoms.nres : Int) - 1 else s.1.residueI + 1) ∧
      s'.1.residueI = s.1.residueI + 1 ∧
      readAt top.atoms.resname (s.1.residueI + 1) = some s'.1.residueName ∧
      s'.1.tinkerResidueName =
        (getTinkerBiotypeResidueNameGivenGromacsResidueName NotSet s'.1.residueName statics).1) ∧
    (¬ (atomName = name0 ∨ atomName = "OW") →
      s'.1.residueI = s.1.residueI ∧ s'.1.residueName = s.1.residueName ∧
      s'.1.tinkerResidueName = s.1.tinkerResidueName) :=
  getTinkerBiotypesLoop_boundary NotSet AmberForceField numberOfAtoms top tinkerAtomNames
    tinkerResidueNames tinkerBiotypes statics k hk s s' hs hs' name0 atomName h0 hn

/-- Witness of C26 amended: the atoms `N`, `CA`, `N`, `CA` of two residues;
the iteration of atom 2, named as atom 0. -/
theorem residue_boundary_detection_witness :
    ∃ s s',
      getTinkerBiotypesLoop "NotSet" 0 4
        { atoms := { atomname := ["N", "CA", "N", "CA"], resname := ["ALA", "GLY", "SER", "VAL"] } }
        [] [] [] {} 2 = some s ∧
      getTinkerBiotypesLoop "NotSet" 0 4
        { atoms := { atomname := ["N", "CA", "N", "CA"], resname := ["ALA", "GLY", "SER", "VAL"] } }
        [] [] [] {} 3 = some s' ∧
      (("N" = "N" ∨ "N" = "OW") →
        s'.1.residueI = (if s.1.residueI + 1 ≥ ((4 : Nat) : Int) then
          ((4 : Nat) : Int) - 1 else s.1.residueI + 1) ∧
        s'.1.residueI = s.1.residueI + 1 ∧
        readAt ["ALA", "GLY", "SER", "VAL"] (s.1.residueI + 1) = some s'.1.residueName ∧
        s'.1.tinkerResidueName =
          (getTinkerBiotypeResidueNameGivenGromacsResidueName "NotSet" s'.1.residueName {}).1) ∧
      (¬ ("N" = "N" ∨ "N" = "OW") →
        s'.1.residueI = s.1.residueI ∧ s'.1.residueName = s.1.residueName ∧
        s'.1.tinkerResidueName = s.1.tinkerResidueName) :=
  (getTinkerBiotypesLoop_isSome "NotSet" 0 4
    { atoms := { atomname := ["N", "CA", "N", "CA"], resname := ["ALA", "GLY", "SER", "VAL"] } }
    [] [] [] {} 2 (by decide) (by decide) (by decide)).elim fun s hs =>
  (getTinkerBiotypesLoop_isSome "NotSet" 0 4
    { atoms := { atomname := ["N", "CA", "N", "CA"], resname := ["ALA", "GLY", "SER", "VAL"] } }
    [] [] [] {} 3 (by decide) (by decide) (by decide)).elim fun s' hs' =>
  ⟨s, s', hs, hs',
    residue_boundary_detection "NotSet" 0 4
      { atoms := { atomname := ["N", "CA", "N", "CA"], resname := ["ALA", "GLY", "SER", "VAL"] } }
      [] [] [] {} 2 (by decide) s s' hs hs' "N" "N" rfl rfl⟩

/-! ## The residue pointer -/

theorem getTinkerBiotypesLoop_pointer_range (NotSet : String) (A : Int) (numberOfAtoms : Int)
    (top : t_topology) (tinkerAtomNames tinkerResidueNames : List String)
    (tinkerBiotypes : List Int) (statics : Statics) (hres : 1 ≤ top.atoms.nres) (k : Nat)
    (s : TinkerScan × Statics)
    (hs : getTinkerBiotypesLoop NotSet A numberOfAtoms top tinkerAtomNames tinkerResidueNames
      tinkerBiotypes statics k = some s) :
    0 ≤ s.1.residueI ∧ s.1.residueI ≤ (top.atoms.nres : Int) - 1 := by
  have hp := getTinkerBiotypesLoop_eq_some _ _ _ _ _ _ _ _ _ _ hs
  obtain ⟨h0, _, h2, h3, h4⟩ :=
    foldlM_tinkerStepPure_loopVariables _ _ _ _ _ rfl rfl k s.1 hp
  refine ⟨h2, ?_⟩
  by_cases hk : k = 0
  · subst hk
    have : s.1.residueI < max ((0 : Nat) : Int) 1 := h3
    omega
  · have := h4 (by omega)
    omega

theorem canonicalAtomName_of_amine (residueI : Int) (atomName : String)
    (h : residueI = 0 ∧ atomName.data.getD 0 NUL = 'H' ∧
      (atomName.data.getD 1 NUL = '1' ∨ atomName.data.getD 1 NUL = '2' ∨
        atomName.data.getD 1 NUL = '3')) :
    canonicalAtomName residueI atomName = String.mk (atomName.data.set 1 'N') := by
  unfold canonicalAtomName
  simp only
  have hoc : ¬ (atomName.data.getD 0 NUL = 'O' ∧ atomName.data.getD 1 NUL = 'C') := by
    rintro ⟨ho, _⟩
    rw [h.2.1] at ho
    exact absurd ho (by decide)
  rw [if_neg hoc, if_pos h]

theorem canonicalAtomName_of_not_amine (residueI : Int) (atomName : String)
    (h : ¬ (residueI = 0 ∧ atomName.data.getD 0 NUL = 'H' ∧
      (atomName.data.getD 1 NUL = '1' ∨ atomName.data.getD 1 NUL = '2' ∨
        atomName.data.getD 1 NUL = '3'))) :
    canonicalAtomName residueI atomName =
      if atomName.data.getD 0 NUL = 'O' ∧ atomName.data.getD 1 NUL = 'C' then "OXT"
      else if atomName.data.getD 1 NUL = 'W' ∧
          (atomName.data.getD 0 NUL = 'O' ∨ atomName.data.getD 0 NUL = 'H') then
        String.mk (atomName.data.take 1)
      else atomName := by
  unfold canonicalAtomName
  simp only
  rw [if_neg h]

/-- The name stored for atom `atomI` is the rewriting of its name with the
residue pointer that iteration `atomI` leaves. -/
theorem getTinkerBiotypes_tinkerAtomName_at (DefaultReturn : Int) (NotSet : String) (A : Int)
    (numberOfAtoms : Int) (top : t_topology) (tinkerAtomNames tinkerResidueNames : List String)
    (tinkerBiotypes : List Int) (statics : Statics) (r : Int × TinkerScan × Statics)
    (h : getTinkerBiotypes DefaultReturn NotSet A numberOfAtoms top tinkerAtomNames
      tinkerResidueNames tinkerBiotypes statics = some r)
    (atomI : Nat) (hi : (atomI : Int) < numberOfAtoms) (atomName : String)
    (hname : top.atoms.atomname[atomI]? = some atomName) :
    ∃ s', getTinkerBiotypesLoop NotSet A numberOfAtoms top tinkerAtomNames
        tinkerResidueNames tinkerBiotypes statics (atomI + 1) = some s' ∧
      (atomI = 0 → s'.1.residueI = 0) ∧
      r.2.1.tinkerAtomNames[atomI]? = some (canonicalAtomName s'.1.residueI atomName) := by
  obtain ⟨s, s', hs, hs', hlen, g1, _, _⟩ :=
    getTinkerBiotypes_output_at _ _ _ _ _ _ _ _ _ _ h atomI hi
  obtain ⟨name', scan₁, hn', _, e1, _, _, o1⟩ :=
    getTinkerBiotypesLoop_iteration _ _ _ _ _ _ _ _ _ _ _ hs hs'
  rw [hname, Option.some.injEq] at hn'
  subst hn'
  refine ⟨s', hs', fun h0 => ?_, ?_⟩
  · subst h0
    exact ((getTinkerBiotypesLoop_pointer _ _ _ _ _ _ _ _ 0 s s' hs hs').2.2.2.2.2 rfl).2
  · rw [g1, o1, List.getElem?_set_self hlen, e1]

/-- C28, as stated, fails: in the first residue the atom name `H11` is stored
as `HN1`, its second character rewritten although the name is none of `H1`,
`H2`, `H3`. -/
theorem h11_is_rewritten :
    (getTinkerBiotypes 0 "NotSet" 0 1
      { atoms := { atomname := ["H11"], resname := ["ALA"] } } [] [] [] {}).map
        (fun r => r.2.1.tinkerAtomNames[0]?) = some (some "HN1") ∧
    "HN1" ≠ "H11" := by
  obtain ⟨r, hr⟩ := getTinkerBiotypes_returns 0 "NotSet" 0 1
    { atoms := { atomname := ["H11"], resname := ["ALA"] } } [] [] [] {}
    (by decide) (by decide) (by decide)
  obtain ⟨s', _, h0, hstored⟩ := getTinkerBiotypes_tinkerAtomName_at 0 "NotSet" 0 1
    { atoms := { atomname := ["H11"], resname := ["ALA"] } } [] [] [] {} r hr 0 (by decide)
    "H11" rfl
  rw [h0 rfl] at hstored
  refine ⟨?_, by decide⟩
  rw [hr, Option.map_some', hstored]
  rfl

/-- C28, amended: the second character of an atom name is rewritten to `N`
exactly when the residue pointer is 0, the first character is `H` and the
second is `1`, `2` or `3`; the other characters are kept, so that `H1`, `H2`
and `H3` give `HN` and `H11` gives `HN1`; every other name, and every name in
a later residue, is stored as the two other rules leave it. -/
theorem amine_hydrogen_rule (DefaultReturn : Int) (NotSet : String) (AmberForceField : Int)
    (numberOfAtoms : Int) (top : t_topology) (tinkerAtomNames tinkerResidueNames : List String)
    (tinkerBiotypes : List Int) (statics : Statics) (r : Int × TinkerScan × Statics)
    (h : getTinkerBiotypes DefaultReturn NotSet AmberForceField numberOfAtoms top
      tinkerAtomNames tinkerResidueNames tinkerBiotypes statics = some r)
    (atomI : Nat) (hi : (atomI : Int) < numberOfAtoms) (atomName : String)
    (hname : top.atoms.atomname[atomI]? = some atomName) :
    ∃ s', getTinkerBiotypesLoop NotSet AmberForceField numberOfAtoms top tinkerAtomNames
        tinkerResidueNames tinkerBiotypes statics (atomI + 1) = some s' ∧
      (atomI = 0 → s'.1.residueI = 0) ∧
      ((s'.1.residueI = 0 ∧ atomName.data.getD 0 NUL = 'H' ∧
          (atomName.data.getD 1 NUL = '1' ∨ atomName.data.getD 1 NUL = '2' ∨
            atomName.data.getD 1 NUL = '3')) →
        r.2.1.tinkerAtomNames[atomI]? = some (String.mk (atomName.data.set 1 'N'))) ∧
      (¬ (s'.1.residueI = 0 ∧ atomName.data.getD 0 NUL = 'H' ∧
          (atomName.data.getD 1 NUL = '1' ∨ atomName.data.getD 1 NUL = '2' ∨
            atomName.data.getD 1 NUL = '3')) →
        r.2.1.tinkerAtomNames[atomI]? = some
          (if atomName.data.getD 0 NUL = 'O' ∧ atomName.data.getD 1 NUL = 'C' then "OXT"
          else if atomName.data.getD 1 NUL = 'W' ∧
              (atomName.data.getD 0 NUL = 'O' ∨ atomName.data.getD 0 NUL = 'H') then
            String.mk (atomName.data.take 1)
          else atomName)) := by
  obtain ⟨s', hs', h0, hstored⟩ := getTinkerBiotypes_tinkerAtomName_at DefaultReturn NotSet
    AmberForceField numberOfAtoms top tinkerAtomNames tinkerResidueNames tinkerBiotypes statics
    r h atomI hi atomName hname
  refine ⟨s', hs', h0, fun hc => ?_, fun hc => ?_⟩
  · rw [hstored, canonicalAtomName_of_amine _ _ hc]
  · rw [hstored, canonicalAtomName_of_not_amine _ _ hc]

/-- Witness of C28 amended: the atoms `H1`, `H11`, `HA`, `H1` of two
residues; `H1` of the first residue is stored as `HN`. -/
theorem amine_hydrogen_rule_witness :
    ∃ r, getTinkerBiotypes 0 "NotSet" 0 4
        { atoms := { atomname := ["H1", "H11", "HA", "H1"], resname := ["NALA", "GLY", "SER", "VAL"] } }
        [] [] [] {} = some r ∧
      r.2.1.tinkerAtomNames[0]? = some "HN" :=
  (getTinkerBiotypes_returns 0 "NotSet" 0 4
    { atoms := { atomname := ["H1", "H11", "HA", "H1"], resname := ["NALA", "GLY", "SER", "VAL"] } }
    [] [] [] {} (by decide) (by decide) (by decide)).elim fun r hr =>
  (amine_hydrogen_rule 0 "NotSet" 0 4
    { atoms := { atomname := ["H1", "H11", "HA", "H1"], resname := ["NALA", "GLY", "SER", "VAL"] } }
    [] [] [] {} r hr 0 (by decide) "H1" rfl).elim fun _ hs' =>
  ⟨r, hr, hs'.2.2.1 ⟨hs'.2.1 rfl, by decide, by decide⟩⟩

/-! ## The rule for the solvent atoms -/

theorem canonicalAtomName_of_W (residueI : Int) (atomName : String) (c0 : Char)
    (rest : List Char) (hdata : atomName.data = c0 :: 'W' :: rest)
    (hc0 : c0 = 'O' ∨ c0 = 'H') :
    canonicalAtomName residueI atomName = String.mk [c0] := by
  unfold canonicalAtomName
  rw [hdata]
  simp only [List.getD_cons_zero, List.getD_cons_succ]
  have h1 : ¬ (c0 = 'O' ∧ 'W' = 'C') := fun h => absurd h.2 (by decide)
  have h2 : ¬ (residueI = 0 ∧ c0 = 'H' ∧ ('W' = '1' ∨ 'W' = '2' ∨ 'W' = '3')) :=
    fun h => absurd h.2.2 (by decide)
  have h3 : True ∧ (c0 = 'O' ∨ c0 = 'H') := ⟨trivial, hc0⟩
  rw [if_neg h1, if_neg h2, if_pos h3]
  rfl

/-- C29: for every atom whose name has `O` or `H` as first character and `W`
as second, in any residue and at any position of the scan,
`getTinkerBiotypes` stores the one-character name made of the first character
in `tinkerAtomNames`, and the biotype stored is the one the lookup with its
retry returns for that one-character name in the residue of the atom; neither
of the two rules tested before applies to such a name. -/
theorem solvent_atoms_are_cut (DefaultReturn : Int) (NotSet : String) (AmberForceField : Int)
    (numberOfAtoms : Int) (top : t_topology) (tinkerAtomNames tinkerResidueNames : List String)
    (tinkerBiotypes : List Int) (statics : Statics) (r : Int × TinkerScan × Statics)
    (h : getTinkerBiotypes DefaultReturn NotSet AmberForceField numberOfAtoms top
      tinkerAtomNames tinkerResidueNames tinkerBiotypes statics = some r)
    (atomI : Nat) (hi : (atomI : Int) < numberOfAtoms) (atomName : String)
    (hname : top.atoms.atomname[atomI]? = some atomName)
    (c0 : Char) (rest : List Char) (hdata : atomName.data = c0 :: 'W' :: rest)
    (hc0 : c0 = 'O' ∨ c0 = 'H') :
    r.2.1.tinkerAtomNames[atomI]? = some (String.mk [c0]) ∧
    ∃ (residueName : String) (bioType : Int) (statics' : Statics),
      r.2.1.tinkerResidueNames[atomI]? = some residueName ∧
      biotypeWithRetry NotSet AmberForceField residueName
        (getTinkerBiotypeResidueNameGivenGromacsResidueName NotSet residueName statics).1
        (String.mk [c0]) statics = some (bioType, statics') ∧
      r.2.1.tinkerBiotypes[atomI]? = some bioType := by
  obtain ⟨_, hp⟩ := getTinkerBiotypes_eq_some _ _ _ _ _ _ _ _ _ _ h
  obtain ⟨name', before, scan₁, bioType, hn, _, hbio, htr, o1, o2, o3⟩ :=
    tinkerScanPure_at _ _ _ _ _ _ _ _ _ hp atomI hi
  rw [hname, Option.some.injEq] at hn
  subst hn
  rw [canonicalAtomName_of_W _ _ c0 rest hdata hc0] at o1 hbio
  refine ⟨o1, scan₁.residueName, bioType, ?_⟩
  rw [getTinkerBiotypeResidueName_eq]
  rw [htr] at hbio
  obtain ⟨statics', hs'⟩ := biotypeWithRetry_of_pure _ _ _ _ _ _ _ hbio
  exact ⟨statics', o2, hs', o3⟩

/-- Witness of C29: a water molecule; `HW1` is stored as `H`. -/
theorem solvent_atoms_are_cut_witness :
    ∃ r, getTinkerBiotypes 0 "NotSet" 0 3
        { atoms := { atomname := ["OW", "HW1", "HW2"], resname := ["SOL", "SOL", "SOL"] } }
        [] [] [] {} = some r ∧
      "HW1".data = 'H' :: 'W' :: ['1'] ∧
      r.2.1.tinkerAtomNames[1]? = some "H" :=
  (getTinkerBiotypes_returns 0 "NotSet" 0 3
    { atoms := { atomname := ["OW", "HW1", "HW2"], resname := ["SOL", "SOL", "SOL"] } }
    [] [] [] {} (by decide) (by decide) (by decide)).elim fun r hr =>
  ⟨r, hr, rfl,
    (solvent_atoms_are_cut 0 "NotSet" 0 3
      { atoms := { atomname := ["OW", "HW1", "HW2"], resname := ["SOL", "SOL", "SOL"] } }
      [] [] [] {} r hr 1 (by decide) "HW1" rfl 'H' ['1'] rfl (Or.inr rfl)).1⟩

/-! ## Names that end with two digits -/

theorem foldl_mapAssign_key (rows : List (String × String)) :
    ∀ (map : StringIntMap) (key : String) (v : Int),
      (rows.foldl (fun map row => mapAssign map row.1 (atoi row.2)) map) key = some v →
      map key = some v ∨ ∃ row ∈ rows, row.1 = key := by
  induction rows with
  | nil => exact fun map key v h => Or.inl h
  | cons row rows ih =>
    intro map key v h
    rw [List.foldl_cons] at h
    rcases ih _ key v h with h1 | ⟨row', hmem, hkey⟩
    · unfold mapAssign at h1
      by_cases hk : key = row.1
      · exact Or.inr ⟨row, List.mem_cons_self _ _, hk.symm⟩
      · rw [if_neg hk] at h1
        exact Or.inl h1
    · exact Or.inr ⟨row', List.mem_cons_of_mem _ hmem, hkey⟩

set_option maxRecDepth 1000000 in
theorem amberNameMap_no_W :
    amberNameMap.all (fun row => !underscoreThenW row.1.data) = true := by
  decide

set_option maxRecDepth 1000000 in
theorem amoebaNameMap_no_W :
    amoebaNameMap.all (fun row => !underscoreThenW row.1.data) = true := by
  decide

/-- No key of the two tables has an atom name whose second character is
`W`. -/
theorem biotypeMap_key_no_W (key : String) (v : Int)
    (h : amberBiotypeMap key = some v ∨ amoebaBiotypeMap key = some v) :
    underscoreThenW key.data = false := by
  rcases h with h | h
  · rcases foldl_mapAssign_key amberNameMap mapEmpty key v h with h0 | ⟨row, hmem, hkey⟩
    · cases h0
    · have := List.all_eq_true.mp amberNameMap_no_W row hmem
      rw [← hkey]
      simpa using this
  · rcases foldl_mapAssign_key amoebaNameMap mapEmpty key v h with h0 | ⟨row, hmem, hkey⟩
    · cases h0
    · have := List.all_eq_true.mp amoebaNameMap_no_W row hmem
      rw [← hkey]
      simpa using this

theorem underscoreThenW_append (p : List Char) (c : Char) (rest : List Char) :
    underscoreThenW (p ++ '_' :: c :: 'W' :: rest) = true := by
  induction p with
  | nil => simp [underscoreThenW]
  | cons x p ih =>
    rw [List.cons_append, underscoreThenW, ih]
    simp

theorem takeWhile_of_nul (l r : List Char) (h : ∀ c ∈ l, c ≠ NUL) :
    (l ++ NUL :: r).takeWhile (fun c => c ≠ NUL) = l := by
  induction l with
  | nil => simp [List.takeWhile]
  | cons x l ih =>
    have hx : x ≠ NUL := h x (List.mem_cons_self _ _)
    rw [List.cons_append, List.takeWhile_cons]
    simp only [ne_eq, hx, not_false_eq_true, decide_True, if_true]
    rw [ih (fun c hc => h c (List.mem_cons_of_mem _ hc))]

/-- The string left in the buffer of a name without `NUL` once its last
character has been overwritten by the terminator: the name without its last
character. -/
theorem cString_set_last (chars : List Char) (h : ∀ c ∈ chars, c ≠ NUL)
    (hpos : 0 < chars.length) :
    cString ((chars ++ [NUL]).set (chars.length - 1) NUL) = String.mk chars.dropLast := by
  unfold cString
  have hlt : chars.length - 1 < (chars ++ [NUL]).length := by
    rw [List.length_append, List.length_singleton]
    omega
  rw [List.set_eq_take_cons_drop NUL hlt, List.take_append_of_le_length (by omega),
    ← List.dropLast_eq_take]
  rw [takeWhile_of_nul _ _ (fun c hc => h c (List.mem_of_mem_dropLast hc))]

theorem twoDigitRule_of_digits (localAtomName : List Char) (lastChar : Nat) (c d : Char)
    (h2 : lastChar > 2) (hc : localAtomName[lastChar]? = some c) (hcd : c.isDigit = true)
    (hd : localAtomName[lastChar - 1]? = some d) (hdd : d.isDigit = true) :
    twoDigitRule localAtomName lastChar = some (localAtomName.set lastChar NUL, lastChar - 1) := by
  unfold twoDigitRule
  simp only [h2, if_true, hc, hcd, hd, hdd, Option.bind_eq_bind, Option.some_bind]

/-- The second probe of the cascade, for a buffer that neither the rule for
`H` nor the rule for `W` changes: a hit is returned. -/
theorem lookupModifiedName_of_hit (nameMap : StringIntMap) (tinkerResidueName : String)
    (localAtomName : List Char) (lastChar : Nat) (c0 c1 : Char) (v : Int)
    (h0 : localAtomName[0]? = some c0) (hl : lastChar ≠ 0)
    (h1 : localAtomName[1]? = some c1) (hW : c1 ≠ 'W')
    (hhit : nameMap (tinkerResidueName ++ "_" ++ cString localAtomName) = some v) :
    lookupModifiedName nameMap tinkerResidueName localAtomName lastChar = some v := by
  unfold lookupModifiedName
  have hH : ¬ (c0 = 'H' ∧ lastChar = 0 ∧ tinkerResidueName ≠ "AMOEBA_Water") :=
    fun h => hl h.2.1
  have hp : lastChar > 0 := by omega
  simp only [h0, Option.bind_eq_bind, Option.some_bind, if_neg hH, if_pos hp, h1, hW,
    decide_False, Bool.false_eq_true, if_false, hhit]

/-- The cascade on a name of at least four characters that ends with two
digits and whose second character is not `W`: after a miss of the direct
probe, a hit of the probe without the last character is returned. -/
theorem lookupBiotype_two_digits (nameMap : StringIntMap)
    (tinkerResidueName tinkerAtomName : String) (v : Int)
    (hnul : ∀ c ∈ tinkerAtomName.data, c ≠ NUL)
    (hlen : 4 ≤ tinkerAtomName.length) (hfit : tinkerAtomName.length < 4294967296)
    (hd1 : (tinkerAtomName.data.getD (tinkerAtomName.length - 1) NUL).isDigit = true)
    (hd2 : (tinkerAtomName.data.getD (tinkerAtomName.length - 2) NUL).isDigit = true)
    (hW : tinkerAtomName.data.getD 1 NUL ≠ 'W')
    (hmiss : nameMap (tinkerResidueName ++ "_" ++ tinkerAtomName) = none)
    (hhit : nameMap (tinkerResidueName ++ "_" ++ String.mk tinkerAtomName.data.dropLast)
      = some v) :
    lookupBiotype nameMap tinkerResidueName tinkerAtomName = some v := by
  rw [lookupBiotype_eq, hmiss]
  simp only
  have hn : tinkerAtomName.data.length = tinkerAtomName.length := rfl
  have hlast : (tinkerAtomName.length + 4294967296 - 1) % 4294967296
      = tinkerAtomName.data.length - 1 := by
    rw [hn]
    omega
  rw [hlast]
  have hget : ∀ i, i < tinkerAtomName.data.length →
      (tinkerAtomName.data ++ [NUL])[i]? = some (tinkerAtomName.data.getD i NUL) := by
    intro i hi
    rw [List.getElem?_append_left hi, List.getD_eq_getElem?_getD,
      List.getElem?_eq_getElem hi]
    rfl
  have e1 := hget (tinkerAtomName.data.length - 1) (by omega)
  have e2 := hget (tinkerAtomName.data.length - 1 - 1) (by omega)
  rw [twoDigitRule_of_digits _ _ _ _ (by omega) e1 (by rw [hn]; exact hd1) e2
    (by rw [show tinkerAtomName.data.length - 1 - 1 = tinkerAtomName.length - 2 from by omega]
        exact hd2)]
  rw [Option.some_bind]
  have g0 : ((tinkerAtomName.data ++ [NUL]).set (tinkerAtomName.data.length - 1) NUL)[0]?
      = some (tinkerAtomName.data.getD 0 NUL) := by
    rw [List.getElem?_set_ne (by omega)]
    exact hget 0 (by omega)
  have g1 : ((tinkerAtomName.data ++ [NUL]).set (tinkerAtomName.data.length - 1) NUL)[1]?
      = some (tinkerAtomName.data.getD 1 NUL) := by
    rw [List.getElem?_set_ne (by omega)]
    exact hget 1 (by omega)
  exact lookupModifiedName_of_hit nameMap tinkerResidueName _ _ _ _ v g0 (by omega) g1 hW
    (by rw [cString_set_last _ hnul (by omega)]; exact hhit)

theorem biotypeMap_cases (A : Int) (statics : Statics)
    (hdict : statics.residueAtomNameBiotypeMap = none ∨
      statics.residueAtomNameBiotypeMap = some amberBiotypeMap ∨
      statics.residueAtomNameBiotypeMap = some amoebaBiotypeMap) :
    statics.biotypeMap A = amberBiotypeMap ∨ statics.biotypeMap A = amoebaBiotypeMap := by
  unfold Statics.biotypeMap getTinkerResidueAtomNameBiotypeMap
  rcases hdict with h | h | h
  · rw [h]
    simp only [if_true, true_or]
  · rw [h]
    simp only [true_or]
  · rw [h]
    simp only [or_true]

theorem underscoreThenW_of_second_W (tinkerResidueName tinkerAtomName : String)
    (hlen : 4 ≤ tinkerAtomName.length) (hw : tinkerAtomName.data.getD 1 NUL = 'W') :
    underscoreThenW
      (tinkerResidueName ++ "_" ++ String.mk tinkerAtomName.data.dropLast).data = true := by
  rcases tinkerAtomName with ⟨l⟩
  match l, hlen, hw with
  | c0 :: c1 :: c2 :: c3 :: rest, _, hw =>
    have hc1 : c1 = 'W' := hw
    have hdata :
        (tinkerResidueName ++ "_" ++ String.mk (c0 :: c1 :: c2 :: c3 :: rest).dropLast).data
        = tinkerResidueName.data ++ '_' :: c0 :: 'W' :: (c2 :: c3 :: rest).dropLast := by
      rw [String.data_append, String.data_append, hc1, List.append_assoc]
      rfl
    rw [hdata, underscoreThenW_append]

/-- A key of the two tables that is a residue name, `_` and an atom name
without its last character: the second character of the atom name is not
`W`. -/
theorem key_without_last_no_W (tinkerResidueName tinkerAtomName : String) (v : Int)
    (hlen : 4 ≤ tinkerAtomName.length)
    (hhit : amberBiotypeMap
        (tinkerResidueName ++ "_" ++ String.mk tinkerAtomName.data.dropLast) = some v ∨
      amoebaBiotypeMap
        (tinkerResidueName ++ "_" ++ String.mk tinkerAtomName.data.dropLast) = some v) :
    tinkerAtomName.data.getD 1 NUL ≠ 'W' := by
  intro hw
  have hkey := biotypeMap_key_no_W _ v hhit
  rw [underscoreThenW_of_second_W tinkerResidueName tinkerAtomName hlen hw] at hkey
  cases hkey

/-- C30: for a Tinker residue name `R` and an atom name `a` of at least four
characters whose last two characters are digits, if `R_a` is not a key of the
dictionary and `R_a'` is, where `a'` is `a` without its last character, then
`getBiotypeGivenResidueAtomNames( R, a )` returns the dictionary value of
`R_a'`. The dictionary is the one the singleton holds or builds: the Amber
table or the Amoeba table. The name has no `NUL` and fits `localAtomName`. -/
theorem two_digit_name_drops_last_digit (AmberForceField : Int)
    (tinkerResidueName tinkerAtomName : String) (statics : Statics) (v : Int)
    (hdict : statics.residueAtomNameBiotypeMap = none ∨
      statics.residueAtomNameBiotypeMap = some amberBiotypeMap ∨
      statics.residueAtomNameBiotypeMap = some amoebaBiotypeMap)
    (hnul : ∀ c ∈ tinkerAtomName.data, c ≠ NUL)
    (hlen : 4 ≤ tinkerAtomName.length) (hfit : tinkerAtomName.length < 256)
    (hd1 : (tinkerAtomName.data.getD (tinkerAtomName.length - 1) NUL).isDigit = true)
    (hd2 : (tinkerAtomName.data.getD (tinkerAtomName.length - 2) NUL).isDigit = true)
    (hmiss : statics.biotypeMap AmberForceField
      (tinkerResidueName ++ "_" ++ tinkerAtomName) = none)
    (hhit : statics.biotypeMap AmberForceField
      (tinkerResidueName ++ "_" ++ String.mk tinkerAtomName.data.dropLast) = some v) :
    (getBiotypeGivenResidueAtomNames AmberForceField tinkerResidueName tinkerAtomName
      statics).map Prod.fst = some v := by
  have hW : tinkerAtomName.data.getD 1 NUL ≠ 'W' := by
    rcases biotypeMap_cases AmberForceField statics hdict with h | h
    · exact key_without_last_no_W tinkerResidueName tinkerAtomName v hlen
        (Or.inl (by rw [← h]; exact hhit))
    · exact key_without_last_no_W tinkerResidueName tinkerAtomName v hlen
        (Or.inr (by rw [← h]; exact hhit))
  rw [getBiotypeGivenResidueAtomNames_eq,
    lookupBiotype_two_digits _ _ _ v hnul hlen (by omega) hd1 hd2 hW hmiss hhit]
  rfl

set_option maxRecDepth 1000000 in
theorem two_digit_name_drops_last_digit_witness :
    (getBiotypeGivenResidueAtomNames 0 "Leucine" "HD12" {}).map Prod.fst = some 38 :=
  two_digit_name_drops_last_digit 0 "Leucine" "HD12" {} 38 (Or.inl rfl) (by decide)
    (by decide) (by decide) (by decide) (by decide) (by decide) (by decide)

/-! ## The cascade in closed form: lemmas -/

theorem lookupModifiedName_eq (nameMap : StringIntMap) (tinkerResidueName : String)
    (localAtomName : List Char) (lastChar : Nat) :
    lookupModifiedName nameMap tinkerResidueName localAtomName lastChar =
      (modifiedBuffer tinkerResidueName localAtomName lastChar).bind
        fun buffer => lastProbes nameMap tinkerResidueName buffer lastChar := by
  unfold lookupModifiedName modifiedBuffer lastProbes
  simp only [Option.bind_eq_bind]
  cases h0 : localAtomName[0]? with
  | none => rfl
  | some c0 =>
    simp only [Option.some_bind]
    generalize (if c0 = 'H' ∧ lastChar = 0 ∧ tinkerResidueName ≠ "AMOEBA_Water" then
      bufferWrite (bufferWrite localAtomName 1 'N') 2 NUL else localAtomName) = L1
    by_cases hp : lastChar > 0
    · simp only [if_pos hp]
      cases L1[1]? with
      | none => rfl
      | some c => rfl
    · simp only [if_neg hp]
      rfl

theorem afterTwoDigitRule_ne_nil (name : List Char) (hne : name ≠ []) :
    afterTwoDigitRule name ≠ [] := by
  unfold afterTwoDigitRule
  by_cases h : endsWithTwoDigits name = true
  · rw [if_pos h]
    unfold endsWithTwoDigits at h
    simp only [Bool.and_eq_true, decide_eq_true_eq] at h
    intro hd
    have := congrArg List.length hd
    rw [List.length_dropLast] at this
    simp only [List.length_nil] at this
    omega
  · rw [if_neg h]
    exact hne

theorem afterTwoDigitRule_mem (name : List Char) (c : Char)
    (hc : c ∈ afterTwoDigitRule name) : c ∈ name := by
  unfold afterTwoDigitRule at hc
  by_cases h : endsWithTwoDigits name = true
  · rw [if_pos h] at hc
    exact List.mem_of_mem_dropLast hc
  · rw [if_neg h] at hc
    exact hc

/-- The two-digit rule on the buffer that `sprintf` fills with a name that is
not empty: the name left, its terminator, and the index of its last
character. -/
theorem twoDigitRule_of_name (name : List Char) (hne : name ≠ [])
    (hlen : name.length < 4294967296) :
    twoDigitRule (name ++ [NUL]) ((name.length + 4294967296 - 1) % 4294967296) =
      some (afterTwoDigitRule name ++ NUL :: (if endsWithTwoDigits name then [NUL] else []),
        (afterTwoDigitRule name).length - 1) := by
  have hpos : 0 < name.length := List.length_pos.mpr hne
  have hlast : (name.length + 4294967296 - 1) % 4294967296 = name.length - 1 := by omega
  rw [hlast]
  have hget : ∀ i, i < name.length → (name ++ [NUL])[i]? = some (name.getD i NUL) := by
    intro i hi
    rw [List.getElem?_append_left hi, List.getD_eq_getElem?_getD, List.getElem?_eq_getElem hi]
    rfl
  unfold twoDigitRule afterTwoDigitRule endsWithTwoDigits
  rw [hget (name.length - 1) (by omega), hget (name.length - 1 - 1) (by omega)]
  simp only [Option.bind_eq_bind]
  by_cases h2 : name.length - 1 > 2
  · by_cases h3 : (name.getD (name.length - 1) NUL).isDigit = true
    · by_cases h4 : (name.getD (name.length - 1 - 1) NUL).isDigit = true
      · simp only [h2, h3, h4, if_true, Option.some_bind, decide_True, Bool.and_self]
        have hlt : name.length - 1 < (name ++ [NUL]).length := by
          rw [List.length_append, List.length_singleton]
          omega
        rw [List.set_eq_take_cons_drop NUL hlt, List.take_append_of_le_length (by omega),
          ← List.dropLast_eq_take, List.length_dropLast]
        have hdrop : List.drop (name.length - 1 + 1) (name ++ [NUL]) = [NUL] := by
          rw [show name.length - 1 + 1 = name.length from by omega]
          exact List.drop_left _ _
        rw [hdrop]
      · simp only [h2, h3, h4, if_true, Option.some_bind, decide_True, Bool.and_false,
          Bool.false_eq_true, if_false]
    · simp only [h2, h3, if_true, Option.some_bind, decide_True, Bool.and_false,
        Bool.false_eq_true, if_false, Bool.true_and, Bool.false_and]
  · simp only [h2, if_false, Option.some_bind, decide_False, Bool.false_and,
      Bool.false_eq_true]

theorem modifiedBuffer_of_H (tinkerResidueName : String) (t : List Char)
    (hR : tinkerResidueName ≠ "AMOEBA_Water") :
    modifiedBuffer tinkerResidueName ('H' :: NUL :: t) 0 = some ('H' :: 'N' :: NUL :: t.drop 1) := by
  unfold modifiedBuffer
  cases t with
  | nil => simp [hR, bufferWrite]
  | cons x t => simp [hR, bufferWrite]

theorem modifiedBuffer_of_W (tinkerResidueName : String) (c0 : Char) (rest : List Char)
    (lastChar : Nat) (hl : lastChar > 0) (hrest : rest ≠ []) :
    modifiedBuffer tinkerResidueName (c0 :: 'W' :: rest) lastChar
      = some (c0 :: 'W' :: NUL :: rest.drop 1) := by
  unfold modifiedBuffer
  have hH : ¬ (c0 = 'H' ∧ lastChar = 0 ∧ tinkerResidueName ≠ "AMOEBA_Water") :=
    fun h => by omega
  cases rest with
  | nil => exact absurd rfl hrest
  | cons x rest => simp [hH, hl, bufferWrite]

theorem modifiedBuffer_of_plain (tinkerResidueName : String) (localAtomName : List Char)
    (lastChar : Nat) (c0 : Char) (h0 : localAtomName[0]? = some c0)
    (hH : ¬ (c0 = 'H' ∧ lastChar = 0 ∧ tinkerResidueName ≠ "AMOEBA_Water"))
    (hW : lastChar > 0 → ∃ c1, localAtomName[1]? = some c1 ∧ c1 ≠ 'W') :
    modifiedBuffer tinkerResidueName localAtomName lastChar = some localAtomName := by
  unfold modifiedBuffer
  simp only [h0, Option.bind_eq_bind, Option.some_bind, if_neg hH]
  by_cases hp : lastChar > 0
  · obtain ⟨c1, h1, hc1⟩ := hW hp
    simp only [if_pos hp, h1, hc1, decide_False, Option.some_bind, Bool.false_eq_true, if_false]
  · simp only [if_neg hp, Option.some_bind, Bool.false_eq_true, if_false]

theorem cString_append_nul (name t : List Char) (hnul : ∀ c ∈ name, c ≠ NUL) :
    cString (name ++ NUL :: t) = String.mk name := by
  unfold cString
  rw [takeWhile_of_nul name t hnul]

/-- The string left in a buffer when the last character of the name it holds
is overwritten by the terminator. -/
theorem cString_set_last_append (name t : List Char) (hnul : ∀ c ∈ name, c ≠ NUL)
    (hpos : 0 < name.length) :
    cString ((name ++ NUL :: t).set (name.length - 1) NUL) = String.mk name.dropLast := by
  have hlt : name.length - 1 < (name ++ NUL :: t).length := by
    rw [List.length_append]
    omega
  rw [List.set_eq_take_cons_drop NUL hlt, List.take_append_of_le_length (by omega),
    ← List.dropLast_eq_take]
  exact cString_append_nul _ _ (fun c hc => hnul c (List.mem_of_mem_dropLast hc))

theorem lastProbes_of_HN (nameMap : StringIntMap) (tinkerResidueName : String)
    (t : List Char) :
    lastProbes nameMap tinkerResidueName ('H' :: 'N' :: NUL :: t) 0 =
      some ((nameMap (tinkerResidueName ++ "_" ++ "HN")).getD (-1)) := by
  have hc : cString ('H' :: 'N' :: NUL :: t) = "HN" :=
    cString_append_nul ['H', 'N'] t (by decide)
  unfold lastProbes
  rw [hc]
  cases nameMap (tinkerResidueName ++ "_" ++ "HN") with
  | some v => rfl
  | none => rfl

theorem lastProbes_of_W (nameMap : StringIntMap) (tinkerResidueName : String)
    (c0 : Char) (t : List Char) (lastChar : Nat) (hc0 : c0 ≠ NUL)
    (hl : lastChar < (c0 :: 'W' :: NUL :: t).length) (hpos : lastChar > 0) :
    lastProbes nameMap tinkerResidueName (c0 :: 'W' :: NUL :: t) lastChar =
      some ((nameMap (tinkerResidueName ++ "_" ++ String.mk [c0, 'W'])).getD (-1)) := by
  have hnul : ∀ c ∈ [c0, 'W'], c ≠ NUL := by
    intro c hc
    rcases List.mem_cons.mp hc with h | h
    · rw [h]
      exact hc0
    · rw [List.mem_singleton.mp h]
      decide
  have hc : cString (c0 :: 'W' :: NUL :: t) = String.mk [c0, 'W'] :=
    cString_append_nul [c0, 'W'] t hnul
  unfold lastProbes
  rw [hc]
  cases hm : nameMap (tinkerResidueName ++ "_" ++ String.mk [c0, 'W']) with
  | some v => rfl
  | none =>
    simp only [Option.getD_none]
    rw [List.getElem?_eq_getElem hl]
    simp only
    by_cases hd : (c0 :: 'W' :: NUL :: t)[lastChar].isDigit = true
    · rw [if_pos hd]
      have h2 : 2 ≤ lastChar := by
        by_contra hlt
        have h1 : lastChar = 1 := by omega
        subst h1
        have hW : Char.isDigit 'W' = false := by decide
        rw [show (c0 :: 'W' :: NUL :: t)[1] = 'W' from rfl, hW] at hd
        cases hd
      obtain ⟨k, hk⟩ : ∃ k, lastChar = k + 2 := ⟨lastChar - 2, by omega⟩
      subst hk
      have hs : cString ((c0 :: 'W' :: NUL :: t).set (k + 2) NUL) = String.mk [c0, 'W'] := by
        cases k with
        | zero => exact cString_append_nul [c0, 'W'] t hnul
        | succ k => exact cString_append_nul [c0, 'W'] (t.set k NUL) hnul
      rw [hs, hm]
    · rw [if_neg hd]

/-- The two last probes on the buffer that holds a name none of the rules has
changed. -/
theorem lastProbes_of_name (nameMap : StringIntMap) (tinkerResidueName : String)
    (name t : List Char) (hne : name ≠ []) (hnul : ∀ c ∈ name, c ≠ NUL) :
    lastProbes nameMap tinkerResidueName (name ++ NUL :: t) (name.length - 1) =
      some (match nameMap (tinkerResidueName ++ "_" ++ String.mk name) with
        | some biotype => biotype
        | none =>
          if (name.getD (name.length - 1) NUL).isDigit then
            (nameMap (tinkerResidueName ++ "_" ++ String.mk name.dropLast)).getD (-1)
          else -1) := by
  have hpos : 0 < name.length := List.length_pos.mpr hne
  unfold lastProbes
  rw [cString_append_nul name t hnul, cString_set_last_append name t hnul hpos]
  have hget : (name ++ NUL :: t)[name.length - 1]? = some (name.getD (name.length - 1) NUL) := by
    have hi : name.length - 1 < name.length := by omega
    rw [List.getElem?_append_left hi, List.getD_eq_getElem?_getD, List.getElem?_eq_getElem hi]
    rfl
  rw [hget]
  cases nameMap (tinkerResidueName ++ "_" ++ String.mk name) with
  | some v => rfl
  | none =>
    simp only
    by_cases hd : (name.getD (name.length - 1) NUL).isDigit = true
    · rw [if_pos hd, if_pos hd]
      cases nameMap (tinkerResidueName ++ "_" ++ String.mk name.dropLast) with
      | some v => rfl
      | none => rfl
    · rw [if_neg hd, if_neg hd]

/-- The cascade after the two-digit rule, on the buffer that holds a name
without terminator: the three cases of the rules for `H` and `W`. -/
theorem lookupModifiedName_of_name (nameMap : StringIntMap) (tinkerResidueName : String)
    (name t : List Char) (hne : name ≠ []) (hnul : ∀ c ∈ name, c ≠ NUL) :
    lookupModifiedName nameMap tinkerResidueName (name ++ NUL :: t) (name.length - 1) =
      some (if name = ['H'] ∧ tinkerResidueName ≠ "AMOEBA_Water" then
          (nameMap (tinkerResidueName ++ "_" ++ "HN")).getD (-1)
        else if name.getD 1 NUL = 'W' then
          (nameMap (tinkerResidueName ++ "_" ++ String.mk (name.take 2))).getD (-1)
        else
          match nameMap (tinkerResidueName ++ "_" ++ String.mk name) with
          | some biotype => biotype
          | none =>
            if (name.getD (name.length - 1) NUL).isDigit then
              (nameMap (tinkerResidueName ++ "_" ++ String.mk name.dropLast)).getD (-1)
            else -1) := by
  rw [lookupModifiedName_eq]
  by_cases hH : name = ['H'] ∧ tinkerResidueName ≠ "AMOEBA_Water"
  · rw [if_pos hH]
    obtain ⟨hn, hR⟩ := hH
    subst hn
    show (modifiedBuffer tinkerResidueName ('H' :: NUL :: t) 0).bind _ = _
    rw [modifiedBuffer_of_H _ _ hR, Option.some_bind]
    exact lastProbes_of_HN nameMap tinkerResidueName _
  · rw [if_neg hH]
    by_cases hW : name.getD 1 NUL = 'W'
    · rw [if_pos hW]
      rcases name with _ | ⟨c0, _ | ⟨c1, rest⟩⟩
      · exact absurd rfl hne
      · exact absurd (show NUL = 'W' from hW) (by decide)
      · have hc1 : c1 = 'W' := hW
        subst hc1
        have hc0 : c0 ≠ NUL := hnul c0 (List.mem_cons_self _ _)
        show (modifiedBuffer tinkerResidueName (c0 :: 'W' :: (rest ++ NUL :: t))
          (rest.length + 1)).bind
            (fun buffer => lastProbes nameMap tinkerResidueName buffer (rest.length + 1)) = _
        rw [modifiedBuffer_of_W _ _ _ _ (by omega) (by simp), Option.some_bind]
        exact lastProbes_of_W nameMap tinkerResidueName c0 ((rest ++ NUL :: t).drop 1)
          (rest.length + 1) hc0
          (by simp only [List.length_cons, List.length_drop, List.length_append]; omega)
          (by omega)
    · rw [if_neg hW]
      rcases name with _ | ⟨c0, rest⟩
      · exact absurd rfl hne
      · have hplain : modifiedBuffer tinkerResidueName ((c0 :: rest) ++ NUL :: t)
            ((c0 :: rest).length - 1) = some ((c0 :: rest) ++ NUL :: t) := by
          refine modifiedBuffer_of_plain _ _ _ c0 (by simp) ?_ ?_
          · rintro ⟨h1, h2, h3⟩
            have hr : rest = [] := by
              cases rest with
              | nil => rfl
              | cons x r => simp at h2
            exact hH ⟨by rw [h1, hr], h3⟩
          · intro hp
            cases rest with
            | nil => simp at hp
            | cons c1 r => exact ⟨c1, by simp, hW⟩
        rw [hplain, Option.some_bind]
        exact lastProbes_of_name nameMap tinkerResidueName (c0 :: rest) t hne hnul

/-- The value of the lookup by cases: for a name that is not empty, holds no
terminator and is missed by the direct probe, the lookup returns the value
of the closed form. -/
theorem lookupBiotype_eq_cascade (nameMap : StringIntMap)
    (tinkerResidueName tinkerAtomName : String) (hne : tinkerAtomName ≠ "")
    (hnul : ∀ c ∈ tinkerAtomName.data, c ≠ NUL) (hfit : tinkerAtomName.length < 4294967296)
    (hmiss : nameMap (tinkerResidueName ++ "_" ++ tinkerAtomName) = none) :
    lookupBiotype nameMap tinkerResidueName tinkerAtomName =
      some (cascadeAfterMiss nameMap tinkerResidueName tinkerAtomName.data) := by
  have hdata : tinkerAtomName.data ≠ [] := by
    intro h
    apply hne
    rcases tinkerAtomName with ⟨l⟩
    cases h
    rfl
  rw [lookupBiotype_eq, hmiss]
  simp only
  have hlen : tinkerAtomName.length = tinkerAtomName.data.length := rfl
  rw [hlen, twoDigitRule_of_name _ hdata (by rw [← hlen]; exact hfit), Option.some_bind]
  exact lookupModifiedName_of_name nameMap tinkerResidueName _ _
    (afterTwoDigitRule_ne_nil _ hdata)
    (fun c hc => hnul c (afterTwoDigitRule_mem _ c hc))

/-- The string of the second probe is the closed form `cascadeName`. -/
theorem modifiedAtomName_eq (tinkerResidueName tinkerAtomName : String)
    (hne : tinkerAtomName ≠ "") (hnul : ∀ c ∈ tinkerAtomName.data, c ≠ NUL)
    (hfit : tinkerAtomName.length < 4294967296) :
    modifiedAtomName tinkerResidueName tinkerAtomName =
      some (String.mk (cascadeName tinkerResidueName tinkerAtomName.data)) := by
  have hdata : tinkerAtomName.data ≠ [] := by
    intro h
    apply hne
    rcases tinkerAtomName with ⟨l⟩
    cases h
    rfl
  have hlen : tinkerAtomName.length = tinkerAtomName.data.length := rfl
  unfold modifiedAtomName cascadeName
  rw [hlen, twoDigitRule_of_name _ hdata (by rw [← hlen]; exact hfit), Option.some_bind]
  have hne1 := afterTwoDigitRule_ne_nil _ hdata
  have hnul1 : ∀ c ∈ afterTwoDigitRule tinkerAtomName.data, c ≠ NUL :=
    fun c hc => hnul c (afterTwoDigitRule_mem _ c hc)
  generalize afterTwoDigitRule tinkerAtomName.data = name at hne1 hnul1
  generalize (if endsWithTwoDigits tinkerAtomName.data = true then [NUL] else []) = t
  show (modifiedBuffer tinkerResidueName (name ++ NUL :: t) (name.length - 1)).map cString = _
  by_cases hH : name = ['H'] ∧ tinkerResidueName ≠ "AMOEBA_Water"
  · rw [if_pos hH]
    obtain ⟨hn, hR⟩ := hH
    subst hn
    show (modifiedBuffer tinkerResidueName ('H' :: NUL :: t) 0).map cString = _
    rw [modifiedBuffer_of_H _ _ hR, Option.map_some']
    exact congrArg some (cString_append_nul ['H', 'N'] _ (by decide))
  · rw [if_neg hH]
    by_cases hW : name.getD 1 NUL = 'W'
    · rw [if_pos hW]
      rcases name with _ | ⟨c0, _ | ⟨c1, rest⟩⟩
      · exact absurd rfl hne1
      · exact absurd (show NUL = 'W' from hW) (by decide)
      · have hc1 : c1 = 'W' := hW
        subst hc1
        have hc0 : c0 ≠ NUL := hnul1 c0 (List.mem_cons_self _ _)
        show (modifiedBuffer tinkerResidueName (c0 :: 'W' :: (rest ++ NUL :: t))
          (rest.length + 1)).map cString = _
        rw [modifiedBuffer_of_W _ _ _ _ (by omega) (by simp), Option.map_some']
        refine congrArg some (cString_append_nul [c0, 'W'] _ ?_)
        intro c hc
        rcases List.mem_cons.mp hc with h | h
        · rw [h]
          exact hc0
        · rw [List.mem_singleton.mp h]
          decide
    · rw [if_neg hW]
      rcases name with _ | ⟨c0, rest⟩
      · exact absurd rfl hne1
      · have hplain : modifiedBuffer tinkerResidueName ((c0 :: rest) ++ NUL :: t)
            ((c0 :: rest).length - 1) = some ((c0 :: rest) ++ NUL :: t) := by
          refine modifiedBuffer_of_plain _ _ _ c0 (by simp) ?_ ?_
          · rintro ⟨h1, h2, h3⟩
            have hr : rest = [] := by
              cases rest with
              | nil => rfl
              | cons x r => simp at h2
            exact hH ⟨by rw [h1, hr], h3⟩
          · intro hp
            cases rest with
            | nil => simp at hp
            | cons c1 r => exact ⟨c1, by simp, hW⟩
        rw [hplain, Option.map_some']
        exact congrArg some (cString_append_nul _ _ hnul1)

/-! ## The cascade on names that end with digits, on `H`, and on a second `W` -/

theorem getD_dropLast (l : List Char) (i : Nat) (h : i < l.length - 1) :
    l.dropLast.getD i NUL = l.getD i NUL := by
  rw [List.getD_eq_getElem?_getD, List.getD_eq_getElem?_getD, List.getElem?_dropLast, if_pos h]

theorem take_two_dropLast (l : List Char) (h : 3 ≤ l.length) :
    l.dropLast.take 2 = l.take 2 := by
  rw [List.dropLast_eq_take, List.take_take, Nat.min_eq_left (by omega)]

theorem endsWithTwoDigits_iff (name : List Char) :
    endsWithTwoDigits name = true ↔
      4 ≤ name.length ∧ (name.getD (name.length - 1) NUL).isDigit = true ∧
        (name.getD (name.length - 2) NUL).isDigit = true := by
  unfold endsWithTwoDigits
  simp only [Bool.and_eq_true, decide_eq_true_eq]
  rw [show name.length - 1 - 1 = name.length - 2 from by omega]
  constructor
  · rintro ⟨⟨h1, h2⟩, h3⟩
    exact ⟨by omega, h2, h3⟩
  · rintro ⟨h1, h2, h3⟩
    exact ⟨⟨by omega, h2⟩, h3⟩

theorem string_data_ne_nil (s : String) (h : s ≠ "") : s.data ≠ [] := by
  intro hd
  apply h
  rcases s with ⟨l⟩
  cases hd
  rfl

/-- The lookup of a name whose second character is `W`, after a miss of the
direct probe: the value of the key made of the first two characters, or
-1. -/
theorem lookupBiotype_second_W (nameMap : StringIntMap)
    (tinkerResidueName tinkerAtomName : String)
    (hnul : ∀ c ∈ tinkerAtomName.data, c ≠ NUL) (hfit : tinkerAtomName.length < 4294967296)
    (hW : tinkerAtomName.data.getD 1 NUL = 'W')
    (hmiss : nameMap (tinkerResidueName ++ "_" ++ tinkerAtomName) = none) :
    lookupBiotype nameMap tinkerResidueName tinkerAtomName =
      some ((nameMap (tinkerResidueName ++ "_" ++
        String.mk (tinkerAtomName.data.take 2))).getD (-1)) := by
  have hne : tinkerAtomName ≠ "" := by
    intro h
    rw [h] at hW
    exact absurd (show NUL = 'W' from hW) (by decide)
  rw [lookupBiotype_eq_cascade nameMap _ _ hne hnul hfit hmiss]
  have h1 : (afterTwoDigitRule tinkerAtomName.data).getD 1 NUL = 'W' ∧
      (afterTwoDigitRule tinkerAtomName.data).take 2 = tinkerAtomName.data.take 2 := by
    unfold afterTwoDigitRule
    by_cases h : endsWithTwoDigits tinkerAtomName.data = true
    · rw [if_pos h]
      have h4 := ((endsWithTwoDigits_iff _).mp h).1
      exact ⟨by rw [getD_dropLast _ _ (by omega)]; exact hW, take_two_dropLast _ (by omega)⟩
    · rw [if_neg h]
      exact ⟨hW, rfl⟩
  have hH : ¬ (afterTwoDigitRule tinkerAtomName.data = ['H'] ∧
      tinkerResidueName ≠ "AMOEBA_Water") := by
    rintro ⟨h, _⟩
    rw [h] at h1
    exact absurd (show NUL = 'W' from h1.1) (by decide)
  unfold cascadeAfterMiss
  rw [if_neg hH, if_pos h1.1, h1.2]

/-- The lookup of a name of at least four characters that ends with two
digits and whose second character is not `W`, after a miss of the direct
probe and of the probe without the last character: the value of the key
without the two digits, or -1. -/
theorem lookupBiotype_two_digits_missed (nameMap : StringIntMap)
    (tinkerResidueName tinkerAtomName : String)
    (hnul : ∀ c ∈ tinkerAtomName.data, c ≠ NUL)
    (hlen : 4 ≤ tinkerAtomName.length) (hfit : tinkerAtomName.length < 4294967296)
    (hd1 : (tinkerAtomName.data.getD (tinkerAtomName.length - 1) NUL).isDigit = true)
    (hd2 : (tinkerAtomName.data.getD (tinkerAtomName.length - 2) NUL).isDigit = true)
    (hW : tinkerAtomName.data.getD 1 NUL ≠ 'W')
    (hmiss : nameMap (tinkerResidueName ++ "_" ++ tinkerAtomName) = none)
    (hmiss' : nameMap (tinkerResidueName ++ "_" ++ String.mk tinkerAtomName.data.dropLast)
      = none) :
    lookupBiotype nameMap tinkerResidueName tinkerAtomName =
      some ((nameMap (tinkerResidueName ++ "_" ++
        String.mk tinkerAtomName.data.dropLast.dropLast)).getD (-1)) := by
  have hn : tinkerAtomName.data.length = tinkerAtomName.length := rfl
  have hne : tinkerAtomName ≠ "" := by
    intro h
    rw [h] at hlen
    exact absurd hlen (by decide)
  rw [lookupBiotype_eq_cascade nameMap _ _ hne hnul hfit hmiss]
  have h2 : endsWithTwoDigits tinkerAtomName.data = true :=
    (endsWithTwoDigits_iff _).mpr ⟨by omega, by rw [hn]; exact hd1, by rw [hn]; exact hd2⟩
  have h1 : afterTwoDigitRule tinkerAtomName.data = tinkerAtomName.data.dropLast := by
    unfold afterTwoDigitRule
    rw [if_pos h2]
  have hH : ¬ (tinkerAtomName.data.dropLast = ['H'] ∧ tinkerResidueName ≠ "AMOEBA_Water") := by
    rintro ⟨h, _⟩
    have := congrArg List.length h
    rw [List.length_dropLast] at this
    simp only [List.length_singleton] at this
    omega
  have hW' : ¬ (tinkerAtomName.data.dropLast.getD 1 NUL = 'W') := by
    rw [getD_dropLast _ _ (by omega)]
    exact hW
  have hd : (tinkerAtomName.data.dropLast.getD (tinkerAtomName.data.dropLast.length - 1)
      NUL).isDigit = true := by
    rw [List.length_dropLast, getD_dropLast _ _ (by omega),
      show tinkerAtomName.data.length - 1 - 1 = tinkerAtomName.length - 2 from by omega]
    exact hd2
  unfold cascadeAfterMiss
  rw [h1, if_neg hH, if_neg hW', hmiss']
  simp only
  rw [if_pos hd]

/-- The lookup of a name of two or three characters that ends with two
digits, after a miss of the direct probe: the value of the key without the
last character, or -1. -/
theorem lookupBiotype_short_two_digits (nameMap : StringIntMap)
    (tinkerResidueName tinkerAtomName : String)
    (hnul : ∀ c ∈ tinkerAtomName.data, c ≠ NUL)
    (hlen : 2 ≤ tinkerAtomName.length) (hshort : tinkerAtomName.length < 4)
    (hd1 : (tinkerAtomName.data.getD (tinkerAtomName.length - 1) NUL).isDigit = true)
    (hd2 : (tinkerAtomName.data.getD (tinkerAtomName.length - 2) NUL).isDigit = true)
    (hmiss : nameMap (tinkerResidueName ++ "_" ++ tinkerAtomName) = none) :
    lookupBiotype nameMap tinkerResidueName tinkerAtomName =
      some ((nameMap (tinkerResidueName ++ "_" ++
        String.mk tinkerAtomName.data.dropLast)).getD (-1)) := by
  have hn : tinkerAtomName.data.length = tinkerAtomName.length := rfl
  have hne : tinkerAtomName ≠ "" := by
    intro h
    rw [h] at hlen
    exact absurd hlen (by decide)
  rw [lookupBiotype_eq_cascade nameMap _ _ hne hnul (by omega) hmiss]
  have h2 : ¬ (endsWithTwoDigits tinkerAtomName.data = true) := by
    intro h
    have := ((endsWithTwoDigits_iff _).mp h).1
    omega
  have h1 : afterTwoDigitRule tinkerAtomName.data = tinkerAtomName.data := by
    unfold afterTwoDigitRule
    rw [if_neg h2]
  have hH : ¬ (tinkerAtomName.data = ['H'] ∧ tinkerResidueName ≠ "AMOEBA_Water") := by
    rintro ⟨h, _⟩
    have := congrArg List.length h
    simp only [List.length_singleton] at this
    omega
  have hW : ¬ (tinkerAtomName.data.getD 1 NUL = 'W') := by
    intro h
    have h3 : tinkerAtomName.length = 2 ∨ tinkerAtomName.length = 3 := by omega
    rcases h3 with h3 | h3
    · rw [h3, show 2 - 1 = 1 from rfl, h] at hd1
      exact absurd hd1 (by decide)
    · rw [h3, show 3 - 2 = 1 from rfl, h] at hd2
      exact absurd hd2 (by decide)
  have hm : nameMap (tinkerResidueName ++ "_" ++ String.mk tinkerAtomName.data) = none := hmiss
  unfold cascadeAfterMiss
  rw [h1, if_neg hH, if_neg hW, hm]
  simp only
  rw [hn, if_pos hd1]

theorem biotypeMap_no_W_key (nameMap : StringIntMap)
    (hmap : nameMap = amberBiotypeMap ∨ nameMap = amoebaBiotypeMap)
    (tinkerResidueName : String) (name : List Char) (hW : name.getD 1 NUL = 'W') :
    nameMap (tinkerResidueName ++ "_" ++ String.mk name) = none := by
  cases h : nameMap (tinkerResidueName ++ "_" ++ String.mk name) with
  | none => rfl
  | some v =>
    have hkey := biotypeMap_key_no_W (tinkerResidueName ++ "_" ++ String.mk name) v
      (by
        rcases hmap with hm | hm
        · exact Or.inl (by rw [← hm]; exact h)
        · exact Or.inr (by rw [← hm]; exact h))
    rcases name with _ | ⟨c0, _ | ⟨c1, rest⟩⟩
    · exact absurd (show NUL = 'W' from hW) (by decide)
    · exact absurd (show NUL = 'W' from hW) (by decide)
    · have hc1 : c1 = 'W' := hW
      have hdata : (tinkerResidueName ++ "_" ++ String.mk (c0 :: c1 :: rest)).data
          = tinkerResidueName.data ++ '_' :: c0 :: 'W' :: rest := by
        rw [String.data_append, String.data_append, hc1, List.append_assoc]
        rfl
      rw [hdata, underscoreThenW_append] at hkey
      cases hkey

set_option maxRecDepth 1000000 in
/-- C31, as stated, fails: `Alanine_HB12` and `Alanine_HB1` are not keys of
the dictionary, and yet `( Alanine, HB12 )` is resolved, through the key
`Alanine_HB` in which both digits have been removed. -/
theorem hb12_resolves_through_hb :
    (getBiotypeGivenResidueAtomNames 0 "Alanine" "HB12" {}).map Prod.fst = some 14 ∧
    Statics.biotypeMap 0 {} "Alanine_HB12" = none ∧
    Statics.biotypeMap 0 {} "Alanine_HB1" = none ∧
    Statics.biotypeMap 0 {} "Alanine_HB" = some 14 := by
  refine ⟨?_, ?_, ?_, ?_⟩ <;> decide

/-- C31, amended: for an atom name that ends with two digits, missed by the
direct probe and by the probe without the last character, a name of at least
four characters is resolved through the key in which both digits have been
removed when that key exists, and gives -1 when it does not; a name of two
or three characters gives -1. The dictionary is the one the singleton holds
or builds; the name has no `NUL` and fits `localAtomName`. -/
theorem two_digit_name_second_digit (AmberForceField : Int)
    (tinkerResidueName tinkerAtomName : String) (statics : Statics)
    (hdict : statics.residueAtomNameBiotypeMap = none ∨
      statics.residueAtomNameBiotypeMap = some amberBiotypeMap ∨
      statics.residueAtomNameBiotypeMap = some amoebaBiotypeMap)
    (hnul : ∀ c ∈ tinkerAtomName.data, c ≠ NUL)
    (hlen : 2 ≤ tinkerAtomName.length) (hfit : tinkerAtomName.length < 256)
    (hd1 : (tinkerAtomName.data.getD (tinkerAtomName.length - 1) NUL).isDigit = true)
    (hd2 : (tinkerAtomName.data.getD (tinkerAtomName.length - 2) NUL).isDigit = true)
    (hmiss : statics.biotypeMap AmberForceField
      (tinkerResidueName ++ "_" ++ tinkerAtomName) = none)
    (hmiss' : statics.biotypeMap AmberForceField
      (tinkerResidueName ++ "_" ++ String.mk tinkerAtomName.data.dropLast) = none) :
    (getBiotypeGivenResidueAtomNames AmberForceField tinkerResidueName tinkerAtomName
      statics).map Prod.fst =
      some (if 4 ≤ tinkerAtomName.length then
          (statics.biotypeMap AmberForceField (tinkerResidueName ++ "_" ++
            String.mk tinkerAtomName.data.dropLast.dropLast)).getD (-1)
        else -1) := by
  have hn : tinkerAtomName.data.length = tinkerAtomName.length := rfl
  rw [getBiotypeGivenResidueAtomNames_eq, Option.map_map]
  show (lookupBiotype _ _ _).map id = _
  rw [Option.map_id_fun, id]
  by_cases h4 : 4 ≤ tinkerAtomName.length
  · rw [if_pos h4]
    by_cases hW : tinkerAtomName.data.getD 1 NUL = 'W'
    · have hmap := biotypeMap_cases AmberForceField statics hdict
      rw [lookupBiotype_second_W _ _ _ hnul (by omega) hW hmiss,
        biotypeMap_no_W_key _ hmap tinkerResidueName _
          (by
            rw [List.getD_eq_getElem?_getD, List.getElem?_take_of_lt (by omega),
              ← List.getD_eq_getElem?_getD]
            exact hW),
        biotypeMap_no_W_key _ hmap tinkerResidueName _
          (by
            rw [getD_dropLast _ _ (by rw [List.length_dropLast]; omega),
              getD_dropLast _ _ (by omega)]
            exact hW)]
    · exact lookupBiotype_two_digits_missed _ _ _ hnul h4 (by omega) hd1 hd2 hW hmiss hmiss'
  · rw [if_neg h4, lookupBiotype_short_two_digits _ _ _ hnul hlen (by omega) hd1 hd2 hmiss,
      hmiss']
    rfl

set_option maxRecDepth 1000000 in
/-- Witness of C31 amended: `( Alanine, HB12 )` gives the value of
`Alanine_HB`. -/
theorem two_digit_name_second_digit_witness :
    (getBiotypeGivenResidueAtomNames 0 "Alanine" "HB12" {}).map Prod.fst =
      some (if 4 ≤ "HB12".length then
          (Statics.biotypeMap 0 {} ("Alanine" ++ "_" ++ String.mk "HB12".data.dropLast.dropLast)).getD
            (-1)
        else -1) :=
  two_digit_name_second_digit 0 "Alanine" "HB12" {} (Or.inl rfl) (by decide) (by decide)
    (by decide) (by decide) (by decide) (by decide) (by decide)

/-- C32: when `R_H` is not a key of the dictionary, the lookup of the atom
name `H` in a residue `R` other than `AMOEBA_Water` returns the value of
`R_HN` when that key exists and -1 otherwise; in `AMOEBA_Water` it returns
-1, whether `AMOEBA_Water_HN` is a key or not. -/
theorem single_H_is_looked_up_as_HN (AmberForceField : Int) (tinkerResidueName : String)
    (statics : Statics)
    (hmiss : statics.biotypeMap AmberForceField (tinkerResidueName ++ "_" ++ "H") = none) :
    (tinkerResidueName ≠ "AMOEBA_Water" →
      (getBiotypeGivenResidueAtomNames AmberForceField tinkerResidueName "H" statics).map
        Prod.fst =
        some ((statics.biotypeMap AmberForceField (tinkerResidueName ++ "_" ++ "HN")).getD
          (-1))) ∧
    (tinkerResidueName = "AMOEBA_Water" →
      (getBiotypeGivenResidueAtomNames AmberForceField tinkerResidueName "H" statics).map
        Prod.fst = some (-1)) := by
  rw [getBiotypeGivenResidueAtomNames_eq, Option.map_map]
  show (_ → (lookupBiotype _ _ _).map id = _) ∧ (_ → (lookupBiotype _ _ _).map id = _)
  rw [Option.map_id_fun, id,
    lookupBiotype_eq_cascade _ _ _ (by decide) (by decide) (by decide) hmiss]
  have h1 : afterTwoDigitRule "H".data = ['H'] := by decide
  unfold cascadeAfterMiss
  rw [h1]
  constructor
  · intro hR
    rw [if_pos ⟨rfl, hR⟩]
  · intro hR
    have hm : statics.biotypeMap AmberForceField (tinkerResidueName ++ "_" ++ String.mk ['H'])
        = none := hmiss
    rw [if_neg (fun h => h.2 hR), if_neg (by decide), hm]
    rfl

set_option maxRecDepth 1000000 in
/-- Witness of C32: `( Alanine, H )` gives 10, the value of `Alanine_HN`. -/
theorem single_H_is_looked_up_as_HN_witness :
    (getBiotypeGivenResidueAtomNames 0 "Alanine" "H" {}).map Prod.fst = some 10 :=
  ((single_H_is_looked_up_as_HN 0 "Alanine" {} (by decide)).1 (by decide)).trans (by decide)

set_option maxRecDepth 1000000 in
/-- C33, evaluation: for a name whose second character is `W` the probe that
follows a miss of the direct probe is made with the first two characters of
the name, the assignment being `localAtomName[2] = 0`; so with the Amoeba
dictionary `( AMOEBA_Water, OW )` gives -1 although `AMOEBA_Water_O` is a
key, and with the Amber dictionary `( Alanine, OW )` gives -1 although
`Alanine_O` is a key. -/
theorem second_W_keeps_two_characters :
    (∀ (nameMap : StringIntMap) (tinkerResidueName tinkerAtomName : String),
      (∀ c ∈ tinkerAtomName.data, c ≠ NUL) → tinkerAtomName.length < 256 →
      tinkerAtomName.data.getD 1 NUL = 'W' →
      nameMap (tinkerResidueName ++ "_" ++ tinkerAtomName) = none →
      lookupBiotype nameMap tinkerResidueName tinkerAtomName =
        some ((nameMap (tinkerResidueName ++ "_" ++
          String.mk (tinkerAtomName.data.take 2))).getD (-1))) ∧
    (getBiotypeGivenResidueAtomNames 0 "AMOEBA_Water" "OW"
      { residueAtomNameBiotypeMap := some amoebaBiotypeMap }).map Prod.fst = some (-1) ∧
    (getBiotypeGivenResidueAtomNames 0 "AMOEBA_Water" "O"
      { residueAtomNameBiotypeMap := some amoebaBiotypeMap }).map Prod.fst = some 202 ∧
    (getBiotypeGivenResidueAtomNames 0 "Alanine" "OW" {}).map Prod.fst = some (-1) ∧
    (getBiotypeGivenResidueAtomNames 0 "Alanine" "O" {}).map Prod.fst = some 11 := by
  refine ⟨fun nameMap tinkerResidueName tinkerAtomName hnul hfit hW hmiss =>
    lookupBiotype_second_W nameMap tinkerResidueName tinkerAtomName hnul (by omega) hW hmiss,
    ?_, ?_, ?_, ?_⟩ <;> decide

/-! ## The empty name, and the probe without a trailing digit -/

/-- The lookup of the empty name after a miss of the direct probe:
`lastChar` is `(unsigned int) (0 - 1)` and `localAtomName[lastChar]` is read
far behind the terminator. -/
theorem lookupBiotype_of_empty (nameMap : StringIntMap) (tinkerResidueName : String)
    (hmiss : nameMap (tinkerResidueName ++ "_" ++ "") = none) :
    lookupBiotype nameMap tinkerResidueName "" = none := by
  rw [lookupBiotype_eq, hmiss]
  rfl

theorem getD_value_or_missing (nameMap : StringIntMap) (key : String) :
    (nameMap key).getD (-1) = -1 ∨ ∃ key', nameMap key' = some ((nameMap key).getD (-1)) := by
  cases h : nameMap key with
  | none => exact Or.inl rfl
  | some v => exact Or.inr ⟨key, h⟩

theorem cascadeAfterMiss_value_or_missing (nameMap : StringIntMap)
    (tinkerResidueName : String) (name : List Char) :
    cascadeAfterMiss nameMap tinkerResidueName name = -1 ∨
      ∃ key, nameMap key = some (cascadeAfterMiss nameMap tinkerResidueName name) := by
  unfold cascadeAfterMiss
  by_cases hH : afterTwoDigitRule name = ['H'] ∧ tinkerResidueName ≠ "AMOEBA_Water"
  · rw [if_pos hH]
    exact getD_value_or_missing nameMap _
  · rw [if_neg hH]
    by_cases hW : (afterTwoDigitRule name).getD 1 NUL = 'W'
    · rw [if_pos hW]
      exact getD_value_or_missing nameMap _
    · rw [if_neg hW]
      cases h : nameMap (tinkerResidueName ++ "_" ++ String.mk (afterTwoDigitRule name)) with
      | some v => exact Or.inr ⟨_, h⟩
      | none =>
        simp only
        by_cases hd : ((afterTwoDigitRule name).getD ((afterTwoDigitRule name).length - 1)
            NUL).isDigit = true
        · rw [if_pos hd]
          exact getD_value_or_missing nameMap _
        · rw [if_neg hd]
          exact Or.inl rfl

/-- The lookup of a name that is not empty returns -1 or a value of the
dictionary. -/
theorem lookupBiotype_value_or_missing (nameMap : StringIntMap)
    (tinkerResidueName tinkerAtomName : String) (hne : tinkerAtomName ≠ "")
    (hnul : ∀ c ∈ tinkerAtomName.data, c ≠ NUL) (hfit : tinkerAtomName.length < 4294967296) :
    ∃ biotype, lookupBiotype nameMap tinkerResidueName tinkerAtomName = some biotype ∧
      (biotype = -1 ∨ ∃ key, nameMap key = some biotype) := by
  cases h : nameMap (tinkerResidueName ++ "_" ++ tinkerAtomName) with
  | some v =>
    refine ⟨v, ?_, Or.inr ⟨_, h⟩⟩
    rw [lookupBiotype_eq, h]
  | none =>
    exact ⟨_, lookupBiotype_eq_cascade nameMap _ _ hne hnul hfit h,
      cascadeAfterMiss_value_or_missing nameMap tinkerResidueName _⟩

set_option maxRecDepth 1000000 in
/-- C37, evaluation: the call with the empty atom name reads
`localAtomName[4294967295]`, outside the buffer, whenever `R_` is not a key
(so for `Alanine`); for every other name without `NUL` of fewer than 256
characters every read stays in the bytes written and the call returns -1 or
a value of the dictionary. -/
theorem empty_name_is_read_outside :
    (∀ (nameMap : StringIntMap) (tinkerResidueName : String),
      nameMap (tinkerResidueName ++ "_" ++ "") = none →
      lookupBiotype nameMap tinkerResidueName "" = none) ∧
    getBiotypeGivenResidueAtomNames 0 "Alanine" "" {} = none ∧
    twoDigitRule ("".data ++ [NUL]) (("".length + 4294967296 - 1) % 4294967296) = none ∧
    ("".data ++ [NUL])[("".length + 4294967296 - 1) % 4294967296]? = none ∧
    ∀ (nameMap : StringIntMap) (tinkerResidueName tinkerAtomName : String),
      tinkerAtomName ≠ "" → (∀ c ∈ tinkerAtomName.data, c ≠ NUL) →
      tinkerAtomName.length < 256 →
      ∃ biotype, lookupBiotype nameMap tinkerResidueName tinkerAtomName = some biotype ∧
        (biotype = -1 ∨ ∃ key, nameMap key = some biotype) := by
  refine ⟨lookupBiotype_of_empty, ?_, rfl, rfl, ?_⟩
  · rw [getBiotypeGivenResidueAtomNames_eq, lookupBiotype_of_empty _ _ (by decide)]
    rfl
  · intro nameMap tinkerResidueName tinkerAtomName hne hnul hfit
    exact lookupBiotype_value_or_missing nameMap tinkerResidueName tinkerAtomName hne hnul
      (by omega)

/-- C38: when the direct key and the key of `modifiedAtomName` are both
missing from the dictionary, a modified name that ends with a digit is
looked up once more without that digit, and the value found is returned, -1
when there is none; a modified name that does not end with a digit gives
-1. -/
theorem trailing_digit_probe (AmberForceField : Int)
    (tinkerResidueName tinkerAtomName : String) (statics : Statics) (modifiedName : String)
    (hne : tinkerAtomName ≠ "") (hnul : ∀ c ∈ tinkerAtomName.data, c ≠ NUL)
    (hfit : tinkerAtomName.length < 256)
    (hmodified : modifiedAtomName tinkerResidueName tinkerAtomName = some modifiedName)
    (hmiss : statics.biotypeMap AmberForceField
      (tinkerResidueName ++ "_" ++ tinkerAtomName) = none)
    (hmiss2 : statics.biotypeMap AmberForceField
      (tinkerResidueName ++ "_" ++ modifiedName) = none) :
    (getBiotypeGivenResidueAtomNames AmberForceField tinkerResidueName tinkerAtomName
      statics).map Prod.fst =
      some (if (modifiedName.data.getD (modifiedName.length - 1) NUL).isDigit then
          (statics.biotypeMap AmberForceField (tinkerResidueName ++ "_" ++
            String.mk modifiedName.data.dropLast)).getD (-1)
        else -1) := by
  rw [modifiedAtomName_eq _ _ hne hnul (by omega), Option.some.injEq] at hmodified
  subst hmodified
  rw [getBiotypeGivenResidueAtomNames_eq, Option.map_map]
  show (lookupBiotype _ _ _).map id = _
  rw [Option.map_id_fun, id, lookupBiotype_eq_cascade _ _ _ hne hnul (by omega) hmiss]
  unfold cascadeName at hmiss2 ⊢
  unfold cascadeAfterMiss
  generalize afterTwoDigitRule tinkerAtomName.data = name at hmiss2 ⊢
  by_cases hH : name = ['H'] ∧ tinkerResidueName ≠ "AMOEBA_Water"
  · rw [if_pos hH] at hmiss2 ⊢
    rw [if_pos hH]
    have hm : statics.biotypeMap AmberForceField (tinkerResidueName ++ "_" ++ "HN") = none :=
      hmiss2
    rw [hm]
    rfl
  · rw [if_neg hH] at hmiss2 ⊢
    rw [if_neg hH]
    by_cases hW : name.getD 1 NUL = 'W'
    · rw [if_pos hW] at hmiss2 ⊢
      rw [if_pos hW, hmiss2]
      rcases name with _ | ⟨c0, _ | ⟨c1, rest⟩⟩
      · exact absurd (show NUL = 'W' from hW) (by decide)
      · exact absurd (show NUL = 'W' from hW) (by decide)
      · have hc1 : c1 = 'W' := hW
        subst hc1
        rfl
    · rw [if_neg hW] at hmiss2 ⊢
      rw [if_neg hW, hmiss2]
      rfl

set_option maxRecDepth 1000000 in
/-- Witness of C38: `( Alanine, HB1 )` gives 14, the value of `Alanine_HB`. -/
theorem trailing_digit_probe_witness :
    modifiedAtomName "Alanine" "HB1" = some "HB1" ∧
    (getBiotypeGivenResidueAtomNames 0 "Alanine" "HB1" {}).map Prod.fst = some 14 :=
  ⟨by decide,
    (trailing_digit_probe 0 "Alanine" "HB1" {} "HB1" (by decide) (by decide) (by decide)
      (by decide) (by decide) (by decide)).trans (by decide)⟩

/-! ## The second attempt for a residue name of four characters -/

theorem map_fst_getBiotypeGivenResidueAtomNames (A : Int)
    (tinkerResidueName tinkerAtomName : String) (statics : Statics) :
    (getBiotypeGivenResidueAtomNames A tinkerResidueName tinkerAtomName statics).map Prod.fst =
      lookupBiotype (statics.biotypeMap A) tinkerResidueName tinkerAtomName := by
  rw [getBiotypeGivenResidueAtomNames_eq, Option.map_map]
  show (lookupBiotype _ _ _).map id = _
  rw [Option.map_id_fun, id]

theorem substr_of_length_four (s : String) (h : s.length = 4) :
    substr s 1 4 = String.mk (s.data.drop 1) := by
  unfold substr
  have hl : s.data.length = s.length := rfl
  rw [List.take_of_length_le (by rw [List.length_drop]; omega)]

/-- C34: for every atom of a scan that returns, with the residue name and
the atom name stored for it: when the lookup with the Tinker residue name
returns -1 and the residue name has four characters, the biotype stored is
the result of one more lookup, made with the Tinker residue name of
`residueName.substr( 1, 4 )`, the residue name without its first character;
when the residue name has another
length the biotype stored is -1. In both cases the loop goes on to the next
iteration. The lookups are written for the statics given to the scan, which
hold the same dictionaries as those in force at the atom. -/
theorem retry_without_first_character (DefaultReturn : Int) (NotSet : String)
    (AmberForceField : Int) (numberOfAtoms : Int) (top : t_topology)
    (tinkerAtomNames tinkerResidueNames : List String) (tinkerBiotypes : List Int)
    (statics : Statics) (r : Int × TinkerScan × Statics)
    (h : getTinkerBiotypes DefaultReturn NotSet AmberForceField numberOfAtoms top
      tinkerAtomNames tinkerResidueNames tinkerBiotypes statics = some r)
    (atomI : Nat) (hi : (atomI : Int) < numberOfAtoms) :
    ∃ residueName atomName,
      r.2.1.tinkerResidueNames[atomI]? = some residueName ∧
      r.2.1.tinkerAtomNames[atomI]? = some atomName ∧
      (∃ s, getTinkerBiotypesLoop NotSet AmberForceField numberOfAtoms top tinkerAtomNames
        tinkerResidueNames tinkerBiotypes statics (atomI + 1) = some s) ∧
      ((getBiotypeGivenResidueAtomNames AmberForceField
          (getTinkerBiotypeResidueNameGivenGromacsResidueName NotSet residueName statics).1
          atomName statics).map Prod.fst = some (-1) →
        (residueName.length = 4 →
          substr residueName 1 4 = String.mk (residueName.data.drop 1) ∧
          (getBiotypeGivenResidueAtomNames AmberForceField
            (getTinkerBiotypeResidueNameGivenGromacsResidueName NotSet
              (substr residueName 1 4) statics).1
            atomName statics).map Prod.fst = r.2.1.tinkerBiotypes[atomI]?) ∧
        (residueName.length ≠ 4 → r.2.1.tinkerBiotypes[atomI]? = some (-1))) := by
  obtain ⟨_, hp⟩ := getTinkerBiotypes_eq_some _ _ _ _ _ _ _ _ _ _ h
  obtain ⟨name, before, scan₁, bioType, _, _, hbio, htr, o1, o2, o3⟩ :=
    tinkerScanPure_at _ _ _ _ _ _ _ _ _ hp atomI hi
  obtain ⟨_, s', _, hs', _⟩ := getTinkerBiotypes_output_at _ _ _ _ _ _ _ _ _ _ h atomI hi
  refine ⟨scan₁.residueName, canonicalAtomName scan₁.residueI name, o2, o1, ⟨s', hs'⟩, ?_⟩
  intro hfirst
  rw [map_fst_getBiotypeGivenResidueAtomNames, getTinkerBiotypeResidueName_eq] at hfirst
  rw [map_fst_getBiotypeGivenResidueAtomNames, getTinkerBiotypeResidueName_eq, o3]
  unfold biotypeOfAtom at hbio
  rw [htr, hfirst] at hbio
  simp only [Option.bind_eq_bind, Option.some_bind] at hbio
  constructor
  · intro h4
    rw [if_pos ⟨by decide, h4⟩] at hbio
    exact ⟨substr_of_length_four _ h4, hbio⟩
  · intro h4
    rw [if_neg (fun hc => h4 hc.2)] at hbio
    rw [← Option.some.inj hbio]

/-- Witness of C34: the scan of the atom `CB` of a residue named `NLEU`
returns. -/
theorem retry_without_first_character_witness :
    ∃ r, getTinkerBiotypes 0 "NotSet" 0 1
        { atoms := { atomname := ["CB"], resname := ["NLEU"] } } [] [] [] {} = some r ∧
      ∃ residueName atomName,
        r.2.1.tinkerResidueNames[0]? = some residueName ∧
        r.2.1.tinkerAtomNames[0]? = some atomName ∧
        (∃ s, getTinkerBiotypesLoop "NotSet" 0 1
          { atoms := { atomname := ["CB"], resname := ["NLEU"] } } [] [] [] {} (0 + 1) = some s) ∧
        ((getBiotypeGivenResidueAtomNames 0
            (getTinkerBiotypeResidueNameGivenGromacsResidueName "NotSet" residueName {}).1
            atomName {}).map Prod.fst = some (-1) →
          (residueName.length = 4 →
            substr residueName 1 4 = String.mk (residueName.data.drop 1) ∧
            (getBiotypeGivenResidueAtomNames 0
              (getTinkerBiotypeResidueNameGivenGromacsResidueName "NotSet"
                (substr residueName 1 4) {}).1
              atomName {}).map Prod.fst = r.2.1.tinkerBiotypes[0]?) ∧
          (residueName.length ≠ 4 → r.2.1.tinkerBiotypes[0]? = some (-1))) :=
  (getTinkerBiotypes_returns 0 "NotSet" 0 1
    { atoms := { atomname := ["CB"], resname := ["NLEU"] } } [] [] [] {}
    (by decide) (by decide) (by decide)).elim fun r hr =>
  ⟨r, hr, retry_without_first_character 0 "NotSet" 0 1
    { atoms := { atomname := ["CB"], resname := ["NLEU"] } } [] [] [] {} r hr 0 (by decide)⟩

/-! ## The read of the residue name at a boundary -/

theorem residueBoundaryPure_read_outside (residueMap : StringMap) (NotSet : String)
    (top : t_topology) (scan : TinkerScan) (atomName firstAtomName : String)
    (hf : scan.firstAtomName = some firstAtomName)
    (hl : scan.firstAtomNameL = firstAtomName.length)
    (hc : atomName = firstAtomName ∨ atomName = "OW")
    (hr : readAt top.atoms.resname (scan.residueI + 1) = none) :
    residueBoundaryPure residueMap NotSet top scan atomName = none := by
  unfold residueBoundaryPure
  have hcond : ((atomName.length : Int) = scan.firstAtomNameL ∧ atomName = firstAtomName) ∨
      atomName = "OW" := by
    rcases hc with h | h
    · exact Or.inl ⟨by rw [hl, h], h⟩
    · exact Or.inr h
  simp only [hf, if_pos hcond, hr, Option.bind_eq_bind, Option.none_bind]

theorem readAt_of_ge {α : Type} (array : List α) (i : Int) (h : (array.length : Int) ≤ i) :
    readAt array i = none := by
  unfold readAt
  rw [if_neg (by omega)]
  exact List.getElem?_eq_none (by omega)

/-- A boundary found while the pointer is at the last residue: the residue
name is read at `numberOfResidues`, before the pointer is clamped, and the
loop has no next state. -/
theorem getTinkerBiotypesLoop_read_outside (NotSet : String) (A : Int) (numberOfAtoms : Int)
    (top : t_topology) (tinkerAtomNames tinkerResidueNames : List String)
    (tinkerBiotypes : List Int) (statics : Statics) (k : Nat) (hk : 1 ≤ k)
    (s : TinkerScan × Statics)
    (hs : getTinkerBiotypesLoop NotSet A numberOfAtoms top tinkerAtomNames tinkerResidueNames
      tinkerBiotypes statics k = some s)
    (name0 atomName : String) (h0 : top.atoms.atomname[0]? = some name0)
    (hn : top.atoms.atomname[k]? = some atomName)
    (hc : atomName = name0 ∨ atomName = "OW")
    (hlast : s.1.residueI + 1 = (top.atoms.nres : Int)) :
    readAt top.atoms.resname (s.1.residueI + 1) = none ∧
    getTinkerBiotypesLoop NotSet A numberOfAtoms top tinkerAtomNames tinkerResidueNames
      tinkerBiotypes statics (k + 1) = none := by
  have hr : readAt top.atoms.resname (s.1.residueI + 1) = none :=
    readAt_of_ge _ _ (by rw [hlast]; exact le_refl _)
  refine ⟨hr, ?_⟩
  have hp := getTinkerBiotypesLoop_eq_some _ _ _ _ _ _ _ _ _ _ hs
  obtain ⟨_, h1, _⟩ := foldlM_tinkerStepPure_loopVariables _ _ _ _ _ rfl rfl k s.1 hp
  obtain ⟨name0', g1, g2, g3⟩ := h1 hk
  have hname : name0' = name0 := Option.some.inj (g1.symm.trans h0)
  rw [hname] at g2 g3
  have hstep : tinkerStepPure statics.residueMap (statics.biotypeMap A) NotSet top s.1 k
      = none := by
    unfold tinkerStepPure
    simp only [hn, Option.bind_eq_bind, Option.some_bind,
      residueBoundaryPure_read_outside _ _ _ _ _ _ g2 g3 hc hr, Option.none_bind]
  have hpure := getTinkerBiotypesLoop_pure NotSet A numberOfAtoms top tinkerAtomNames
    tinkerResidueNames tinkerBiotypes statics (k + 1)
  rw [foldlM_range_succ, hp, Option.some_bind, hstep] at hpure
  cases hl : getTinkerBiotypesLoop NotSet A numberOfAtoms top tinkerAtomNames
      tinkerResidueNames tinkerBiotypes statics (k + 1) with
  | none => rfl
  | some s' => rw [hl] at hpure; cases hpure

/-- C36, evaluation: in the scan of the atoms `OW`, `OW` of a topology with
the single residue `SOL`, the iteration of atom 0 leaves the pointer at 0, the
iteration of atom 1 finds a boundary and reads `residueNames[1]`, which is
outside the array of one name, before the pointer is clamped; the scan is
not defined. -/
theorem residue_name_read_before_clamp :
    (∃ s, getTinkerBiotypesLoop "NotSet" 0 2
        { atoms := { atomname := ["OW", "OW"], resname := ["SOL"] } } [] [] [] {} 1 = some s ∧
      s.1.residueI = 0 ∧
      s.1.residueI + 1 =
        (({ atomname := ["OW", "OW"], resname := ["SOL"] } : t_atoms).nres : Int) ∧
      readAt ["SOL"] (s.1.residueI + 1) = none) ∧
    getTinkerBiotypesLoop "NotSet" 0 2
      { atoms := { atomname := ["OW", "OW"], resname := ["SOL"] } } [] [] [] {} 2 = none ∧
    getTinkerBiotypes 0 "NotSet" 0 2
      { atoms := { atomname := ["OW", "OW"], resname := ["SOL"] } } [] [] [] {} = none := by
  obtain ⟨s, hs⟩ := getTinkerBiotypesLoop_isSome "NotSet" 0 2
    { atoms := { atomname := ["OW", "OW"], resname := ["SOL"] } } [] [] [] {} 1
    (by decide) (by decide) (by decide)
  have hp := getTinkerBiotypesLoop_pointer_range "NotSet" 0 2
    { atoms := { atomname := ["OW", "OW"], resname := ["SOL"] } } [] [] [] {} (by decide) 1 s hs
  have h0 : s.1.residueI = 0 := by
    have h1 := hp.1
    have h2 : s.1.residueI ≤ ((1 : Nat) : Int) - 1 := hp.2
    omega
  have hlast : s.1.residueI + 1 =
      (({ atomname := ["OW", "OW"], resname := ["SOL"] } : t_atoms).nres : Int) := by
    rw [h0]
    rfl
  obtain ⟨hr, hnone⟩ := getTinkerBiotypesLoop_read_outside "NotSet" 0 2
    { atoms := { atomname := ["OW", "OW"], resname := ["SOL"] } } [] [] [] {} 1 (by decide) s hs
    "OW" "OW" rfl rfl (Or.inl rfl) hlast
  refine ⟨⟨s, hs, h0, hlast, hr⟩, hnone, ?_⟩
  rw [getTinkerBiotypes_eq_loop]
  show (getTinkerBiotypesLoop "NotSet" 0 2
    { atoms := { atomname := ["OW", "OW"], resname := ["SOL"] } } [] [] [] {} 2).map _ = none
  rw [hnone]
  rfl

/-! ## The mass ranges: endpoints and order of the tests -/

theorem massRanges_values (RealOpenMM : ℚ → ℚ) (horder : keepsBoundOrder RealOpenMM)
    (mass : ℚ) (range : (ℚ → Bool) × Int × ℚ)
    (hmem : range ∈ massRanges RealOpenMM) (hmass : range.1 mass = true) :
    range.2 =
      (elementOfRealOpenMM RealOpenMM mass, scaleFactorOfRealOpenMM RealOpenMM mass) := by
  unfold massRanges at hmem
  simp only [List.mem_cons, List.mem_singleton, List.not_mem_nil, or_false] at hmem
  rcases hmem with h | h | h | h | h | h <;> subst h <;>
    simp only [decide_eq_true_eq] at hmass
  · have := classify_hydrogen RealOpenMM mass ⟨hmass.2, hmass.1⟩
    rw [this.1, this.2]
  · have := classify_carbon RealOpenMM horder mass hmass
    rw [this.1, this.2]
  · have := classify_nitrogen RealOpenMM horder mass hmass
    rw [this.1, this.2]
  · have := classify_oxygen RealOpenMM horder mass hmass
    rw [this.1, this.2]
  · have := classify_sulphur RealOpenMM horder mass hmass
    rw [this.1, this.2]
  · have := classify_phosphorus RealOpenMM horder mass hmass
    rw [this.1, this.2]

theorem classifyByRanges_of_none (RealOpenMM : ℚ → ℚ)
    (ranges : List ((ℚ → Bool) × Int × ℚ)) (mass : ℚ)
    (h : ∀ range ∈ ranges, ¬ (range.1 mass = true)) :
    classifyByRanges RealOpenMM ranges mass = (0, RealOpenMM 0.8) := by
  unfold classifyByRanges
  have hf : ranges.find? (fun range => range.1 mass) = none :=
    List.find?_eq_none.mpr (fun range hr => h range hr)
  rw [hf]

/-- The chain over the six tests in the order of the source gives the values
of the chains of `getAtomicNumbers` and `getObcScaleFactors`. -/
theorem classifyByRanges_massRanges (RealOpenMM : ℚ → ℚ) (mass : ℚ) :
    classifyByRanges RealOpenMM (massRanges RealOpenMM) mass =
      (elementOfRealOpenMM RealOpenMM mass, scaleFactorOfRealOpenMM RealOpenMM mass) := by
  unfold classifyByRanges massRanges elementOfRealOpenMM scaleFactorOfRealOpenMM
  simp only [List.find?_cons, List.find?_nil]
  by_cases h1 : mass < RealOpenMM 1.2 ∧ mass ≥ RealOpenMM 1.0
  · simp only [h1, and_self, decide_True, if_true]
  · by_cases h2 : mass > RealOpenMM 11.8 ∧ mass < RealOpenMM 12.2
    · simp only [h1, h2, and_self, decide_True, decide_False, if_true, if_false]
    · by_cases h3 : mass > RealOpenMM 14.0 ∧ mass < RealOpenMM 15.0
      · simp only [h1, h2, h3, and_self, decide_True, decide_False, if_true, if_false]
      · by_cases h4 : mass > RealOpenMM 15.5 ∧ mass < RealOpenMM 16.5
        · simp only [h1, h2, h3, h4, and_self, decide_True, decide_False, if_true, if_false]
        · by_cases h5 : mass > RealOpenMM 31.5 ∧ mass < RealOpenMM 32.5
          · simp only [h1, h2, h3, h4, h5, and_self, decide_True, decide_False, if_true,
              if_false]
          · by_cases h6 : mass > RealOpenMM 29.5 ∧ mass < RealOpenMM 30.5
            · simp only [h1, h2, h3, h4, h5, h6, and_self, decide_True, decide_False, if_true,
                if_false]
            · simp only [h1, h2, h3, h4, h5, h6, decide_False, if_false]

/-- The chain over the six tests taken in any order gives the same values. -/
theorem classifyByRanges_perm (RealOpenMM : ℚ → ℚ) (horder : keepsBoundOrder RealOpenMM)
    (ranges : List ((ℚ → Bool) × Int × ℚ))
    (hperm : ranges.Perm (massRanges RealOpenMM)) (mass : ℚ) :
    classifyByRanges RealOpenMM ranges mass =
      (elementOfRealOpenMM RealOpenMM mass, scaleFactorOfRealOpenMM RealOpenMM mass) := by
  cases hfind : ranges.find? (fun range => range.1 mass) with
  | some range =>
    have hm : range ∈ massRanges RealOpenMM :=
      hperm.mem_iff.mp (List.mem_of_find?_eq_some hfind)
    have hp := List.find?_some hfind
    unfold classifyByRanges
    rw [hfind]
    exact massRanges_values RealOpenMM horder mass range hm hp
  | none =>
    have hnone : ∀ range ∈ ranges, ¬ (range.1 mass = true) :=
      fun range hr => List.find?_eq_none.mp hfind range hr
    rw [classifyByRanges_of_none RealOpenMM ranges mass hnone, ← classifyByRanges_massRanges,
      classifyByRanges_of_none RealOpenMM (massRanges RealOpenMM) mass
        (fun range hr => hnone range (hperm.mem_iff.mpr hr))]

theorem massRanges_pairwise_disjoint (RealOpenMM : ℚ → ℚ)
    (horder : keepsBoundOrder RealOpenMM) :
    List.Pairwise (fun r1 r2 : (ℚ → Bool) × Int × ℚ =>
      ∀ mass, ¬ (r1.1 mass = true ∧ r2.1 mass = true)) (massRanges RealOpenMM) := by
  obtain ⟨o1, o2, o3, o4, o5, o6, o7, o8, o9, o10, o11⟩ := horder
  unfold massRanges
  simp only [List.pairwise_cons, List.mem_cons, List.mem_singleton, List.not_mem_nil,
    forall_eq_or_imp, forall_eq, decide_eq_true_eq, IsEmpty.forall_iff, implies_true,
    List.Pairwise.nil, and_true, or_false]
  refine ⟨⟨?_, ?_, ?_, ?_, ?_⟩, ⟨?_, ?_, ?_, ?_⟩, ⟨?_, ?_, ?_⟩, ⟨?_, ?_⟩, ?_⟩ <;>
    (intro mass h; linarith [h.1.1, h.1.2, h.2.1, h.2.2])

/-- Twelve numbers in strict order, taken as the bounds of the six tests: a
mass equal to one of the last eleven passes none of the tests. -/
theorem bound_passes_no_test (b0 b1 b2 b3 b4 b5 b6 b7 b8 b9 b10 b11 mass : ℚ)
    (o1 : b0 < b1) (o2 : b1 < b2) (o3 : b2 < b3) (o4 : b3 < b4) (o5 : b4 < b5) (o6 : b5 < b6)
    (o7 : b6 < b7) (o8 : b7 < b8) (o9 : b8 < b9) (o10 : b9 < b10) (o11 : b10 < b11)
    (h : mass = b1 ∨ mass = b2 ∨ mass = b3 ∨ mass = b4 ∨ mass = b5 ∨ mass = b6 ∨ mass = b7 ∨
      mass = b8 ∨ mass = b9 ∨ mass = b10 ∨ mass = b11) :
    ¬ (mass < b1 ∧ mass ≥ b0) ∧ ¬ (mass > b2 ∧ mass < b3) ∧ ¬ (mass > b4 ∧ mass < b5) ∧
      ¬ (mass > b6 ∧ mass < b7) ∧ ¬ (mass > b10 ∧ mass < b11) ∧ ¬ (mass > b8 ∧ mass < b9) := by
  rcases h with h | h | h | h | h | h | h | h | h | h | h <;> subst h <;>
    refine ⟨?_, ?_, ?_, ?_, ?_, ?_⟩ <;> (rintro ⟨a, b⟩; linarith)

/-- A mass whose value as `RealOpenMM` is one of the eleven bounds other than
`(RealOpenMM) 1.0` passes none of the six tests. -/
theorem classify_bound (RealOpenMM : ℚ → ℚ) (horder : keepsBoundOrder RealOpenMM)
    (mass bound : ℚ)
    (hbound : bound ∈ [(1.2 : ℚ), 11.8, 12.2, 14.0, 15.0, 15.5, 16.5, 29.5, 30.5, 31.5, 32.5])
    (hmass : mass = RealOpenMM bound) :
    elementOfRealOpenMM RealOpenMM mass = 0 ∧
      scaleFactorOfRealOpenMM RealOpenMM mass = RealOpenMM 0.8 := by
  obtain ⟨o1, o2, o3, o4, o5, o6, o7, o8, o9, o10, o11⟩ := horder
  apply classify_no_range
  apply bound_passes_no_test (RealOpenMM 1.0) (RealOpenMM 1.2) (RealOpenMM 11.8)
    (RealOpenMM 12.2) (RealOpenMM 14.0) (RealOpenMM 15.0) (RealOpenMM 15.5) (RealOpenMM 16.5)
    (RealOpenMM 29.5) (RealOpenMM 30.5) (RealOpenMM 31.5) (RealOpenMM 32.5) mass
    o1 o2 o3 o4 o5 o6 o7 o8 o9 o10 o11
  simp only [List.mem_cons, List.mem_singleton, List.not_mem_nil, or_false] at hbound
  rcases hbound with h | h | h | h | h | h | h | h | h | h | h <;> subst h <;>
    simp only [hmass, true_or, or_true]

/-- C35, as stated, fails where `RealOpenMM` is double precision and the
topology holds its masses in single precision: the masses held for 11.8 and
for 12.2 are `12373197/1048576` and `12792627/1048576`, which lie strictly
between `(double) 11.8` and `(double) 12.2`; both atoms are classified as
carbon, with the scale factor `(double) 0.72`, not as unknown. -/
theorem stored_11_8_and_12_2_are_carbon :
    singlePrecision 11.8 = 12373197 / 1048576 ∧
    singlePrecision 12.2 = 12792627 / 1048576 ∧
    getAtomicNumbersRealOpenMM doublePrecision 0
      { atoms := { atom := [{ m := singlePrecision 11.8 }, { m := singlePrecision 12.2 }] } }
      [] = (0, [6, 6]) ∧
    getObcScaleFactorsRealOpenMM doublePrecision 0
      { atoms := { atom := [{ m := singlePrecision 11.8 }, { m := singlePrecision 12.2 }] } }
      [] = (0, [doublePrecision 0.72, doublePrecision 0.72]) ∧
    doublePrecision 0.72 ≠ doublePrecision 0.8 := by
  refine ⟨singlePrecision_11_8, singlePrecision_12_2, ?_, ?_,
    by rw [doublePrecision_0_72, doublePrecision_0_8]; norm_num⟩
  · rw [getAtomicNumbersRealOpenMM_eq]
    simp only [List.map_cons, List.map_nil, elementOfRealOpenMM, singlePrecision_11_8,
      singlePrecision_12_2, doublePrecision_of_single_11_8, doublePrecision_of_single_12_2,
      doublePrecision_1_0, doublePrecision_1_2, doublePrecision_11_8, doublePrecision_12_2,
      doublePrecision_14_0, doublePrecision_15_0, doublePrecision_15_5, doublePrecision_16_5,
      doublePrecision_29_5, doublePrecision_30_5, doublePrecision_31_5, doublePrecision_32_5]
    norm_num
  · rw [getObcScaleFactorsRealOpenMM_eq]
    simp only [List.map_cons, List.map_nil, scaleFactorOfRealOpenMM, singlePrecision_11_8,
      singlePrecision_12_2, doublePrecision_of_single_11_8, doublePrecision_of_single_12_2,
      doublePrecision_1_0, doublePrecision_1_2, doublePrecision_11_8, doublePrecision_12_2,
      doublePrecision_14_0, doublePrecision_15_0, doublePrecision_15_5, doublePrecision_16_5,
      doublePrecision_29_5, doublePrecision_30_5, doublePrecision_31_5, doublePrecision_32_5]
    norm_num

/-- C35, amended: for a conversion to `RealOpenMM` that keeps the order of
the twelve bounds, a mass whose value as `RealOpenMM` is `(RealOpenMM) 1.0`
is classified as hydrogen; a mass whose value as `RealOpenMM` is one of the
other eleven converted bounds matches no test and keeps the initial values,
element 0 and scale factor `(RealOpenMM) 0.8`; no mass passes two of the six
tests, and the values left by the chain are the same whatever the order in
which the six tests are taken. -/
theorem range_endpoints_and_order (RealOpenMM : ℚ → ℚ) (DefaultReturn : Int)
    (top : t_topology) (atomicNumber : List Int) (scaleFactors : List ℚ)
    (horder : keepsBoundOrder RealOpenMM) :
    (∀ (atomI : Nat) (a : t_atom), top.atoms.atom[atomI]? = some a →
      RealOpenMM a.m = RealOpenMM 1.0 →
      (getAtomicNumbersRealOpenMM RealOpenMM DefaultReturn top atomicNumber).2[atomI]? =
        some 1 ∧
      (getObcScaleFactorsRealOpenMM RealOpenMM DefaultReturn top scaleFactors).2[atomI]? =
        some (RealOpenMM 0.85)) ∧
    (∀ (atomI : Nat) (a : t_atom) (bound : ℚ), top.atoms.atom[atomI]? = some a →
      bound ∈ [(1.2 : ℚ), 11.8, 12.2, 14.0, 15.0, 15.5, 16.5, 29.5, 30.5, 31.5, 32.5] →
      RealOpenMM a.m = RealOpenMM bound →
      (getAtomicNumbersRealOpenMM RealOpenMM DefaultReturn top atomicNumber).2[atomI]? =
        some 0 ∧
      (getObcScaleFactorsRealOpenMM RealOpenMM DefaultReturn top scaleFactors).2[atomI]? =
        some (RealOpenMM 0.8)) ∧
    List.Pairwise (fun r1 r2 : (ℚ → Bool) × Int × ℚ =>
      ∀ mass, ¬ (r1.1 mass = true ∧ r2.1 mass = true)) (massRanges RealOpenMM) ∧
    (∀ mass, classifyByRanges RealOpenMM (massRanges RealOpenMM) mass =
      (elementOfRealOpenMM RealOpenMM mass, scaleFactorOfRealOpenMM RealOpenMM mass)) ∧
    ∀ ranges : List ((ℚ → Bool) × Int × ℚ), ranges.Perm (massRanges RealOpenMM) →
      ∀ mass, classifyByRanges RealOpenMM ranges mass =
        (elementOfRealOpenMM RealOpenMM mass, scaleFactorOfRealOpenMM RealOpenMM mass) := by
  refine ⟨fun atomI a ha hm => ?_, fun atomI a bound ha hb hm => ?_,
    massRanges_pairwise_disjoint RealOpenMM horder, classifyByRanges_massRanges RealOpenMM,
    classifyByRanges_perm RealOpenMM horder⟩
  · have h := classify_hydrogen RealOpenMM (RealOpenMM a.m)
      ⟨le_of_eq hm.symm, by rw [hm]; exact horder.1⟩
    rw [getAtomicNumbersRealOpenMM_eq, getObcScaleFactorsRealOpenMM_eq, List.getElem?_map,
      List.getElem?_map, ha, Option.map_some', Option.map_some', h.1, h.2]
    exact ⟨rfl, rfl⟩
  · have h := classify_bound RealOpenMM horder (RealOpenMM a.m) bound hb hm
    rw [getAtomicNumbersRealOpenMM_eq, getObcScaleFactorsRealOpenMM_eq, List.getElem?_map,
      List.getElem?_map, ha, Option.map_some', Option.map_some', h.1, h.2]
    exact ⟨rfl, rfl⟩

/-- Witness for C35 amended, in double precision with the masses held in
double precision: the atom holding `(double) 1.0` is hydrogen and the atom
holding `(double) 11.8` is unknown. -/
theorem range_endpoints_and_order_witness :
    keepsBoundOrder doublePrecision ∧
    doublePrecision 11.8 = 3321404725185741 / 281474976710656 ∧
    ((getAtomicNumbersRealOpenMM doublePrecision 0
        { atoms := { atom := [{ m := 1.0 }, { m := doublePrecision 11.8 }] } } []).2[0]?
        = some (1 : Int) ∧
      (getObcScaleFactorsRealOpenMM doublePrecision 0
        { atoms := { atom := [{ m := 1.0 }, { m := doublePrecision 11.8 }] } } []).2[0]?
        = some (doublePrecision 0.85)) ∧
    ((getAtomicNumbersRealOpenMM doublePrecision 0
        { atoms := { atom := [{ m := 1.0 }, { m := doublePrecision 11.8 }] } } []).2[1]?
        = some (0 : Int) ∧
      (getObcScaleFactorsRealOpenMM doublePrecision 0
        { atoms := { atom := [{ m := 1.0 }, { m := doublePrecision 11.8 }] } } []).2[1]?
        = some (doublePrecision 0.8)) :=
  ⟨keepsBoundOrder_doublePrecision, doublePrecision_11_8,
    (range_endpoints_and_order doublePrecision 0
      { atoms := { atom := [{ m := 1.0 }, { m := doublePrecision 11.8 }] } } [] []
      keepsBoundOrder_doublePrecision).1 0 { m := 1.0 } rfl rfl,
    (range_endpoints_and_order doublePrecision 0
      { atoms := { atom := [{ m := 1.0 }, { m := doublePrecision 11.8 }] } } [] []
      keepsBoundOrder_doublePrecision).2.1 1 { m := doublePrecision 11.8 } 11.8 rfl
      (by simp) (by simp only [doublePrecision_11_8, doublePrecision_of_double_11_8])⟩

/-! ## The vectors filled by `getAtomResidueNames` -/

theorem atomResidueBoundary_vectors (top : t_topology) (scan scan' : AtomResidueScan)
    (atomName : String) (h : atomResidueBoundary top scan atomName = some scan') :
    scan'.residueNamesVector = scan.residueNamesVector ∧
    scan'.residueIndicesVector = scan.residueIndicesVector ∧
    scan'.atomNamesVector = scan.atomNamesVector := by
  unfold atomResidueBoundary at h
  cases hf : scan.firstAtomName with
  | none =>
    rw [hf] at h
    simp only [Option.bind_eq_bind] at h
    cases hr : readAt top.atoms.resname scan.residueI with
    | none => rw [hr] at h; cases h
    | some residueName =>
      rw [hr, Option.some_bind, Option.some.injEq] at h
      subst h
      exact ⟨rfl, rfl, rfl⟩
  | some firstAtomName =>
    rw [hf] at h
    simp only [Option.bind_eq_bind] at h
    by_cases hc : atomName = firstAtomName
    · rw [if_pos hc] at h
      cases hr : readAt top.atoms.resname (scan.residueI + 1) with
      | none => rw [hr] at h; cases h
      | some residueName =>
        rw [hr, Option.some_bind, Option.some.injEq] at h
        subst h
        exact ⟨rfl, rfl, rfl⟩
    · rw [if_neg hc, Option.some.injEq] at h
      subst h
      exact ⟨rfl, rfl, rfl⟩

theorem getAtomResidueNamesStep_vectors (top : t_topology) (scan scan' : AtomResidueScan)
    (atomI : Nat) (h : getAtomResidueNamesStep top scan atomI = some scan') :
    ∃ atomName residueName residueIndex, top.atoms.atomname[atomI]? = some atomName ∧
      scan'.atomNamesVector = scan.atomNamesVector ++ [atomName] ∧
      scan'.residueNamesVector = scan.residueNamesVector ++ [residueName] ∧
      scan'.residueIndicesVector = scan.residueIndicesVector ++ [residueIndex] := by
  unfold getAtomResidueNamesStep at h
  simp only [Option.bind_eq_bind] at h
  cases hn : top.atoms.atomname[atomI]? with
  | none => rw [hn] at h; cases h
  | some atomName =>
    rw [hn, Option.some_bind] at h
    cases hb : atomResidueBoundary top scan atomName with
    | none => rw [hb] at h; cases h
    | some scan₁ =>
      rw [hb, Option.some_bind, Option.some.injEq] at h
      obtain ⟨e1, e2, e3⟩ := atomResidueBoundary_vectors top scan scan₁ atomName hb
      subst h
      exact ⟨atomName, scan₁.residueName, scan₁.residueI + 1, rfl,
        by rw [← e3], by rw [← e1], by rw [← e2]⟩

/-- After `k` iterations the loop of `getAtomResidueNames` has appended `k`
entries to each vector, the names of the atoms 0 to `k - 1` to
`atomNamesVector`. -/
theorem foldlM_getAtomResidueNamesStep (top : t_topology) (init : AtomResidueScan) (k : Nat) :
    ∀ scan, (List.range k).foldlM (getAtomResidueNamesStep top) init = some scan →
      k ≤ top.atoms.atomname.length ∧
      scan.atomNamesVector = init.atomNamesVector ++ top.atoms.atomname.take k ∧
      (∃ names, names.length = k ∧
        scan.residueNamesVector = init.residueNamesVector ++ names) ∧
      ∃ indices, indices.length = k ∧
        scan.residueIndicesVector = init.residueIndicesVector ++ indices := by
  induction k with
  | zero =>
    intro scan h
    simp only [List.range_zero, List.foldlM_nil, Option.pure_def, Option.some.injEq] at h
    subst h
    exact ⟨Nat.zero_le _, by simp, ⟨[], rfl, by simp⟩, ⟨[], rfl, by simp⟩⟩
  | succ k ih =>
    intro scan h
    rw [foldlM_range_succ] at h
    cases hk : (List.range k).foldlM (getAtomResidueNamesStep top) init with
    | none => rw [hk] at h; cases h
    | some sk =>
      rw [hk, Option.some_bind] at h
      obtain ⟨hle, ha, ⟨names, hnl, hn⟩, ⟨indices, hil, hi⟩⟩ := ih sk hk
      obtain ⟨atomName, residueName, residueIndex, hname, e1, e2, e3⟩ :=
        getAtomResidueNamesStep_vectors top sk scan k h
      have hlt : k < top.atoms.atomname.length := by
        by_contra hge
        rw [List.getElem?_eq_none (by omega)] at hname
        cases hname
      refine ⟨hlt, ?_, ⟨names ++ [residueName], by simp [hnl], by rw [e2, hn, List.append_assoc]⟩,
        ⟨indices ++ [residueIndex], by simp [hil], by rw [e3, hi, List.append_assoc]⟩⟩
      rw [e1, ha, List.append_assoc, List.take_succ, hname]
      rfl

/-- C39, evaluation: `getAtomResidueNames` resizes the three vectors to
`top->atoms.nr` entries and then appends one entry per atom, so that each
vector returned has twice that number of entries; the entries 0 to
`nr - 1` are those left by `resize`, and the names of the atoms are the
entries `nr` to `2 nr - 1` of `atomNamesVector`. For one atom `N` of the
residue `ALA` the vectors returned are `( "", ALA )`, `( 0, 1 )` and
`( "", N )`. -/
theorem output_vectors_hold_twice_the_atoms :
    getAtomResidueNames 0
      { atoms := { atom := [{ m := 14.007 }], atomname := ["N"], resname := ["ALA"] } } [] [] [] =
      some (0, ["", "ALA"], [0, 1], ["", "N"]) ∧
    ∀ (DefaultReturn : Int) (top : t_topology) (residueNamesVector : List String)
      (residueIndicesVector : List Int) (atomNamesVector : List String)
      (r : Int × List String × List Int × List String),
      getAtomResidueNames DefaultReturn top residueNamesVector residueIndicesVector
        atomNamesVector = some r →
      r.1 = DefaultReturn ∧
      r.2.1.length = 2 * top.atoms.nr ∧ r.2.2.1.length = 2 * top.atoms.nr ∧
      r.2.2.2.length = 2 * top.atoms.nr ∧
      r.2.2.2 = resize atomNamesVector top.atoms.nr "" ++ top.atoms.atomname.take top.atoms.nr ∧
      ∀ i, i < top.atoms.nr →
        r.2.1[i]? = (resize residueNamesVector top.atoms.nr "")[i]? ∧
        r.2.2.1[i]? = (resize residueIndicesVector top.atoms.nr 0)[i]? ∧
        r.2.2.2[i]? = (resize atomNamesVector top.atoms.nr "")[i]? := by
  refine ⟨by rfl, ?_⟩
  intro DefaultReturn top residueNamesVector residueIndicesVector atomNamesVector r h
  unfold getAtomResidueNames at h
  simp only at h
  cases hf : (List.range top.atoms.nr).foldlM (getAtomResidueNamesStep top)
      { residueNamesVector := resize residueNamesVector top.atoms.nr "",
        residueIndicesVector := resize residueIndicesVector top.atoms.nr 0,
        atomNamesVector := resize atomNamesVector top.atoms.nr "" } with
  | none => rw [hf] at h; cases h
  | some scan =>
    rw [hf, Option.map_some', Option.some.injEq] at h
    subst h
    obtain ⟨hle, ha, ⟨names, hnl, hn⟩, ⟨indices, hil, hi⟩⟩ :=
      foldlM_getAtomResidueNamesStep top _ top.atoms.nr scan hf
    simp only at ha hn hi
    refine ⟨rfl, ?_, ?_, ?_, ha, fun i hlt => ⟨?_, ?_, ?_⟩⟩
    · show scan.residueNamesVector.length = _
      rw [hn, List.length_append, length_resize, hnl]
      omega
    · show scan.residueIndicesVector.length = _
      rw [hi, List.length_append, length_resize, hil]
      omega
    · show scan.atomNamesVector.length = _
      rw [ha, List.length_append, length_resize, List.length_take]
      omega
    · show scan.residueNamesVector[i]? = _
      rw [hn, List.getElem?_append_left (by rw [length_resize]; exact hlt)]
    · show scan.residueIndicesVector[i]? = _
      rw [hi, List.getElem?_append_left (by rw [length_resize]; exact hlt)]
    · show scan.atomNamesVector[i]? = _
      rw [ha, List.getElem?_append_left (by rw [length_resize]; exact hlt)]

/-! ## The coordinate loop of `readXyzFile` -/

theorem coordinateLoop_of_three_tokens (atof : String → ℚ) (token2 token3 token4 : String)
    (tokens : List String) :
    coordinateLoop atof (token2 :: token3 :: token4 :: tokens) 0 =
      [(1, 0.1 * atof token2), (3, 0.1 * atof token3)] := by
  simp only [coordinateLoop]
  norm_num

theorem writeComponent_three (row : rvec) (value : ℚ) : writeComponent row 3 value = none := by
  unfold writeComponent
  rw [if_neg (by decide), if_neg (by decide), if_neg (by decide)]

theorem storeCoordinates_of_index_three (atomCoordinates : List rvec) (atomCount : Int)
    (value1 value3 : ℚ) :
    storeCoordinates atomCoordinates atomCount [(1, value1), (3, value3)] = none := by
  unfold storeCoordinates
  cases readAt atomCoordinates atomCount with
  | none => rfl
  | some row =>
    simp only [Option.bind_eq_bind, Option.some_bind, List.foldlM_cons, List.foldlM_nil]
    have h1 : writeComponent row 1 value1 = some (Function.update row 1 value1) := by
      unfold writeComponent
      rw [if_neg (by decide), if_pos rfl]
    rw [h1, Option.some_bind, writeComponent_three, Option.none_bind, Option.none_bind]

/-- C40, evaluation: for a line of at least 5 tokens the coordinate loop
makes two assignments, of 0.1 times token 2 to component 1 and of 0.1 times
token 3 to component 3, which is outside the `rvec`; components 0 and 2 are
not written and token 4 is not read. The call on a file with one atom line
is therefore not defined. -/
theorem coordinate_loop_writes_components_1_and_3 :
    (∀ (atof : String → ℚ) (tokens : List String), 5 ≤ tokens.length →
      ∃ token2 token3, tokens[2]? = some token2 ∧ tokens[3]? = some token3 ∧
        coordinateLoop atof (tokens.drop 2) 0 =
          [(1, 0.1 * atof token2), (3, 0.1 * atof token3)]) ∧
    (∀ (row : rvec) (value : ℚ), writeComponent row 3 value = none) ∧
    (∀ (atof : String → ℚ) (tokens : List String) (atomCoordinates : List rvec)
      (atomCount : Int), 5 ≤ tokens.length →
      storeCoordinates atomCoordinates atomCount (coordinateLoop atof (tokens.drop 2) 0)
        = none) ∧
    readXyzFile 0 (-1)
      (fun buffer _ => if buffer = "1 O 1.0 2.0 3.0" then ["1", "O", "1.0", "2.0", "3.0"] else [])
      (fun token => if token = "1.0" then 1 else if token = "2.0" then 2 else 3)
      1 [fun _ => 0] (some ["1\n", "1 O 1.0 2.0 3.0\n"]) = none := by
  have key : ∀ (atof : String → ℚ) (tokens : List String), 5 ≤ tokens.length →
      ∃ token2 token3, tokens[2]? = some token2 ∧ tokens[3]? = some token3 ∧
        coordinateLoop atof (tokens.drop 2) 0 =
          [(1, 0.1 * atof token2), (3, 0.1 * atof token3)] := by
    intro atof tokens h5
    rcases tokens with _ | ⟨t0, _ | ⟨t1, _ | ⟨t2, _ | ⟨t3, _ | ⟨t4, rest⟩⟩⟩⟩⟩
    · simp at h5
    · simp at h5
    · simp at h5
    · simp at h5
    · simp at h5
    · exact ⟨t2, t3, rfl, rfl, coordinateLoop_of_three_tokens atof t2 t3 t4 rest⟩
  refine ⟨key, writeComponent_three, ?_, by rfl⟩
  intro atof tokens atomCoordinates atomCount h5
  obtain ⟨token2, token3, _, _, hloop⟩ := key atof tokens h5
  rw [hloop]
  exact storeCoordinates_of_index_three atomCoordinates atomCount _ _

end SimTKOpenMMGromacsUtilities
